import Mathlib

set_option maxRecDepth 16000

/-!
# Verification of the frost-ts FROST implementation

A shallow embedding of the TypeScript sources (`point`, `matrix`, `aggregator`,
`participant`) of the `frost-ts` repository, together with proofs and
refutations of the specification claims.

Conventions of the embedding:
* TypeScript `bigint` is modelled by `Int`; the JavaScript remainder operator
  `%` (truncated, sign of the dividend) is `Int.tmod`.
* Node `Buffer`s are modelled by `List Nat` (byte lists).
* Code that can `throw` is modelled in the `Except String` monad, carrying the
  source's message strings.
* `Math.random`-derived values are passed in as explicit parameters.
* Loops are modelled by fuel-based structural recursion; the fuel supplied is
  always sufficient, so the embedded functions agree with the source loops.
-/

namespace Frost

/-- Decidable equality for `Except` results, used to evaluate the embedded
functions on concrete inputs. -/
instance {ε α : Type} [DecidableEq ε] [DecidableEq α] : DecidableEq (Except ε α) := fun x y =>
  match x, y with
  | .ok a, .ok b =>
    if h : a = b then .isTrue (by rw [h]) else .isFalse (fun hh => by cases hh; exact h rfl)
  | .error a, .error b =>
    if h : a = b then .isTrue (by rw [h]) else .isFalse (fun hh => by cases hh; exact h rfl)
  | .ok _, .error _ => .isFalse (fun hh => by cases hh)
  | .error _, .ok _ => .isFalse (fun hh => by cases hh)

/-! ## Constants (src `constants`) -/

/-- The prime modulus of the field. -/
def P : Int := 2 ^ 256 - 2 ^ 32 - 977

/-- The order of the curve. -/
def Q : Int := 115792089237316195423570985008687907852837564279074904382605163141518161494337

/-- X-coordinate of the generator point G. -/
def GX : Int := 55066263022277343669578718895168534326250603453777594175500187360389116729240

/-- Y-coordinate of the generator point G. -/
def GY : Int := 32670510020758816978083085130507043184471273380659243275938904335757337482424

/-! ## Integer helpers -/

/-- The `mod` helper of the `point` module: `((a % b) + b) % b` with JS `%`. -/
def jmod (a b : Int) : Int := (a.tmod b + b).tmod b

/-- Loop body of the shared `pow`/`modPow` square-and-multiply routine
(`participant.ts` `pow`, `Matrix.modPow`, `Point.modPow`). The first argument
is fuel; the supplied fuel always exceeds the bit length of the exponent. -/
def powLoop (m : Int) : Nat → Int → Int → Int → Int
  | 0, _, _, result => result
  | fuel + 1, base, e, result =>
    if 0 < e then
      powLoop m fuel ((base * base).tmod m) (e.ediv 2)
        (if e.tmod 2 = 1 then (result * base).tmod m else result)
    else result

/-- The shared modular-exponentiation routine of the sources. -/
def pow (base exponent modulus : Int) : Int :=
  if modulus = 1 then 0
  else powLoop modulus (exponent.toNat + 1) (base.tmod modulus) exponent 1

/-- Extended-Euclid loop of `Point.modInverse`; returns the final
`(oldR, oldS)`.  Fuel-based; the fuel supplied always suffices. -/
def egcdLoop : Nat → Int → Int → Int → Int → Int × Int
  | 0, oldR, _, oldS, _ => (oldR, oldS)
  | fuel + 1, oldR, r, oldS, s =>
    if r = 0 then (oldR, oldS)
    else egcdLoop fuel r (oldR - oldR.tdiv r * r) s (oldS - oldR.tdiv r * s)

/-- `Point.modInverse`: modular inverse by extended Euclid, failing when the
gcd is not 1. -/
def modInverse (a m : Int) : Except String Int :=
  if 1 < (egcdLoop (m.toNat + 2) (jmod a m) m 1 0).1 then
    .error "Modular inverse does not exist"
  else .ok (jmod (egcdLoop (m.toNat + 2) (jmod a m) m 1 0).2 m)

/-- Big-endian 32-byte encoding (the `secSerialize`/`xonlySerialize` byte loop). -/
def beBytes32 (x : Nat) : List Nat :=
  (List.range 32).map fun i => x / 256 ^ (31 - i) % 256

/-- Big-endian byte-list to natural number (`BigInt('0x...')` on a buffer). -/
def bytesToNat (l : List Nat) : Nat := l.foldl (fun a b => a * 256 + b) 0

/-! ## Points (src `point`) -/

/-- A curve point: the point at infinity (both coordinates `null` in the
source) or an affine pair. -/
inductive Point
  | infinity
  | affine (x y : Int)
deriving DecidableEq, Repr

namespace Point

/-- `Point.isInfinity`. -/
def isInfinity : Point → Bool
  | infinity => true
  | affine _ _ => false

/-- `Point.negate`. -/
def negate : Point → Point
  | infinity => infinity
  | affine x y => affine x (Frost.P - y)

/-- `Point.double`. -/
def double : Point → Except String Point
  | infinity => .ok infinity
  | affine x y =>
    if y = 0 then .ok infinity
    else do
      let inv ← modInverse (2 * y) Frost.P
      let s := jmod (3 * x * x * inv) Frost.P
      let sumX := jmod (s * s - 2 * x) Frost.P
      let sumY := jmod (s * (x - sumX) - y) Frost.P
      .ok (affine sumX sumY)

/-- `Point.add`.  The source first tests structural equality (delegating to
`double`), then handles the infinity cases, then the vertical case, and
otherwise applies the chord formula. -/
def add (p q : Point) : Except String Point :=
  if p = q then p.double
  else
    match p, q with
    | infinity, q => .ok q
    | p, infinity => .ok p
    | affine x1 y1, affine x2 y2 =>
      if x1 = x2 ∧ y1 ≠ y2 then .ok infinity
      else do
        let inv ← modInverse (x2 - x1) Frost.P
        let s := jmod ((y2 - y1) * inv) Frost.P
        let sumX := jmod (s * s - x1 - x2) Frost.P
        let sumY := jmod (s * (x1 - sumX) - y1) Frost.P
        .ok (affine sumX sumY)

/-- `Point.subtract`. -/
def subtract (p q : Point) : Except String Point := p.add q.negate

/-- The double-and-add loop of `Point.multiply`, low bit first.  The source
iterates a cursor `i = 1, 2, 4, ...` while `i ≤ scalar`, adding `p` to the
accumulator whenever the cursor bit is set and doubling `p` each iteration;
this is recursion on the binary representation of the scalar. -/
def mulLoop : Nat → Point → Point → Nat → Except String Point
  | 0, _, r, _ => .ok r
  | fuel + 1, p, r, s =>
    if s = 0 then .ok r
    else do
      let r' ← if s % 2 = 1 then r.add p else pure r
      let p' ← p.double
      mulLoop fuel p' r' (s / 2)

/-- `Point.multiply`: reduce the scalar with `mod(scalar, Q)` and run
double-and-add. -/
def multiply (p : Point) (scalar : Int) : Except String Point :=
  let s := (jmod scalar Frost.Q).toNat
  mulLoop (s + 1) p infinity s

/-- `Point.secSerialize`: 0x02/0x03 prefix by parity of `y`, then big-endian `x`. -/
def secSerialize : Point → Except String (List Nat)
  | infinity => .error "Cannot serialize the point at infinity."
  | affine x y =>
    .ok ((if y.tmod 2 = 0 then 2 else 3) :: beBytes32 x.toNat)

/-- `Point.xonlySerialize`: big-endian `x` alone. -/
def xonlySerialize : Point → Except String (List Nat)
  | infinity => .error "Cannot serialize point at infinity"
  | affine x _ => .ok (beBytes32 x.toNat)

/-- `Point.secDeserialize`, on the byte level.  The only failure is a length
check (the prefix byte is never validated: any byte other than 0x02 selects
the odd root).  The square root is `(x³+7)^((P+1)/4) mod P`, flipped to the
parity requested by the prefix. -/
def secDeserialize (bytes : List Nat) : Except String Point :=
  if bytes.length ≠ 33 then
    .error "Invalid hex input or unable to compute point from x-coordinate."
  else
    let isEven := bytes.headI = 2
    let x : Int := Int.ofNat (bytesToNat bytes.tail)
    let ySquared := (x ^ 3 + 7).tmod Frost.P
    let y := pow ySquared ((Frost.P + 1).ediv 4) Frost.P
    let y' :=
      if y.tmod 2 = 0 then (if isEven then y else (Frost.P - y).tmod Frost.P)
      else (if isEven then (Frost.P - y).tmod Frost.P else y)
    .ok (affine x y')

/-- `Point.xonlyDeserialize`: parse `x`, take the even square root of `x³+7`,
failing (via `modularSquareRoot` returning `null`) when `x³+7` is not a
quadratic residue. -/
def xonlyDeserialize (bytes : List Nat) : Except String Point :=
  if bytes.length ≠ 32 then
    .error "Invalid hex length: expected 64"
  else
    let x : Int := Int.ofNat (bytesToNat bytes)
    let ySquared := (x * x * x + 7).tmod Frost.P
    let r := pow ySquared ((Frost.P + 1).ediv 4) Frost.P
    if (r * r).tmod Frost.P = ySquared then
      .ok (affine x (if r.tmod 2 ≠ 0 then (Frost.P - r).tmod Frost.P else r))
    else
      .error "Invalid hex input or unable to compute point from x-coordinate"

end Point

/-- The generator point `G`. -/
def G : Point := Point.affine GX GY

/-! ## SHA-256 (the Node `crypto` `sha256` hash, modelled bit-exactly) -/

namespace SHA256

/-- Right rotation of a 32-bit word. -/
def rotr (n x : Nat) : Nat := (x >>> n ||| x <<< (32 - n)) % 4294967296

/-- Message-schedule sigma-0. -/
def ssig0 (x : Nat) : Nat := rotr 7 x ^^^ rotr 18 x ^^^ (x >>> 3)

/-- Message-schedule sigma-1. -/
def ssig1 (x : Nat) : Nat := rotr 17 x ^^^ rotr 19 x ^^^ (x >>> 10)

/-- Round function Sigma-0. -/
def bsig0 (x : Nat) : Nat := rotr 2 x ^^^ rotr 13 x ^^^ rotr 22 x

/-- Round function Sigma-1. -/
def bsig1 (x : Nat) : Nat := rotr 6 x ^^^ rotr 11 x ^^^ rotr 25 x

/-- Choice function. -/
def ch (x y z : Nat) : Nat := (x &&& y) ^^^ ((x ^^^ 4294967295) &&& z)

/-- Majority function. -/
def maj (x y z : Nat) : Nat := (x &&& y) ^^^ (x &&& z) ^^^ (y &&& z)

/-- The 64 round constants. -/
def K : List Nat :=
  [1116352408, 1899447441, 3049323471, 3921009573, 961987163, 1508970993, 2453635748, 2870763221,
   3624381080, 310598401, 607225278, 1426881987, 1925078388, 2162078206, 2614888103, 3248222580,
   3835390401, 4022224774, 264347078, 604807628, 770255983, 1249150122, 1555081692, 1996064986,
   2554220882, 2821834349, 2952996808, 3210313671, 3336571891, 3584528711, 113926993, 338241895,
   666307205, 773529912, 1294757372, 1396182291, 1695183700, 1986661051, 2177026350, 2456956037,
   2730485921, 2820302411, 3259730800, 3345764771, 3516065817, 3600352804, 4094571909, 275423344,
   430227734, 506948616, 659060556, 883997877, 958139571, 1322822218, 1537002063, 1747873779,
   1955562222, 2024104815, 2227730452, 2361852424, 2428436474, 2756734187, 3204031479, 3329325298]

/-- Big-endian 8-byte encoding of the bit length. -/
def be8 (x : Nat) : List Nat := (List.range 8).map fun i => x / 256 ^ (7 - i) % 256

/-- SHA-256 padding. -/
def pad (msg : List Nat) : List Nat :=
  msg ++ 128 :: List.replicate ((119 - msg.length % 64) % 64) 0 ++ be8 (8 * msg.length)

/-- Big-endian 4-byte groups to 32-bit words. -/
def toWords : List Nat → List Nat
  | b0 :: b1 :: b2 :: b3 :: rest => (((b0 * 256 + b1) * 256 + b2) * 256 + b3) :: toWords rest
  | _ => []

/-- Message-schedule extension; `acc` holds the words produced so far in
reverse order. -/
def schedule : Nat → List Nat → List Nat
  | 0, acc => acc.reverse
  | n + 1, acc =>
    schedule n
      (((ssig1 (acc.getD 1 0) + acc.getD 6 0 + ssig0 (acc.getD 14 0) + acc.getD 15 0) %
        4294967296) :: acc)

/-- State tuple for compression. -/
structure St where
  a : Nat
  b : Nat
  c : Nat
  d : Nat
  e : Nat
  f : Nat
  g : Nat
  h : Nat

/-- One compression round. -/
def round (st : St) (k w : Nat) : St :=
  let t1 := (st.h + bsig1 st.e + ch st.e st.f st.g + k + w) % 4294967296
  let t2 := (bsig0 st.a + maj st.a st.b st.c) % 4294967296
  ⟨(t1 + t2) % 4294967296, st.a, st.b, st.c, (st.d + t1) % 4294967296, st.e, st.f, st.g⟩

/-- Run the 64 rounds. -/
def rounds : List Nat → List Nat → St → St
  | k :: ks, w :: ws, st => rounds ks ws (round st k w)
  | _, _, st => st

/-- Compress one 64-byte block into the running state. -/
def compress (st : St) (block : List Nat) : St :=
  let ws := schedule 48 (toWords block).reverse
  let r := rounds K ws st
  ⟨(st.a + r.a) % 4294967296, (st.b + r.b) % 4294967296, (st.c + r.c) % 4294967296,
   (st.d + r.d) % 4294967296, (st.e + r.e) % 4294967296, (st.f + r.f) % 4294967296,
   (st.g + r.g) % 4294967296, (st.h + r.h) % 4294967296⟩

/-- Process the padded message block by block (fuel = number of blocks). -/
def blocksLoop : Nat → St → List Nat → St
  | 0, st, _ => st
  | _ + 1, st, [] => st
  | fuel + 1, st, bytes => blocksLoop fuel (compress st (bytes.take 64)) (bytes.drop 64)

/-- 4-byte big-endian of one word. -/
def be4 (x : Nat) : List Nat := [x / 16777216 % 256, x / 65536 % 256, x / 256 % 256, x % 256]

/-- The SHA-256 digest (32 bytes) of a byte list. -/
def digest (msg : List Nat) : List Nat :=
  let padded := pad msg
  let st := blocksLoop (padded.length / 64 + 1)
    ⟨0x6a09e667, 0xbb67ae85, 0x3c6ef372, 0xa54ff53a, 0x510e527f, 0x9b05688c, 0x1f83d9ab, 0x5be0cd19⟩
    padded
  be4 st.a ++ be4 st.b ++ be4 st.c ++ be4 st.d ++ be4 st.e ++ be4 st.f ++ be4 st.g ++ be4 st.h

end SHA256

/-- A SHA-256 digest read as a big-endian integer (`BigInt('0x' + hash)`). -/
def shaInt (msg : List Nat) : Int := Int.ofNat (bytesToNat (SHA256.digest msg))

/-! ## Aggregator (src `aggregator.ts`) -/

namespace Aggregator

/-- The byte-collection loop of `Aggregator.bindingValue`: for each index, in
the caller-provided order, append the compressed serializations of that
participant's two nonce commitments. -/
def nonceCommitmentPairsBytes (pairs : List (Point × Point)) : List Nat → Except String (List Nat)
  | [] => .ok []
  | idx :: rest => do
    if idx < 1 ∨ pairs.length < idx then
      throw "Index is out of range for nonce commitments."
    let pr := pairs.getD (idx - 1) (Point.infinity, Point.infinity)
    let db ← pr.1.secSerialize
    let eb ← pr.2.secSerialize
    let restBytes ← nonceCommitmentPairsBytes pairs rest
    .ok (db ++ eb ++ restBytes)

/-- `Aggregator.bindingValue`.  The only range check on the first argument is
`index < 1`; writing the single index byte (`Buffer.writeUInt8`) fails for
values above 255. -/
def bindingValue (index : Nat) (message : List Nat) (pairs : List (Point × Point))
    (idxs : List Nat) : Except String Int := do
  if index < 1 then throw "Participant index must start from 1."
  if 255 < index then throw "The value of index is out of range."
  let pb ← nonceCommitmentPairsBytes pairs idxs
  .ok ((shaInt (index :: message ++ pb)).tmod Frost.Q)

/-- The accumulation loop of `Aggregator.groupCommitment`. -/
def gcLoop (message : List Nat) (pairs : List (Point × Point)) (idxs : List Nat) :
    List Nat → Point → Except String Point
  | [], acc => .ok acc
  | index :: rest, acc => do
    if index < 1 ∨ pairs.length < index then
      throw "Participant index is out of range."
    let bv ← bindingValue index message pairs idxs
    let pr := pairs.getD (index - 1) (Point.infinity, Point.infinity)
    let sm ← pr.2.multiply bv
    let pc ← pr.1.add sm
    let acc' ← acc.add pc
    gcLoop message pairs idxs rest acc'

/-- `Aggregator.groupCommitment`: `R := Σ (D_i + ρ_i·E_i)`, failing when the
sum is the point at infinity. -/
def groupCommitment (message : List Nat) (pairs : List (Point × Point))
    (idxs : List Nat) : Except String Point := do
  let g ← gcLoop message pairs idxs idxs Point.infinity
  if g.isInfinity then throw "Resulting group commitment is the point at infinity"
  .ok g

/-- ASCII bytes of the BIP-340 challenge tag string. -/
def tagBytes : List Nat := [66, 73, 80, 48, 51, 52, 48, 47, 99, 104, 97, 108, 108, 101, 110, 103, 101]

/-- `Aggregator.challengeHash`: tagged SHA-256 of `x(R) ‖ x(Y) ‖ m`, reduced mod Q. -/
def challengeHash (nonceCommitment publicKey : Point) (message : List Nat) :
    Except String Int := do
  let tag := SHA256.digest tagBytes
  let nb ← nonceCommitment.xonlySerialize
  let pb ← publicKey.xonlySerialize
  .ok ((shaInt (tag ++ tag ++ nb ++ pb ++ message)).tmod Frost.Q)

/-- `Aggregator.ComputeTweaks`. -/
def ComputeTweaks (bip32Tweak taprootTweak : Int) (publicKey : Point) :
    Except String (Point × Int × Nat) := do
  let gm ← Frost.G.multiply bip32Tweak
  let bip32Key ← publicKey.add gm
  match bip32Key with
  | .infinity => throw "Invalid public key."
  | .affine _ by1 => do
    let isOdd := by1.tmod 2 ≠ 0
    let adjustedBip32Key := if isOdd then bip32Key.negate else bip32Key
    let bip32Parity : Nat := if isOdd then 1 else 0
    let adjustedBip32Tweak := if isOdd then -bip32Tweak else bip32Tweak
    let gt ← Frost.G.multiply taprootTweak
    let aggregateKey ← adjustedBip32Key.add gt
    match aggregateKey with
    | .infinity => throw "Invalid public key."
    | .affine _ ay => do
      let aggregateTweak := (adjustedBip32Tweak + taprootTweak).tmod Frost.Q
      let adjustedAggregateTweak :=
        if ay.tmod 2 ≠ 0 then (-aggregateTweak + Frost.Q).tmod Frost.Q else aggregateTweak
      .ok (aggregateKey, adjustedAggregateTweak, bip32Parity)

/-- `Aggregator.tweakKey`. -/
def tweakKey (bip32Tweak taprootTweak : Int) (publicKey : Point) :
    Except String (Point × Nat) := do
  let r ← ComputeTweaks bip32Tweak taprootTweak publicKey
  .ok (r.1, r.2.2)

end Aggregator

/-- Aggregator session state (the class fields). -/
structure AggregatorState where
  publicKey : Point
  message : List Nat
  nonceCommitmentPairs : List (Point × Point)
  participantIndexes : List Nat
  tweakedKey : Option Point
  tweak : Option Int
deriving DecidableEq

namespace AggregatorState

/-- The `Aggregator` constructor.  The two tweaks are either both present or
both absent (an `Option` pair models the validated invariant). -/
def create (pk : Point) (message : List Nat) (pairs : List (Point × Point))
    (idxs : List Nat) (tweaks : Option (Int × Int)) : Except String AggregatorState :=
  match tweaks with
  | none => .ok ⟨pk, message, pairs, idxs, none, none⟩
  | some (b32, tap) => do
    let r ← Aggregator.ComputeTweaks b32 tap pk
    .ok ⟨pk, message, pairs, idxs, some r.1, some r.2.1⟩

/-- Node `Buffer.write` of `z.toString(16)` into a fresh zeroed 32-byte
buffer: a negative bigint renders with a leading minus sign, which is not
valid hex, so nothing is written and the buffer stays all zero. -/
def zWrite (z : Int) : List Nat :=
  if z < 0 then List.replicate 32 0 else beBytes32 z.toNat

/-- `Aggregator.signature`: sum the partial shares mod Q, add `c·τ` when the
session is tweaked, and emit `x_only(R) ‖ z`. -/
def signature (agg : AggregatorState) (signatureShares : List Int) :
    Except String (List Nat) := do
  let g ← Aggregator.groupCommitment agg.message agg.nonceCommitmentPairs agg.participantIndexes
  let z0 := signatureShares.foldl (fun sum share => (sum + share).tmod Frost.Q) 0
  let z1 := if z0 < 0 then (z0 + Frost.Q).tmod Frost.Q else z0
  let z ← match agg.tweak, agg.tweakedKey with
    | some tw, some tk => do
      let c ← Aggregator.challengeHash g tk agg.message
      pure ((z1 + c * tw).tmod Frost.Q)
    | _, _ => pure z1
  let nb ← g.xonlySerialize
  .ok (nb ++ zWrite z)

end AggregatorState

/-! ## Participant (src `participant.ts`) -/

namespace Participant

/-- ASCII bytes of the proof-of-knowledge context string. -/
def contextBytes : List Nat := [70, 82, 79, 83, 84, 45, 66, 73, 80, 51, 52, 48]

/-- `Participant._lagrangeCoefficient`: requires pairwise-distinct indexes,
then computes `Π (x − j) · (Π (i − j))^(Q−2) mod Q` over `j ∈ S, j ≠ i` with
JS truncated remainders. -/
def lagrangeCoefficient (participantIndexes : List Nat) (x participantIndex : Int) :
    Except String Int :=
  if ¬ participantIndexes.Nodup then .error "Participant indexes must be unique."
  else
    let filtered := participantIndexes.filter fun j => (j : Int) ≠ participantIndex
    let numerator := filtered.foldl (fun acc j => acc * (x - (j : Int))) 1
    let denominator := filtered.foldl (fun acc j => acc * (participantIndex - (j : Int))) 1
    .ok ((numerator * pow denominator (Frost.Q - 2) Frost.Q).tmod Frost.Q)

/-- `Participant.computeProofOfKnowledge`, with the random nonce (the
source's `crypto.randomBytes` draw reduced mod Q) passed explicitly. -/
def computeProofOfKnowledge (index : Nat) (coefficients : List Int) (nonce : Int) :
    Except String (Point × Int) := do
  if coefficients.length = 0 then throw "Polynomial coefficients must be initialized."
  let nonceCommitment ← Frost.G.multiply nonce
  if 255 < index then throw "The value of index is out of range."
  let secret := coefficients.getD 0 0
  let secretCommitment ← Frost.G.multiply secret
  let scb ← secretCommitment.secSerialize
  let ncb ← nonceCommitment.secSerialize
  let c := shaInt (index :: contextBytes ++ scb ++ ncb)
  .ok (nonceCommitment, (nonce + secret * c).tmod Frost.Q)

/-- `Participant.verifyProofOfKnowledge`: recompute the challenge and accept
iff `R = G·μ + C·(Q − c)`. -/
def verifyProofOfKnowledge (proof : Point × Int) (secretCommitment : Point) (index : Nat) :
    Except String Bool := do
  if 255 < index then throw "The value of index is out of range."
  let scb ← secretCommitment.secSerialize
  let ncb ← proof.1.secSerialize
  let c := shaInt (index :: contextBytes ++ scb ++ ncb)
  let gs ← Frost.G.multiply proof.2
  let sc ← secretCommitment.multiply (Frost.Q - c)
  let expected ← gs.add sc
  .ok (decide (proof.1 = expected))

/-- `Participant.evaluatePolynomial`: Horner evaluation mod Q from the
highest-degree coefficient down. -/
def evaluatePolynomial (coefficients : List Int) (x : Int) : Except String Int :=
  if coefficients.length = 0 then .error "Polynomial coefficients must be initialized."
  else .ok (coefficients.reverse.foldl (fun y c => (y * x + c).tmod Frost.Q) 0)

/-- The accumulation loop of `derivePublicVerificationShare`:
`Σ_k C_k · (index^k mod Q)`. -/
def dpvsLoop (index : Nat) : List Point → Nat → Point → Except String Point
  | [], _, acc => .ok acc
  | c :: rest, k, acc => do
    let m ← c.multiply (((index : Int) ^ k).tmod Frost.Q)
    let acc' ← acc.add m
    dpvsLoop index rest (k + 1) acc'

/-- `Participant.derivePublicVerificationShare`. -/
def derivePublicVerificationShare (coefficientCommitments : List Point) (index : Nat)
    (threshold : Nat) : Except String Point := do
  if coefficientCommitments.length ≠ threshold then
    throw "The number of coefficient commitments must match the threshold."
  dpvsLoop index coefficientCommitments 0 Point.infinity

/-- `Participant.verifyShare` for a receiver at `selfIndex`. -/
def verifyShare (selfIndex : Nat) (share : Int) (coefficientCommitments : List Point)
    (threshold : Nat) : Except String Bool := do
  let expected ← derivePublicVerificationShare coefficientCommitments selfIndex threshold
  let gs ← Frost.G.multiply share
  .ok (decide (gs = expected))

/-- Stable ascending insertion sort (the `.sort((a, b) => a - b)` call). -/
def insertSorted (a : Nat) : List Nat → List Nat
  | [] => [a]
  | b :: rest => if a ≤ b then a :: b :: rest else b :: insertSorted a rest

/-- Ascending sort of an index list. -/
def sortNat : List Nat → List Nat
  | [] => []
  | a :: rest => insertSorted a (sortNat rest)

/-- `Participant.generateRepairShares`, with the `threshold − 1` random draws
passed explicitly.  Returns `(repairShares, repairShareCommitments,
repairParticipants)`.  Note the Lagrange coefficient is evaluated at `x = 0`
for node `index` (the lost participant) over the passed set. -/
def generateRepairShares (selfIndex : Nat) (aggregateShare : Option Int)
    (repairParticipants : List Nat) (index : Nat) (randomShares : List Int) :
    Except String (List Int × List Point × List Nat) := do
  match aggregateShare with
  | none => throw "Aggregate share has not been initialized."
  | some agg => do
    let lc ← lagrangeCoefficient repairParticipants 0 (Int.ofNat index)
    let finalShare := (lc * agg - randomShares.foldl (· + ·) 0).tmod Frost.Q
    let shares := randomShares ++ [finalShare]
    let comms ← shares.mapM fun s => Frost.G.multiply s
    .ok (shares, comms, sortNat (repairParticipants ++ [selfIndex]))

/-- `Participant.getRepairShare`. -/
def getRepairShare (repairParticipants : Option (List Nat)) (repairShares : Option (List Int))
    (participantIndex : Nat) : Except String Int := do
  match repairParticipants, repairShares with
  | some rps, some rss =>
    if ¬ rps.contains participantIndex then
      throw "Participant index does not match the initial set."
    else
      .ok (rss.getD (rps.indexOf participantIndex) 0)
  | _, _ => throw "Repair shares have not been initialized."

/-- `Participant.aggregateRepairShares`: own routed share plus the received
ones, mod Q. -/
def aggregateRepairShares (threshold selfIndex : Nat) (repairParticipants : Option (List Nat))
    (repairShares : Option (List Int)) (otherShares : List Int) : Except String Int := do
  match repairShares with
  | none => throw "Participant repair shares have not been initialized."
  | some _ => do
    if otherShares.length ≠ threshold - 1 then
      throw "Expected exactly threshold minus one other shares."
    let own ← getRepairShare repairParticipants repairShares selfIndex
    .ok (otherShares.foldl (fun a b => (a + b).tmod Frost.Q) own)

/-- `Participant.repairShare`: requires the own share to be absent, then sums
the aggregate repair shares mod Q. -/
def repairShare (threshold : Nat) (aggregateShare : Option Int)
    (aggregateRepairShareList : List Int) : Except String Int := do
  if aggregateShare ≠ none then throw "Participant share has not been lost"
  if aggregateRepairShareList.length ≠ threshold then
    throw "Expected exactly threshold aggregate repair shares."
  .ok (aggregateRepairShareList.foldl (fun a b => (a + b).tmod Frost.Q) 0)

end Participant

/-- Participant state (the mutable class fields). -/
structure ParticipantState where
  index : Nat
  threshold : Nat
  participants : Nat
  coefficients : Option (List Int) := none
  coefficientCommitments : Option (List Point) := none
  shares : Option (List Int) := none
  aggregateShare : Option Int := none
  noncePair : Option (Int × Int) := none
  publicKey : Option Point := none
  repairShares : Option (List Int) := none
  groupCommitments : Option (List Point) := none
  repairParticipants : Option (List Nat) := none
deriving DecidableEq

namespace ParticipantState

/-- `Participant.increaseThreshold` after the share exchange.  The guard on
the aggregate share is the JS truthiness test `!this.aggregateShare`, which
also fires when the held share is the scalar `0n`. -/
def increaseThreshold (p : ParticipantState) (otherShares : List Int) :
    Except String ParticipantState := do
  match p.shares with
  | none => throw "Participant shares have not been initialized."
  | some shares =>
    match p.aggregateShare with
    | none => throw "Participant aggregate share has not been initialized."
    | some agg =>
      if agg = 0 then throw "Participant aggregate share has not been initialized."
      else
        let aggShare := (shares.getD (p.index - 1) 0 + otherShares.foldl (· + ·) 0).tmod Frost.Q
        .ok { p with aggregateShare := some ((agg + aggShare * (p.index : Int)).tmod Frost.Q) }

end ParticipantState

namespace Participant

/-- `Participant.sign`, with the participant state passed explicitly.  The
public-key guard is the JS truthiness test `!x || !y`, which also fires on a
zero coordinate. -/
def sign (index : Nat) (noncePair : Option (Int × Int)) (publicKey : Option Point)
    (aggregateShare : Option Int) (message : List Nat)
    (nonceCommitmentPairs : List (Point × Point)) (participantIndexes : List Nat)
    (tweaks : Option (Int × Int)) : Except String Int := do
  let np ← match noncePair with
    | none => throw "Nonce pair has not been initialized."
    | some np => pure np
  let pk0 ← match publicKey with
    | none => throw "Public key has not been initialized."
    | some pk => pure pk
  match pk0 with
  | .infinity => throw "Public key is the point at infinity."
  | .affine pkx pky =>
    if pkx = 0 ∨ pky = 0 then throw "Public key is the point at infinity."
    else do
      let s0 ← match aggregateShare with
        | none => throw "Aggregate share has not been initialized."
        | some s => pure s
      let g ← Aggregator.groupCommitment message nonceCommitmentPairs participantIndexes
      let gy ← match g with
        | .infinity => throw "Group commitment is the point at infinity."
        | .affine _ gy => pure gy
      let tk ← match tweaks with
        | some (b32, tap) => Aggregator.tweakKey b32 tap pk0
        | none => pure (pk0, 0)
      let c ← Aggregator.challengeHash g tk.1 message
      let firstNonce := if gy.tmod 2 ≠ 0 then Frost.Q - np.1 else np.1
      let secondNonce := if gy.tmod 2 ≠ 0 then Frost.Q - np.2 else np.2
      let bv ← Aggregator.bindingValue index message nonceCommitmentPairs participantIndexes
      let lc ← lagrangeCoefficient participantIndexes 0 (Int.ofNat index)
      let pky1 ← match tk.1 with
        | .infinity => throw "Public key is the point at infinity."
        | .affine _ y => pure y
      let s1 := if pky1.tmod 2 ≠ Int.ofNat tk.2 then Frost.Q - s0 else s0
      .ok ((firstNonce + secondNonce * bv + lc * s1 * c).tmod Frost.Q)

end Participant

/-! ## Matrix (src `matrix`) -/

/-- Dense bigint matrix. -/
structure Matrix where
  rows : List (List Int)
deriving DecidableEq

namespace Matrix

/-- `Matrix.createVandermonde`: `V[r][c] = indices[r]^c mod Q`. -/
def createVandermonde (indices : List Int) : Matrix :=
  ⟨indices.map fun x => (List.range indices.length).map fun i => (x ^ i).tmod Frost.Q⟩

/-- `Matrix.determinant` by cofactor expansion along the first row (fuel =
matrix size; base cases 1×1 and 2×2), all arithmetic with JS truncated
remainders mod Q. -/
def detFuel : Nat → List (List Int) → Int
  | _, [row] => (row.getD 0 0).tmod Frost.Q
  | _, [r1, r2] => (r1.getD 0 0 * r2.getD 1 0 - r1.getD 1 0 * r2.getD 0 0).tmod Frost.Q
  | fuel + 1, rows =>
    (List.range rows.length).foldl
      (fun det c =>
        (det + ((-1) ^ c * (rows.headI.getD c 0) *
          detFuel fuel (rows.tail.map fun row => row.eraseIdx c)).tmod Frost.Q).tmod Frost.Q)
      0
  | 0, _ => 0

/-- `Matrix.determinant`. -/
def determinant (m : Matrix) : Int := detFuel m.rows.length m.rows

/-- `Matrix.inverseMatrix` via the classical adjugate, the determinant
inverted by Fermat. -/
def inverseMatrix (m : Matrix) : Matrix :=
  let n := m.rows.length
  let det := m.determinant
  let detInv := pow det (Frost.Q - 2) Frost.Q
  ⟨(List.range n).map fun j =>
    (List.range n).map fun i =>
      ((((-1 : Int)) ^ (i + j) *
        detFuel n ((m.rows.eraseIdx i).map fun row => row.eraseIdx j)).tmod Frost.Q *
        detInv).tmod Frost.Q⟩

/-- Cell loop of `multPointMatrix`: `Σ_k M[r][k] · Y[k][j]`. -/
def mpmLoop (Y : List (List Point)) (j : Nat) : List Int → Nat → Point → Except String Point
  | [], _, acc => .ok acc
  | a :: rest, k, acc => do
    let pt := (Y.getD k []).getD j Point.infinity
    let m ← pt.multiply a
    let acc' ← acc.add m
    mpmLoop Y j rest (k + 1) acc'

/-- `Matrix.multPointMatrix`. -/
def multPointMatrix (m : Matrix) (Y : List (List Point)) :
    Except String (List (List Point)) :=
  m.rows.mapM fun aRow =>
    (List.range Y.headI.length).mapM fun j => mpmLoop Y j aRow 0 Point.infinity

end Matrix

namespace Participant

/-- `Participant.deriveCoefficientCommitments`: invert the Vandermonde matrix
of the indexes and apply it to the column of public verification shares. -/
def deriveCoefficientCommitments (publicVerificationShares : List Point)
    (participantIndexes : List Nat) : Except String (List Point) := do
  if publicVerificationShares.length ≠ participantIndexes.length then
    throw "The number of public verification shares must match the number of participant indexes."
  let A := Matrix.createVandermonde (participantIndexes.map fun i => (i : Int))
  let AInv := A.inverseMatrix
  let Y := publicVerificationShares.map fun s => [s]
  let cs ← AInv.multPointMatrix Y
  .ok (cs.map fun c => c.getD 0 Point.infinity)

end Participant

/-! ## Arithmetic lemmas about the embedded helpers -/

/-- The Nat versions of the curve constants, for `ZMod` work. -/
def Pn : ℕ := 115792089237316195423570985008687907853269984665640564039457584007908834671663

/-- The Nat version of the group order. -/
def Qn : ℕ := 115792089237316195423570985008687907852837564279074904382605163141518161494337

theorem P_eq : P = (Pn : Int) := by decide

theorem Q_eq : Q = (Qn : Int) := by decide

theorem Pn_pos : 1 < Pn := by norm_num [Pn]

theorem Qn_pos : 1 < Qn := by norm_num [Qn]

theorem P_pos : (0 : Int) < P := by decide

theorem Q_pos : (0 : Int) < Q := by decide

/-- Truncated remainder is congruent to the dividend. -/
theorem tmod_modEq (a b : Int) : a.tmod b ≡ a [ZMOD b] := by
  have h := Int.tdiv_add_tmod a b
  have : a.tmod b = a - b * a.tdiv b := by linarith
  rw [this]
  simpa using (Int.ModEq.refl a).sub ((Int.modEq_zero_iff_dvd).2 ⟨a.tdiv b, rfl⟩)

/-- Negation moves through truncated remainder. -/
theorem neg_tmod (a b : Int) : (-a).tmod b = -(a.tmod b) := by
  have h1 := Int.tdiv_add_tmod a b
  have h2 := Int.tdiv_add_tmod (-a) b
  have h3 : Int.tdiv (-a) b = -Int.tdiv a b := Int.neg_tdiv a b
  rw [h3] at h2
  linarith

/-- Lower bound for truncated remainder, positive modulus. -/
theorem neg_lt_tmod (a : Int) {b : Int} (hb : 0 < b) : -b < a.tmod b := by
  rcases le_or_lt 0 a with ha | ha
  · have := Int.tmod_nonneg b ha
    linarith
  · have h : a.tmod b = -((-a).tmod b) := by rw [neg_tmod]; ring
    have hlt := Int.tmod_lt_of_pos (-a) hb
    rw [h]
    linarith

/-- Upper bound in absolute value for truncated remainder. -/
theorem tmod_lt_abs (a : Int) {b : Int} (hb : 0 < b) : a.tmod b < b := Int.tmod_lt_of_pos a hb

/-- `jmod` is congruent to the dividend. -/
theorem jmod_modEq (a b : Int) : jmod a b ≡ a [ZMOD b] := by
  unfold jmod
  calc (a.tmod b + b).tmod b
      ≡ a.tmod b + b [ZMOD b] := tmod_modEq _ b
    _ ≡ a + 0 [ZMOD b] := (tmod_modEq a b).add (Int.modEq_zero_iff_dvd.2 dvd_rfl)
    _ = a := by ring

theorem jmod_nonneg (a : Int) {b : Int} (hb : 0 < b) : 0 ≤ jmod a b := by
  unfold jmod
  have h := neg_lt_tmod a hb
  exact Int.tmod_nonneg b (by linarith)

theorem jmod_lt (a : Int) {b : Int} (hb : 0 < b) : jmod a b < b := Int.tmod_lt_of_pos _ hb

/-- On a positive modulus, `jmod` is the Euclidean remainder. -/
theorem jmod_eq_emod (a b : Int) (hb : 0 < b) : jmod a b = a % b := by
  have h1 : jmod a b % b = a % b := jmod_modEq a b
  rw [← h1, Int.emod_eq_of_lt (jmod_nonneg a hb) (jmod_lt a hb)]

/-- The square-and-multiply loop computes `result · base^e` up to congruence. -/
theorem powLoop_modEq (m : Int) :
    ∀ (fuel : Nat) (base e result : Int), e.toNat < 2 ^ fuel →
      powLoop m fuel base e result ≡ result * base ^ e.toNat [ZMOD m] := by
  intro fuel
  induction fuel with
  | zero =>
    intro base e result he
    have : e.toNat = 0 := by omega
    simp [powLoop, this]
  | succ n ih =>
    intro base e result he
    rw [powLoop]
    by_cases hpos : 0 < e
    · simp only [if_pos hpos]
      obtain ⟨en, rfl⟩ : ∃ en : ℕ, e = (en : Int) :=
        ⟨e.toNat, (Int.toNat_of_nonneg hpos.le).symm⟩
      have hdiv : ((en : Int)).ediv 2 = ((en / 2 : ℕ) : Int) := (Int.natCast_ediv en 2).symm
      have hmod : ((en : Int)).tmod 2 = ((en % 2 : ℕ) : Int) := by
        rw [Int.tmod_eq_emod (by positivity) (by norm_num)]
        exact_mod_cast (Int.natCast_mod en 2).symm
      rw [hdiv, hmod]
      have hen : en < 2 ^ (n + 1) := by simpa using he
      have hlt : ((en / 2 : ℕ) : Int).toNat < 2 ^ n := by
        rw [Int.toNat_natCast]
        rw [pow_succ] at hen
        omega
      have hstep := ih ((base * base).tmod m) ((en / 2 : ℕ) : Int)
        (if ((en % 2 : ℕ) : Int) = 1 then (result * base).tmod m else result) hlt
      refine hstep.trans ?_
      rw [Int.toNat_natCast] at hstep ⊢
      rw [Int.toNat_natCast]
      have hbase : ((base * base).tmod m) ^ (en / 2) ≡
          (base * base) ^ (en / 2) [ZMOD m] := (tmod_modEq _ m).pow _
      set k := en / 2 with hk
      by_cases hodd : en % 2 = 1
      · have hc : ((en % 2 : ℕ) : Int) = 1 := by rw [hodd]; norm_num
        simp only [if_pos hc]
        have hsplit : en = 2 * k + 1 := by omega
        calc (result * base).tmod m * ((base * base).tmod m) ^ k
            ≡ result * base * (base * base) ^ k [ZMOD m] :=
              (tmod_modEq _ m).mul hbase
          _ = result * base ^ en := by rw [hsplit]; ring
      · have hc : ¬ ((en % 2 : ℕ) : Int) = 1 := by
          intro h
          exact hodd (by exact_mod_cast h)
        simp only [if_neg hc]
        have hsplit : en = 2 * k := by omega
        calc result * ((base * base).tmod m) ^ k
            ≡ result * (base * base) ^ k [ZMOD m] :=
              (Int.ModEq.refl result).mul hbase
          _ = result * base ^ en := by rw [hsplit]; ring
    · simp only [if_neg hpos]
      have : e.toNat = 0 := by omega
      simp [this]

/-- The shared `pow` routine is congruent to real exponentiation. -/
theorem pow_modEq (base e m : Int) (hm : 1 < m) :
    pow base e m ≡ base ^ e.toNat [ZMOD m] := by
  unfold pow
  rw [if_neg (by omega)]
  calc powLoop m (e.toNat + 1) (base.tmod m) e 1
      ≡ 1 * (base.tmod m) ^ e.toNat [ZMOD m] :=
        powLoop_modEq m (e.toNat + 1) _ e 1
          ((Nat.lt_two_pow e.toNat).trans (Nat.pow_lt_pow_right (by norm_num) (by omega)))
    _ ≡ 1 * base ^ e.toNat [ZMOD m] := ((tmod_modEq base m).pow _).mul_left 1
    _ = base ^ e.toNat := one_mul _

/-! ## Primality of the curve constants, by Lucas certificates

The embedded `pow` routine provides kernel-evaluable modular exponentiation,
which the following helpers transport into `ZMod` to feed
`lucas_primality`. -/

/-- Transport a concrete `pow` evaluation yielding 1 into `ZMod`. -/
theorem zmod_pow_eq_one (p a e : ℕ) (hp : 1 < p)
    (hv : pow (a : Int) (e : Int) (p : Int) = 1) : (a : ZMod p) ^ e = 1 := by
  have hm : (1 : Int) < (p : Int) := by exact_mod_cast hp
  have h := pow_modEq (a : Int) (e : Int) (p : Int) hm
  rw [hv, Int.toNat_natCast] at h
  have h3 : (((a : Int) ^ e : Int) : ZMod p) = ((1 : Int) : ZMod p) :=
    (ZMod.intCast_eq_intCast_iff _ _ _).mpr h.symm
  push_cast at h3
  exact h3

/-- Transport a concrete `pow` evaluation yielding a non-1 residue into `ZMod`. -/
theorem zmod_pow_ne_one (p a e v : ℕ) (hp : 1 < p)
    (hv : pow (a : Int) (e : Int) (p : Int) = (v : Int))
    (hne : ¬ (v : Int) % (p : Int) = 1 % (p : Int)) : (a : ZMod p) ^ e ≠ 1 := by
  intro hcontra
  apply hne
  have hm : (1 : Int) < (p : Int) := by exact_mod_cast hp
  have h := pow_modEq (a : Int) (e : Int) (p : Int) hm
  rw [hv, Int.toNat_natCast] at h
  have h3 : (((a : Int) ^ e : Int) : ZMod p) = ((1 : Int) : ZMod p) := by
    push_cast
    exact_mod_cast hcontra  -- placeholder, fixed below
  exact h.trans ((ZMod.intCast_eq_intCast_iff _ _ _).mp h3)

/-- Lucas primality from an explicit prime factorization of `p − 1`. -/
theorem pratt_step (p a : ℕ) (fs : List ℕ) (hp : 2 ≤ p)
    (hfs : ∀ q ∈ fs, q.Prime)
    (hprod : p - 1 = fs.prod)
    (h1 : (a : ZMod p) ^ (p - 1) = 1)
    (hd : ∀ q ∈ fs, (a : ZMod p) ^ ((p - 1) / q) ≠ 1) :
    p.Prime := by
  apply lucas_primality p (a : ZMod p) h1
  intro q hq hdvd
  rw [hprod] at hdvd
  obtain ⟨x, hx, hqx⟩ := hq.prime.dvd_prod_iff.mp hdvd
  have hqex := (Nat.prime_dvd_prime_iff_eq hq (hfs x hx)).mp hqx
  subst hqex
  exact hd q hx

theorem prime_2 : Nat.Prime 2 := by norm_num

theorem prime_3 : Nat.Prime 3 := by norm_num

theorem prime_5 : Nat.Prime 5 := by norm_num

theorem prime_7 : Nat.Prime 7 := by norm_num

theorem prime_11 : Nat.Prime 11 := by norm_num

theorem prime_17 : Nat.Prime 17 := by norm_num

theorem prime_29 : Nat.Prime 29 := by norm_num

theorem prime_31 : Nat.Prime 31 := by norm_num

theorem prime_41 : Nat.Prime 41 := by norm_num

theorem prime_53 : Nat.Prime 53 := by norm_num

theorem prime_59 : Nat.Prime 59 := by norm_num

theorem prime_109 : Nat.Prime 109 := by norm_num

theorem prime_149 : Nat.Prime 149 := by norm_num

theorem prime_293 : Nat.Prime 293 := by norm_num

theorem prime_461 : Nat.Prime 461 := by norm_num

theorem prime_631 : Nat.Prime 631 := by norm_num

theorem prime_971 : Nat.Prime 971 := by norm_num

theorem prime_1373 : Nat.Prime 1373 := by norm_num

theorem prime_1627 : Nat.Prime 1627 := by norm_num

theorem prime_2621 : Nat.Prime 2621 := by norm_num

theorem prime_2657 : Nat.Prime 2657 := by norm_num

theorem prime_4051 : Nat.Prime 4051 := by norm_num

theorem prime_4423 : Nat.Prime 4423 := by norm_num

theorem prime_5323 : Nat.Prime 5323 := by norm_num

theorem prime_7723 : Nat.Prime 7723 := by norm_num

theorem prime_13441 : Nat.Prime 13441 := by norm_num

theorem prime_16699 : Nat.Prime 16699 := by norm_num

theorem prime_24809 : Nat.Prime 24809 := by norm_num

theorem prime_28181 : Nat.Prime 28181 := by norm_num

theorem prime_41201 : Nat.Prime 41201 := by norm_num

theorem prime_85831 : Nat.Prime 85831 := by norm_num

theorem prime_96557 : Nat.Prime 96557 := by norm_num

theorem prime_120233 : Nat.Prime 120233 := by norm_num

theorem prime_305873 : Nat.Prime 305873 := by norm_num

theorem prime_1206781 : Nat.Prime 1206781 := by norm_num

theorem prime_1627771 : Nat.Prime 1627771 := by norm_num

theorem prime_97 : Nat.Prime 97 := by norm_num

theorem prime_797 : Nat.Prime 797 := by norm_num

theorem prime_2011 : Nat.Prime 2011 := by norm_num

theorem prime_9349 : Nat.Prime 9349 := by norm_num

theorem prime_4681609 : Nat.Prime 4681609 := by
  have hob2 : ((23 : ℕ) : ZMod 4681609) ^ ((4681609 - 1) / 2) ≠ 1 :=
    zmod_pow_ne_one 4681609 23 ((4681609 - 1) / 2) 4681608 (by norm_num) (by decide) (by decide)
  have hob3 : ((23 : ℕ) : ZMod 4681609) ^ ((4681609 - 1) / 3) ≠ 1 :=
    zmod_pow_ne_one 4681609 23 ((4681609 - 1) / 3) 4655375 (by norm_num) (by decide) (by decide)
  have hob97 : ((23 : ℕ) : ZMod 4681609) ^ ((4681609 - 1) / 97) ≠ 1 :=
    zmod_pow_ne_one 4681609 23 ((4681609 - 1) / 97) 2645224 (by norm_num) (by decide) (by decide)
  have hob2011 : ((23 : ℕ) : ZMod 4681609) ^ ((4681609 - 1) / 2011) ≠ 1 :=
    zmod_pow_ne_one 4681609 23 ((4681609 - 1) / 2011) 3128060 (by norm_num) (by decide) (by decide)
  apply pratt_step 4681609 23 [2, 2, 2, 3, 97, 2011] (by norm_num)
  · intro q hq
    fin_cases hq
    · exact prime_2
    · exact prime_2
    · exact prime_2
    · exact prime_3
    · exact prime_97
    · exact prime_2011
  · decide
  · exact zmod_pow_eq_one 4681609 23 (4681609 - 1) (by norm_num) (by decide)
  · intro q hq
    fin_cases hq
    · exact hob2
    · exact hob2
    · exact hob2
    · exact hob3
    · exact hob97
    · exact hob2011

theorem prime_44706919 : Nat.Prime 44706919 := by
  have hob2 : ((6 : ℕ) : ZMod 44706919) ^ ((44706919 - 1) / 2) ≠ 1 :=
    zmod_pow_ne_one 44706919 6 ((44706919 - 1) / 2) 44706918 (by norm_num) (by decide) (by decide)
  have hob3 : ((6 : ℕ) : ZMod 44706919) ^ ((44706919 - 1) / 3) ≠ 1 :=
    zmod_pow_ne_one 44706919 6 ((44706919 - 1) / 3) 30500379 (by norm_num) (by decide) (by decide)
  have hob797 : ((6 : ℕ) : ZMod 44706919) ^ ((44706919 - 1) / 797) ≠ 1 :=
    zmod_pow_ne_one 44706919 6 ((44706919 - 1) / 797) 41156332 (by norm_num) (by decide) (by decide)
  have hob9349 : ((6 : ℕ) : ZMod 44706919) ^ ((44706919 - 1) / 9349) ≠ 1 :=
    zmod_pow_ne_one 44706919 6 ((44706919 - 1) / 9349) 6711465 (by norm_num) (by decide) (by decide)
  apply pratt_step 44706919 6 [2, 3, 797, 9349] (by norm_num)
  · intro q hq
    fin_cases hq
    · exact prime_2
    · exact prime_3
    · exact prime_797
    · exact prime_9349
  · decide
  · exact zmod_pow_eq_one 44706919 6 (44706919 - 1) (by norm_num) (by decide)
  · intro q hq
    fin_cases hq
    · exact hob2
    · exact hob3
    · exact hob797
    · exact hob9349

theorem prime_545358713 : Nat.Prime 545358713 := by
  have hob2 : ((5 : ℕ) : ZMod 545358713) ^ ((545358713 - 1) / 2) ≠ 1 :=
    zmod_pow_ne_one 545358713 5 ((545358713 - 1) / 2) 545358712 (by norm_num) (by decide) (by decide)
  have hob41 : ((5 : ℕ) : ZMod 545358713) ^ ((545358713 - 1) / 41) ≠ 1 :=
    zmod_pow_ne_one 545358713 5 ((545358713 - 1) / 41) 232418614 (by norm_num) (by decide) (by decide)
  have hob59 : ((5 : ℕ) : ZMod 545358713) ^ ((545358713 - 1) / 59) ≠ 1 :=
    zmod_pow_ne_one 545358713 5 ((545358713 - 1) / 59) 256734421 (by norm_num) (by decide) (by decide)
  have hob28181 : ((5 : ℕ) : ZMod 545358713) ^ ((545358713 - 1) / 28181) ≠ 1 :=
    zmod_pow_ne_one 545358713 5 ((545358713 - 1) / 28181) 453985277 (by norm_num) (by decide) (by decide)
  apply pratt_step 545358713 5 [2, 2, 2, 41, 59, 28181] (by norm_num)
  · intro q hq
    fin_cases hq
    · exact prime_2
    · exact prime_2
    · exact prime_2
    · exact prime_41
    · exact prime_59
    · exact prime_28181
  · decide
  · exact zmod_pow_eq_one 545358713 5 (545358713 - 1) (by norm_num) (by decide)
  · intro q hq
    fin_cases hq
    · exact hob2
    · exact hob2
    · exact hob2
    · exact hob41
    · exact hob59
    · exact hob28181

theorem prime_297159362677 : Nat.Prime 297159362677 := by
  have hob2 : ((2 : ℕ) : ZMod 297159362677) ^ ((297159362677 - 1) / 2) ≠ 1 :=
    zmod_pow_ne_one 297159362677 2 ((297159362677 - 1) / 2) 297159362676 (by norm_num) (by decide) (by decide)
  have hob3 : ((2 : ℕ) : ZMod 297159362677) ^ ((297159362677 - 1) / 3) ≠ 1 :=
    zmod_pow_ne_one 297159362677 2 ((297159362677 - 1) / 3) 21378871788 (by norm_num) (by decide) (by decide)
  have hob11 : ((2 : ℕ) : ZMod 297159362677) ^ ((297159362677 - 1) / 11) ≠ 1 :=
    zmod_pow_ne_one 297159362677 2 ((297159362677 - 1) / 11) 235971553533 (by norm_num) (by decide) (by decide)
  have hob461 : ((2 : ℕ) : ZMod 297159362677) ^ ((297159362677 - 1) / 461) ≠ 1 :=
    zmod_pow_ne_one 297159362677 2 ((297159362677 - 1) / 461) 238970074943 (by norm_num) (by decide) (by decide)
  have hob1627771 : ((2 : ℕ) : ZMod 297159362677) ^ ((297159362677 - 1) / 1627771) ≠ 1 :=
    zmod_pow_ne_one 297159362677 2 ((297159362677 - 1) / 1627771) 114170894341 (by norm_num) (by decide) (by decide)
  apply pratt_step 297159362677 2 [2, 2, 3, 3, 11, 461, 1627771] (by norm_num)
  · intro q hq
    fin_cases hq
    · exact prime_2
    · exact prime_2
    · exact prime_3
    · exact prime_3
    · exact prime_11
    · exact prime_461
    · exact prime_1627771
  · decide
  · exact zmod_pow_eq_one 297159362677 2 (297159362677 - 1) (by norm_num) (by decide)
  · intro q hq
    fin_cases hq
    · exact hob2
    · exact hob2
    · exact hob3
    · exact hob3
    · exact hob11
    · exact hob461
    · exact hob1627771

theorem prime_29047611873442575647497758179 : Nat.Prime 29047611873442575647497758179 := by
  have hob2 : ((2 : ℕ) : ZMod 29047611873442575647497758179) ^ ((29047611873442575647497758179 - 1) / 2) ≠ 1 :=
    zmod_pow_ne_one 29047611873442575647497758179 2 ((29047611873442575647497758179 - 1) / 2) 29047611873442575647497758178 (by norm_num) (by decide) (by decide)
  have hob293 : ((2 : ℕ) : ZMod 29047611873442575647497758179) ^ ((29047611873442575647497758179 - 1) / 293) ≠ 1 :=
    zmod_pow_ne_one 29047611873442575647497758179 2 ((29047611873442575647497758179 - 1) / 293) 6256662822391641148461841119 (by norm_num) (by decide) (by decide)
  have hob305873 : ((2 : ℕ) : ZMod 29047611873442575647497758179) ^ ((29047611873442575647497758179 - 1) / 305873) ≠ 1 :=
    zmod_pow_ne_one 29047611873442575647497758179 2 ((29047611873442575647497758179 - 1) / 305873) 15515419077790409984750505041 (by norm_num) (by decide) (by decide)
  have hob545358713 : ((2 : ℕ) : ZMod 29047611873442575647497758179) ^ ((29047611873442575647497758179 - 1) / 545358713) ≠ 1 :=
    zmod_pow_ne_one 29047611873442575647497758179 2 ((29047611873442575647497758179 - 1) / 545358713) 1548700731856248688196814844 (by norm_num) (by decide) (by decide)
  have hob297159362677 : ((2 : ℕ) : ZMod 29047611873442575647497758179) ^ ((29047611873442575647497758179 - 1) / 297159362677) ≠ 1 :=
    zmod_pow_ne_one 29047611873442575647497758179 2 ((29047611873442575647497758179 - 1) / 297159362677) 16062460713643416818883781819 (by norm_num) (by decide) (by decide)
  apply pratt_step 29047611873442575647497758179 2 [2, 293, 305873, 545358713, 297159362677] (by norm_num)
  · intro q hq
    fin_cases hq
    · exact prime_2
    · exact prime_293
    · exact prime_305873
    · exact prime_545358713
    · exact prime_297159362677
  · decide
  · exact zmod_pow_eq_one 29047611873442575647497758179 2 (29047611873442575647497758179 - 1) (by norm_num) (by decide)
  · intro q hq
    fin_cases hq
    · exact hob2
    · exact hob293
    · exact hob305873
    · exact hob545358713
    · exact hob297159362677

theorem prime_341948486974166000522343609283189 : Nat.Prime 341948486974166000522343609283189 := by
  have hob2 : ((2 : ℕ) : ZMod 341948486974166000522343609283189) ^ ((341948486974166000522343609283189 - 1) / 2) ≠ 1 :=
    zmod_pow_ne_one 341948486974166000522343609283189 2 ((341948486974166000522343609283189 - 1) / 2) 341948486974166000522343609283188 (by norm_num) (by decide) (by decide)
  have hob3 : ((2 : ℕ) : ZMod 341948486974166000522343609283189) ^ ((341948486974166000522343609283189 - 1) / 3) ≠ 1 :=
    zmod_pow_ne_one 341948486974166000522343609283189 2 ((341948486974166000522343609283189 - 1) / 3) 165002932037550746596172898062794 (by norm_num) (by decide) (by decide)
  have hob109 : ((2 : ℕ) : ZMod 341948486974166000522343609283189) ^ ((341948486974166000522343609283189 - 1) / 109) ≠ 1 :=
    zmod_pow_ne_one 341948486974166000522343609283189 2 ((341948486974166000522343609283189 - 1) / 109) 153618737808983370202320649387857 (by norm_num) (by decide) (by decide)
  have hob29047611873442575647497758179 : ((2 : ℕ) : ZMod 341948486974166000522343609283189) ^ ((341948486974166000522343609283189 - 1) / 29047611873442575647497758179) ≠ 1 :=
    zmod_pow_ne_one 341948486974166000522343609283189 2 ((341948486974166000522343609283189 - 1) / 29047611873442575647497758179) 291782875431971620014836968593543 (by norm_num) (by decide) (by decide)
  apply pratt_step 341948486974166000522343609283189 2 [2, 2, 3, 3, 3, 109, 29047611873442575647497758179] (by norm_num)
  · intro q hq
    fin_cases hq
    · exact prime_2
    · exact prime_2
    · exact prime_3
    · exact prime_3
    · exact prime_3
    · exact prime_109
    · exact prime_29047611873442575647497758179
  · decide
  · exact zmod_pow_eq_one 341948486974166000522343609283189 2 (341948486974166000522343609283189 - 1) (by norm_num) (by decide)
  · intro q hq
    fin_cases hq
    · exact hob2
    · exact hob2
    · exact hob3
    · exact hob3
    · exact hob3
    · exact hob109
    · exact hob29047611873442575647497758179

theorem prime_107361793816595537 : Nat.Prime 107361793816595537 := by
  have hob2 : ((3 : ℕ) : ZMod 107361793816595537) ^ ((107361793816595537 - 1) / 2) ≠ 1 :=
    zmod_pow_ne_one 107361793816595537 3 ((107361793816595537 - 1) / 2) 107361793816595536 (by norm_num) (by decide) (by decide)
  have hob16699 : ((3 : ℕ) : ZMod 107361793816595537) ^ ((107361793816595537 - 1) / 16699) ≠ 1 :=
    zmod_pow_ne_one 107361793816595537 3 ((107361793816595537 - 1) / 16699) 5951470030516601 (by norm_num) (by decide) (by decide)
  have hob85831 : ((3 : ℕ) : ZMod 107361793816595537) ^ ((107361793816595537 - 1) / 85831) ≠ 1 :=
    zmod_pow_ne_one 107361793816595537 3 ((107361793816595537 - 1) / 85831) 43062364984479349 (by norm_num) (by decide) (by decide)
  have hob4681609 : ((3 : ℕ) : ZMod 107361793816595537) ^ ((107361793816595537 - 1) / 4681609) ≠ 1 :=
    zmod_pow_ne_one 107361793816595537 3 ((107361793816595537 - 1) / 4681609) 38869239624772579 (by norm_num) (by decide) (by decide)
  apply pratt_step 107361793816595537 3 [2, 2, 2, 2, 16699, 85831, 4681609] (by norm_num)
  · intro q hq
    fin_cases hq
    · exact prime_2
    · exact prime_2
    · exact prime_2
    · exact prime_2
    · exact prime_16699
    · exact prime_85831
    · exact prime_4681609
  · decide
  · exact zmod_pow_eq_one 107361793816595537 3 (107361793816595537 - 1) (by norm_num) (by decide)
  · intro q hq
    fin_cases hq
    · exact hob2
    · exact hob2
    · exact hob2
    · exact hob2
    · exact hob16699
    · exact hob85831
    · exact hob4681609

theorem prime_174723607534414371449 : Nat.Prime 174723607534414371449 := by
  have hob2 : ((3 : ℕ) : ZMod 174723607534414371449) ^ ((174723607534414371449 - 1) / 2) ≠ 1 :=
    zmod_pow_ne_one 174723607534414371449 3 ((174723607534414371449 - 1) / 2) 174723607534414371448 (by norm_num) (by decide) (by decide)
  have hob17 : ((3 : ℕ) : ZMod 174723607534414371449) ^ ((174723607534414371449 - 1) / 17) ≠ 1 :=
    zmod_pow_ne_one 174723607534414371449 3 ((174723607534414371449 - 1) / 17) 143977312736193201955 (by norm_num) (by decide) (by decide)
  have hob59 : ((3 : ℕ) : ZMod 174723607534414371449) ^ ((174723607534414371449 - 1) / 59) ≠ 1 :=
    zmod_pow_ne_one 174723607534414371449 3 ((174723607534414371449 - 1) / 59) 101275312590739994117 (by norm_num) (by decide) (by decide)
  have hob4051 : ((3 : ℕ) : ZMod 174723607534414371449) ^ ((174723607534414371449 - 1) / 4051) ≠ 1 :=
    zmod_pow_ne_one 174723607534414371449 3 ((174723607534414371449 - 1) / 4051) 117775491988442121468 (by norm_num) (by decide) (by decide)
  have hob120233 : ((3 : ℕ) : ZMod 174723607534414371449) ^ ((174723607534414371449 - 1) / 120233) ≠ 1 :=
    zmod_pow_ne_one 174723607534414371449 3 ((174723607534414371449 - 1) / 120233) 143725591556162883674 (by norm_num) (by decide) (by decide)
  have hob44706919 : ((3 : ℕ) : ZMod 174723607534414371449) ^ ((174723607534414371449 - 1) / 44706919) ≠ 1 :=
    zmod_pow_ne_one 174723607534414371449 3 ((174723607534414371449 - 1) / 44706919) 72059039805266995621 (by norm_num) (by decide) (by decide)
  apply pratt_step 174723607534414371449 3 [2, 2, 2, 17, 59, 4051, 120233, 44706919] (by norm_num)
  · intro q hq
    fin_cases hq
    · exact prime_2
    · exact prime_2
    · exact prime_2
    · exact prime_17
    · exact prime_59
    · exact prime_4051
    · exact prime_120233
    · exact prime_44706919
  · decide
  · exact zmod_pow_eq_one 174723607534414371449 3 (174723607534414371449 - 1) (by norm_num) (by decide)
  · intro q hq
    fin_cases hq
    · exact hob2
    · exact hob2
    · exact hob2
    · exact hob17
    · exact hob59
    · exact hob4051
    · exact hob120233
    · exact hob44706919

theorem prime_secp_Q : Nat.Prime 115792089237316195423570985008687907852837564279074904382605163141518161494337 := by
  have hob2 : ((7 : ℕ) : ZMod 115792089237316195423570985008687907852837564279074904382605163141518161494337) ^ ((115792089237316195423570985008687907852837564279074904382605163141518161494337 - 1) / 2) ≠ 1 :=
    zmod_pow_ne_one 115792089237316195423570985008687907852837564279074904382605163141518161494337 7 ((115792089237316195423570985008687907852837564279074904382605163141518161494337 - 1) / 2) 115792089237316195423570985008687907852837564279074904382605163141518161494336 (by norm_num) (by decide) (by decide)
  have hob3 : ((7 : ℕ) : ZMod 115792089237316195423570985008687907852837564279074904382605163141518161494337) ^ ((115792089237316195423570985008687907852837564279074904382605163141518161494337 - 1) / 3) ≠ 1 :=
    zmod_pow_ne_one 115792089237316195423570985008687907852837564279074904382605163141518161494337 7 ((115792089237316195423570985008687907852837564279074904382605163141518161494337 - 1) / 3) 78074008874160198520644763525212887401909906723592317393988542598630163514318 (by norm_num) (by decide) (by decide)
  have hob149 : ((7 : ℕ) : ZMod 115792089237316195423570985008687907852837564279074904382605163141518161494337) ^ ((115792089237316195423570985008687907852837564279074904382605163141518161494337 - 1) / 149) ≠ 1 :=
    zmod_pow_ne_one 115792089237316195423570985008687907852837564279074904382605163141518161494337 7 ((115792089237316195423570985008687907852837564279074904382605163141518161494337 - 1) / 149) 64883128911135277911836602334573374963230868236696644030005288079353585574111 (by norm_num) (by decide) (by decide)
  have hob631 : ((7 : ℕ) : ZMod 115792089237316195423570985008687907852837564279074904382605163141518161494337) ^ ((115792089237316195423570985008687907852837564279074904382605163141518161494337 - 1) / 631) ≠ 1 :=
    zmod_pow_ne_one 115792089237316195423570985008687907852837564279074904382605163141518161494337 7 ((115792089237316195423570985008687907852837564279074904382605163141518161494337 - 1) / 631) 6252150074946714737332729428705675642972902278047830378127425501959375813903 (by norm_num) (by decide) (by decide)
  have hob107361793816595537 : ((7 : ℕ) : ZMod 115792089237316195423570985008687907852837564279074904382605163141518161494337) ^ ((115792089237316195423570985008687907852837564279074904382605163141518161494337 - 1) / 107361793816595537) ≠ 1 :=
    zmod_pow_ne_one 115792089237316195423570985008687907852837564279074904382605163141518161494337 7 ((115792089237316195423570985008687907852837564279074904382605163141518161494337 - 1) / 107361793816595537) 26709443456820378470009624069039436105476083851490662296256974102742433182582 (by norm_num) (by decide) (by decide)
  have hob174723607534414371449 : ((7 : ℕ) : ZMod 115792089237316195423570985008687907852837564279074904382605163141518161494337) ^ ((115792089237316195423570985008687907852837564279074904382605163141518161494337 - 1) / 174723607534414371449) ≠ 1 :=
    zmod_pow_ne_one 115792089237316195423570985008687907852837564279074904382605163141518161494337 7 ((115792089237316195423570985008687907852837564279074904382605163141518161494337 - 1) / 174723607534414371449) 38287106903381487806596844795024845528187487515989485561747806759347824233212 (by norm_num) (by decide) (by decide)
  have hob341948486974166000522343609283189 : ((7 : ℕ) : ZMod 115792089237316195423570985008687907852837564279074904382605163141518161494337) ^ ((115792089237316195423570985008687907852837564279074904382605163141518161494337 - 1) / 341948486974166000522343609283189) ≠ 1 :=
    zmod_pow_ne_one 115792089237316195423570985008687907852837564279074904382605163141518161494337 7 ((115792089237316195423570985008687907852837564279074904382605163141518161494337 - 1) / 341948486974166000522343609283189) 40330847986065730117990277892798860778585692388550324850907595869688089295689 (by norm_num) (by decide) (by decide)
  apply pratt_step 115792089237316195423570985008687907852837564279074904382605163141518161494337 7 [2, 2, 2, 2, 2, 2, 3, 149, 631, 107361793816595537, 174723607534414371449, 341948486974166000522343609283189] (by norm_num)
  · intro q hq
    fin_cases hq
    · exact prime_2
    · exact prime_2
    · exact prime_2
    · exact prime_2
    · exact prime_2
    · exact prime_2
    · exact prime_3
    · exact prime_149
    · exact prime_631
    · exact prime_107361793816595537
    · exact prime_174723607534414371449
    · exact prime_341948486974166000522343609283189
  · decide
  · exact zmod_pow_eq_one 115792089237316195423570985008687907852837564279074904382605163141518161494337 7 (115792089237316195423570985008687907852837564279074904382605163141518161494337 - 1) (by norm_num) (by decide)
  · intro q hq
    fin_cases hq
    · exact hob2
    · exact hob2
    · exact hob2
    · exact hob2
    · exact hob2
    · exact hob2
    · exact hob3
    · exact hob149
    · exact hob631
    · exact hob107361793816595537
    · exact hob174723607534414371449
    · exact hob341948486974166000522343609283189

theorem prime_13331831 : Nat.Prime 13331831 := by
  have hob2 : ((13 : ℕ) : ZMod 13331831) ^ ((13331831 - 1) / 2) ≠ 1 :=
    zmod_pow_ne_one 13331831 13 ((13331831 - 1) / 2) 13331830 (by norm_num) (by decide) (by decide)
  have hob5 : ((13 : ℕ) : ZMod 13331831) ^ ((13331831 - 1) / 5) ≠ 1 :=
    zmod_pow_ne_one 13331831 13 ((13331831 - 1) / 5) 1325729 (by norm_num) (by decide) (by decide)
  have hob971 : ((13 : ℕ) : ZMod 13331831) ^ ((13331831 - 1) / 971) ≠ 1 :=
    zmod_pow_ne_one 13331831 13 ((13331831 - 1) / 971) 54862 (by norm_num) (by decide) (by decide)
  have hob1373 : ((13 : ℕ) : ZMod 13331831) ^ ((13331831 - 1) / 1373) ≠ 1 :=
    zmod_pow_ne_one 13331831 13 ((13331831 - 1) / 1373) 1273336 (by norm_num) (by decide) (by decide)
  apply pratt_step 13331831 13 [2, 5, 971, 1373] (by norm_num)
  · intro q hq
    fin_cases hq
    · exact prime_2
    · exact prime_5
    · exact prime_971
    · exact prime_1373
  · decide
  · exact zmod_pow_eq_one 13331831 13 (13331831 - 1) (by norm_num) (by decide)
  · intro q hq
    fin_cases hq
    · exact hob2
    · exact hob5
    · exact hob971
    · exact hob1373

theorem prime_173378833005251801 : Nat.Prime 173378833005251801 := by
  have hob2 : ((6 : ℕ) : ZMod 173378833005251801) ^ ((173378833005251801 - 1) / 2) ≠ 1 :=
    zmod_pow_ne_one 173378833005251801 6 ((173378833005251801 - 1) / 2) 173378833005251800 (by norm_num) (by decide) (by decide)
  have hob5 : ((6 : ℕ) : ZMod 173378833005251801) ^ ((173378833005251801 - 1) / 5) ≠ 1 :=
    zmod_pow_ne_one 173378833005251801 6 ((173378833005251801 - 1) / 5) 152071994513768143 (by norm_num) (by decide) (by decide)
  have hob2621 : ((6 : ℕ) : ZMod 173378833005251801) ^ ((173378833005251801 - 1) / 2621) ≠ 1 :=
    zmod_pow_ne_one 173378833005251801 6 ((173378833005251801 - 1) / 2621) 25743935490785551 (by norm_num) (by decide) (by decide)
  have hob24809 : ((6 : ℕ) : ZMod 173378833005251801) ^ ((173378833005251801 - 1) / 24809) ≠ 1 :=
    zmod_pow_ne_one 173378833005251801 6 ((173378833005251801 - 1) / 24809) 5978649957832462 (by norm_num) (by decide) (by decide)
  have hob13331831 : ((6 : ℕ) : ZMod 173378833005251801) ^ ((173378833005251801 - 1) / 13331831) ≠ 1 :=
    zmod_pow_ne_one 173378833005251801 6 ((173378833005251801 - 1) / 13331831) 17954474104786666 (by norm_num) (by decide) (by decide)
  apply pratt_step 173378833005251801 6 [2, 2, 2, 5, 5, 2621, 24809, 13331831] (by norm_num)
  · intro q hq
    fin_cases hq
    · exact prime_2
    · exact prime_2
    · exact prime_2
    · exact prime_5
    · exact prime_5
    · exact prime_2621
    · exact prime_24809
    · exact prime_13331831
  · decide
  · exact zmod_pow_eq_one 173378833005251801 6 (173378833005251801 - 1) (by norm_num) (by decide)
  · intro q hq
    fin_cases hq
    · exact hob2
    · exact hob2
    · exact hob2
    · exact hob5
    · exact hob5
    · exact hob2621
    · exact hob24809
    · exact hob13331831

theorem prime_22149492674086928081353 : Nat.Prime 22149492674086928081353 := by
  have hob2 : ((5 : ℕ) : ZMod 22149492674086928081353) ^ ((22149492674086928081353 - 1) / 2) ≠ 1 :=
    zmod_pow_ne_one 22149492674086928081353 5 ((22149492674086928081353 - 1) / 2) 22149492674086928081352 (by norm_num) (by decide) (by decide)
  have hob3 : ((5 : ℕ) : ZMod 22149492674086928081353) ^ ((22149492674086928081353 - 1) / 3) ≠ 1 :=
    zmod_pow_ne_one 22149492674086928081353 5 ((22149492674086928081353 - 1) / 3) 10043889752229528935999 (by norm_num) (by decide) (by decide)
  have hob5323 : ((5 : ℕ) : ZMod 22149492674086928081353) ^ ((22149492674086928081353 - 1) / 5323) ≠ 1 :=
    zmod_pow_ne_one 22149492674086928081353 5 ((22149492674086928081353 - 1) / 5323) 6446620476143922066636 (by norm_num) (by decide) (by decide)
  have hob173378833005251801 : ((5 : ℕ) : ZMod 22149492674086928081353) ^ ((22149492674086928081353 - 1) / 173378833005251801) ≠ 1 :=
    zmod_pow_ne_one 22149492674086928081353 5 ((22149492674086928081353 - 1) / 173378833005251801) 317195385910872261254 (by norm_num) (by decide) (by decide)
  apply pratt_step 22149492674086928081353 5 [2, 2, 2, 3, 5323, 173378833005251801] (by norm_num)
  · intro q hq
    fin_cases hq
    · exact prime_2
    · exact prime_2
    · exact prime_2
    · exact prime_3
    · exact prime_5323
    · exact prime_173378833005251801
  · decide
  · exact zmod_pow_eq_one 22149492674086928081353 5 (22149492674086928081353 - 1) (by norm_num) (by decide)
  · intro q hq
    fin_cases hq
    · exact hob2
    · exact hob2
    · exact hob2
    · exact hob3
    · exact hob5323
    · exact hob173378833005251801

theorem prime_132896956044521568488119 : Nat.Prime 132896956044521568488119 := by
  have hob2 : ((6 : ℕ) : ZMod 132896956044521568488119) ^ ((132896956044521568488119 - 1) / 2) ≠ 1 :=
    zmod_pow_ne_one 132896956044521568488119 6 ((132896956044521568488119 - 1) / 2) 132896956044521568488118 (by norm_num) (by decide) (by decide)
  have hob3 : ((6 : ℕ) : ZMod 132896956044521568488119) ^ ((132896956044521568488119 - 1) / 3) ≠ 1 :=
    zmod_pow_ne_one 132896956044521568488119 6 ((132896956044521568488119 - 1) / 3) 76725380987433565404982 (by norm_num) (by decide) (by decide)
  have hob22149492674086928081353 : ((6 : ℕ) : ZMod 132896956044521568488119) ^ ((132896956044521568488119 - 1) / 22149492674086928081353) ≠ 1 :=
    zmod_pow_ne_one 132896956044521568488119 6 ((132896956044521568488119 - 1) / 22149492674086928081353) 46656 (by norm_num) (by decide) (by decide)
  apply pratt_step 132896956044521568488119 6 [2, 3, 22149492674086928081353] (by norm_num)
  · intro q hq
    fin_cases hq
    · exact prime_2
    · exact prime_3
    · exact prime_22149492674086928081353
  · decide
  · exact zmod_pow_eq_one 132896956044521568488119 6 (132896956044521568488119 - 1) (by norm_num) (by decide)
  · intro q hq
    fin_cases hq
    · exact hob2
    · exact hob3
    · exact hob22149492674086928081353

theorem prime_107590001 : Nat.Prime 107590001 := by
  have hob2 : ((3 : ℕ) : ZMod 107590001) ^ ((107590001 - 1) / 2) ≠ 1 :=
    zmod_pow_ne_one 107590001 3 ((107590001 - 1) / 2) 107590000 (by norm_num) (by decide) (by decide)
  have hob5 : ((3 : ℕ) : ZMod 107590001) ^ ((107590001 - 1) / 5) ≠ 1 :=
    zmod_pow_ne_one 107590001 3 ((107590001 - 1) / 5) 67174630 (by norm_num) (by decide) (by decide)
  have hob7 : ((3 : ℕ) : ZMod 107590001) ^ ((107590001 - 1) / 7) ≠ 1 :=
    zmod_pow_ne_one 107590001 3 ((107590001 - 1) / 7) 37492364 (by norm_num) (by decide) (by decide)
  have hob29 : ((3 : ℕ) : ZMod 107590001) ^ ((107590001 - 1) / 29) ≠ 1 :=
    zmod_pow_ne_one 107590001 3 ((107590001 - 1) / 29) 32711690 (by norm_num) (by decide) (by decide)
  have hob53 : ((3 : ℕ) : ZMod 107590001) ^ ((107590001 - 1) / 53) ≠ 1 :=
    zmod_pow_ne_one 107590001 3 ((107590001 - 1) / 53) 15240736 (by norm_num) (by decide) (by decide)
  apply pratt_step 107590001 3 [2, 2, 2, 2, 5, 5, 5, 5, 7, 29, 53] (by norm_num)
  · intro q hq
    fin_cases hq
    · exact prime_2
    · exact prime_2
    · exact prime_2
    · exact prime_2
    · exact prime_5
    · exact prime_5
    · exact prime_5
    · exact prime_5
    · exact prime_7
    · exact prime_29
    · exact prime_53
  · decide
  · exact zmod_pow_eq_one 107590001 3 (107590001 - 1) (by norm_num) (by decide)
  · intro q hq
    fin_cases hq
    · exact hob2
    · exact hob2
    · exact hob2
    · exact hob2
    · exact hob5
    · exact hob5
    · exact hob5
    · exact hob5
    · exact hob7
    · exact hob29
    · exact hob53

theorem prime_7240687 : Nat.Prime 7240687 := by
  have hob2 : ((3 : ℕ) : ZMod 7240687) ^ ((7240687 - 1) / 2) ≠ 1 :=
    zmod_pow_ne_one 7240687 3 ((7240687 - 1) / 2) 7240686 (by norm_num) (by decide) (by decide)
  have hob3 : ((3 : ℕ) : ZMod 7240687) ^ ((7240687 - 1) / 3) ≠ 1 :=
    zmod_pow_ne_one 7240687 3 ((7240687 - 1) / 3) 6501936 (by norm_num) (by decide) (by decide)
  have hob1206781 : ((3 : ℕ) : ZMod 7240687) ^ ((7240687 - 1) / 1206781) ≠ 1 :=
    zmod_pow_ne_one 7240687 3 ((7240687 - 1) / 1206781) 729 (by norm_num) (by decide) (by decide)
  apply pratt_step 7240687 3 [2, 3, 1206781] (by norm_num)
  · intro q hq
    fin_cases hq
    · exact prime_2
    · exact prime_3
    · exact prime_1206781
  · decide
  · exact zmod_pow_eq_one 7240687 3 (7240687 - 1) (by norm_num) (by decide)
  · intro q hq
    fin_cases hq
    · exact hob2
    · exact hob3
    · exact hob1206781

theorem prime_255515944373312847190720520512484175977 : Nat.Prime 255515944373312847190720520512484175977 := by
  have hob2 : ((3 : ℕ) : ZMod 255515944373312847190720520512484175977) ^ ((255515944373312847190720520512484175977 - 1) / 2) ≠ 1 :=
    zmod_pow_ne_one 255515944373312847190720520512484175977 3 ((255515944373312847190720520512484175977 - 1) / 2) 255515944373312847190720520512484175976 (by norm_num) (by decide) (by decide)
  have hob7 : ((3 : ℕ) : ZMod 255515944373312847190720520512484175977) ^ ((255515944373312847190720520512484175977 - 1) / 7) ≠ 1 :=
    zmod_pow_ne_one 255515944373312847190720520512484175977 3 ((255515944373312847190720520512484175977 - 1) / 7) 101630464857884484146913207008716355375 (by norm_num) (by decide) (by decide)
  have hob11 : ((3 : ℕ) : ZMod 255515944373312847190720520512484175977) ^ ((255515944373312847190720520512484175977 - 1) / 11) ≠ 1 :=
    zmod_pow_ne_one 255515944373312847190720520512484175977 3 ((255515944373312847190720520512484175977 - 1) / 11) 216514664320154426008163201710470464886 (by norm_num) (by decide) (by decide)
  have hob1627 : ((3 : ℕ) : ZMod 255515944373312847190720520512484175977) ^ ((255515944373312847190720520512484175977 - 1) / 1627) ≠ 1 :=
    zmod_pow_ne_one 255515944373312847190720520512484175977 3 ((255515944373312847190720520512484175977 - 1) / 1627) 72473583126275438393254198129422586513 (by norm_num) (by decide) (by decide)
  have hob2657 : ((3 : ℕ) : ZMod 255515944373312847190720520512484175977) ^ ((255515944373312847190720520512484175977 - 1) / 2657) ≠ 1 :=
    zmod_pow_ne_one 255515944373312847190720520512484175977 3 ((255515944373312847190720520512484175977 - 1) / 2657) 25264823290665569537380285172105507303 (by norm_num) (by decide) (by decide)
  have hob4423 : ((3 : ℕ) : ZMod 255515944373312847190720520512484175977) ^ ((255515944373312847190720520512484175977 - 1) / 4423) ≠ 1 :=
    zmod_pow_ne_one 255515944373312847190720520512484175977 3 ((255515944373312847190720520512484175977 - 1) / 4423) 83399280779944061005050044694706920693 (by norm_num) (by decide) (by decide)
  have hob41201 : ((3 : ℕ) : ZMod 255515944373312847190720520512484175977) ^ ((255515944373312847190720520512484175977 - 1) / 41201) ≠ 1 :=
    zmod_pow_ne_one 255515944373312847190720520512484175977 3 ((255515944373312847190720520512484175977 - 1) / 41201) 172827330636526207461984371528411705589 (by norm_num) (by decide) (by decide)
  have hob96557 : ((3 : ℕ) : ZMod 255515944373312847190720520512484175977) ^ ((255515944373312847190720520512484175977 - 1) / 96557) ≠ 1 :=
    zmod_pow_ne_one 255515944373312847190720520512484175977 3 ((255515944373312847190720520512484175977 - 1) / 96557) 255259905881023646761568249610326048823 (by norm_num) (by decide) (by decide)
  have hob7240687 : ((3 : ℕ) : ZMod 255515944373312847190720520512484175977) ^ ((255515944373312847190720520512484175977 - 1) / 7240687) ≠ 1 :=
    zmod_pow_ne_one 255515944373312847190720520512484175977 3 ((255515944373312847190720520512484175977 - 1) / 7240687) 31043399383638056505926561103262574803 (by norm_num) (by decide) (by decide)
  have hob107590001 : ((3 : ℕ) : ZMod 255515944373312847190720520512484175977) ^ ((255515944373312847190720520512484175977 - 1) / 107590001) ≠ 1 :=
    zmod_pow_ne_one 255515944373312847190720520512484175977 3 ((255515944373312847190720520512484175977 - 1) / 107590001) 18335160587089267704563076742628378053 (by norm_num) (by decide) (by decide)
  apply pratt_step 255515944373312847190720520512484175977 3 [2, 2, 2, 7, 7, 11, 1627, 2657, 4423, 41201, 96557, 7240687, 107590001] (by norm_num)
  · intro q hq
    fin_cases hq
    · exact prime_2
    · exact prime_2
    · exact prime_2
    · exact prime_7
    · exact prime_7
    · exact prime_11
    · exact prime_1627
    · exact prime_2657
    · exact prime_4423
    · exact prime_41201
    · exact prime_96557
    · exact prime_7240687
    · exact prime_107590001
  · decide
  · exact zmod_pow_eq_one 255515944373312847190720520512484175977 3 (255515944373312847190720520512484175977 - 1) (by norm_num) (by decide)
  · intro q hq
    fin_cases hq
    · exact hob2
    · exact hob2
    · exact hob2
    · exact hob7
    · exact hob7
    · exact hob11
    · exact hob1627
    · exact hob2657
    · exact hob4423
    · exact hob41201
    · exact hob96557
    · exact hob7240687
    · exact hob107590001

theorem prime_205115282021455665897114700593932402728804164701536103180137503955397371 : Nat.Prime 205115282021455665897114700593932402728804164701536103180137503955397371 := by
  have hob2 : ((10 : ℕ) : ZMod 205115282021455665897114700593932402728804164701536103180137503955397371) ^ ((205115282021455665897114700593932402728804164701536103180137503955397371 - 1) / 2) ≠ 1 :=
    zmod_pow_ne_one 205115282021455665897114700593932402728804164701536103180137503955397371 10 ((205115282021455665897114700593932402728804164701536103180137503955397371 - 1) / 2) 205115282021455665897114700593932402728804164701536103180137503955397370 (by norm_num) (by decide) (by decide)
  have hob3 : ((10 : ℕ) : ZMod 205115282021455665897114700593932402728804164701536103180137503955397371) ^ ((205115282021455665897114700593932402728804164701536103180137503955397371 - 1) / 3) ≠ 1 :=
    zmod_pow_ne_one 205115282021455665897114700593932402728804164701536103180137503955397371 10 ((205115282021455665897114700593932402728804164701536103180137503955397371 - 1) / 3) 178616112238072933217230078226700686412819640559154366246118991325153614 (by norm_num) (by decide) (by decide)
  have hob5 : ((10 : ℕ) : ZMod 205115282021455665897114700593932402728804164701536103180137503955397371) ^ ((205115282021455665897114700593932402728804164701536103180137503955397371 - 1) / 5) ≠ 1 :=
    zmod_pow_ne_one 205115282021455665897114700593932402728804164701536103180137503955397371 10 ((205115282021455665897114700593932402728804164701536103180137503955397371 - 1) / 5) 148667663605783182964533161827581554934625546150551877457291286907751879 (by norm_num) (by decide) (by decide)
  have hob29 : ((10 : ℕ) : ZMod 205115282021455665897114700593932402728804164701536103180137503955397371) ^ ((205115282021455665897114700593932402728804164701536103180137503955397371 - 1) / 29) ≠ 1 :=
    zmod_pow_ne_one 205115282021455665897114700593932402728804164701536103180137503955397371 10 ((205115282021455665897114700593932402728804164701536103180137503955397371 - 1) / 29) 90719238424619861502781386762050866835022444605988461034414193158222234 (by norm_num) (by decide) (by decide)
  have hob31 : ((10 : ℕ) : ZMod 205115282021455665897114700593932402728804164701536103180137503955397371) ^ ((205115282021455665897114700593932402728804164701536103180137503955397371 - 1) / 31) ≠ 1 :=
    zmod_pow_ne_one 205115282021455665897114700593932402728804164701536103180137503955397371 10 ((205115282021455665897114700593932402728804164701536103180137503955397371 - 1) / 31) 178914599646525377090000213924526954283063588893967770896141456545640969 (by norm_num) (by decide) (by decide)
  have hob7723 : ((10 : ℕ) : ZMod 205115282021455665897114700593932402728804164701536103180137503955397371) ^ ((205115282021455665897114700593932402728804164701536103180137503955397371 - 1) / 7723) ≠ 1 :=
    zmod_pow_ne_one 205115282021455665897114700593932402728804164701536103180137503955397371 10 ((205115282021455665897114700593932402728804164701536103180137503955397371 - 1) / 7723) 123665784261542600597161422878187596862401757469595512553658861111742805 (by norm_num) (by decide) (by decide)
  have hob132896956044521568488119 : ((10 : ℕ) : ZMod 205115282021455665897114700593932402728804164701536103180137503955397371) ^ ((205115282021455665897114700593932402728804164701536103180137503955397371 - 1) / 132896956044521568488119) ≠ 1 :=
    zmod_pow_ne_one 205115282021455665897114700593932402728804164701536103180137503955397371 10 ((205115282021455665897114700593932402728804164701536103180137503955397371 - 1) / 132896956044521568488119) 23464812984708083251961214877810561828785050182618072726888556255391050 (by norm_num) (by decide) (by decide)
  have hob255515944373312847190720520512484175977 : ((10 : ℕ) : ZMod 205115282021455665897114700593932402728804164701536103180137503955397371) ^ ((205115282021455665897114700593932402728804164701536103180137503955397371 - 1) / 255515944373312847190720520512484175977) ≠ 1 :=
    zmod_pow_ne_one 205115282021455665897114700593932402728804164701536103180137503955397371 10 ((205115282021455665897114700593932402728804164701536103180137503955397371 - 1) / 255515944373312847190720520512484175977) 178266113035923784558209165568976194333480695760850831337861960477148809 (by norm_num) (by decide) (by decide)
  apply pratt_step 205115282021455665897114700593932402728804164701536103180137503955397371 10 [2, 3, 5, 29, 29, 31, 7723, 132896956044521568488119, 255515944373312847190720520512484175977] (by norm_num)
  · intro q hq
    fin_cases hq
    · exact prime_2
    · exact prime_3
    · exact prime_5
    · exact prime_29
    · exact prime_29
    · exact prime_31
    · exact prime_7723
    · exact prime_132896956044521568488119
    · exact prime_255515944373312847190720520512484175977
  · decide
  · exact zmod_pow_eq_one 205115282021455665897114700593932402728804164701536103180137503955397371 10 (205115282021455665897114700593932402728804164701536103180137503955397371 - 1) (by norm_num) (by decide)
  · intro q hq
    fin_cases hq
    · exact hob2
    · exact hob3
    · exact hob5
    · exact hob29
    · exact hob29
    · exact hob31
    · exact hob7723
    · exact hob132896956044521568488119
    · exact hob255515944373312847190720520512484175977

theorem prime_secp_P : Nat.Prime 115792089237316195423570985008687907853269984665640564039457584007908834671663 := by
  have hob2 : ((3 : ℕ) : ZMod 115792089237316195423570985008687907853269984665640564039457584007908834671663) ^ ((115792089237316195423570985008687907853269984665640564039457584007908834671663 - 1) / 2) ≠ 1 :=
    zmod_pow_ne_one 115792089237316195423570985008687907853269984665640564039457584007908834671663 3 ((115792089237316195423570985008687907853269984665640564039457584007908834671663 - 1) / 2) 115792089237316195423570985008687907853269984665640564039457584007908834671662 (by norm_num) (by decide) (by decide)
  have hob3 : ((3 : ℕ) : ZMod 115792089237316195423570985008687907853269984665640564039457584007908834671663) ^ ((115792089237316195423570985008687907853269984665640564039457584007908834671663 - 1) / 3) ≠ 1 :=
    zmod_pow_ne_one 115792089237316195423570985008687907853269984665640564039457584007908834671663 3 ((115792089237316195423570985008687907853269984665640564039457584007908834671663 - 1) / 3) 60197513588986302554485582024885075108884032450952339817679072026166228089408 (by norm_num) (by decide) (by decide)
  have hob7 : ((3 : ℕ) : ZMod 115792089237316195423570985008687907853269984665640564039457584007908834671663) ^ ((115792089237316195423570985008687907853269984665640564039457584007908834671663 - 1) / 7) ≠ 1 :=
    zmod_pow_ne_one 115792089237316195423570985008687907853269984665640564039457584007908834671663 3 ((115792089237316195423570985008687907853269984665640564039457584007908834671663 - 1) / 7) 73577166854750709961935200508434814177540983658115200205126683779095497532107 (by norm_num) (by decide) (by decide)
  have hob13441 : ((3 : ℕ) : ZMod 115792089237316195423570985008687907853269984665640564039457584007908834671663) ^ ((115792089237316195423570985008687907853269984665640564039457584007908834671663 - 1) / 13441) ≠ 1 :=
    zmod_pow_ne_one 115792089237316195423570985008687907853269984665640564039457584007908834671663 3 ((115792089237316195423570985008687907853269984665640564039457584007908834671663 - 1) / 13441) 47069427835566023893842355796053529714200560266804286213968496489326012498751 (by norm_num) (by decide) (by decide)
  have hob205115282021455665897114700593932402728804164701536103180137503955397371 : ((3 : ℕ) : ZMod 115792089237316195423570985008687907853269984665640564039457584007908834671663) ^ ((115792089237316195423570985008687907853269984665640564039457584007908834671663 - 1) / 205115282021455665897114700593932402728804164701536103180137503955397371) ≠ 1 :=
    zmod_pow_ne_one 115792089237316195423570985008687907853269984665640564039457584007908834671663 3 ((115792089237316195423570985008687907853269984665640564039457584007908834671663 - 1) / 205115282021455665897114700593932402728804164701536103180137503955397371) 15008666919421193757556023654256545850754027412553468855825889464239117716646 (by norm_num) (by decide) (by decide)
  apply pratt_step 115792089237316195423570985008687907853269984665640564039457584007908834671663 3 [2, 3, 7, 13441, 205115282021455665897114700593932402728804164701536103180137503955397371] (by norm_num)
  · intro q hq
    fin_cases hq
    · exact prime_2
    · exact prime_3
    · exact prime_7
    · exact prime_13441
    · exact prime_205115282021455665897114700593932402728804164701536103180137503955397371
  · decide
  · exact zmod_pow_eq_one 115792089237316195423570985008687907853269984665640564039457584007908834671663 3 (115792089237316195423570985008687907853269984665640564039457584007908834671663 - 1) (by norm_num) (by decide)
  · intro q hq
    fin_cases hq
    · exact hob2
    · exact hob3
    · exact hob7
    · exact hob13441
    · exact hob205115282021455665897114700593932402728804164701536103180137503955397371

/-! ## The secp256k1 curve over `ZMod Pn` and the bridge to the embedded code -/

instance factPn : Fact (Nat.Prime Pn) := ⟨prime_secp_P⟩

instance factQn : Fact (Nat.Prime Qn) := ⟨prime_secp_Q⟩

/-- The secp256k1 Weierstrass curve `y² = x³ + 7`. -/
def secp : WeierstrassCurve.Affine (ZMod Pn) := ⟨0, 0, 0, 0, 7⟩

/-- Validity of an embedded point: canonical coordinates satisfying the curve
equation. -/
def Point.Valid : Point → Prop
  | .infinity => True
  | .affine x y => 0 ≤ x ∧ x < P ∧ 0 ≤ y ∧ y < P ∧ (x ^ 3 + 7 - y ^ 2) % P = 0

instance : DecidablePred Point.Valid := fun p =>
  match p with
  | .infinity => .isTrue trivial
  | .affine x y => inferInstanceAs (Decidable (_ ∧ _ ∧ _ ∧ _ ∧ _))

theorem intCast_zero_iff (a : Int) : (a : ZMod Pn) = 0 ↔ P ∣ a := by
  rw [P_eq]
  exact_mod_cast ZMod.intCast_zmod_eq_zero_iff_dvd a Pn

theorem intCast_eq_iff (a b : Int) : (a : ZMod Pn) = (b : ZMod Pn) ↔ a ≡ b [ZMOD P] := by
  rw [P_eq]
  exact ZMod.intCast_eq_intCast_iff a b Pn

theorem cast_inj_range {a b : Int} (ha0 : 0 ≤ a) (haP : a < P) (hb0 : 0 ≤ b) (hbP : b < P)
    (h : (a : ZMod Pn) = (b : ZMod Pn)) : a = b := by
  have hd : P ∣ b - a := ((intCast_eq_iff a b).mp h).dvd
  rcases hd with ⟨k, hk⟩
  have hP : (0 : Int) < P := P_pos
  rcases lt_trichotomy k 0 with hneg | rfl | hpos
  · nlinarith
  · omega
  · nlinarith

theorem cast_ne_zero_range {a : Int} (h0 : 0 < a) (hP : a < P) : (a : ZMod Pn) ≠ 0 := by
  intro h
  rcases (intCast_zero_iff a).mp h with ⟨k, hk⟩
  have hPp : (0 : Int) < P := P_pos
  rcases lt_trichotomy k 0 with hneg | rfl | hpos
  · nlinarith
  · omega
  · nlinarith

theorem jmodP_cast (a : Int) : ((jmod a P : Int) : ZMod Pn) = (a : ZMod Pn) :=
  (intCast_eq_iff _ _).mpr (jmod_modEq a P)

theorem tmodP_cast (a : Int) : ((a.tmod P : Int) : ZMod Pn) = (a : ZMod Pn) :=
  (intCast_eq_iff _ _).mpr (tmod_modEq a P)

theorem two_ne_zero_ZP : (2 : ZMod Pn) ≠ 0 := by
  intro h
  have h2 : ((2 : ℕ) : ZMod Pn) = 0 := by exact_mod_cast h
  have := (ZMod.natCast_zmod_eq_zero_iff_dvd 2 Pn).mp h2
  have := Nat.le_of_dvd (by norm_num) this
  norm_num [Pn] at this

theorem three_ne_zero_ZP : (3 : ZMod Pn) ≠ 0 := by
  intro h
  have h2 : ((3 : ℕ) : ZMod Pn) = 0 := by exact_mod_cast h
  have := (ZMod.natCast_zmod_eq_zero_iff_dvd 3 Pn).mp h2
  have := Nat.le_of_dvd (by norm_num) this
  norm_num [Pn] at this

theorem seven_ne_zero_ZP : (7 : ZMod Pn) ≠ 0 := by
  intro h
  have h2 : ((7 : ℕ) : ZMod Pn) = 0 := by exact_mod_cast h
  have := (ZMod.natCast_zmod_eq_zero_iff_dvd 7 Pn).mp h2
  have := Nat.le_of_dvd (by norm_num) this
  norm_num [Pn] at this

theorem valid_equation {x y : Int} (h : (x ^ 3 + 7 - y ^ 2) % P = 0) :
    secp.Equation (x : ZMod Pn) (y : ZMod Pn) := by
  rw [WeierstrassCurve.Affine.equation_iff]
  have hz : ((x ^ 3 + 7 - y ^ 2 : Int) : ZMod Pn) = 0 := by
    rw [intCast_zero_iff]
    exact Int.dvd_of_emod_eq_zero h
  push_cast at hz
  show (y : ZMod Pn) ^ 2 + secp.a₁ * x * y + secp.a₃ * y =
    (x : ZMod Pn) ^ 3 + secp.a₂ * x ^ 2 + secp.a₄ * x + secp.a₆
  show (y : ZMod Pn) ^ 2 + 0 * x * y + 0 * y = (x : ZMod Pn) ^ 3 + 0 * x ^ 2 + 0 * x + 7
  linear_combination -hz

theorem valid_nonsingular {x y : Int} (hv : Point.Valid (.affine x y)) :
    secp.Nonsingular (x : ZMod Pn) (y : ZMod Pn) := by
  obtain ⟨h0x, hxP, h0y, hyP, heq⟩ := hv
  refine (WeierstrassCurve.Affine.nonsingular_iff _ _ _).mpr ⟨valid_equation heq, ?_⟩
  by_cases hy : (y : ZMod Pn) = 0
  · left
    show secp.a₁ * y ≠ 3 * (x : ZMod Pn) ^ 2 + 2 * secp.a₂ * x + secp.a₄
    show (0 : ZMod Pn) * y ≠ 3 * (x : ZMod Pn) ^ 2 + 2 * 0 * x + 0
    have hxne : (x : ZMod Pn) ≠ 0 := by
      intro hx0
      have he := valid_equation heq
      rw [WeierstrassCurve.Affine.equation_iff, hx0, hy] at he
      show False
      apply seven_ne_zero_ZP
      have : (0 : ZMod Pn) ^ 2 + secp.a₁ * 0 * 0 + secp.a₃ * 0 =
          (0 : ZMod Pn) ^ 3 + secp.a₂ * 0 ^ 2 + secp.a₄ * 0 + secp.a₆ := he
      simpa [secp] using this.symm
    intro hcon
    have h3 : (3 : ZMod Pn) * (x : ZMod Pn) ^ 2 = 0 := by linear_combination -hcon
    rcases mul_eq_zero.mp h3 with h | h
    · exact three_ne_zero_ZP h
    · exact hxne (sq_eq_zero_iff.mp h)
  · right
    show (y : ZMod Pn) ≠ -y - secp.a₁ * x - secp.a₃
    show (y : ZMod Pn) ≠ -y - 0 * x - 0
    intro hcon
    apply hy
    have h2 : (2 : ZMod Pn) * y = 0 := by linear_combination hcon
    rcases mul_eq_zero.mp h2 with h | h
    · exact absurd h two_ne_zero_ZP
    · exact h

/-- Map a valid embedded point to the Mathlib curve point it denotes. -/
def toCurve : (p : Point) → Point.Valid p → secp.Point
  | .infinity, _ => 0
  | .affine _ _, h => .some (valid_nonsingular h)

/-- Total lift of an embedded point to the curve group (invalid points to 0). -/
def lift (p : Point) : secp.Point :=
  if h : p.Valid then toCurve p h else 0

theorem lift_infinity : lift Point.infinity = 0 := rfl

theorem lift_affine {x y : Int} (h : Point.Valid (.affine x y)) :
    lift (Point.affine x y) = .some (valid_nonsingular h) := dif_pos h

theorem lift_eq_zero_iff {p : Point} (hv : p.Valid) : lift p = 0 ↔ p = Point.infinity := by
  cases p with
  | infinity => simp [lift_infinity]
  | affine x y =>
    rw [lift_affine hv]
    constructor
    · intro h
      exact absurd h (WeierstrassCurve.Affine.Point.some_ne_zero _)
    · intro h
      cases h

theorem lift_inj {p q : Point} (hp : p.Valid) (hq : q.Valid) (h : lift p = lift q) : p = q := by
  cases p with
  | infinity =>
    cases q with
    | infinity => rfl
    | affine x y =>
      rw [lift_infinity, lift_affine hq] at h
      exact absurd h.symm (WeierstrassCurve.Affine.Point.some_ne_zero _)
  | affine x1 y1 =>
    cases q with
    | infinity =>
      rw [lift_infinity, lift_affine hp] at h
      exact absurd h (WeierstrassCurve.Affine.Point.some_ne_zero _)
    | affine x2 y2 =>
      rw [lift_affine hp, lift_affine hq] at h
      injection h with hx hy
      obtain ⟨hx0, hxP, hy0, hyP, -⟩ := hp
      obtain ⟨hx0', hxP', hy0', hyP', -⟩ := hq
      rw [cast_inj_range hx0 hxP hx0' hxP' hx, cast_inj_range hy0 hyP hy0' hyP' hy]

/-- Invariants of the extended-Euclid loop: first output the gcd, second a
Bezout coefficient for the first argument. -/
theorem egcdLoop_spec (a m : Int) :
    ∀ (fuel : Nat) (oldR r oldS s : Int), 0 ≤ oldR → 0 ≤ r → r < (fuel : Int) →
      oldS * a ≡ oldR [ZMOD m] → s * a ≡ r [ZMOD m] →
      (egcdLoop fuel oldR r oldS s).1 = (Int.gcd oldR r : Int) ∧
      (egcdLoop fuel oldR r oldS s).2 * a ≡ (egcdLoop fuel oldR r oldS s).1 [ZMOD m] := by
  intro fuel
  induction fuel with
  | zero =>
    intro oldR r oldS s hR hr hfuel _ _
    exact absurd hfuel (by simp only [Nat.cast_zero]; omega)
  | succ n ih =>
    intro oldR r oldS s hR hr hfuel hS hs
    rw [egcdLoop]
    by_cases hr0 : r = 0
    · subst hr0
      simp only [if_pos rfl]
      constructor
      · simp [Int.gcd, Int.natAbs_of_nonneg hR]
      · exact hS
    · simp only [if_neg hr0]
      have hrpos : 0 < r := lt_of_le_of_ne hr (Ne.symm hr0)
      have htm : oldR - oldR.tdiv r * r = oldR.tmod r := by
        have := Int.tdiv_add_tmod oldR r
        linarith
      have h1 : 0 ≤ oldR.tmod r := Int.tmod_nonneg r hR
      have h2 : oldR.tmod r < r := Int.tmod_lt_of_pos oldR hrpos
      have hcong : (oldS - oldR.tdiv r * s) * a ≡ oldR.tmod r [ZMOD m] := by
        rw [← htm]
        have hsub := hS.sub (hs.mul_left (oldR.tdiv r))
        calc (oldS - oldR.tdiv r * s) * a = oldS * a - oldR.tdiv r * (s * a) := by ring
          _ ≡ oldR - oldR.tdiv r * r [ZMOD m] := hsub
      have hres := ih r (oldR - oldR.tdiv r * r) s (oldS - oldR.tdiv r * s)
        hr (htm ▸ h1) (by rw [htm]; push_cast at hfuel ⊢; omega) hs (htm ▸ hcong)
      refine ⟨?_, hres.2⟩
      rw [hres.1, htm]
      congr 1
      obtain ⟨rn, rfl⟩ : ∃ rn : ℕ, r = (rn : Int) := ⟨r.toNat, by omega⟩
      obtain ⟨Rn, rfl⟩ : ∃ Rn : ℕ, oldR = (Rn : Int) := ⟨oldR.toNat, by omega⟩
      have htm2 : ((Rn : Int)).tmod (rn : Int) = ((Rn % rn : ℕ) : Int) := by
        rw [Int.tmod_eq_emod (by positivity) (by positivity)]
        exact_mod_cast (Int.natCast_mod Rn rn)
      rw [htm2]
      simp only [Int.gcd_natCast_natCast]
      rw [Nat.gcd_comm Rn rn, Nat.gcd_rec rn Rn, Nat.gcd_comm]

/-- `modInverse` succeeds on arguments invertible mod P and returns the field
inverse in canonical range. -/
theorem modInverse_ok {d : Int} (hd : (d : ZMod Pn) ≠ 0) :
    ∃ i, modInverse d P = .ok i ∧ 0 ≤ i ∧ i < P ∧ (i : ZMod Pn) = (d : ZMod Pn)⁻¹ := by
  have hPpos : (0 : Int) < P := P_pos
  have hPn : Nat.Prime Pn := factPn.out
  have h0 : 0 ≤ jmod d P := jmod_nonneg d hPpos
  have hlt : jmod d P < P := jmod_lt d hPpos
  have hfuel : P < ((P.toNat + 2 : ℕ) : Int) := by push_cast; omega
  have hspec := egcdLoop_spec (jmod d P) P (P.toNat + 2) (jmod d P) P 1 0
    h0 hPpos.le hfuel (by simpa using Int.ModEq.refl (jmod d P))
    (by simpa using ((Int.modEq_zero_iff_dvd).mpr (dvd_refl P)).symm)
  have hgcd1 : Int.gcd (jmod d P) P = 1 := by
    have hdvdP : Int.gcd (jmod d P) P ∣ Pn := by
      have h := Int.gcd_dvd_right (a := jmod d P) (b := P)
      rw [P_eq] at h
      exact_mod_cast h
    rcases (Nat.Prime.eq_one_or_self_of_dvd hPn _ hdvdP) with h | h
    · exact h
    · exfalso
      have hdvd : ((Int.gcd (jmod d P) P : ℕ) : Int) ∣ jmod d P := Int.gcd_dvd_left
      rw [h] at hdvd
      have hPd : P ∣ jmod d P := by rwa [P_eq]
      have hj0 : jmod d P = 0 := by
        rcases hPd with ⟨k, hk⟩
        rcases lt_trichotomy k 0 with hneg | rfl | hpos
        · nlinarith
        · omega
        · nlinarith
      apply hd
      rw [intCast_zero_iff]
      have hc := jmod_modEq d P
      rw [hj0] at hc
      exact (Int.modEq_zero_iff_dvd).mp hc.symm
  unfold modInverse
  rw [hspec.1, hgcd1]
  simp only [Nat.cast_one]
  rw [if_neg (by norm_num)]
  refine ⟨jmod (egcdLoop (P.toNat + 2) (jmod d P) P 1 0).2 P, rfl,
    jmod_nonneg _ hPpos, jmod_lt _ hPpos, ?_⟩
  have hcong := hspec.2
  rw [hspec.1, hgcd1] at hcong
  have hc : ((jmod (egcdLoop (P.toNat + 2) (jmod d P) P 1 0).2 P : Int) : ZMod Pn) *
      (d : ZMod Pn) = 1 := by
    rw [jmodP_cast]
    have h2 : ((egcdLoop (P.toNat + 2) (jmod d P) P 1 0).2 * jmod d P : Int) ≡ 1 [ZMOD P] := by
      simpa using hcong
    have h3 := (intCast_eq_iff _ _).mpr h2
    push_cast at h3
    rw [jmodP_cast] at h3
    simpa using h3
  exact eq_inv_of_mul_eq_one_left hc

/-- Two curve points with equal coordinates are equal. -/
theorem some_ext {x1 y1 x2 y2 : ZMod Pn} (hx : x1 = x2) (hy : y1 = y2)
    (h1 : secp.Nonsingular x1 y1) (h2 : secp.Nonsingular x2 y2) :
    (.some h1 : secp.Point) = .some h2 := by
  subst hx
  subst hy
  rfl

/-- Canonical-range coordinates satisfying the curve equation in `ZMod` give a
valid embedded point. -/
theorem valid_of_curve {x y : Int} (hx0 : 0 ≤ x) (hxP : x < P) (hy0 : 0 ≤ y) (hyP : y < P)
    (h : secp.Equation (x : ZMod Pn) (y : ZMod Pn)) : Point.Valid (.affine x y) := by
  refine ⟨hx0, hxP, hy0, hyP, ?_⟩
  rw [WeierstrassCurve.Affine.equation_iff] at h
  have h2 : ((x ^ 3 + 7 - y ^ 2 : Int) : ZMod Pn) = 0 := by
    push_cast
    have : (y : ZMod Pn) ^ 2 + secp.a₁ * x * y + secp.a₃ * y =
        (x : ZMod Pn) ^ 3 + secp.a₂ * x ^ 2 + secp.a₄ * x + secp.a₆ := h
    simp only [secp] at this
    ring_nf at this ⊢
    linear_combination -this
  exact Int.emod_eq_zero_of_dvd ((intCast_zero_iff _).mp h2)

/-- The `negY` of the secp curve is plain negation. -/
theorem secp_negY (x y : ZMod Pn) : secp.negY x y = -y := by
  simp [WeierstrassCurve.Affine.negY, secp]

/-- Bridge for `Point.double`. -/
theorem double_bridge {p : Point} (hv : p.Valid) :
    ∃ r, p.double = .ok r ∧ r.Valid ∧ lift r = lift p + lift p := by
  cases p with
  | infinity =>
    exact ⟨.infinity, rfl, trivial, by rw [lift_infinity]; simp⟩
  | affine x y =>
    obtain ⟨hx0, hxP, hy0, hyP, heq⟩ := hv
    have hv : Point.Valid (.affine x y) := ⟨hx0, hxP, hy0, hyP, heq⟩
    by_cases hy : y = 0
    · subst hy
      refine ⟨.infinity, by simp [Point.double], trivial, ?_⟩
      rw [lift_infinity, lift_affine hv]
      rw [WeierstrassCurve.Affine.Point.add_of_Y_eq rfl (by rw [secp_negY]; push_cast; ring)]
    · have hyZ : (y : ZMod Pn) ≠ 0 := cast_ne_zero_range (by omega) hyP
      have h2y : ((2 * y : Int) : ZMod Pn) ≠ 0 := by
        push_cast
        exact mul_ne_zero two_ne_zero_ZP hyZ
      obtain ⟨i, hi, hi0, hiP, hicast⟩ := modInverse_ok h2y
      push_cast at hicast
      have hyneg : (y : ZMod Pn) ≠ secp.negY (x : ZMod Pn) (y : ZMod Pn) := by
        rw [secp_negY]
        intro hcon
        apply hyZ
        have h2 : (2 : ZMod Pn) * y = 0 := by linear_combination hcon
        rcases mul_eq_zero.mp h2 with h | h
        · exact absurd h two_ne_zero_ZP
        · exact h
      have hslope : ((jmod (3 * x * x * i) P : Int) : ZMod Pn) =
          secp.slope (x : ZMod Pn) (x : ZMod Pn) (y : ZMod Pn) (y : ZMod Pn) := by
        rw [WeierstrassCurve.Affine.slope_of_Y_ne rfl hyneg, jmodP_cast]
        push_cast
        rw [hicast]
        rw [secp_negY]
        show (3 : ZMod Pn) * x * x * ((2 : ZMod Pn) * y)⁻¹ =
          (3 * (x : ZMod Pn) ^ 2 + 2 * secp.a₂ * x + secp.a₄ - secp.a₁ * y) / (y - -y)
        simp only [secp]
        have hne : (y : ZMod Pn) - -y ≠ 0 := by
          intro hcon
          exact hyneg (by rw [secp_negY]; linear_combination hcon)
        field_simp
        ring
      -- the computed result
      set L := secp.slope (x : ZMod Pn) (x : ZMod Pn) (y : ZMod Pn) (y : ZMod Pn) with hL
      set sI : Int := jmod (3 * x * x * i) P with hsI
      set sumX : Int := jmod (sI * sI - 2 * x) P with hsumX
      set sumY : Int := jmod (sI * (x - sumX) - y) P with hsumY
      have hdbl : (Point.affine x y).double = .ok (.affine sumX sumY) := by
        rw [Point.double]
        rw [if_neg hy]
        rw [hi]
        rfl
      have hXc : ((sumX : Int) : ZMod Pn) = secp.addX (x : ZMod Pn) (x : ZMod Pn) L := by
        rw [hsumX, jmodP_cast]
        push_cast
        rw [hslope]
        show (L * L - 2 * (x : ZMod Pn)) = L ^ 2 + secp.a₁ * L - secp.a₂ - x - x
        simp only [secp]
        ring
      have hYc : ((sumY : Int) : ZMod Pn) = secp.addY (x : ZMod Pn) (x : ZMod Pn) (y : ZMod Pn) L := by
        rw [hsumY, jmodP_cast]
        push_cast
        rw [hslope, hXc]
        show L * ((x : ZMod Pn) - secp.addX x x L) - y =
          secp.negY (secp.addX (x : ZMod Pn) (x : ZMod Pn) L) (secp.negAddY x x y L)
        rw [secp_negY]
        show L * ((x : ZMod Pn) - secp.addX x x L) - y = -(L * (secp.addX x x L - x) + y)
        ring
      have hns := WeierstrassCurve.Affine.nonsingular_add (valid_nonsingular hv)
        (valid_nonsingular hv) (fun _ => hyneg)
      have hrv : Point.Valid (.affine sumX sumY) := by
        apply valid_of_curve (jmod_nonneg _ P_pos) (jmod_lt _ P_pos)
          (jmod_nonneg _ P_pos) (jmod_lt _ P_pos)
        rw [hXc, hYc]
        exact hns.1
      refine ⟨.affine sumX sumY, hdbl, hrv, ?_⟩
      rw [lift_affine hrv, lift_affine hv]
      rw [WeierstrassCurve.Affine.Point.add_of_Y_ne hyneg]
      exact some_ext hXc hYc _ _

/-- The curve equation of a valid point, in `ZMod`. -/
theorem valid_curve_eq {x y : Int} (hv : Point.Valid (.affine x y)) :
    (y : ZMod Pn) ^ 2 = (x : ZMod Pn) ^ 3 + 7 := by
  obtain ⟨-, -, -, -, heq⟩ := hv
  have h := valid_equation heq
  rw [WeierstrassCurve.Affine.equation_iff] at h
  have h2 : (y : ZMod Pn) ^ 2 + secp.a₁ * x * y + secp.a₃ * y =
      (x : ZMod Pn) ^ 3 + secp.a₂ * x ^ 2 + secp.a₄ * x + secp.a₆ := h
  simp only [secp] at h2
  linear_combination h2

/-- Bridge for `Point.add`. -/
theorem add_bridge {p q : Point} (hp : p.Valid) (hq : q.Valid) :
    ∃ r, p.add q = .ok r ∧ r.Valid ∧ lift r = lift p + lift q := by
  by_cases hpq : p = q
  · subst hpq
    obtain ⟨r, hr, hrv, hlift⟩ := double_bridge hp
    exact ⟨r, by rw [Point.add.eq_def, if_pos rfl]; exact hr, hrv, hlift⟩
  · cases p with
    | infinity =>
      cases q with
      | infinity => exact absurd rfl hpq
      | affine x2 y2 =>
        refine ⟨.affine x2 y2, ?_, hq, by rw [lift_infinity, zero_add]⟩
        rw [Point.add.eq_def, if_neg hpq]
    | affine x1 y1 =>
      cases q with
      | infinity =>
        refine ⟨.affine x1 y1, ?_, hp, by rw [lift_infinity, add_zero]⟩
        rw [Point.add.eq_def, if_neg hpq]
      | affine x2 y2 =>
        obtain ⟨hx10, hx1P, hy10, hy1P, heq1⟩ := hp
        obtain ⟨hx20, hx2P, hy20, hy2P, heq2⟩ := hq
        have hp' : Point.Valid (.affine x1 y1) := ⟨hx10, hx1P, hy10, hy1P, heq1⟩
        have hq' : Point.Valid (.affine x2 y2) := ⟨hx20, hx2P, hy20, hy2P, heq2⟩
        by_cases hvert : x1 = x2 ∧ y1 ≠ y2
        · refine ⟨.infinity, ?_, trivial, ?_⟩
          · rw [Point.add.eq_def, if_neg hpq]
            show (if x1 = x2 ∧ y1 ≠ y2 then Except.ok Point.infinity else _) = _
            rw [if_pos hvert]
          rw [lift_infinity, lift_affine hp', lift_affine hq']
          obtain ⟨hxx, hyy⟩ := hvert
          subst hxx
          have hyc : (y1 : ZMod Pn) ≠ (y2 : ZMod Pn) := by
            intro h
            exact hyy (cast_inj_range hy10 hy1P hy20 hy2P h)
          have he1 := valid_curve_eq hp'
          have he2 := valid_curve_eq hq'
          have hsq : ((y1 : ZMod Pn) - y2) * ((y1 : ZMod Pn) + y2) = 0 := by
            linear_combination he1 - he2
          have hneg : (y1 : ZMod Pn) = secp.negY (x1 : ZMod Pn) (y2 : ZMod Pn) := by
            rw [secp_negY]
            rcases mul_eq_zero.mp hsq with h | h
            · exact absurd (by linear_combination h) hyc
            · linear_combination h
          rw [WeierstrassCurve.Affine.Point.add_of_Y_eq rfl hneg]
        · have hx12 : x1 ≠ x2 := by
            intro hxx
            apply hpq
            rcases Decidable.em (y1 = y2) with hyy | hyy
            · rw [hxx, hyy]
            · exact absurd ⟨hxx, hyy⟩ hvert
          have hxc : (x1 : ZMod Pn) ≠ (x2 : ZMod Pn) := by
            intro h
            exact hx12 (cast_inj_range hx10 hx1P hx20 hx2P h)
          have hdne : ((x2 - x1 : Int) : ZMod Pn) ≠ 0 := by
            push_cast
            intro h
            exact hxc (by linear_combination -h)
          obtain ⟨i, hi, hi0, hiP, hicast⟩ := modInverse_ok hdne
          push_cast at hicast
          have hslope : ((jmod ((y2 - y1) * i) P : Int) : ZMod Pn) =
              secp.slope (x1 : ZMod Pn) (x2 : ZMod Pn) (y1 : ZMod Pn) (y2 : ZMod Pn) := by
            rw [WeierstrassCurve.Affine.slope_of_X_ne hxc, jmodP_cast]
            push_cast
            rw [hicast]
            have hsub : (x1 : ZMod Pn) - x2 ≠ 0 := sub_ne_zero.mpr hxc
            have hsub2 : (x2 : ZMod Pn) - x1 ≠ 0 := sub_ne_zero.mpr (Ne.symm hxc)
            field_simp
            ring
          set L := secp.slope (x1 : ZMod Pn) (x2 : ZMod Pn) (y1 : ZMod Pn) (y2 : ZMod Pn) with hL
          set sI : Int := jmod ((y2 - y1) * i) P with hsI
          set sumX : Int := jmod (sI * sI - x1 - x2) P with hsumX
          set sumY : Int := jmod (sI * (x1 - sumX) - y1) P with hsumY
          have hadd : (Point.affine x1 y1).add (.affine x2 y2) = .ok (.affine sumX sumY) := by
            rw [Point.add.eq_def, if_neg hpq]
            show (if x1 = x2 ∧ y1 ≠ y2 then Except.ok Point.infinity else _) = _
            rw [if_neg hvert]
            rw [hi]
            rfl
          have hXc : ((sumX : Int) : ZMod Pn) = secp.addX (x1 : ZMod Pn) (x2 : ZMod Pn) L := by
            rw [hsumX, jmodP_cast]
            push_cast
            rw [hslope]
            show (L * L - (x1 : ZMod Pn) - x2) = L ^ 2 + secp.a₁ * L - secp.a₂ - x1 - x2
            simp only [secp]
            ring
          have hYc : ((sumY : Int) : ZMod Pn) =
              secp.addY (x1 : ZMod Pn) (x2 : ZMod Pn) (y1 : ZMod Pn) L := by
            rw [hsumY, jmodP_cast]
            push_cast
            rw [hslope, hXc]
            show L * ((x1 : ZMod Pn) - secp.addX x1 x2 L) - y1 =
              secp.negY (secp.addX (x1 : ZMod Pn) (x2 : ZMod Pn) L) (secp.negAddY x1 x2 y1 L)
            rw [secp_negY]
            show L * ((x1 : ZMod Pn) - secp.addX x1 x2 L) - y1 =
              -(L * (secp.addX x1 x2 L - x1) + y1)
            ring
          have hns := WeierstrassCurve.Affine.nonsingular_add (valid_nonsingular hp')
            (valid_nonsingular hq') (fun h => (hxc h).elim)
          have hrv : Point.Valid (.affine sumX sumY) := by
            apply valid_of_curve (jmod_nonneg _ P_pos) (jmod_lt _ P_pos)
              (jmod_nonneg _ P_pos) (jmod_lt _ P_pos)
            rw [hXc, hYc]
            exact hns.1
          refine ⟨.affine sumX sumY, hadd, hrv, ?_⟩
          rw [lift_affine hrv, lift_affine hp', lift_affine hq']
          rw [WeierstrassCurve.Affine.Point.add_of_X_ne hxc]
          exact some_ext hXc hYc _ _

/-- Bridge for `Point.negate` on a valid affine point with positive `y`:
the result is valid and lifts to the group negation. -/
theorem negate_bridge {x y : Int} (hv : Point.Valid (.affine x y)) (hy : 0 < y) :
    Point.Valid ((Point.affine x y).negate) ∧
      lift ((Point.affine x y).negate) = -(lift (.affine x y)) := by
  obtain ⟨hx0, hxP, hy0, hyP, heq⟩ := hv
  have hv : Point.Valid (.affine x y) := ⟨hx0, hxP, hy0, hyP, heq⟩
  have hycast : ((P - y : Int) : ZMod Pn) = -(y : ZMod Pn) := by
    push_cast
    have hP : ((P : Int) : ZMod Pn) = 0 := (intCast_zero_iff P).mpr dvd_rfl
    rw [hP]
    ring
  have hrv : Point.Valid ((Point.affine x y).negate) := by
    show Point.Valid (.affine x (P - y))
    apply valid_of_curve hx0 hxP (by omega) (by omega)
    rw [hycast, WeierstrassCurve.Affine.equation_iff]
    have hcv := valid_curve_eq hv
    show (-(y : ZMod Pn)) ^ 2 + secp.a₁ * x * (-(y : ZMod Pn)) + secp.a₃ * (-(y : ZMod Pn)) =
      (x : ZMod Pn) ^ 3 + secp.a₂ * x ^ 2 + secp.a₄ * x + secp.a₆
    simp only [secp]
    linear_combination hcv
  refine ⟨hrv, ?_⟩
  show lift (.affine x (P - y)) = -(lift (.affine x y))
  have hrv' : Point.Valid (.affine x (P - y)) := hrv
  rw [lift_affine hrv', lift_affine hv,
    WeierstrassCurve.Affine.Point.neg_some]
  apply some_ext rfl
  rw [secp_negY, hycast]

/-- Bridge for the double-and-add loop: with sufficient fuel it succeeds on
valid inputs and computes `r + s • p` in the curve group. -/
theorem mulLoop_bridge (fuel : Nat) : ∀ (p r : Point) (s : Nat), s < 2 ^ fuel →
    p.Valid → r.Valid →
    ∃ t, Point.mulLoop fuel p r s = .ok t ∧ t.Valid ∧ lift t = lift r + s • lift p := by
  induction fuel with
  | zero =>
    intro p r s hs hp hr
    interval_cases s
    exact ⟨r, rfl, hr, by rw [zero_nsmul, add_zero]⟩
  | succ n ih =>
    intro p r s hs hp hr
    rw [Point.mulLoop]
    by_cases h0 : s = 0
    · subst h0
      rw [if_pos rfl]
      exact ⟨r, rfl, hr, by rw [zero_nsmul, add_zero]⟩
    · rw [if_neg h0]
      obtain ⟨r1, hr1, hr1v, hr1l⟩ :
          ∃ r1, (if s % 2 = 1 then r.add p else pure r) = .ok r1 ∧ r1.Valid ∧
            lift r1 = lift r + (s % 2) • lift p := by
        by_cases hpar : s % 2 = 1
        · rw [if_pos hpar]
          obtain ⟨t, ht, htv, htl⟩ := add_bridge hr hp
          exact ⟨t, ht, htv, by rw [htl, hpar, one_nsmul]⟩
        · rw [if_neg hpar]
          have hz : s % 2 = 0 := by omega
          exact ⟨r, rfl, hr, by rw [hz, zero_nsmul, add_zero]⟩
      obtain ⟨p1, hp1, hp1v, hp1l⟩ := double_bridge hp
      have hdiv : s / 2 < 2 ^ n := by
        rw [Nat.div_lt_iff_lt_mul (by norm_num)]
        calc s < 2 ^ (n + 1) := hs
        _ = 2 ^ n * 2 := by rw [pow_succ]
      obtain ⟨t, ht, htv, htl⟩ := ih p1 r1 (s / 2) hdiv hp1v hr1v
      refine ⟨t, ?_, htv, ?_⟩
      · show (if s % 2 = 1 then
            Except.bind (r.add p) (fun r' => Except.bind p.double
              (fun p' => Point.mulLoop n p' r' (s / 2)))
          else
            Except.bind (pure r) (fun r' => Except.bind p.double
              (fun p' => Point.mulLoop n p' r' (s / 2)))) = Except.ok t
        by_cases hpar : s % 2 = 1
        · rw [if_pos hpar]
          rw [if_pos hpar] at hr1
          rw [hr1]
          show Except.bind p.double (fun p' => Point.mulLoop n p' r1 (s / 2)) = Except.ok t
          rw [hp1]
          exact ht
        · rw [if_neg hpar]
          rw [if_neg hpar] at hr1
          have hrr : r = r1 := by
            have : Except.ok (ε := String) r = Except.ok r1 := hr1
            injection this
          show Except.bind p.double (fun p' => Point.mulLoop n p' r (s / 2)) = Except.ok t
          rw [hp1]
          show Point.mulLoop n p1 r (s / 2) = Except.ok t
          rw [hrr]
          exact ht
      · rw [htl, hr1l, hp1l]
        have hsplit : s = 2 * (s / 2) + s % 2 := (Nat.div_add_mod s 2).symm
        have h2 : (s / 2) • (lift p + lift p) = (2 * (s / 2)) • lift p := by
          rw [← two_nsmul, ← mul_nsmul]
        rw [h2]
        conv_rhs => rw [hsplit]
        rw [add_nsmul]
        abel

/-- Infinity is a valid point. -/
theorem valid_infinity : Point.Valid Point.infinity := trivial

/-! ### Certified scalar-multiplication chain

The order of the generator is established by a certified double-and-add
chain.  Each step is checked by pure `Nat` modular arithmetic (with the
slope of the tangent/chord supplied as a certificate), and transported to
the curve group by the two bridge lemmas below. -/

theorem natCast_ne_zero_P {a : ℕ} (h0 : 0 < a) (hP : a < Pn) : (a : ZMod Pn) ≠ 0 := by
  intro h
  have hd := (ZMod.natCast_zmod_eq_zero_iff_dvd a Pn).mp h
  have := Nat.le_of_dvd h0 hd
  omega

theorem natCast_inj_P {a b : ℕ} (ha : a < Pn) (hb : b < Pn)
    (h : (a : ZMod Pn) = (b : ZMod Pn)) : a = b := by
  have := congrArg ZMod.val h
  rwa [ZMod.val_cast_of_lt ha, ZMod.val_cast_of_lt hb] at this

theorem natCast_sub_P {a : ℕ} (h : a ≤ Pn) : ((Pn - a : ℕ) : ZMod Pn) = -(a : ZMod Pn) := by
  rw [Nat.cast_sub h, ZMod.natCast_self]
  ring

theorem natCast_int_lt {a : ℕ} (h : a < Pn) : (a : Int) < P := by
  rw [P_eq]
  exact_mod_cast h

/-- A curve-equation check over `Nat` yields a valid embedded point. -/
theorem validNat {x y : Nat} (hx : x < Pn) (hy : y < Pn)
    (hcur : (y * y) % Pn = (x * x * x + 7) % Pn) :
    Point.Valid (.affine (x : Int) (y : Int)) := by
  apply valid_of_curve (by positivity) (natCast_int_lt hx) (by positivity) (natCast_int_lt hy)
  rw [WeierstrassCurve.Affine.equation_iff]
  have hc := congrArg (Nat.cast : ℕ → ZMod Pn) hcur
  rw [ZMod.natCast_mod, ZMod.natCast_mod] at hc
  push_cast at hc ⊢
  show (y : ZMod Pn) ^ 2 + secp.a₁ * x * y + secp.a₃ * y =
    (x : ZMod Pn) ^ 3 + secp.a₂ * x ^ 2 + secp.a₄ * x + secp.a₆
  simp only [secp]
  linear_combination hc

/-- Certified doubling step: `(x2, y2)` is the double of `(x, y)`, checked by
`Nat` arithmetic with the tangent slope `s` as certificate. -/
theorem dblNat_bridge (x y s x2 y2 : Nat)
    (hx : x < Pn) (hy : y < Pn) (hy0 : 0 < y) (hx2 : x2 < Pn) (hy2 : y2 < Pn)
    (hcur : (y * y) % Pn = (x * x * x + 7) % Pn)
    (hs : (s * (2 * y)) % Pn = (3 * x * x) % Pn)
    (hbx : x2 = (s * s + 2 * (Pn - x)) % Pn)
    (hby : y2 = (s * (x + (Pn - x2)) + (Pn - y)) % Pn) :
    Point.Valid (.affine (x2 : Int) (y2 : Int)) ∧
      lift (.affine (x2 : Int) (y2 : Int)) =
        lift (.affine (x : Int) (y : Int)) + lift (.affine (x : Int) (y : Int)) := by
  have hv : Point.Valid (.affine (x : Int) (y : Int)) := validNat hx hy hcur
  have hyZ : (((y : Int)) : ZMod Pn) ≠ 0 := by
    push_cast
    exact natCast_ne_zero_P hy0 hy
  have hyneg : (((y : Int)) : ZMod Pn) ≠
      secp.negY (((x : Int)) : ZMod Pn) (((y : Int)) : ZMod Pn) := by
    rw [secp_negY]
    intro hcon
    apply hyZ
    have h2 : (2 : ZMod Pn) * ((y : Int) : ZMod Pn) = 0 := by linear_combination hcon
    rcases mul_eq_zero.mp h2 with h | h
    · exact absurd h two_ne_zero_ZP
    · exact h
  have hsc := congrArg (Nat.cast : ℕ → ZMod Pn) hs
  rw [ZMod.natCast_mod, ZMod.natCast_mod] at hsc
  push_cast at hsc
  have hslope : ((s : ℕ) : ZMod Pn) =
      secp.slope (((x : Int)) : ZMod Pn) (((x : Int)) : ZMod Pn)
        (((y : Int)) : ZMod Pn) (((y : Int)) : ZMod Pn) := by
    rw [WeierstrassCurve.Affine.slope_of_Y_ne rfl hyneg, secp_negY]
    show ((s : ℕ) : ZMod Pn) =
      (3 * (((x : Int)) : ZMod Pn) ^ 2 + 2 * secp.a₂ * ((x : Int) : ZMod Pn) + secp.a₄ -
        secp.a₁ * ((y : Int) : ZMod Pn)) / (((y : Int) : ZMod Pn) - -((y : Int) : ZMod Pn))
    simp only [secp]
    have hne : (((y : Int)) : ZMod Pn) - -(((y : Int)) : ZMod Pn) ≠ 0 := by
      intro hcon
      apply hyZ
      have h2 : (2 : ZMod Pn) * ((y : Int) : ZMod Pn) = 0 := by linear_combination hcon
      rcases mul_eq_zero.mp h2 with h | h
      · exact absurd h two_ne_zero_ZP
      · exact h
    rw [eq_div_iff hne]
    push_cast
    linear_combination hsc
  have hbxc := congrArg (Nat.cast : ℕ → ZMod Pn) hbx
  rw [ZMod.natCast_mod] at hbxc
  rw [Nat.cast_add, Nat.cast_mul, Nat.cast_mul, natCast_sub_P hx.le] at hbxc
  have hbyc := congrArg (Nat.cast : ℕ → ZMod Pn) hby
  rw [ZMod.natCast_mod] at hbyc
  rw [Nat.cast_add, Nat.cast_mul, Nat.cast_add, natCast_sub_P hx2.le,
    natCast_sub_P hy.le] at hbyc
  push_cast at hbxc hbyc
  have hXc : (((x2 : Int)) : ZMod Pn) = secp.addX ((x : Int) : ZMod Pn) ((x : Int) : ZMod Pn)
      (secp.slope (((x : Int)) : ZMod Pn) (((x : Int)) : ZMod Pn)
        (((y : Int)) : ZMod Pn) (((y : Int)) : ZMod Pn)) := by
    rw [← hslope]
    show (((x2 : Int)) : ZMod Pn) = ((s : ℕ) : ZMod Pn) ^ 2 + secp.a₁ * ((s : ℕ) : ZMod Pn) -
      secp.a₂ - ((x : Int) : ZMod Pn) - ((x : Int) : ZMod Pn)
    simp only [secp]
    push_cast
    rw [hbxc]
    ring
  have hXc2 := hXc
  rw [← hslope] at hXc2
  have hYc : (((y2 : Int)) : ZMod Pn) =
      secp.addY ((x : Int) : ZMod Pn) ((x : Int) : ZMod Pn) ((y : Int) : ZMod Pn)
        (secp.slope (((x : Int)) : ZMod Pn) (((x : Int)) : ZMod Pn)
          (((y : Int)) : ZMod Pn) (((y : Int)) : ZMod Pn)) := by
    rw [← hslope]
    show (((y2 : Int)) : ZMod Pn) = secp.negY
      (secp.addX ((x : Int) : ZMod Pn) ((x : Int) : ZMod Pn) ((s : ℕ) : ZMod Pn))
      (secp.negAddY ((x : Int) : ZMod Pn) ((x : Int) : ZMod Pn) ((y : Int) : ZMod Pn)
        ((s : ℕ) : ZMod Pn))
    rw [secp_negY]
    show (((y2 : Int)) : ZMod Pn) =
      -(((s : ℕ) : ZMod Pn) * (secp.addX ((x : Int) : ZMod Pn) ((x : Int) : ZMod Pn)
        ((s : ℕ) : ZMod Pn) - ((x : Int) : ZMod Pn)) + ((y : Int) : ZMod Pn))
    rw [← hXc2]
    push_cast
    rw [hbyc]
    ring
  have hns := WeierstrassCurve.Affine.nonsingular_add (valid_nonsingular hv)
    (valid_nonsingular hv) (fun _ => hyneg)
  have hrv : Point.Valid (.affine (x2 : Int) (y2 : Int)) := by
    apply valid_of_curve (by positivity) (natCast_int_lt hx2) (by positivity)
      (natCast_int_lt hy2)
    rw [hXc, hYc]
    exact hns.1
  refine ⟨hrv, ?_⟩
  rw [lift_affine hrv, lift_affine hv]
  rw [WeierstrassCurve.Affine.Point.add_of_Y_ne hyneg]
  exact some_ext hXc hYc _ _

/-- Certified addition step for points with distinct `x`: `(x3, y3)` is the
sum of `(x1, y1)` and `(x2, y2)`, with the chord slope `s` as certificate. -/
theorem addNat_bridge (x1 y1 x2 y2 s x3 y3 : Nat)
    (hx1 : x1 < Pn) (hy1 : y1 < Pn) (hx2 : x2 < Pn) (hy2 : y2 < Pn)
    (hx3 : x3 < Pn) (hy3 : y3 < Pn) (hne : x1 ≠ x2)
    (hcur1 : (y1 * y1) % Pn = (x1 * x1 * x1 + 7) % Pn)
    (hcur2 : (y2 * y2) % Pn = (x2 * x2 * x2 + 7) % Pn)
    (hs : (s * (x2 + (Pn - x1))) % Pn = (y2 + (Pn - y1)) % Pn)
    (hbx : x3 = (s * s + (Pn - x1) + (Pn - x2)) % Pn)
    (hby : y3 = (s * (x1 + (Pn - x3)) + (Pn - y1)) % Pn) :
    Point.Valid (.affine (x3 : Int) (y3 : Int)) ∧
      lift (.affine (x3 : Int) (y3 : Int)) =
        lift (.affine (x1 : Int) (y1 : Int)) + lift (.affine (x2 : Int) (y2 : Int)) := by
  have hv1 : Point.Valid (.affine (x1 : Int) (y1 : Int)) := validNat hx1 hy1 hcur1
  have hv2 : Point.Valid (.affine (x2 : Int) (y2 : Int)) := validNat hx2 hy2 hcur2
  have hxne : (((x1 : Int)) : ZMod Pn) ≠ (((x2 : Int)) : ZMod Pn) := by
    push_cast
    intro h
    exact hne (natCast_inj_P hx1 hx2 h)
  have hsub : (((x1 : Int)) : ZMod Pn) - (((x2 : Int)) : ZMod Pn) ≠ 0 :=
    sub_ne_zero.mpr hxne
  have hsc := congrArg (Nat.cast : ℕ → ZMod Pn) hs
  rw [ZMod.natCast_mod, ZMod.natCast_mod] at hsc
  rw [Nat.cast_mul, Nat.cast_add, Nat.cast_add, natCast_sub_P hx1.le,
    natCast_sub_P hy1.le] at hsc
  have hslope : ((s : ℕ) : ZMod Pn) =
      secp.slope (((x1 : Int)) : ZMod Pn) (((x2 : Int)) : ZMod Pn)
        (((y1 : Int)) : ZMod Pn) (((y2 : Int)) : ZMod Pn) := by
    rw [WeierstrassCurve.Affine.slope_of_X_ne hxne]
    rw [eq_div_iff hsub]
    push_cast
    linear_combination -hsc
  have hbxc := congrArg (Nat.cast : ℕ → ZMod Pn) hbx
  rw [ZMod.natCast_mod] at hbxc
  rw [Nat.cast_add, Nat.cast_add, Nat.cast_mul, natCast_sub_P hx1.le,
    natCast_sub_P hx2.le] at hbxc
  have hbyc := congrArg (Nat.cast : ℕ → ZMod Pn) hby
  rw [ZMod.natCast_mod] at hbyc
  rw [Nat.cast_add, Nat.cast_mul, Nat.cast_add, natCast_sub_P hx3.le,
    natCast_sub_P hy1.le] at hbyc
  push_cast at hbxc hbyc
  have hXc : (((x3 : Int)) : ZMod Pn) =
      secp.addX ((x1 : Int) : ZMod Pn) ((x2 : Int) : ZMod Pn)
        (secp.slope (((x1 : Int)) : ZMod Pn) (((x2 : Int)) : ZMod Pn)
          (((y1 : Int)) : ZMod Pn) (((y2 : Int)) : ZMod Pn)) := by
    rw [← hslope]
    show (((x3 : Int)) : ZMod Pn) = ((s : ℕ) : ZMod Pn) ^ 2 + secp.a₁ * ((s : ℕ) : ZMod Pn) -
      secp.a₂ - ((x1 : Int) : ZMod Pn) - ((x2 : Int) : ZMod Pn)
    simp only [secp]
    push_cast
    rw [hbxc]
    ring
  have hXc2 := hXc
  rw [← hslope] at hXc2
  have hYc : (((y3 : Int)) : ZMod Pn) =
      secp.addY ((x1 : Int) : ZMod Pn) ((x2 : Int) : ZMod Pn) ((y1 : Int) : ZMod Pn)
        (secp.slope (((x1 : Int)) : ZMod Pn) (((x2 : Int)) : ZMod Pn)
          (((y1 : Int)) : ZMod Pn) (((y2 : Int)) : ZMod Pn)) := by
    rw [← hslope]
    show (((y3 : Int)) : ZMod Pn) = secp.negY
      (secp.addX ((x1 : Int) : ZMod Pn) ((x2 : Int) : ZMod Pn) ((s : ℕ) : ZMod Pn))
      (secp.negAddY ((x1 : Int) : ZMod Pn) ((x2 : Int) : ZMod Pn) ((y1 : Int) : ZMod Pn)
        ((s : ℕ) : ZMod Pn))
    rw [secp_negY]
    show (((y3 : Int)) : ZMod Pn) =
      -(((s : ℕ) : ZMod Pn) * (secp.addX ((x1 : Int) : ZMod Pn) ((x2 : Int) : ZMod Pn)
        ((s : ℕ) : ZMod Pn) - ((x1 : Int) : ZMod Pn)) + ((y1 : Int) : ZMod Pn))
    rw [← hXc2]
    push_cast
    rw [hbyc]
    ring
  have hns := WeierstrassCurve.Affine.nonsingular_add (valid_nonsingular hv1)
    (valid_nonsingular hv2) (fun h => (hxne h).elim)
  have hrv : Point.Valid (.affine (x3 : Int) (y3 : Int)) := by
    apply valid_of_curve (by positivity) (natCast_int_lt hx3) (by positivity)
      (natCast_int_lt hy3)
    rw [hXc, hYc]
    exact hns.1
  refine ⟨hrv, ?_⟩
  rw [lift_affine hrv, lift_affine hv1, lift_affine hv2]
  rw [WeierstrassCurve.Affine.Point.add_of_X_ne hxne]
  exact some_ext hXc hYc _ _

/-- Bridge for `Point.multiply`: on a valid point it always succeeds and
computes `(scalar mod Q) • p` in the curve group. -/
theorem multiply_bridge {p : Point} (hp : p.Valid) (s : Int) :
    ∃ t, p.multiply s = .ok t ∧ t.Valid ∧ lift t = (jmod s Frost.Q).toNat • lift p := by
  obtain ⟨t, ht, htv, htl⟩ := mulLoop_bridge ((jmod s Frost.Q).toNat + 1) p .infinity
    (jmod s Frost.Q).toNat
    (lt_of_lt_of_le (Nat.lt_two_pow _) (Nat.pow_le_pow_right (by norm_num) (Nat.le_succ _)))
    hp valid_infinity
  exact ⟨t, ht, htv, by rw [htl, lift_infinity, zero_add]⟩

/-- The lifted generator. -/
def Gm : secp.Point := lift Frost.G

theorem ordChain0 : Point.Valid (.affine ((55066263022277343669578718895168534326250603453777594175500187360389116729240 : ℕ) : Int) ((32670510020758816978083085130507043184471273380659243275938904335757337482424 : ℕ) : Int)) ∧ lift (.affine ((55066263022277343669578718895168534326250603453777594175500187360389116729240 : ℕ) : Int) ((32670510020758816978083085130507043184471273380659243275938904335757337482424 : ℕ) : Int)) = 1 • Gm := by
  have hG : (Point.affine ((55066263022277343669578718895168534326250603453777594175500187360389116729240 : ℕ) : Int) ((32670510020758816978083085130507043184471273380659243275938904335757337482424 : ℕ) : Int)) = Frost.G := by decide
  rw [hG, one_nsmul]
  exact ⟨by decide, rfl⟩

/-- Steps 1–10 of the double-and-add certificate chain for the order of `G`. -/
theorem ordBlock0 :
    lift (Point.affine ((55066263022277343669578718895168534326250603453777594175500187360389116729240 : ℕ) : Int) ((32670510020758816978083085130507043184471273380659243275938904335757337482424 : ℕ) : Int)) = 1 • Gm →
    (Point.Valid (.affine ((55066263022277343669578718895168534326250603453777594175500187360389116729240 : ℕ) : Int) ((32670510020758816978083085130507043184471273380659243275938904335757337482424 : ℕ) : Int)) ∧
      lift (.affine ((55066263022277343669578718895168534326250603453777594175500187360389116729240 : ℕ) : Int) ((32670510020758816978083085130507043184471273380659243275938904335757337482424 : ℕ) : Int)) = 1 • Gm) →
    Point.Valid (.affine ((103082696326686084252692006348842617458364360484939043050040089399696685644264 : ℕ) : Int) ((40612530833850030770560071666434436443194162318210174699750855405684277524469 : ℕ) : Int)) ∧
      lift (.affine ((103082696326686084252692006348842617458364360484939043050040089399696685644264 : ℕ) : Int) ((40612530833850030770560071666434436443194162318210174699750855405684277524469 : ℕ) : Int)) = 63 • Gm := by
  intro hlG h
  obtain ⟨hv, hl⟩ := h
  obtain ⟨hv1, hb1⟩ := dblNat_bridge 55066263022277343669578718895168534326250603453777594175500187360389116729240 32670510020758816978083085130507043184471273380659243275938904335757337482424 91914383230618135761690975197207778399550061809281766160147273830617914855857 89565891926547004231252920425935692360644145829622209833684329913297188986597 12158399299693830322967808612713398636155367887041628176798871954788371653930 (by decide) (by decide) (by decide) (by decide) (by decide) (by decide) (by decide) (by decide) (by decide)
  have hc1 : lift (.affine ((89565891926547004231252920425935692360644145829622209833684329913297188986597 : ℕ) : Int) ((12158399299693830322967808612713398636155367887041628176798871954788371653930 : ℕ) : Int)) = 2 • Gm := by
    rw [hb1, hl, ← add_nsmul]
  obtain ⟨hv2, hb2⟩ := addNat_bridge 89565891926547004231252920425935692360644145829622209833684329913297188986597 12158399299693830322967808612713398636155367887041628176798871954788371653930 55066263022277343669578718895168534326250603453777594175500187360389116729240 32670510020758816978083085130507043184471273380659243275938904335757337482424 23578750110654438173404407907450265080473019639451825850605815020978465167024 112711660439710606056748659173929673102114977341539408544630613555209775888121 25583027980570883691656905877401976406448868254816295069919888960541586679410 (by decide) (by decide) (by decide) (by decide) (by decide) (by decide) (by decide) (by decide) (by decide) (by decide) (by decide) (by decide)
  have hc2 : lift (.affine ((112711660439710606056748659173929673102114977341539408544630613555209775888121 : ℕ) : Int) ((25583027980570883691656905877401976406448868254816295069919888960541586679410 : ℕ) : Int)) = 3 • Gm := by
    rw [hb2, hc1, hlG, ← add_nsmul]
  obtain ⟨hv3, hb3⟩ := dblNat_bridge 112711660439710606056748659173929673102114977341539408544630613555209775888121 25583027980570883691656905877401976406448868254816295069919888960541586679410 75359724952757581356787150982223137069297282952438962440225639443485944634025 115780575977492633039504758427830329241728645270042306223540962614150928364886 78735063515800386211891312544505775871260717697865196436804966483607426560663 (by decide) (by decide) (by decide) (by decide) (by decide) (by decide) (by decide) (by decide) (by decide)
  have hc3 : lift (.affine ((115780575977492633039504758427830329241728645270042306223540962614150928364886 : ℕ) : Int) ((78735063515800386211891312544505775871260717697865196436804966483607426560663 : ℕ) : Int)) = 6 • Gm := by
    rw [hb3, hc2, ← add_nsmul]
  obtain ⟨hv4, hb4⟩ := addNat_bridge 115780575977492633039504758427830329241728645270042306223540962614150928364886 78735063515800386211891312544505775871260717697865196436804966483607426560663 55066263022277343669578718895168534326250603453777594175500187360389116729240 32670510020758816978083085130507043184471273380659243275938904335757337482424 78326491967123874224362281304759512665074728887330675987424595890631517857841 41948375291644419605210209193538855353224492619856392092318293986323063962044 48361766907851246668144012348516735800090617714386977531302791340517493990618 (by decide) (by decide) (by decide) (by decide) (by decide) (by decide) (by decide) (by decide) (by decide) (by decide) (by decide) (by decide)
  have hc4 : lift (.affine ((41948375291644419605210209193538855353224492619856392092318293986323063962044 : ℕ) : Int) ((48361766907851246668144012348516735800090617714386977531302791340517493990618 : ℕ) : Int)) = 7 • Gm := by
    rw [hb4, hc3, hlG, ← add_nsmul]
  obtain ⟨hv5, hb5⟩ := dblNat_bridge 41948375291644419605210209193538855353224492619856392092318293986323063962044 48361766907851246668144012348516735800090617714386977531302791340517493990618 45943445683006731186825332954307741798023455644055784651515817260596585653620 33301309993451753050311554695703528430361259803437469669590207169100761277412 91711666877231500617203373035680263572492971120307578300405368749466283229019 (by decide) (by decide) (by decide) (by decide) (by decide) (by decide) (by decide) (by decide) (by decide)
  have hc5 : lift (.affine ((33301309993451753050311554695703528430361259803437469669590207169100761277412 : ℕ) : Int) ((91711666877231500617203373035680263572492971120307578300405368749466283229019 : ℕ) : Int)) = 14 • Gm := by
    rw [hb5, hc4, ← add_nsmul]
  obtain ⟨hv6, hb6⟩ := addNat_bridge 33301309993451753050311554695703528430361259803437469669590207169100761277412 91711666877231500617203373035680263572492971120307578300405368749466283229019 55066263022277343669578718895168534326250603453777594175500187360389116729240 32670510020758816978083085130507043184471273380659243275938904335757337482424 17085032827004387069244612030992560943305749021689721634877472339346992274590 97505755694356382817881959832717013755620551362654128955029190924747025549326 39856815248295663243990443767776362321337592747889787217974905533720651000664 (by decide) (by decide) (by decide) (by decide) (by decide) (by decide) (by decide) (by decide) (by decide) (by decide) (by decide) (by decide)
  have hc6 : lift (.affine ((97505755694356382817881959832717013755620551362654128955029190924747025549326 : ℕ) : Int) ((39856815248295663243990443767776362321337592747889787217974905533720651000664 : ℕ) : Int)) = 15 • Gm := by
    rw [hb6, hc5, hlG, ← add_nsmul]
  obtain ⟨hv7, hb7⟩ := dblNat_bridge 97505755694356382817881959832717013755620551362654128955029190924747025549326 39856815248295663243990443767776362321337592747889787217974905533720651000664 104320766152101458017978152285934782075731820019299334234980417336612151291922 49378132684229722274313556995573891527709373183446262831552359577455015004672 78123232289538034746933569305416412888858560602643272431489024958214987548923 (by decide) (by decide) (by decide) (by decide) (by decide) (by decide) (by decide) (by decide) (by decide)
  have hc7 : lift (.affine ((49378132684229722274313556995573891527709373183446262831552359577455015004672 : ℕ) : Int) ((78123232289538034746933569305416412888858560602643272431489024958214987548923 : ℕ) : Int)) = 30 • Gm := by
    rw [hb7, hc6, ← add_nsmul]
  obtain ⟨hv8, hb8⟩ := addNat_bridge 49378132684229722274313556995573891527709373183446262831552359577455015004672 78123232289538034746933569305416412888858560602643272431489024958214987548923 55066263022277343669578718895168534326250603453777594175500187360389116729240 32670510020758816978083085130507043184471273380659243275938904335757337482424 66925192613491715565307350450587919320571576652621925145164357901958092639165 48009403158434809478298710137233764200988036438868259456275038304221065242292 101379581344212856035375194820281365028426536613141130008386086305632315345538 (by decide) (by decide) (by decide) (by decide) (by decide) (by decide) (by decide) (by decide) (by decide) (by decide) (by decide) (by decide)
  have hc8 : lift (.affine ((48009403158434809478298710137233764200988036438868259456275038304221065242292 : ℕ) : Int) ((101379581344212856035375194820281365028426536613141130008386086305632315345538 : ℕ) : Int)) = 31 • Gm := by
    rw [hb8, hc7, hlG, ← add_nsmul]
  obtain ⟨hv9, hb9⟩ := dblNat_bridge 48009403158434809478298710137233764200988036438868259456275038304221065242292 101379581344212856035375194820281365028426536613141130008386086305632315345538 42715320421518789494492351657042605291453531576008558919371402681289347653086 7470696802146976875048795875680307511987987110754117830917946933599684326041 35498370868222357101075189419100726924131867018781426271212491175192595798687 (by decide) (by decide) (by decide) (by decide) (by decide) (by decide) (by decide) (by decide) (by decide)
  have hc9 : lift (.affine ((7470696802146976875048795875680307511987987110754117830917946933599684326041 : ℕ) : Int) ((35498370868222357101075189419100726924131867018781426271212491175192595798687 : ℕ) : Int)) = 62 • Gm := by
    rw [hb9, hc8, ← add_nsmul]
  obtain ⟨hv10, hb10⟩ := addNat_bridge 7470696802146976875048795875680307511987987110754117830917946933599684326041 35498370868222357101075189419100726924131867018781426271212491175192595798687 55066263022277343669578718895168534326250603453777594175500187360389116729240 32670510020758816978083085130507043184471273380659243275938904335757337482424 91247506773722602368721054428735348988022600883707185984055025274935144621150 103082696326686084252692006348842617458364360484939043050040089399696685644264 40612530833850030770560071666434436443194162318210174699750855405684277524469 (by decide) (by decide) (by decide) (by decide) (by decide) (by decide) (by decide) (by decide) (by decide) (by decide) (by decide) (by decide)
  have hc10 : lift (.affine ((103082696326686084252692006348842617458364360484939043050040089399696685644264 : ℕ) : Int) ((40612530833850030770560071666434436443194162318210174699750855405684277524469 : ℕ) : Int)) = 63 • Gm := by
    rw [hb10, hc9, hlG, ← add_nsmul]
  exact ⟨hv10, hc10⟩

/-- Steps 11–20 of the double-and-add certificate chain for the order of `G`. -/
theorem ordBlock1 :
    lift (Point.affine ((55066263022277343669578718895168534326250603453777594175500187360389116729240 : ℕ) : Int) ((32670510020758816978083085130507043184471273380659243275938904335757337482424 : ℕ) : Int)) = 1 • Gm →
    (Point.Valid (.affine ((103082696326686084252692006348842617458364360484939043050040089399696685644264 : ℕ) : Int) ((40612530833850030770560071666434436443194162318210174699750855405684277524469 : ℕ) : Int)) ∧
      lift (.affine ((103082696326686084252692006348842617458364360484939043050040089399696685644264 : ℕ) : Int) ((40612530833850030770560071666434436443194162318210174699750855405684277524469 : ℕ) : Int)) = 63 • Gm) →
    Point.Valid (.affine ((55473143378173086206919725552257545104362930926827125220157528804323235463534 : ℕ) : Int) ((9936048220140744122788394839680004149074916123989654415664353761848673071408 : ℕ) : Int)) ∧
      lift (.affine ((55473143378173086206919725552257545104362930926827125220157528804323235463534 : ℕ) : Int) ((9936048220140744122788394839680004149074916123989654415664353761848673071408 : ℕ) : Int)) = 2047 • Gm := by
  intro hlG h
  obtain ⟨hv, hl⟩ := h
  obtain ⟨hv11, hb11⟩ := dblNat_bridge 103082696326686084252692006348842617458364360484939043050040089399696685644264 40612530833850030770560071666434436443194162318210174699750855405684277524469 23049338652333377412839204312310232791684979067633503271904820467640486966366 49739765455947337879790908850139477504649012398313168454724745098982761739033 71531864240966930926898922546635941869813841859894270770914769905489190838066 (by decide) (by decide) (by decide) (by decide) (by decide) (by decide) (by decide) (by decide) (by decide)
  have hc11 : lift (.affine ((49739765455947337879790908850139477504649012398313168454724745098982761739033 : ℕ) : Int) ((71531864240966930926898922546635941869813841859894270770914769905489190838066 : ℕ) : Int)) = 126 • Gm := by
    rw [hb11, hl, ← add_nsmul]
  obtain ⟨hv12, hb12⟩ := addNat_bridge 49739765455947337879790908850139477504649012398313168454724745098982761739033 71531864240966930926898922546635941869813841859894270770914769905489190838066 55066263022277343669578718895168534326250603453777594175500187360389116729240 32670510020758816978083085130507043184471273380659243275938904335757337482424 740456309188189641826653840278674474617083467613709773170036470660121179735 59757199831985803063258861155590945323274916778537213861841761251128847378561 3265850877202437352564708587060002316627909249385655507505588671348225171796 (by decide) (by decide) (by decide) (by decide) (by decide) (by decide) (by decide) (by decide) (by decide) (by decide) (by decide) (by decide)
  have hc12 : lift (.affine ((59757199831985803063258861155590945323274916778537213861841761251128847378561 : ℕ) : Int) ((3265850877202437352564708587060002316627909249385655507505588671348225171796 : ℕ) : Int)) = 127 • Gm := by
    rw [hb12, hc11, hlG, ← add_nsmul]
  obtain ⟨hv13, hb13⟩ := dblNat_bridge 59757199831985803063258861155590945323274916778537213861841761251128847378561 3265850877202437352564708587060002316627909249385655507505588671348225171796 76640394864850513244331811172054646840794265428790679477771145053062334180217 39048226050737083614040617721217157354131877742605504762042212999754192445011 12303682557151135337396725652016408676403616515703583160730197030562020466293 (by decide) (by decide) (by decide) (by decide) (by decide) (by decide) (by decide) (by decide) (by decide)
  have hc13 : lift (.affine ((39048226050737083614040617721217157354131877742605504762042212999754192445011 : ℕ) : Int) ((12303682557151135337396725652016408676403616515703583160730197030562020466293 : ℕ) : Int)) = 254 • Gm := by
    rw [hb13, hc12, ← add_nsmul]
  obtain ⟨hv14, hb14⟩ := addNat_bridge 39048226050737083614040617721217157354131877742605504762042212999754192445011 12303682557151135337396725652016408676403616515703583160730197030562020466293 55066263022277343669578718895168534326250603453777594175500187360389116729240 32670510020758816978083085130507043184471273380659243275938904335757337482424 19376156939956163395050980623022506502980954077812225718865572401466671609435 12312385769684547396095365029355369071957339694349689622296638024179682296192 29045073188889159330506972844502087256824914692696728592611344825524969277689 (by decide) (by decide) (by decide) (by decide) (by decide) (by decide) (by decide) (by decide) (by decide) (by decide) (by decide) (by decide)
  have hc14 : lift (.affine ((12312385769684547396095365029355369071957339694349689622296638024179682296192 : ℕ) : Int) ((29045073188889159330506972844502087256824914692696728592611344825524969277689 : ℕ) : Int)) = 255 • Gm := by
    rw [hb14, hc13, hlG, ← add_nsmul]
  obtain ⟨hv15, hb15⟩ := dblNat_bridge 12312385769684547396095365029355369071957339694349689622296638024179682296192 29045073188889159330506972844502087256824914692696728592611344825524969277689 114774958785952883755889914904137305972781406478845276740054622283590976374664 50007848197623170752760865718142146931988990122741246686313859505378527369827 1180284656011960669982361481714661532044518037724235794877600679200830847027 (by decide) (by decide) (by decide) (by decide) (by decide) (by decide) (by decide) (by decide) (by decide)
  have hc15 : lift (.affine ((50007848197623170752760865718142146931988990122741246686313859505378527369827 : ℕ) : Int) ((1180284656011960669982361481714661532044518037724235794877600679200830847027 : ℕ) : Int)) = 510 • Gm := by
    rw [hb15, hc14, ← add_nsmul]
  obtain ⟨hv16, hb16⟩ := addNat_bridge 50007848197623170752760865718142146931988990122741246686313859505378527369827 1180284656011960669982361481714661532044518037724235794877600679200830847027 55066263022277343669578718895168534326250603453777594175500187360389116729240 32670510020758816978083085130507043184471273380659243275938904335757337482424 34022025512947937227049130302796562434802002648691937217567996978831778806204 64576477938603242864175688719582979937377221185498131417909028480620374455851 20705314253016183882776822003415859022086198187082337930049701670070453690139 (by decide) (by decide) (by decide) (by decide) (by decide) (by decide) (by decide) (by decide) (by decide) (by decide) (by decide) (by decide)
  have hc16 : lift (.affine ((64576477938603242864175688719582979937377221185498131417909028480620374455851 : ℕ) : Int) ((20705314253016183882776822003415859022086198187082337930049701670070453690139 : ℕ) : Int)) = 511 • Gm := by
    rw [hb16, hc15, hlG, ← add_nsmul]
  obtain ⟨hv17, hb17⟩ := dblNat_bridge 64576477938603242864175688719582979937377221185498131417909028480620374455851 20705314253016183882776822003415859022086198187082337930049701670070453690139 42874159254110033916322357487314738322608653971032317760601344463563971484824 85659388360038944044662927026947545587776571777413959537951143225757872424146 55044018045565304935582999776905236340233929346800657542857723493644788513378 (by decide) (by decide) (by decide) (by decide) (by decide) (by decide) (by decide) (by decide) (by decide)
  have hc17 : lift (.affine ((85659388360038944044662927026947545587776571777413959537951143225757872424146 : ℕ) : Int) ((55044018045565304935582999776905236340233929346800657542857723493644788513378 : ℕ) : Int)) = 1022 • Gm := by
    rw [hb17, hc16, ← add_nsmul]
  obtain ⟨hv18, hb18⟩ := addNat_bridge 85659388360038944044662927026947545587776571777413959537951143225757872424146 55044018045565304935582999776905236340233929346800657542857723493644788513378 55066263022277343669578718895168534326250603453777594175500187360389116729240 32670510020758816978083085130507043184471273380659243275938904335757337482424 53048809446059290314154358287521831667956301015700829612537471287619332320167 90298937194335276667727138861693096527162756736282331952377049573841222516234 8411943968061953383391859795282289661205931295409679174588129172188532695583 (by decide) (by decide) (by decide) (by decide) (by decide) (by decide) (by decide) (by decide) (by decide) (by decide) (by decide) (by decide)
  have hc18 : lift (.affine ((90298937194335276667727138861693096527162756736282331952377049573841222516234 : ℕ) : Int) ((8411943968061953383391859795282289661205931295409679174588129172188532695583 : ℕ) : Int)) = 1023 • Gm := by
    rw [hb18, hc17, hlG, ← add_nsmul]
  obtain ⟨hv19, hb19⟩ := dblNat_bridge 90298937194335276667727138861693096527162756736282331952377049573841222516234 8411943968061953383391859795282289661205931295409679174588129172188532695583 28956216290998835086292948377618886250603919590434446674210620734525644971585 43623540594846685715746579736863605790726087452264984331335369968673641493718 14800225391331876599746572639092026998678092119774355396021588006880777649093 (by decide) (by decide) (by decide) (by decide) (by decide) (by decide) (by decide) (by decide) (by decide)
  have hc19 : lift (.affine ((43623540594846685715746579736863605790726087452264984331335369968673641493718 : ℕ) : Int) ((14800225391331876599746572639092026998678092119774355396021588006880777649093 : ℕ) : Int)) = 2046 • Gm := by
    rw [hb19, hc18, ← add_nsmul]
  obtain ⟨hv20, hb20⟩ := addNat_bridge 43623540594846685715746579736863605790726087452264984331335369968673641493718 14800225391331876599746572639092026998678092119774355396021588006880777649093 55066263022277343669578718895168534326250603453777594175500187360389116729240 32670510020758816978083085130507043184471273380659243275938904335757337482424 47216531385091117804509031714180441444147422409185532312257791563986337189219 55473143378173086206919725552257545104362930926827125220157528804323235463534 9936048220140744122788394839680004149074916123989654415664353761848673071408 (by decide) (by decide) (by decide) (by decide) (by decide) (by decide) (by decide) (by decide) (by decide) (by decide) (by decide) (by decide)
  have hc20 : lift (.affine ((55473143378173086206919725552257545104362930926827125220157528804323235463534 : ℕ) : Int) ((9936048220140744122788394839680004149074916123989654415664353761848673071408 : ℕ) : Int)) = 2047 • Gm := by
    rw [hb20, hc19, hlG, ← add_nsmul]
  exact ⟨hv20, hc20⟩

/-- Steps 21–30 of the double-and-add certificate chain for the order of `G`. -/
theorem ordBlock2 :
    lift (Point.affine ((55066263022277343669578718895168534326250603453777594175500187360389116729240 : ℕ) : Int) ((32670510020758816978083085130507043184471273380659243275938904335757337482424 : ℕ) : Int)) = 1 • Gm →
    (Point.Valid (.affine ((55473143378173086206919725552257545104362930926827125220157528804323235463534 : ℕ) : Int) ((9936048220140744122788394839680004149074916123989654415664353761848673071408 : ℕ) : Int)) ∧
      lift (.affine ((55473143378173086206919725552257545104362930926827125220157528804323235463534 : ℕ) : Int) ((9936048220140744122788394839680004149074916123989654415664353761848673071408 : ℕ) : Int)) = 2047 • Gm) →
    Point.Valid (.affine ((99577865136541581272716647070755930256937866979919505697200229537979796287440 : ℕ) : Int) ((114265960071829761056315993662300488440859353008900857147698204927759003357952 : ℕ) : Int)) ∧
      lift (.affine ((99577865136541581272716647070755930256937866979919505697200229537979796287440 : ℕ) : Int) ((114265960071829761056315993662300488440859353008900857147698204927759003357952 : ℕ) : Int)) = 65535 • Gm := by
  intro hlG h
  obtain ⟨hv, hl⟩ := h
  obtain ⟨hv21, hb21⟩ := dblNat_bridge 55473143378173086206919725552257545104362930926827125220157528804323235463534 9936048220140744122788394839680004149074916123989654415664353761848673071408 21928477301902517428685201727653129198319148968898214053835995558214107300843 30510556657222575443745274985178208416018281475912267090843918354758236115119 87579943617923378748072270064547989138096125159486586223717004081423009101057 (by decide) (by decide) (by decide) (by decide) (by decide) (by decide) (by decide) (by decide) (by decide)
  have hc21 : lift (.affine ((30510556657222575443745274985178208416018281475912267090843918354758236115119 : ℕ) : Int) ((87579943617923378748072270064547989138096125159486586223717004081423009101057 : ℕ) : Int)) = 4094 • Gm := by
    rw [hb21, hl, ← add_nsmul]
  obtain ⟨hv22, hb22⟩ := addNat_bridge 30510556657222575443745274985178208416018281475912267090843918354758236115119 87579943617923378748072270064547989138096125159486586223717004081423009101057 55066263022277343669578718895168534326250603453777594175500187360389116729240 32670510020758816978083085130507043184471273380659243275938904335757337482424 106111565213816149673486050503609778516505830288560976642080225975430061279550 70620163506976111171066173961856210080659139929929089024144375783710733217672 60707605052923732375620988065125934494722916954686011896369305439279242056010 (by decide) (by decide) (by decide) (by decide) (by decide) (by decide) (by decide) (by decide) (by decide) (by decide) (by decide) (by decide)
  have hc22 : lift (.affine ((70620163506976111171066173961856210080659139929929089024144375783710733217672 : ℕ) : Int) ((60707605052923732375620988065125934494722916954686011896369305439279242056010 : ℕ) : Int)) = 4095 • Gm := by
    rw [hb22, hc21, hlG, ← add_nsmul]
  obtain ⟨hv23, hb23⟩ := dblNat_bridge 70620163506976111171066173961856210080659139929929089024144375783710733217672 60707605052923732375620988065125934494722916954686011896369305439279242056010 97116181750751782095397913907250990776025637907799028917914796082391112360710 24542970979829946167433707845276906257554819072094280762941955814895178649906 37221184375992242687184237195941922493507651719172418637798196728389302142467 (by decide) (by decide) (by decide) (by decide) (by decide) (by decide) (by decide) (by decide) (by decide)
  have hc23 : lift (.affine ((24542970979829946167433707845276906257554819072094280762941955814895178649906 : ℕ) : Int) ((37221184375992242687184237195941922493507651719172418637798196728389302142467 : ℕ) : Int)) = 8190 • Gm := by
    rw [hb23, hc22, ← add_nsmul]
  obtain ⟨hv24, hb24⟩ := addNat_bridge 24542970979829946167433707845276906257554819072094280762941955814895178649906 37221184375992242687184237195941922493507651719172418637798196728389302142467 55066263022277343669578718895168534326250603453777594175500187360389116729240 32670510020758816978083085130507043184471273380659243275938904335757337482424 3914911496457911260728837485167347689734444045717332986608501393981963625334 42045853577571703764792139907643277683355835090174363111191927931790230099350 13984773110628668008779650281005183916403290918166346725002388368229391516595 (by decide) (by decide) (by decide) (by decide) (by decide) (by decide) (by decide) (by decide) (by decide) (by decide) (by decide) (by decide)
  have hc24 : lift (.affine ((42045853577571703764792139907643277683355835090174363111191927931790230099350 : ℕ) : Int) ((13984773110628668008779650281005183916403290918166346725002388368229391516595 : ℕ) : Int)) = 8191 • Gm := by
    rw [hb24, hc23, hlG, ← add_nsmul]
  obtain ⟨hv25, hb25⟩ := dblNat_bridge 42045853577571703764792139907643277683355835090174363111191927931790230099350 13984773110628668008779650281005183916403290918166346725002388368229391516595 33660183489554478802487779037084711523701638732132188819044862051901978700675 2554122816962644488320770692103412316840422933775171299983856823352189986839 64508163694865999918615565047099503425678115525400303810260348883302317681497 (by decide) (by decide) (by decide) (by decide) (by decide) (by decide) (by decide) (by decide) (by decide)
  have hc25 : lift (.affine ((2554122816962644488320770692103412316840422933775171299983856823352189986839 : ℕ) : Int) ((64508163694865999918615565047099503425678115525400303810260348883302317681497 : ℕ) : Int)) = 16382 • Gm := by
    rw [hb25, hc24, ← add_nsmul]
  obtain ⟨hv26, hb26⟩ := addNat_bridge 2554122816962644488320770692103412316840422933775171299983856823352189986839 64508163694865999918615565047099503425678115525400303810260348883302317681497 55066263022277343669578718895168534326250603453777594175500187360389116729240 32670510020758816978083085130507043184471273380659243275938904335757337482424 13878991331445519237694935533947492977455727850034237889766290845593122770260 13767946009808845291392969101935645745350913715299505202974191487289959180437 90978430016154903090489832638622821738675748616804614557060509195182176674995 (by decide) (by decide) (by decide) (by decide) (by decide) (by decide) (by decide) (by decide) (by decide) (by decide) (by decide) (by decide)
  have hc26 : lift (.affine ((13767946009808845291392969101935645745350913715299505202974191487289959180437 : ℕ) : Int) ((90978430016154903090489832638622821738675748616804614557060509195182176674995 : ℕ) : Int)) = 16383 • Gm := by
    rw [hb26, hc25, hlG, ← add_nsmul]
  obtain ⟨hv27, hb27⟩ := dblNat_bridge 13767946009808845291392969101935645745350913715299505202974191487289959180437 90978430016154903090489832638622821738675748616804614557060509195182176674995 6583733324930503561619354833982005010956778996283969929771075804752511853401 62423603145765122765063804182128866552102108847914574376856707306607462516687 68978037619454251076647963288346594710185013684374248088793184695280482351099 (by decide) (by decide) (by decide) (by decide) (by decide) (by decide) (by decide) (by decide) (by decide)
  have hc27 : lift (.affine ((62423603145765122765063804182128866552102108847914574376856707306607462516687 : ℕ) : Int) ((68978037619454251076647963288346594710185013684374248088793184695280482351099 : ℕ) : Int)) = 32766 • Gm := by
    rw [hb27, hc26, ← add_nsmul]
  obtain ⟨hv28, hb28⟩ := addNat_bridge 62423603145765122765063804182128866552102108847914574376856707306607462516687 68978037619454251076647963288346594710185013684374248088793184695280482351099 55066263022277343669578718895168534326250603453777594175500187360389116729240 32670510020758816978083085130507043184471273380659243275938904335757337482424 101194947905031818332950367129187663452436764100246932288358022575233362088532 38561149147252379024325758906499302252004434730168179261302402442679469785317 11294907072514232649536739093704057047069059956209817067283436083364266784853 (by decide) (by decide) (by decide) (by decide) (by decide) (by decide) (by decide) (by decide) (by decide) (by decide) (by decide) (by decide)
  have hc28 : lift (.affine ((38561149147252379024325758906499302252004434730168179261302402442679469785317 : ℕ) : Int) ((11294907072514232649536739093704057047069059956209817067283436083364266784853 : ℕ) : Int)) = 32767 • Gm := by
    rw [hb28, hc27, hlG, ← add_nsmul]
  obtain ⟨hv29, hb29⟩ := dblNat_bridge 38561149147252379024325758906499302252004434730168179261302402442679469785317 11294907072514232649536739093704057047069059956209817067283436083364266784853 98272392835376225437232371259273530283799247188985470922043861287956178313469 85010409161557322831390150637359377772938975875771482833495599159228370495771 38647048419729339696063674712711757833424244307845803421625064117940015861035 (by decide) (by decide) (by decide) (by decide) (by decide) (by decide) (by decide) (by decide) (by decide)
  have hc29 : lift (.affine ((85010409161557322831390150637359377772938975875771482833495599159228370495771 : ℕ) : Int) ((38647048419729339696063674712711757833424244307845803421625064117940015861035 : ℕ) : Int)) = 65534 • Gm := by
    rw [hb29, hc28, ← add_nsmul]
  obtain ⟨hv30, hb30⟩ := addNat_bridge 85010409161557322831390150637359377772938975875771482833495599159228370495771 38647048419729339696063674712711757833424244307845803421625064117940015861035 55066263022277343669578718895168534326250603453777594175500187360389116729240 32670510020758816978083085130507043184471273380659243275938904335757337482424 84949379820282629738754195137564911122085988342912776141934989745009420672326 99577865136541581272716647070755930256937866979919505697200229537979796287440 114265960071829761056315993662300488440859353008900857147698204927759003357952 (by decide) (by decide) (by decide) (by decide) (by decide) (by decide) (by decide) (by decide) (by decide) (by decide) (by decide) (by decide)
  have hc30 : lift (.affine ((99577865136541581272716647070755930256937866979919505697200229537979796287440 : ℕ) : Int) ((114265960071829761056315993662300488440859353008900857147698204927759003357952 : ℕ) : Int)) = 65535 • Gm := by
    rw [hb30, hc29, hlG, ← add_nsmul]
  exact ⟨hv30, hc30⟩

/-- Steps 31–40 of the double-and-add certificate chain for the order of `G`. -/
theorem ordBlock3 :
    lift (Point.affine ((55066263022277343669578718895168534326250603453777594175500187360389116729240 : ℕ) : Int) ((32670510020758816978083085130507043184471273380659243275938904335757337482424 : ℕ) : Int)) = 1 • Gm →
    (Point.Valid (.affine ((99577865136541581272716647070755930256937866979919505697200229537979796287440 : ℕ) : Int) ((114265960071829761056315993662300488440859353008900857147698204927759003357952 : ℕ) : Int)) ∧
      lift (.affine ((99577865136541581272716647070755930256937866979919505697200229537979796287440 : ℕ) : Int) ((114265960071829761056315993662300488440859353008900857147698204927759003357952 : ℕ) : Int)) = 65535 • Gm) →
    Point.Valid (.affine ((108906521939303271890786672718094082960815203344293084280978198224607207227869 : ℕ) : Int) ((24253399226517067573407539302247738756662749380689040409814474662543795768438 : ℕ) : Int)) ∧
      lift (.affine ((108906521939303271890786672718094082960815203344293084280978198224607207227869 : ℕ) : Int) ((24253399226517067573407539302247738756662749380689040409814474662543795768438 : ℕ) : Int)) = 2097151 • Gm := by
  intro hlG h
  obtain ⟨hv, hl⟩ := h
  obtain ⟨hv31, hb31⟩ := dblNat_bridge 99577865136541581272716647070755930256937866979919505697200229537979796287440 114265960071829761056315993662300488440859353008900857147698204927759003357952 77212809386437078729964531657381590775397520927313445249734189680587853253634 36435715186901038354170876031682488190364049577414774870305120530490557821827 8637074366679063504129435922707352687292204602031223914386957899572692641878 (by decide) (by decide) (by decide) (by decide) (by decide) (by decide) (by decide) (by decide) (by decide)
  have hc31 : lift (.affine ((36435715186901038354170876031682488190364049577414774870305120530490557821827 : ℕ) : Int) ((8637074366679063504129435922707352687292204602031223914386957899572692641878 : ℕ) : Int)) = 131070 • Gm := by
    rw [hb31, hl, ← add_nsmul]
  obtain ⟨hv32, hb32⟩ := addNat_bridge 36435715186901038354170876031682488190364049577414774870305120530490557821827 8637074366679063504129435922707352687292204602031223914386957899572692641878 55066263022277343669578718895168534326250603453777594175500187360389116729240 32670510020758816978083085130507043184471273380659243275938904335757337482424 58579272639621675277336658748435006470118056745619798674442360457649091057815 86903564112910030090284977633022116173647036058966815189304691576712084315529 55388769771385125142052941154588941890249400964823553571003972354703739404156 (by decide) (by decide) (by decide) (by decide) (by decide) (by decide) (by decide) (by decide) (by decide) (by decide) (by decide) (by decide)
  have hc32 : lift (.affine ((86903564112910030090284977633022116173647036058966815189304691576712084315529 : ℕ) : Int) ((55388769771385125142052941154588941890249400964823553571003972354703739404156 : ℕ) : Int)) = 131071 • Gm := by
    rw [hb32, hc31, hlG, ← add_nsmul]
  obtain ⟨hv33, hb33⟩ := dblNat_bridge 86903564112910030090284977633022116173647036058966815189304691576712084315529 55388769771385125142052941154588941890249400964823553571003972354703739404156 101825882400748293228963288265135501619246684284569356958101735551883401744129 49179455464164824139725592951503878250951089835688914565057486486359418440591 3640593583306203984936719106135423523395416054012278303034155974442378522246 (by decide) (by decide) (by decide) (by decide) (by decide) (by decide) (by decide) (by decide) (by decide)
  have hc33 : lift (.affine ((49179455464164824139725592951503878250951089835688914565057486486359418440591 : ℕ) : Int) ((3640593583306203984936719106135423523395416054012278303034155974442378522246 : ℕ) : Int)) = 262142 • Gm := by
    rw [hb33, hc32, ← add_nsmul]
  obtain ⟨hv34, hb34⟩ := addNat_bridge 49179455464164824139725592951503878250951089835688914565057486486359418440591 3640593583306203984936719106135423523395416054012278303034155974442378522246 55066263022277343669578718895168534326250603453777594175500187360389116729240 32670510020758816978083085130507043184471273380659243275938904335757337482424 47712847518060721616804157478042076420383282837360111506472221520838442428549 114368339517595894528471256576694169209833665944431108245592288269952807974335 60588904147139458644067308658527826102547991222112598009997346852806185874519 (by decide) (by decide) (by decide) (by decide) (by decide) (by decide) (by decide) (by decide) (by decide) (by decide) (by decide) (by decide)
  have hc34 : lift (.affine ((114368339517595894528471256576694169209833665944431108245592288269952807974335 : ℕ) : Int) ((60588904147139458644067308658527826102547991222112598009997346852806185874519 : ℕ) : Int)) = 262143 • Gm := by
    rw [hb34, hc33, hlG, ← add_nsmul]
  obtain ⟨hv35, hb35⟩ := dblNat_bridge 114368339517595894528471256576694169209833665944431108245592288269952807974335 60588904147139458644067308658527826102547991222112598009997346852806185874519 91751561742275624460119399980562294150616026285464451632185267692977433267666 58982417934110660596823471849191671231568454206192675008645658876692427951251 53688624195140367056175818674784466456919562918469530899293395343986237368836 (by decide) (by decide) (by decide) (by decide) (by decide) (by decide) (by decide) (by decide) (by decide)
  have hc35 : lift (.affine ((58982417934110660596823471849191671231568454206192675008645658876692427951251 : ℕ) : Int) ((53688624195140367056175818674784466456919562918469530899293395343986237368836 : ℕ) : Int)) = 524286 • Gm := by
    rw [hb35, hc34, ← add_nsmul]
  obtain ⟨hv36, hb36⟩ := addNat_bridge 58982417934110660596823471849191671231568454206192675008645658876692427951251 53688624195140367056175818674784466456919562918469530899293395343986237368836 55066263022277343669578718895168534326250603453777594175500187360389116729240 32670510020758816978083085130507043184471273380659243275938904335757337482424 86205299848508066812467934271881556499101402999638562317971895711901839145434 16764825956992030827226399999933654633682344769217150020857374619797439438412 4492618557281089108226121751941313038670955039626023074149078852078654636576 (by decide) (by decide) (by decide) (by decide) (by decide) (by decide) (by decide) (by decide) (by decide) (by decide) (by decide) (by decide)
  have hc36 : lift (.affine ((16764825956992030827226399999933654633682344769217150020857374619797439438412 : ℕ) : Int) ((4492618557281089108226121751941313038670955039626023074149078852078654636576 : ℕ) : Int)) = 524287 • Gm := by
    rw [hb36, hc35, hlG, ← add_nsmul]
  obtain ⟨hv37, hb37⟩ := dblNat_bridge 16764825956992030827226399999933654633682344769217150020857374619797439438412 4492618557281089108226121751941313038670955039626023074149078852078654636576 56076838186739458784668417490833896813021651238604240933895383880715302730484 41603442898059026765648524399499425394044905251903534726947731584448441667879 76411564319167294147276580352611306960404923511160609414064328617474238633935 (by decide) (by decide) (by decide) (by decide) (by decide) (by decide) (by decide) (by decide) (by decide)
  have hc37 : lift (.affine ((41603442898059026765648524399499425394044905251903534726947731584448441667879 : ℕ) : Int) ((76411564319167294147276580352611306960404923511160609414064328617474238633935 : ℕ) : Int)) = 1048574 • Gm := by
    rw [hb37, hc36, ← add_nsmul]
  obtain ⟨hv38, hb38⟩ := addNat_bridge 41603442898059026765648524399499425394044905251903534726947731584448441667879 76411564319167294147276580352611306960404923511160609414064328617474238633935 55066263022277343669578718895168534326250603453777594175500187360389116729240 32670510020758816978083085130507043184471273380659243275938904335757337482424 70993214103636414955528549633777214847119900792879835111540605149594752208132 104007230024138097090948149659763199575194016234070308325055906261614968815132 91091772053168005390178532621516018714557476720574102219479290117706682654 (by decide) (by decide) (by decide) (by decide) (by decide) (by decide) (by decide) (by decide) (by decide) (by decide) (by decide) (by decide)
  have hc38 : lift (.affine ((104007230024138097090948149659763199575194016234070308325055906261614968815132 : ℕ) : Int) ((91091772053168005390178532621516018714557476720574102219479290117706682654 : ℕ) : Int)) = 1048575 • Gm := by
    rw [hb38, hc37, hlG, ← add_nsmul]
  obtain ⟨hv39, hb39⟩ := dblNat_bridge 104007230024138097090948149659763199575194016234070308325055906261614968815132 91091772053168005390178532621516018714557476720574102219479290117706682654 64897969338243027860186272939497161151820808613204551311219210268612210800974 8754452457322980476752351623555041658860626847432982457194224184645047188864 47091014034206509089265638451260101859842568320427416468638804274007536725637 (by decide) (by decide) (by decide) (by decide) (by decide) (by decide) (by decide) (by decide) (by decide)
  have hc39 : lift (.affine ((8754452457322980476752351623555041658860626847432982457194224184645047188864 : ℕ) : Int) ((47091014034206509089265638451260101859842568320427416468638804274007536725637 : ℕ) : Int)) = 2097150 • Gm := by
    rw [hb39, hc38, ← add_nsmul]
  obtain ⟨hv40, hb40⟩ := addNat_bridge 8754452457322980476752351623555041658860626847432982457194224184645047188864 47091014034206509089265638451260101859842568320427416468638804274007536725637 55066263022277343669578718895168534326250603453777594175500187360389116729240 32670510020758816978083085130507043184471273380659243275938904335757337482424 75363738438689603484645827743480358229110154860911043785361670726478899169917 108906521939303271890786672718094082960815203344293084280978198224607207227869 24253399226517067573407539302247738756662749380689040409814474662543795768438 (by decide) (by decide) (by decide) (by decide) (by decide) (by decide) (by decide) (by decide) (by decide) (by decide) (by decide) (by decide)
  have hc40 : lift (.affine ((108906521939303271890786672718094082960815203344293084280978198224607207227869 : ℕ) : Int) ((24253399226517067573407539302247738756662749380689040409814474662543795768438 : ℕ) : Int)) = 2097151 • Gm := by
    rw [hb40, hc39, hlG, ← add_nsmul]
  exact ⟨hv40, hc40⟩

/-- Steps 41–50 of the double-and-add certificate chain for the order of `G`. -/
theorem ordBlock4 :
    lift (Point.affine ((55066263022277343669578718895168534326250603453777594175500187360389116729240 : ℕ) : Int) ((32670510020758816978083085130507043184471273380659243275938904335757337482424 : ℕ) : Int)) = 1 • Gm →
    (Point.Valid (.affine ((108906521939303271890786672718094082960815203344293084280978198224607207227869 : ℕ) : Int) ((24253399226517067573407539302247738756662749380689040409814474662543795768438 : ℕ) : Int)) ∧
      lift (.affine ((108906521939303271890786672718094082960815203344293084280978198224607207227869 : ℕ) : Int) ((24253399226517067573407539302247738756662749380689040409814474662543795768438 : ℕ) : Int)) = 2097151 • Gm) →
    Point.Valid (.affine ((62024131697899430324820788837693451213081984096051227198528188904291543584211 : ℕ) : Int) ((142185428742939471886030281683930263111473502450741459705787877179054834182 : ℕ) : Int)) ∧
      lift (.affine ((62024131697899430324820788837693451213081984096051227198528188904291543584211 : ℕ) : Int) ((142185428742939471886030281683930263111473502450741459705787877179054834182 : ℕ) : Int)) = 67108863 • Gm := by
  intro hlG h
  obtain ⟨hv, hl⟩ := h
  obtain ⟨hv41, hb41⟩ := dblNat_bridge 108906521939303271890786672718094082960815203344293084280978198224607207227869 24253399226517067573407539302247738756662749380689040409814474662543795768438 71717261364866556593242294043897384015684051692327161357643663073184709207984 30154596844949084320514937503653361249833880773948578737318410638974864213754 62944736575679106993162607760656702431637392482393003553571697621993913005164 (by decide) (by decide) (by decide) (by decide) (by decide) (by decide) (by decide) (by decide) (by decide)
  have hc41 : lift (.affine ((30154596844949084320514937503653361249833880773948578737318410638974864213754 : ℕ) : Int) ((62944736575679106993162607760656702431637392482393003553571697621993913005164 : ℕ) : Int)) = 4194302 • Gm := by
    rw [hb41, hl, ← add_nsmul]
  obtain ⟨hv42, hb42⟩ := addNat_bridge 30154596844949084320514937503653361249833880773948578737318410638974864213754 62944736575679106993162607760656702431637392482393003553571697621993913005164 55066263022277343669578718895168534326250603453777594175500187360389116729240 32670510020758816978083085130507043184471273380659243275938904335757337482424 108436058733771642429628246510197458809051635171288465822145275417806085369482 111646320771837793905471902645877503463808119643917998618802532922579167513396 16385423434183482045408034246915100636904982837448447619823452169095393589511 (by decide) (by decide) (by decide) (by decide) (by decide) (by decide) (by decide) (by decide) (by decide) (by decide) (by decide) (by decide)
  have hc42 : lift (.affine ((111646320771837793905471902645877503463808119643917998618802532922579167513396 : ℕ) : Int) ((16385423434183482045408034246915100636904982837448447619823452169095393589511 : ℕ) : Int)) = 4194303 • Gm := by
    rw [hb42, hc41, hlG, ← add_nsmul]
  obtain ⟨hv43, hb43⟩ := dblNat_bridge 111646320771837793905471902645877503463808119643917998618802532922579167513396 16385423434183482045408034246915100636904982837448447619823452169095393589511 81321031237470175941946791302397494298759003769512057943654565677680278617076 1962123058402140385089231710319503752575062731100747496823472542361234160837 69120743264221429270171367095972398904016908048863347212172062435824289890515 (by decide) (by decide) (by decide) (by decide) (by decide) (by decide) (by decide) (by decide) (by decide)
  have hc43 : lift (.affine ((1962123058402140385089231710319503752575062731100747496823472542361234160837 : ℕ) : Int) ((69120743264221429270171367095972398904016908048863347212172062435824289890515 : ℕ) : Int)) = 8388606 • Gm := by
    rw [hb43, hc42, ← add_nsmul]
  obtain ⟨hv44, hb44⟩ := addNat_bridge 1962123058402140385089231710319503752575062731100747496823472542361234160837 69120743264221429270171367095972398904016908048863347212172062435824289890515 55066263022277343669578718895168534326250603453777594175500187360389116729240 32670510020758816978083085130507043184471273380659243275938904335757337482424 97528736416860815419158274014776062559430946594182735757717327971984780554060 10574233200634167553938203927903836369052185347177241629122984852281785289888 95318921153385818767752498756320496384570852127123153739102694686618555948969 (by decide) (by decide) (by decide) (by decide) (by decide) (by decide) (by decide) (by decide) (by decide) (by decide) (by decide) (by decide)
  have hc44 : lift (.affine ((10574233200634167553938203927903836369052185347177241629122984852281785289888 : ℕ) : Int) ((95318921153385818767752498756320496384570852127123153739102694686618555948969 : ℕ) : Int)) = 8388607 • Gm := by
    rw [hb44, hc43, hlG, ← add_nsmul]
  obtain ⟨hv45, hb45⟩ := dblNat_bridge 10574233200634167553938203927903836369052185347177241629122984852281785289888 95318921153385818767752498756320496384570852127123153739102694686618555948969 111757731106544422405425633092010817578599316584468704020660928213736976534338 70351020045372268602564079704011849229407832010151167509139255605637531375072 463345816341627185100430731395890364892737042411533063373903654161367792049 (by decide) (by decide) (by decide) (by decide) (by decide) (by decide) (by decide) (by decide) (by decide)
  have hc45 : lift (.affine ((70351020045372268602564079704011849229407832010151167509139255605637531375072 : ℕ) : Int) ((463345816341627185100430731395890364892737042411533063373903654161367792049 : ℕ) : Int)) = 16777214 • Gm := by
    rw [hb45, hc44, ← add_nsmul]
  obtain ⟨hv46, hb46⟩ := addNat_bridge 70351020045372268602564079704011849229407832010151167509139255605637531375072 463345816341627185100430731395890364892737042411533063373903654161367792049 55066263022277343669578718895168534326250603453777594175500187360389116729240 32670510020758816978083085130507043184471273380659243275938904335757337482424 5960909778725667887821361035649626438067094149289578009931586057773049312456 74243244981999165375829477376323166010852672515139975696463755270880389937637 110259244318399368395134502763292603946586577058366215301351007252051788455649 (by decide) (by decide) (by decide) (by decide) (by decide) (by decide) (by decide) (by decide) (by decide) (by decide) (by decide) (by decide)
  have hc46 : lift (.affine ((74243244981999165375829477376323166010852672515139975696463755270880389937637 : ℕ) : Int) ((110259244318399368395134502763292603946586577058366215301351007252051788455649 : ℕ) : Int)) = 16777215 • Gm := by
    rw [hb46, hc45, hlG, ← add_nsmul]
  obtain ⟨hv47, hb47⟩ := dblNat_bridge 74243244981999165375829477376323166010852672515139975696463755270880389937637 110259244318399368395134502763292603946586577058366215301351007252051788455649 10111566461040274188045710012156948836876024027209415192993513218683810637894 85447549486025717305454650850786440421997404856052238051325168296986846084383 10323768137667918843700589358082196676171981425638545075906064807904862910497 (by decide) (by decide) (by decide) (by decide) (by decide) (by decide) (by decide) (by decide) (by decide)
  have hc47 : lift (.affine ((85447549486025717305454650850786440421997404856052238051325168296986846084383 : ℕ) : Int) ((10323768137667918843700589358082196676171981425638545075906064807904862910497 : ℕ) : Int)) = 33554430 • Gm := by
    rw [hb47, hc46, ← add_nsmul]
  obtain ⟨hv48, hb48⟩ := addNat_bridge 85447549486025717305454650850786440421997404856052238051325168296986846084383 10323768137667918843700589358082196676171981425638545075906064807904862910497 55066263022277343669578718895168534326250603453777594175500187360389116729240 32670510020758816978083085130507043184471273380659243275938904335757337482424 17656841010626484181223116706410434174921945190411764075834199366860499890270 104720462100734090131397952123567976943840802394537491227226794162707887324285 33067427991305648864372754160623483902729224061819002083248033405305806523630 (by decide) (by decide) (by decide) (by decide) (by decide) (by decide) (by decide) (by decide) (by decide) (by decide) (by decide) (by decide)
  have hc48 : lift (.affine ((104720462100734090131397952123567976943840802394537491227226794162707887324285 : ℕ) : Int) ((33067427991305648864372754160623483902729224061819002083248033405305806523630 : ℕ) : Int)) = 33554431 • Gm := by
    rw [hb48, hc47, hlG, ← add_nsmul]
  obtain ⟨hv49, hb49⟩ := dblNat_bridge 104720462100734090131397952123567976943840802394537491227226794162707887324285 33067427991305648864372754160623483902729224061819002083248033405305806523630 73035031354433202490795380181056548288725290862863111882984542081774823630132 72156019040338453068688889760663011288405581324183581866355522326620064304264 110775090191646575702617115449451718184276446816551303481170772441944746606447 (by decide) (by decide) (by decide) (by decide) (by decide) (by decide) (by decide) (by decide) (by decide)
  have hc49 : lift (.affine ((72156019040338453068688889760663011288405581324183581866355522326620064304264 : ℕ) : Int) ((110775090191646575702617115449451718184276446816551303481170772441944746606447 : ℕ) : Int)) = 67108862 • Gm := by
    rw [hb49, hc48, ← add_nsmul]
  obtain ⟨hv50, hb50⟩ := addNat_bridge 72156019040338453068688889760663011288405581324183581866355522326620064304264 110775090191646575702617115449451718184276446816551303481170772441944746606447 55066263022277343669578718895168534326250603453777594175500187360389116729240 32670510020758816978083085130507043184471273380659243275938904335757337482424 107265621075250200464377974398389965880051864841222031836701446937386362124527 62024131697899430324820788837693451213081984096051227198528188904291543584211 142185428742939471886030281683930263111473502450741459705787877179054834182 (by decide) (by decide) (by decide) (by decide) (by decide) (by decide) (by decide) (by decide) (by decide) (by decide) (by decide) (by decide)
  have hc50 : lift (.affine ((62024131697899430324820788837693451213081984096051227198528188904291543584211 : ℕ) : Int) ((142185428742939471886030281683930263111473502450741459705787877179054834182 : ℕ) : Int)) = 67108863 • Gm := by
    rw [hb50, hc49, hlG, ← add_nsmul]
  exact ⟨hv50, hc50⟩

/-- Steps 51–60 of the double-and-add certificate chain for the order of `G`. -/
theorem ordBlock5 :
    lift (Point.affine ((55066263022277343669578718895168534326250603453777594175500187360389116729240 : ℕ) : Int) ((32670510020758816978083085130507043184471273380659243275938904335757337482424 : ℕ) : Int)) = 1 • Gm →
    (Point.Valid (.affine ((62024131697899430324820788837693451213081984096051227198528188904291543584211 : ℕ) : Int) ((142185428742939471886030281683930263111473502450741459705787877179054834182 : ℕ) : Int)) ∧
      lift (.affine ((62024131697899430324820788837693451213081984096051227198528188904291543584211 : ℕ) : Int) ((142185428742939471886030281683930263111473502450741459705787877179054834182 : ℕ) : Int)) = 67108863 • Gm) →
    Point.Valid (.affine ((18845197221170589343906318257608747345355704040405879359276255241170402932467 : ℕ) : Int) ((35869855410725365793927656664169024200680894402224297472548781181062428830648 : ℕ) : Int)) ∧
      lift (.affine ((18845197221170589343906318257608747345355704040405879359276255241170402932467 : ℕ) : Int) ((35869855410725365793927656664169024200680894402224297472548781181062428830648 : ℕ) : Int)) = 2147483647 • Gm := by
  intro hlG h
  obtain ⟨hv, hl⟩ := h
  obtain ⟨hv51, hb51⟩ := dblNat_bridge 62024131697899430324820788837693451213081984096051227198528188904291543584211 142185428742939471886030281683930263111473502450741459705787877179054834182 54678531930567521785253212233788536738020669329248358703889295646740835401465 34405472285151776287646464599235329404143980057703686806525650460644217366993 40760280235457149508285912338231419643867814835034002322532482672312200706088 (by decide) (by decide) (by decide) (by decide) (by decide) (by decide) (by decide) (by decide) (by decide)
  have hc51 : lift (.affine ((34405472285151776287646464599235329404143980057703686806525650460644217366993 : ℕ) : Int) ((40760280235457149508285912338231419643867814835034002322532482672312200706088 : ℕ) : Int)) = 134217726 • Gm := by
    rw [hb51, hl, ← add_nsmul]
  obtain ⟨hv52, hb52⟩ := addNat_bridge 34405472285151776287646464599235329404143980057703686806525650460644217366993 40760280235457149508285912338231419643867814835034002322532482672312200706088 55066263022277343669578718895168534326250603453777594175500187360389116729240 32670510020758816978083085130507043184471273380659243275938904335757337482424 36849826107465601015131891499853063955518321727249917824774682627057250949642 12611268426084905099074077995756251763323139454222655222779532663383097501112 90724296018943181017010225769322762143052909758482214462723619576869823288395 (by decide) (by decide) (by decide) (by decide) (by decide) (by decide) (by decide) (by decide) (by decide) (by decide) (by decide) (by decide)
  have hc52 : lift (.affine ((12611268426084905099074077995756251763323139454222655222779532663383097501112 : ℕ) : Int) ((90724296018943181017010225769322762143052909758482214462723619576869823288395 : ℕ) : Int)) = 134217727 • Gm := by
    rw [hb52, hc51, hlG, ← add_nsmul]
  obtain ⟨hv53, hb53⟩ := dblNat_bridge 12611268426084905099074077995756251763323139454222655222779532663383097501112 90724296018943181017010225769322762143052909758482214462723619576869823288395 65457575906251370813914696460401115737824825389807239963519720283708360057065 87801553449739980540643913936772401673853212947329795528151524787214133581645 33608956682307224091814946414262788815835948708071319539586654044960415025685 (by decide) (by decide) (by decide) (by decide) (by decide) (by decide) (by decide) (by decide) (by decide)
  have hc53 : lift (.affine ((87801553449739980540643913936772401673853212947329795528151524787214133581645 : ℕ) : Int) ((33608956682307224091814946414262788815835948708071319539586654044960415025685 : ℕ) : Int)) = 268435454 • Gm := by
    rw [hb53, hc52, ← add_nsmul]
  obtain ⟨hv54, hb54⟩ := addNat_bridge 87801553449739980540643913936772401673853212947329795528151524787214133581645 33608956682307224091814946414262788815835948708071319539586654044960415025685 55066263022277343669578718895168534326250603453777594175500187360389116729240 32670510020758816978083085130507043184471273380659243275938904335757337482424 18067046255493006728889745223598970687807931504337448094215001810168623377426 36441801302806618484038906762766908306697395008217419414017649305421238822064 106819920335407981491505420347768958799539175113579525933191638145241450448183 (by decide) (by decide) (by decide) (by decide) (by decide) (by decide) (by decide) (by decide) (by decide) (by decide) (by decide) (by decide)
  have hc54 : lift (.affine ((36441801302806618484038906762766908306697395008217419414017649305421238822064 : ℕ) : Int) ((106819920335407981491505420347768958799539175113579525933191638145241450448183 : ℕ) : Int)) = 268435455 • Gm := by
    rw [hb54, hc53, hlG, ← add_nsmul]
  obtain ⟨hv55, hb55⟩ := dblNat_bridge 36441801302806618484038906762766908306697395008217419414017649305421238822064 106819920335407981491505420347768958799539175113579525933191638145241450448183 107539149815770006387533360972292239789627354581423167426875127226670276605216 111988131058937448194763801387463295525474680822898932982682339523153157405161 40301705049154970513129265823352961855770560918320982116052898440313533683132 (by decide) (by decide) (by decide) (by decide) (by decide) (by decide) (by decide) (by decide) (by decide)
  have hc55 : lift (.affine ((111988131058937448194763801387463295525474680822898932982682339523153157405161 : ℕ) : Int) ((40301705049154970513129265823352961855770560918320982116052898440313533683132 : ℕ) : Int)) = 536870910 • Gm := by
    rw [hb55, hc54, ← add_nsmul]
  obtain ⟨hv56, hb56⟩ := addNat_bridge 111988131058937448194763801387463295525474680822898932982682339523153157405161 40301705049154970513129265823352961855770560918320982116052898440313533683132 55066263022277343669578718895168534326250603453777594175500187360389116729240 32670510020758816978083085130507043184471273380659243275938904335757337482424 55338470772353763774621111615816709993877589764102484471012557022792056540388 80337034580085343336831257055102863352326094278921049492381321683152479437374 75364661087141464846620199387025251116282522995857758640951665718895786563855 (by decide) (by decide) (by decide) (by decide) (by decide) (by decide) (by decide) (by decide) (by decide) (by decide) (by decide) (by decide)
  have hc56 : lift (.affine ((80337034580085343336831257055102863352326094278921049492381321683152479437374 : ℕ) : Int) ((75364661087141464846620199387025251116282522995857758640951665718895786563855 : ℕ) : Int)) = 536870911 • Gm := by
    rw [hb56, hc55, hlG, ← add_nsmul]
  obtain ⟨hv57, hb57⟩ := dblNat_bridge 80337034580085343336831257055102863352326094278921049492381321683152479437374 75364661087141464846620199387025251116282522995857758640951665718895786563855 23641361923591005027473977333173854988974748577235484507444654847959538610288 77630584367899737581614192833341346015629377152983092864558196837763234093952 45107943671876432976855308702197355500739393558654510322726488792285511017021 (by decide) (by decide) (by decide) (by decide) (by decide) (by decide) (by decide) (by decide) (by decide)
  have hc57 : lift (.affine ((77630584367899737581614192833341346015629377152983092864558196837763234093952 : ℕ) : Int) ((45107943671876432976855308702197355500739393558654510322726488792285511017021 : ℕ) : Int)) = 1073741822 • Gm := by
    rw [hb57, hc56, ← add_nsmul]
  obtain ⟨hv58, hb58⟩ := addNat_bridge 77630584367899737581614192833341346015629377152983092864558196837763234093952 45107943671876432976855308702197355500739393558654510322726488792285511017021 55066263022277343669578718895168534326250603453777594175500187360389116729240 32670510020758816978083085130507043184471273380659243275938904335757337482424 107024189187304544577337788033823001198536996899656172519480748806524388504947 98808769268288401091776356539111618323561650502753032872040207481016176746585 57348905681741736449347826461323526260799239080013317537150991069879844172059 (by decide) (by decide) (by decide) (by decide) (by decide) (by decide) (by decide) (by decide) (by decide) (by decide) (by decide) (by decide)
  have hc58 : lift (.affine ((98808769268288401091776356539111618323561650502753032872040207481016176746585 : ℕ) : Int) ((57348905681741736449347826461323526260799239080013317537150991069879844172059 : ℕ) : Int)) = 1073741823 • Gm := by
    rw [hb58, hc57, hlG, ← add_nsmul]
  obtain ⟨hv59, hb59⟩ := dblNat_bridge 98808769268288401091776356539111618323561650502753032872040207481016176746585 57348905681741736449347826461323526260799239080013317537150991069879844172059 112406845384044642734377172779342346314973335207783746339297623056754663414941 20810020398336095747347553120160639689140323236499728723806100930204305062716 111786856392580481228617461441831333062267131784253405457341382174728347270203 (by decide) (by decide) (by decide) (by decide) (by decide) (by decide) (by decide) (by decide) (by decide)
  have hc59 : lift (.affine ((20810020398336095747347553120160639689140323236499728723806100930204305062716 : ℕ) : Int) ((111786856392580481228617461441831333062267131784253405457341382174728347270203 : ℕ) : Int)) = 2147483646 • Gm := by
    rw [hb59, hc58, ← add_nsmul]
  obtain ⟨hv60, hb60⟩ := addNat_bridge 20810020398336095747347553120160639689140323236499728723806100930204305062716 111786856392580481228617461441831333062267131784253405457341382174728347270203 55066263022277343669578718895168534326250603453777594175500187360389116729240 32670510020758816978083085130507043184471273380659243275938904335757337482424 14667800227724715887358806136062348999410269152334521924467642422944574999162 18845197221170589343906318257608747345355704040405879359276255241170402932467 35869855410725365793927656664169024200680894402224297472548781181062428830648 (by decide) (by decide) (by decide) (by decide) (by decide) (by decide) (by decide) (by decide) (by decide) (by decide) (by decide) (by decide)
  have hc60 : lift (.affine ((18845197221170589343906318257608747345355704040405879359276255241170402932467 : ℕ) : Int) ((35869855410725365793927656664169024200680894402224297472548781181062428830648 : ℕ) : Int)) = 2147483647 • Gm := by
    rw [hb60, hc59, hlG, ← add_nsmul]
  exact ⟨hv60, hc60⟩

/-- Steps 61–70 of the double-and-add certificate chain for the order of `G`. -/
theorem ordBlock6 :
    lift (Point.affine ((55066263022277343669578718895168534326250603453777594175500187360389116729240 : ℕ) : Int) ((32670510020758816978083085130507043184471273380659243275938904335757337482424 : ℕ) : Int)) = 1 • Gm →
    (Point.Valid (.affine ((18845197221170589343906318257608747345355704040405879359276255241170402932467 : ℕ) : Int) ((35869855410725365793927656664169024200680894402224297472548781181062428830648 : ℕ) : Int)) ∧
      lift (.affine ((18845197221170589343906318257608747345355704040405879359276255241170402932467 : ℕ) : Int) ((35869855410725365793927656664169024200680894402224297472548781181062428830648 : ℕ) : Int)) = 2147483647 • Gm) →
    Point.Valid (.affine ((108186501298667440324417308757865113542802023824881537474980381631937107316877 : ℕ) : Int) ((63310118941092471115074693732147258898283779694854829214131142349658492287466 : ℕ) : Int)) ∧
      lift (.affine ((108186501298667440324417308757865113542802023824881537474980381631937107316877 : ℕ) : Int) ((63310118941092471115074693732147258898283779694854829214131142349658492287466 : ℕ) : Int)) = 68719476735 • Gm := by
  intro hlG h
  obtain ⟨hv, hl⟩ := h
  obtain ⟨hv61, hb61⟩ := dblNat_bridge 18845197221170589343906318257608747345355704040405879359276255241170402932467 35869855410725365793927656664169024200680894402224297472548781181062428830648 80597378076415095744874233543634401468473436034410446802688234394844613589202 90949817519017928733856968873405164634420201919327802812513847650753686266295 9356047464962796837952799238114438707917513759623320046946808654518349103675 (by decide) (by decide) (by decide) (by decide) (by decide) (by decide) (by decide) (by decide) (by decide)
  have hc61 : lift (.affine ((90949817519017928733856968873405164634420201919327802812513847650753686266295 : ℕ) : Int) ((9356047464962796837952799238114438707917513759623320046946808654518349103675 : ℕ) : Int)) = 4294967294 • Gm := by
    rw [hb61, hl, ← add_nsmul]
  obtain ⟨hv62, hb62⟩ := addNat_bridge 90949817519017928733856968873405164634420201919327802812513847650753686266295 9356047464962796837952799238114438707917513759623320046946808654518349103675 55066263022277343669578718895168534326250603453777594175500187360389116729240 32670510020758816978083085130507043184471273380659243275938904335757337482424 10940249606998188980752294765484920231750563711385922506863550772756041818739 84353664740444228439011026249523093615980163880775352006601710044671436206174 70086162059883113165357350924185928534033735369058967403519437240021815150764 (by decide) (by decide) (by decide) (by decide) (by decide) (by decide) (by decide) (by decide) (by decide) (by decide) (by decide) (by decide)
  have hc62 : lift (.affine ((84353664740444228439011026249523093615980163880775352006601710044671436206174 : ℕ) : Int) ((70086162059883113165357350924185928534033735369058967403519437240021815150764 : ℕ) : Int)) = 4294967295 • Gm := by
    rw [hb62, hc61, hlG, ← add_nsmul]
  obtain ⟨hv63, hb63⟩ := dblNat_bridge 84353664740444228439011026249523093615980163880775352006601710044671436206174 70086162059883113165357350924185928534033735369058967403519437240021815150764 16940236047980639056626584750059721634414255535641278586971684564106483868840 80165801576909001438362949295731076179291498923046823273682197892218350744285 76335834519925401711137354859550513378698968333179465902206077829238143510536 (by decide) (by decide) (by decide) (by decide) (by decide) (by decide) (by decide) (by decide) (by decide)
  have hc63 : lift (.affine ((80165801576909001438362949295731076179291498923046823273682197892218350744285 : ℕ) : Int) ((76335834519925401711137354859550513378698968333179465902206077829238143510536 : ℕ) : Int)) = 8589934590 • Gm := by
    rw [hb63, hc62, ← add_nsmul]
  obtain ⟨hv64, hb64⟩ := addNat_bridge 80165801576909001438362949295731076179291498923046823273682197892218350744285 76335834519925401711137354859550513378698968333179465902206077829238143510536 55066263022277343669578718895168534326250603453777594175500187360389116729240 32670510020758816978083085130507043184471273380659243275938904335757337482424 115774637589469748276927510407856697262901798605325709750159010819345192832158 78786821699487426359958361314721033359681161432763421555767370942299619039021 5319715014792745020232243091392043996150399641965446038153158973083985020189 (by decide) (by decide) (by decide) (by decide) (by decide) (by decide) (by decide) (by decide) (by decide) (by decide) (by decide) (by decide)
  have hc64 : lift (.affine ((78786821699487426359958361314721033359681161432763421555767370942299619039021 : ℕ) : Int) ((5319715014792745020232243091392043996150399641965446038153158973083985020189 : ℕ) : Int)) = 8589934591 • Gm := by
    rw [hb64, hc63, hlG, ← add_nsmul]
  obtain ⟨hv65, hb65⟩ := dblNat_bridge 78786821699487426359958361314721033359681161432763421555767370942299619039021 5319715014792745020232243091392043996150399641965446038153158973083985020189 97340297263054436173552834885082425073784412107729539777547563152678135730335 6640879059451107400668994910367423273239675908526418456634827562014153095554 16656084350024245636578739882750977578666420118719493088948778874962246828092 (by decide) (by decide) (by decide) (by decide) (by decide) (by decide) (by decide) (by decide) (by decide)
  have hc65 : lift (.affine ((6640879059451107400668994910367423273239675908526418456634827562014153095554 : ℕ) : Int) ((16656084350024245636578739882750977578666420118719493088948778874962246828092 : ℕ) : Int)) = 17179869182 • Gm := by
    rw [hb65, hc64, ← add_nsmul]
  obtain ⟨hv66, hb66⟩ := addNat_bridge 6640879059451107400668994910367423273239675908526418456634827562014153095554 16656084350024245636578739882750977578666420118719493088948778874962246828092 55066263022277343669578718895168534326250603453777594175500187360389116729240 32670510020758816978083085130507043184471273380659243275938904335757337482424 96131165312785065152378822971278657004198940228568245828560354940363032407306 51084216215854742185447728919040420759357021777868958318771834217272767850104 78331107085374416240605228008162631849581432157984467314899883018819017109442 (by decide) (by decide) (by decide) (by decide) (by decide) (by decide) (by decide) (by decide) (by decide) (by decide) (by decide) (by decide)
  have hc66 : lift (.affine ((51084216215854742185447728919040420759357021777868958318771834217272767850104 : ℕ) : Int) ((78331107085374416240605228008162631849581432157984467314899883018819017109442 : ℕ) : Int)) = 17179869183 • Gm := by
    rw [hb66, hc65, hlG, ← add_nsmul]
  obtain ⟨hv67, hb67⟩ := dblNat_bridge 51084216215854742185447728919040420759357021777868958318771834217272767850104 78331107085374416240605228008162631849581432157984467314899883018819017109442 37935761479797775454141730259931378600155426698015157776735976312727315848742 6104333560982801750737167610152472263839869549390924044852295641736108706769 78621548981452345354215410654924805929807326019527883265514166817378707114425 (by decide) (by decide) (by decide) (by decide) (by decide) (by decide) (by decide) (by decide) (by decide)
  have hc67 : lift (.affine ((6104333560982801750737167610152472263839869549390924044852295641736108706769 : ℕ) : Int) ((78621548981452345354215410654924805929807326019527883265514166817378707114425 : ℕ) : Int)) = 34359738366 • Gm := by
    rw [hb67, hc66, ← add_nsmul]
  obtain ⟨hv68, hb68⟩ := addNat_bridge 6104333560982801750737167610152472263839869549390924044852295641736108706769 78621548981452345354215410654924805929807326019527883265514166817378707114425 55066263022277343669578718895168534326250603453777594175500187360389116729240 32670510020758816978083085130507043184471273380659243275938904335757337482424 5716685918111480659432082708008822636331057727195289573837648056538665777484 101881490194341123433053360705451383998244198252606420280948901936911256787670 44367514053649508411744762306791305818845094849984739359442905797406620122959 (by decide) (by decide) (by decide) (by decide) (by decide) (by decide) (by decide) (by decide) (by decide) (by decide) (by decide) (by decide)
  have hc68 : lift (.affine ((101881490194341123433053360705451383998244198252606420280948901936911256787670 : ℕ) : Int) ((44367514053649508411744762306791305818845094849984739359442905797406620122959 : ℕ) : Int)) = 34359738367 • Gm := by
    rw [hb68, hc67, hlG, ← add_nsmul]
  obtain ⟨hv69, hb69⟩ := dblNat_bridge 101881490194341123433053360705451383998244198252606420280948901936911256787670 44367514053649508411744762306791305818845094849984739359442905797406620122959 83402172751556404028440054329480372774396579528988708418077967624422411510107 72622737785382157972293581796884978955237137932797132472520473658902709194863 102009070360335568818105812634070137744792572755398451007546090582237970948158 (by decide) (by decide) (by decide) (by decide) (by decide) (by decide) (by decide) (by decide) (by decide)
  have hc69 : lift (.affine ((72622737785382157972293581796884978955237137932797132472520473658902709194863 : ℕ) : Int) ((102009070360335568818105812634070137744792572755398451007546090582237970948158 : ℕ) : Int)) = 68719476734 • Gm := by
    rw [hb69, hc68, ← add_nsmul]
  obtain ⟨hv70, hb70⟩ := addNat_bridge 72622737785382157972293581796884978955237137932797132472520473658902709194863 102009070360335568818105812634070137744792572755398451007546090582237970948158 55066263022277343669578718895168534326250603453777594175500187360389116729240 32670510020758816978083085130507043184471273380659243275938904335757337482424 2208932047592243972625803836709331682993944347876083135356446476945434116313 108186501298667440324417308757865113542802023824881537474980381631937107316877 63310118941092471115074693732147258898283779694854829214131142349658492287466 (by decide) (by decide) (by decide) (by decide) (by decide) (by decide) (by decide) (by decide) (by decide) (by decide) (by decide) (by decide)
  have hc70 : lift (.affine ((108186501298667440324417308757865113542802023824881537474980381631937107316877 : ℕ) : Int) ((63310118941092471115074693732147258898283779694854829214131142349658492287466 : ℕ) : Int)) = 68719476735 • Gm := by
    rw [hb70, hc69, hlG, ← add_nsmul]
  exact ⟨hv70, hc70⟩

/-- Steps 71–80 of the double-and-add certificate chain for the order of `G`. -/
theorem ordBlock7 :
    lift (Point.affine ((55066263022277343669578718895168534326250603453777594175500187360389116729240 : ℕ) : Int) ((32670510020758816978083085130507043184471273380659243275938904335757337482424 : ℕ) : Int)) = 1 • Gm →
    (Point.Valid (.affine ((108186501298667440324417308757865113542802023824881537474980381631937107316877 : ℕ) : Int) ((63310118941092471115074693732147258898283779694854829214131142349658492287466 : ℕ) : Int)) ∧
      lift (.affine ((108186501298667440324417308757865113542802023824881537474980381631937107316877 : ℕ) : Int) ((63310118941092471115074693732147258898283779694854829214131142349658492287466 : ℕ) : Int)) = 68719476735 • Gm) →
    Point.Valid (.affine ((109098191835617829931311332415435405515436192854838289338195833623815872505729 : ℕ) : Int) ((102142942366987985705818808665619507205743981580306361914988706516689453563845 : ℕ) : Int)) ∧
      lift (.affine ((109098191835617829931311332415435405515436192854838289338195833623815872505729 : ℕ) : Int) ((102142942366987985705818808665619507205743981580306361914988706516689453563845 : ℕ) : Int)) = 2199023255551 • Gm := by
  intro hlG h
  obtain ⟨hv, hl⟩ := h
  obtain ⟨hv71, hb71⟩ := dblNat_bridge 108186501298667440324417308757865113542802023824881537474980381631937107316877 63310118941092471115074693732147258898283779694854829214131142349658492287466 35261933058601178176676326385200080366084628692806981421625611042958393359247 48655180756401952563195082279654957604316002505827577219942869921321751128861 97291120313074231530618555836615705807948356857451373112413245902983466101059 (by decide) (by decide) (by decide) (by decide) (by decide) (by decide) (by decide) (by decide) (by decide)
  have hc71 : lift (.affine ((48655180756401952563195082279654957604316002505827577219942869921321751128861 : ℕ) : Int) ((97291120313074231530618555836615705807948356857451373112413245902983466101059 : ℕ) : Int)) = 137438953470 • Gm := by
    rw [hb71, hl, ← add_nsmul]
  obtain ⟨hv72, hb72⟩ := addNat_bridge 48655180756401952563195082279654957604316002505827577219942869921321751128861 97291120313074231530618555836615705807948356857451373112413245902983466101059 55066263022277343669578718895168534326250603453777594175500187360389116729240 32670510020758816978083085130507043184471273380659243275938904335757337482424 66248669549727758755449919583644534168927558015161142937662023449386677234416 41840549403235821005936376557352193994166403867190819820032881789242463772387 91599793511646498876074856482065333446029515868815501551438758011145207656662 (by decide) (by decide) (by decide) (by decide) (by decide) (by decide) (by decide) (by decide) (by decide) (by decide) (by decide) (by decide)
  have hc72 : lift (.affine ((41840549403235821005936376557352193994166403867190819820032881789242463772387 : ℕ) : Int) ((91599793511646498876074856482065333446029515868815501551438758011145207656662 : ℕ) : Int)) = 137438953471 • Gm := by
    rw [hb72, hc71, hlG, ← add_nsmul]
  obtain ⟨hv73, hb73⟩ := dblNat_bridge 41840549403235821005936376557352193994166403867190819820032881789242463772387 91599793511646498876074856482065333446029515868815501551438758011145207656662 89789816448386390264678075752153210743139393608172368429110948609261243984396 56377479331234977770329009137430545920492087896250089799036482837003835540510 80530348230364405650449753389862585892817309545369834661303035603699603135547 (by decide) (by decide) (by decide) (by decide) (by decide) (by decide) (by decide) (by decide) (by decide)
  have hc73 : lift (.affine ((56377479331234977770329009137430545920492087896250089799036482837003835540510 : ℕ) : Int) ((80530348230364405650449753389862585892817309545369834661303035603699603135547 : ℕ) : Int)) = 274877906942 • Gm := by
    rw [hb73, hc72, ← add_nsmul]
  obtain ⟨hv74, hb74⟩ := addNat_bridge 56377479331234977770329009137430545920492087896250089799036482837003835540510 80530348230364405650449753389862585892817309545369834661303035603699603135547 55066263022277343669578718895168534326250603453777594175500187360389116729240 32670510020758816978083085130507043184471273380659243275938904335757337482424 12537816870347016670257837547676914727841112676536733614303078699253160014708 63352015426960813423588234979587872893332988593351717712364360562138643073272 10169316594674782582541153430920739293971349526724878133836652234329189877930 (by decide) (by decide) (by decide) (by decide) (by decide) (by decide) (by decide) (by decide) (by decide) (by decide) (by decide) (by decide)
  have hc74 : lift (.affine ((63352015426960813423588234979587872893332988593351717712364360562138643073272 : ℕ) : Int) ((10169316594674782582541153430920739293971349526724878133836652234329189877930 : ℕ) : Int)) = 274877906943 • Gm := by
    rw [hb74, hc73, hlG, ← add_nsmul]
  obtain ⟨hv75, hb75⟩ := dblNat_bridge 63352015426960813423588234979587872893332988593351717712364360562138643073272 10169316594674782582541153430920739293971349526724878133836652234329189877930 111980368446643597138268406684328554743205777566322616512217244231692436047877 86963922874072934531973726620394294338750118517098759196217273303551714758022 15904800472330128320991459649025856989347833832662117279451935014248327595023 (by decide) (by decide) (by decide) (by decide) (by decide) (by decide) (by decide) (by decide) (by decide)
  have hc75 : lift (.affine ((86963922874072934531973726620394294338750118517098759196217273303551714758022 : ℕ) : Int) ((15904800472330128320991459649025856989347833832662117279451935014248327595023 : ℕ) : Int)) = 549755813886 • Gm := by
    rw [hb75, hc74, ← add_nsmul]
  obtain ⟨hv76, hb76⟩ := addNat_bridge 86963922874072934531973726620394294338750118517098759196217273303551714758022 15904800472330128320991459649025856989347833832662117279451935014248327595023 55066263022277343669578718895168534326250603453777594175500187360389116729240 32670510020758816978083085130507043184471273380659243275938904335757337482424 20337767216528739908514692419479681467219214886816138601822224494533163330600 5157663532647024709058703558880972226898893793719326391369739345775154833986 113912624721758006719586097032895394583220050415069887922138870474924061396341 (by decide) (by decide) (by decide) (by decide) (by decide) (by decide) (by decide) (by decide) (by decide) (by decide) (by decide) (by decide)
  have hc76 : lift (.affine ((5157663532647024709058703558880972226898893793719326391369739345775154833986 : ℕ) : Int) ((113912624721758006719586097032895394583220050415069887922138870474924061396341 : ℕ) : Int)) = 549755813887 • Gm := by
    rw [hb76, hc75, hlG, ← add_nsmul]
  obtain ⟨hv77, hb77⟩ := dblNat_bridge 5157663532647024709058703558880972226898893793719326391369739345775154833986 113912624721758006719586097032895394583220050415069887922138870474924061396341 99470872198900628614258985849078353897954214669451645805395973202010798217392 60537605175888573997755622755827334964843975807348773966081281345074259696174 47969208433274056705210024700995180533588788070064226139284899472411574468228 (by decide) (by decide) (by decide) (by decide) (by decide) (by decide) (by decide) (by decide) (by decide)
  have hc77 : lift (.affine ((60537605175888573997755622755827334964843975807348773966081281345074259696174 : ℕ) : Int) ((47969208433274056705210024700995180533588788070064226139284899472411574468228 : ℕ) : Int)) = 1099511627774 • Gm := by
    rw [hb77, hc76, ← add_nsmul]
  obtain ⟨hv78, hb78⟩ := addNat_bridge 60537605175888573997755622755827334964843975807348773966081281345074259696174 47969208433274056705210024700995180533588788070064226139284899472411574468228 55066263022277343669578718895168534326250603453777594175500187360389116729240 32670510020758816978083085130507043184471273380659243275938904335757337482424 65471335080451696464359417409942095813419475074569379928611070900111988130308 63519181026141007708570613843793256029666128081784122045328541660410391135764 18841109871223992361754566695531629734555656575900577624493448027097481966396 (by decide) (by decide) (by decide) (by decide) (by decide) (by decide) (by decide) (by decide) (by decide) (by decide) (by decide) (by decide)
  have hc78 : lift (.affine ((63519181026141007708570613843793256029666128081784122045328541660410391135764 : ℕ) : Int) ((18841109871223992361754566695531629734555656575900577624493448027097481966396 : ℕ) : Int)) = 1099511627775 • Gm := by
    rw [hb78, hc77, hlG, ← add_nsmul]
  obtain ⟨hv79, hb79⟩ := dblNat_bridge 63519181026141007708570613843793256029666128081784122045328541660410391135764 18841109871223992361754566695531629734555656575900577624493448027097481966396 80386515139950247367294363619637578520697032583555370962811023270326495631392 39123723826742477023334312005250712410798266824370854073009566451795451256950 107904919985765160957891901582792619223613265050688213247502367119066233831097 (by decide) (by decide) (by decide) (by decide) (by decide) (by decide) (by decide) (by decide) (by decide)
  have hc79 : lift (.affine ((39123723826742477023334312005250712410798266824370854073009566451795451256950 : ℕ) : Int) ((107904919985765160957891901582792619223613265050688213247502367119066233831097 : ℕ) : Int)) = 2199023255550 • Gm := by
    rw [hb79, hc78, ← add_nsmul]
  obtain ⟨hv80, hb80⟩ := addNat_bridge 39123723826742477023334312005250712410798266824370854073009566451795451256950 107904919985765160957891901582792619223613265050688213247502367119066233831097 55066263022277343669578718895168534326250603453777594175500187360389116729240 32670510020758816978083085130507043184471273380659243275938904335757337482424 112071975571572382516966447737678881092888870022420203208222279291963919734391 109098191835617829931311332415435405515436192854838289338195833623815872505729 102142942366987985705818808665619507205743981580306361914988706516689453563845 (by decide) (by decide) (by decide) (by decide) (by decide) (by decide) (by decide) (by decide) (by decide) (by decide) (by decide) (by decide)
  have hc80 : lift (.affine ((109098191835617829931311332415435405515436192854838289338195833623815872505729 : ℕ) : Int) ((102142942366987985705818808665619507205743981580306361914988706516689453563845 : ℕ) : Int)) = 2199023255551 • Gm := by
    rw [hb80, hc79, hlG, ← add_nsmul]
  exact ⟨hv80, hc80⟩

/-- Steps 81–90 of the double-and-add certificate chain for the order of `G`. -/
theorem ordBlock8 :
    lift (Point.affine ((55066263022277343669578718895168534326250603453777594175500187360389116729240 : ℕ) : Int) ((32670510020758816978083085130507043184471273380659243275938904335757337482424 : ℕ) : Int)) = 1 • Gm →
    (Point.Valid (.affine ((109098191835617829931311332415435405515436192854838289338195833623815872505729 : ℕ) : Int) ((102142942366987985705818808665619507205743981580306361914988706516689453563845 : ℕ) : Int)) ∧
      lift (.affine ((109098191835617829931311332415435405515436192854838289338195833623815872505729 : ℕ) : Int) ((102142942366987985705818808665619507205743981580306361914988706516689453563845 : ℕ) : Int)) = 2199023255551 • Gm) →
    Point.Valid (.affine ((53440279094232565328940155475881441719147860603260759839578171040853408602481 : ℕ) : Int) ((98068830247800156157588953193533450789051331777340650434423723470027939517270 : ℕ) : Int)) ∧
      lift (.affine ((53440279094232565328940155475881441719147860603260759839578171040853408602481 : ℕ) : Int) ((98068830247800156157588953193533450789051331777340650434423723470027939517270 : ℕ) : Int)) = 70368744177663 • Gm := by
  intro hlG h
  obtain ⟨hv, hl⟩ := h
  obtain ⟨hv81, hb81⟩ := dblNat_bridge 109098191835617829931311332415435405515436192854838289338195833623815872505729 102142942366987985705818808665619507205743981580306361914988706516689453563845 59726423666377219931888141009965082295351797953015693994618849878334399940685 112718568214016488677309102918060906387264485871033480078560737579484098988389 112264719213274482572626504819915992176028239505918426357175437239115073362748 (by decide) (by decide) (by decide) (by decide) (by decide) (by decide) (by decide) (by decide) (by decide)
  have hc81 : lift (.affine ((112718568214016488677309102918060906387264485871033480078560737579484098988389 : ℕ) : Int) ((112264719213274482572626504819915992176028239505918426357175437239115073362748 : ℕ) : Int)) = 4398046511102 • Gm := by
    rw [hb81, hl, ← add_nsmul]
  obtain ⟨hv82, hb82⟩ := addNat_bridge 112718568214016488677309102918060906387264485871033480078560737579484098988389 112264719213274482572626504819915992176028239505918426357175437239115073362748 55066263022277343669578718895168534326250603453777594175500187360389116729240 32670510020758816978083085130507043184471273380659243275938904335757337482424 16427937903653216979407901390446271144697751001728789869505596785436300955020 15377009659810193645280303237419457622495622589299748270518264548077736821180 27094675093175431575733833937341496207434055280027732278509679643237186475527 (by decide) (by decide) (by decide) (by decide) (by decide) (by decide) (by decide) (by decide) (by decide) (by decide) (by decide) (by decide)
  have hc82 : lift (.affine ((15377009659810193645280303237419457622495622589299748270518264548077736821180 : ℕ) : Int) ((27094675093175431575733833937341496207434055280027732278509679643237186475527 : ℕ) : Int)) = 4398046511103 • Gm := by
    rw [hb82, hc81, hlG, ← add_nsmul]
  obtain ⟨hv83, hb83⟩ := dblNat_bridge 15377009659810193645280303237419457622495622589299748270518264548077736821180 27094675093175431575733833937341496207434055280027732278509679643237186475527 104022910950073796931554041171017183251343999117043526491831815977373948779206 52371922675392882244519135204175732451736309858317458967092656710041638341236 90863686354241717572427554434078268602042559165260705751432089814349648783003 (by decide) (by decide) (by decide) (by decide) (by decide) (by decide) (by decide) (by decide) (by decide)
  have hc83 : lift (.affine ((52371922675392882244519135204175732451736309858317458967092656710041638341236 : ℕ) : Int) ((90863686354241717572427554434078268602042559165260705751432089814349648783003 : ℕ) : Int)) = 8796093022206 • Gm := by
    rw [hb83, hc82, ← add_nsmul]
  obtain ⟨hv84, hb84⟩ := addNat_bridge 52371922675392882244519135204175732451736309858317458967092656710041638341236 90863686354241717572427554434078268602042559165260705751432089814349648783003 55066263022277343669578718895168534326250603453777594175500187360389116729240 32670510020758816978083085130507043184471273380659243275938904335757337482424 83331769414663443115263062342785163182666089339972988244972957253519701869926 107422602657025406535734111254364800515382541964724737065812282508253339884595 84171559167207029248973000237810291379236814767140330348639130899969103480 (by decide) (by decide) (by decide) (by decide) (by decide) (by decide) (by decide) (by decide) (by decide) (by decide) (by decide) (by decide)
  have hc84 : lift (.affine ((107422602657025406535734111254364800515382541964724737065812282508253339884595 : ℕ) : Int) ((84171559167207029248973000237810291379236814767140330348639130899969103480 : ℕ) : Int)) = 8796093022207 • Gm := by
    rw [hb84, hc83, hlG, ← add_nsmul]
  obtain ⟨hv85, hb85⟩ := dblNat_bridge 107422602657025406535734111254364800515382541964724737065812282508253339884595 84171559167207029248973000237810291379236814767140330348639130899969103480 23449789155176650020177760884310997501864534044483467685945414332325998895276 59699381188873538978925964311772949078785741358613866608602146624397147526817 101690592240885176263116006739876751513633266803810926724797418467448012171998 (by decide) (by decide) (by decide) (by decide) (by decide) (by decide) (by decide) (by decide) (by decide)
  have hc85 : lift (.affine ((59699381188873538978925964311772949078785741358613866608602146624397147526817 : ℕ) : Int) ((101690592240885176263116006739876751513633266803810926724797418467448012171998 : ℕ) : Int)) = 17592186044414 • Gm := by
    rw [hb85, hc84, ← add_nsmul]
  obtain ⟨hv86, hb86⟩ := addNat_bridge 59699381188873538978925964311772949078785741358613866608602146624397147526817 101690592240885176263116006739876751513633266803810926724797418467448012171998 55066263022277343669578718895168534326250603453777594175500187360389116729240 32670510020758816978083085130507043184471273380659243275938904335757337482424 60180169624597315807854276280053037402214063958443878148023930505203621212970 77265759825955786027635281740235295824531006130105304258065849979355034950036 90729097695007136872335239623056846880197797584964922705641849091888847875501 (by decide) (by decide) (by decide) (by decide) (by decide) (by decide) (by decide) (by decide) (by decide) (by decide) (by decide) (by decide)
  have hc86 : lift (.affine ((77265759825955786027635281740235295824531006130105304258065849979355034950036 : ℕ) : Int) ((90729097695007136872335239623056846880197797584964922705641849091888847875501 : ℕ) : Int)) = 17592186044415 • Gm := by
    rw [hb86, hc85, hlG, ← add_nsmul]
  obtain ⟨hv87, hb87⟩ := dblNat_bridge 77265759825955786027635281740235295824531006130105304258065849979355034950036 90729097695007136872335239623056846880197797584964922705641849091888847875501 99160226676826092877061119993356700232074199526428834106791338309464190201892 61665684910924105238490734101312249538218623599653817008409989526066855240450 83123631370445031657012289580250549858617742056292044455820028810950266085597 (by decide) (by decide) (by decide) (by decide) (by decide) (by decide) (by decide) (by decide) (by decide)
  have hc87 : lift (.affine ((61665684910924105238490734101312249538218623599653817008409989526066855240450 : ℕ) : Int) ((83123631370445031657012289580250549858617742056292044455820028810950266085597 : ℕ) : Int)) = 35184372088830 • Gm := by
    rw [hb87, hc86, ← add_nsmul]
  obtain ⟨hv88, hb88⟩ := addNat_bridge 61665684910924105238490734101312249538218623599653817008409989526066855240450 83123631370445031657012289580250549858617742056292044455820028810950266085597 55066263022277343669578718895168534326250603453777594175500187360389116729240 32670510020758816978083085130507043184471273380659243275938904335757337482424 70613903445866182099324569902615669710832411922832706758397002689048440777613 4500320906608482585183335947656247634868630827461375269202834033027819464910 104211989909448110144879939968299215121688906052472274321946962961205437278111 (by decide) (by decide) (by decide) (by decide) (by decide) (by decide) (by decide) (by decide) (by decide) (by decide) (by decide) (by decide)
  have hc88 : lift (.affine ((4500320906608482585183335947656247634868630827461375269202834033027819464910 : ℕ) : Int) ((104211989909448110144879939968299215121688906052472274321946962961205437278111 : ℕ) : Int)) = 35184372088831 • Gm := by
    rw [hb88, hc87, hlG, ← add_nsmul]
  obtain ⟨hv89, hb89⟩ := dblNat_bridge 4500320906608482585183335947656247634868630827461375269202834033027819464910 104211989909448110144879939968299215121688906052472274321946962961205437278111 66978061426476820041557055526308420641817991440213875221904740773908294855985 91119336096975228661925752172504480583117084714278180735028768383779256665886 50621721069314838560716458175618938003576740936449866695910955866596296013663 (by decide) (by decide) (by decide) (by decide) (by decide) (by decide) (by decide) (by decide) (by decide)
  have hc89 : lift (.affine ((91119336096975228661925752172504480583117084714278180735028768383779256665886 : ℕ) : Int) ((50621721069314838560716458175618938003576740936449866695910955866596296013663 : ℕ) : Int)) = 70368744177662 • Gm := by
    rw [hb89, hc88, ← add_nsmul]
  obtain ⟨hv90, hb90⟩ := addNat_bridge 91119336096975228661925752172504480583117084714278180735028768383779256665886 50621721069314838560716458175618938003576740936449866695910955866596296013663 55066263022277343669578718895168534326250603453777594175500187360389116729240 32670510020758816978083085130507043184471273380659243275938904335757337482424 78774123017910044313871985683710509727405451016522822318186591288024359452955 53440279094232565328940155475881441719147860603260759839578171040853408602481 98068830247800156157588953193533450789051331777340650434423723470027939517270 (by decide) (by decide) (by decide) (by decide) (by decide) (by decide) (by decide) (by decide) (by decide) (by decide) (by decide) (by decide)
  have hc90 : lift (.affine ((53440279094232565328940155475881441719147860603260759839578171040853408602481 : ℕ) : Int) ((98068830247800156157588953193533450789051331777340650434423723470027939517270 : ℕ) : Int)) = 70368744177663 • Gm := by
    rw [hb90, hc89, hlG, ← add_nsmul]
  exact ⟨hv90, hc90⟩

/-- Steps 91–100 of the double-and-add certificate chain for the order of `G`. -/
theorem ordBlock9 :
    lift (Point.affine ((55066263022277343669578718895168534326250603453777594175500187360389116729240 : ℕ) : Int) ((32670510020758816978083085130507043184471273380659243275938904335757337482424 : ℕ) : Int)) = 1 • Gm →
    (Point.Valid (.affine ((53440279094232565328940155475881441719147860603260759839578171040853408602481 : ℕ) : Int) ((98068830247800156157588953193533450789051331777340650434423723470027939517270 : ℕ) : Int)) ∧
      lift (.affine ((53440279094232565328940155475881441719147860603260759839578171040853408602481 : ℕ) : Int) ((98068830247800156157588953193533450789051331777340650434423723470027939517270 : ℕ) : Int)) = 70368744177663 • Gm) →
    Point.Valid (.affine ((955972772060365814426001823250767597154919402147498775604052087345574537487 : ℕ) : Int) ((34158383313806541900709632039832959182067586075396778665687753877465741584860 : ℕ) : Int)) ∧
      lift (.affine ((955972772060365814426001823250767597154919402147498775604052087345574537487 : ℕ) : Int) ((34158383313806541900709632039832959182067586075396778665687753877465741584860 : ℕ) : Int)) = 2251799813685247 • Gm := by
  intro hlG h
  obtain ⟨hv, hl⟩ := h
  obtain ⟨hv91, hb91⟩ := dblNat_bridge 53440279094232565328940155475881441719147860603260759839578171040853408602481 98068830247800156157588953193533450789051331777340650434423723470027939517270 94805030485490996038388455147707613437380561099316468084872208251494694535374 78795741355709339182080548039734400054366443265473202726966589474372837994278 10875685131577777059773649573171571891652320435690122795895187069743764331267 (by decide) (by decide) (by decide) (by decide) (by decide) (by decide) (by decide) (by decide) (by decide)
  have hc91 : lift (.affine ((78795741355709339182080548039734400054366443265473202726966589474372837994278 : ℕ) : Int) ((10875685131577777059773649573171571891652320435690122795895187069743764331267 : ℕ) : Int)) = 140737488355326 • Gm := by
    rw [hb91, hl, ← add_nsmul]
  obtain ⟨hv92, hb92⟩ := addNat_bridge 78795741355709339182080548039734400054366443265473202726966589474372837994278 10875685131577777059773649573171571891652320435690122795895187069743764331267 55066263022277343669578718895168534326250603453777594175500187360389116729240 32670510020758816978083085130507043184471273380659243275938904335757337482424 114546832555494144122176669497411707825972499516286161296032805558350938439193 60055742674463988873363819260128189528088326854467209125742521133182239361570 57637149012363319946370367430926320610594542269007008300536735861057988247166 (by decide) (by decide) (by decide) (by decide) (by decide) (by decide) (by decide) (by decide) (by decide) (by decide) (by decide) (by decide)
  have hc92 : lift (.affine ((60055742674463988873363819260128189528088326854467209125742521133182239361570 : ℕ) : Int) ((57637149012363319946370367430926320610594542269007008300536735861057988247166 : ℕ) : Int)) = 140737488355327 • Gm := by
    rw [hb92, hc91, hlG, ← add_nsmul]
  obtain ⟨hv93, hb93⟩ := dblNat_bridge 60055742674463988873363819260128189528088326854467209125742521133182239361570 57637149012363319946370367430926320610594542269007008300536735861057988247166 14477036544976588874640998487475066335571912485887639856629332165080713772599 50137683907731180290707439083475228633686508396902709908565918946088663350997 102931791768343180877344407976776151990316648355922173828809563117501142301679 (by decide) (by decide) (by decide) (by decide) (by decide) (by decide) (by decide) (by decide) (by decide)
  have hc93 : lift (.affine ((50137683907731180290707439083475228633686508396902709908565918946088663350997 : ℕ) : Int) ((102931791768343180877344407976776151990316648355922173828809563117501142301679 : ℕ) : Int)) = 281474976710654 • Gm := by
    rw [hb93, hc92, ← add_nsmul]
  obtain ⟨hv94, hb94⟩ := addNat_bridge 50137683907731180290707439083475228633686508396902709908565918946088663350997 102931791768343180877344407976776151990316648355922173828809563117501142301679 55066263022277343669578718895168534326250603453777594175500187360389116729240 32670510020758816978083085130507043184471273380659243275938904335757337482424 75055846327470827235496276190642497262515917159669682577513238301064853221061 47119192025632717632907581858528586457442080615549196722885994194867158565269 29898981333524044590423333584147941655821162762817868116860386379872252316369 (by decide) (by decide) (by decide) (by decide) (by decide) (by decide) (by decide) (by decide) (by decide) (by decide) (by decide) (by decide)
  have hc94 : lift (.affine ((47119192025632717632907581858528586457442080615549196722885994194867158565269 : ℕ) : Int) ((29898981333524044590423333584147941655821162762817868116860386379872252316369 : ℕ) : Int)) = 281474976710655 • Gm := by
    rw [hb94, hc93, hlG, ← add_nsmul]
  obtain ⟨hv95, hb95⟩ := dblNat_bridge 47119192025632717632907581858528586457442080615549196722885994194867158565269 29898981333524044590423333584147941655821162762817868116860386379872252316369 6846253734025478910618899642492533465897377992818284285118524305037859965387 70426633635535645166837853475332085771576504984690726274218526995751104838007 15310766722071161040308772500649581381875944844144185517466821701351493986899 (by decide) (by decide) (by decide) (by decide) (by decide) (by decide) (by decide) (by decide) (by decide)
  have hc95 : lift (.affine ((70426633635535645166837853475332085771576504984690726274218526995751104838007 : ℕ) : Int) ((15310766722071161040308772500649581381875944844144185517466821701351493986899 : ℕ) : Int)) = 562949953421310 • Gm := by
    rw [hb95, hc94, ← add_nsmul]
  obtain ⟨hv96, hb96⟩ := addNat_bridge 70426633635535645166837853475332085771576504984690726274218526995751104838007 15310766722071161040308772500649581381875944844144185517466821701351493986899 55066263022277343669578718895168534326250603453777594175500187360389116729240 32670510020758816978083085130507043184471273380659243275938904335757337482424 53603196031846110219657160905933593592517678472221280099658968437056921656196 33579316150562254917123655624416169549235572082519748276329368862423613971908 15870266314050460654831388350136724734603418051791704676873620717795608698669 (by decide) (by decide) (by decide) (by decide) (by decide) (by decide) (by decide) (by decide) (by decide) (by decide) (by decide) (by decide)
  have hc96 : lift (.affine ((33579316150562254917123655624416169549235572082519748276329368862423613971908 : ℕ) : Int) ((15870266314050460654831388350136724734603418051791704676873620717795608698669 : ℕ) : Int)) = 562949953421311 • Gm := by
    rw [hb96, hc95, hlG, ← add_nsmul]
  obtain ⟨hv97, hb97⟩ := dblNat_bridge 33579316150562254917123655624416169549235572082519748276329368862423613971908 15870266314050460654831388350136724734603418051791704676873620717795608698669 8948776799135289186317943127729789091859763544950199145188672261085371458894 106800929121833440351588335011746448779020556317866315524556853554414651243820 52678293233076386350316818746816878632252094815109635025997969472484057680330 (by decide) (by decide) (by decide) (by decide) (by decide) (by decide) (by decide) (by decide) (by decide)
  have hc97 : lift (.affine ((106800929121833440351588335011746448779020556317866315524556853554414651243820 : ℕ) : Int) ((52678293233076386350316818746816878632252094815109635025997969472484057680330 : ℕ) : Int)) = 1125899906842622 • Gm := by
    rw [hb97, hc96, ← add_nsmul]
  obtain ⟨hv98, hb98⟩ := addNat_bridge 106800929121833440351588335011746448779020556317866315524556853554414651243820 52678293233076386350316818746816878632252094815109635025997969472484057680330 55066263022277343669578718895168534326250603453777594175500187360389116729240 32670510020758816978083085130507043184471273380659243275938904335757337482424 28053635857588503684032818063909160772740574811411158828226318372876699157713 62218197907063307193964062142071510020393887285361307887395322132195482001448 1113758504648573412036784197233300074750585484666764739201350210808642335177 (by decide) (by decide) (by decide) (by decide) (by decide) (by decide) (by decide) (by decide) (by decide) (by decide) (by decide) (by decide)
  have hc98 : lift (.affine ((62218197907063307193964062142071510020393887285361307887395322132195482001448 : ℕ) : Int) ((1113758504648573412036784197233300074750585484666764739201350210808642335177 : ℕ) : Int)) = 1125899906842623 • Gm := by
    rw [hb98, hc97, hlG, ← add_nsmul]
  obtain ⟨hv99, hb99⟩ := dblNat_bridge 62218197907063307193964062142071510020393887285361307887395322132195482001448 1113758504648573412036784197233300074750585484666764739201350210808642335177 71873696758479921362897789089657655549126391225095523279525692337822189041616 76532176990148606029323662430947464439918825978361051506009383931143160407969 55608814195171352325481339298938589757761013569783261306797723050425648592648 (by decide) (by decide) (by decide) (by decide) (by decide) (by decide) (by decide) (by decide) (by decide)
  have hc99 : lift (.affine ((76532176990148606029323662430947464439918825978361051506009383931143160407969 : ℕ) : Int) ((55608814195171352325481339298938589757761013569783261306797723050425648592648 : ℕ) : Int)) = 2251799813685246 • Gm := by
    rw [hb99, hc98, ← add_nsmul]
  obtain ⟨hv100, hb100⟩ := addNat_bridge 76532176990148606029323662430947464439918825978361051506009383931143160407969 55608814195171352325481339298938589757761013569783261306797723050425648592648 55066263022277343669578718895168534326250603453777594175500187360389116729240 32670510020758816978083085130507043184471273380659243275938904335757337482424 47377050995333086973000937844488070722245069418704183442989738794578388865642 955972772060365814426001823250767597154919402147498775604052087345574537487 34158383313806541900709632039832959182067586075396778665687753877465741584860 (by decide) (by decide) (by decide) (by decide) (by decide) (by decide) (by decide) (by decide) (by decide) (by decide) (by decide) (by decide)
  have hc100 : lift (.affine ((955972772060365814426001823250767597154919402147498775604052087345574537487 : ℕ) : Int) ((34158383313806541900709632039832959182067586075396778665687753877465741584860 : ℕ) : Int)) = 2251799813685247 • Gm := by
    rw [hb100, hc99, hlG, ← add_nsmul]
  exact ⟨hv100, hc100⟩

/-- Steps 101–110 of the double-and-add certificate chain for the order of `G`. -/
theorem ordBlock10 :
    lift (Point.affine ((55066263022277343669578718895168534326250603453777594175500187360389116729240 : ℕ) : Int) ((32670510020758816978083085130507043184471273380659243275938904335757337482424 : ℕ) : Int)) = 1 • Gm →
    (Point.Valid (.affine ((955972772060365814426001823250767597154919402147498775604052087345574537487 : ℕ) : Int) ((34158383313806541900709632039832959182067586075396778665687753877465741584860 : ℕ) : Int)) ∧
      lift (.affine ((955972772060365814426001823250767597154919402147498775604052087345574537487 : ℕ) : Int) ((34158383313806541900709632039832959182067586075396778665687753877465741584860 : ℕ) : Int)) = 2251799813685247 • Gm) →
    Point.Valid (.affine ((7352646653125235091539385753841948207584543302919810141880239610384640384548 : ℕ) : Int) ((57320003767610686451455525892128129875618335167199863304711300174957406945688 : ℕ) : Int)) ∧
      lift (.affine ((7352646653125235091539385753841948207584543302919810141880239610384640384548 : ℕ) : Int) ((57320003767610686451455525892128129875618335167199863304711300174957406945688 : ℕ) : Int)) = 72057594037927935 • Gm := by
  intro hlG h
  obtain ⟨hv, hl⟩ := h
  obtain ⟨hv101, hb101⟩ := dblNat_bridge 955972772060365814426001823250767597154919402147498775604052087345574537487 34158383313806541900709632039832959182067586075396778665687753877465741584860 115605816174124121816821783365314683308259554755120576425364837426348195528944 85146984860261720676970732485505544294711109922132114713647297506190705021068 58773095772434864141509909645703949973033781458970796001728981165338093542761 (by decide) (by decide) (by decide) (by decide) (by decide) (by decide) (by decide) (by decide) (by decide)
  have hc101 : lift (.affine ((85146984860261720676970732485505544294711109922132114713647297506190705021068 : ℕ) : Int) ((58773095772434864141509909645703949973033781458970796001728981165338093542761 : ℕ) : Int)) = 4503599627370494 • Gm := by
    rw [hb101, hl, ← add_nsmul]
  obtain ⟨hv102, hb102⟩ := addNat_bridge 85146984860261720676970732485505544294711109922132114713647297506190705021068 58773095772434864141509909645703949973033781458970796001728981165338093542761 55066263022277343669578718895168534326250603453777594175500187360389116729240 32670510020758816978083085130507043184471273380659243275938904335757337482424 49324047521032486556528305290375414224185254769167388723930292029269477740954 97574655057150239772822308753219937187651632198235949821195317750387092670224 114035262077198281957472171028679518732453531217375097516394330056953664384109 (by decide) (by decide) (by decide) (by decide) (by decide) (by decide) (by decide) (by decide) (by decide) (by decide) (by decide) (by decide)
  have hc102 : lift (.affine ((97574655057150239772822308753219937187651632198235949821195317750387092670224 : ℕ) : Int) ((114035262077198281957472171028679518732453531217375097516394330056953664384109 : ℕ) : Int)) = 4503599627370495 • Gm := by
    rw [hb102, hc101, hlG, ← add_nsmul]
  obtain ⟨hv103, hb103⟩ := dblNat_bridge 97574655057150239772822308753219937187651632198235949821195317750387092670224 114035262077198281957472171028679518732453531217375097516394330056953664384109 26047643332332930500321206030441592906402675699478640350515423382552302445357 8876278073145714043914818788617632392356969624239379220439800736732016096936 69886660714293014311046482278260782305755618754024936625170786405207470120254 (by decide) (by decide) (by decide) (by decide) (by decide) (by decide) (by decide) (by decide) (by decide)
  have hc103 : lift (.affine ((8876278073145714043914818788617632392356969624239379220439800736732016096936 : ℕ) : Int) ((69886660714293014311046482278260782305755618754024936625170786405207470120254 : ℕ) : Int)) = 9007199254740990 • Gm := by
    rw [hb103, hc102, ← add_nsmul]
  obtain ⟨hv104, hb104⟩ := addNat_bridge 8876278073145714043914818788617632392356969624239379220439800736732016096936 69886660714293014311046482278260782305755618754024936625170786405207470120254 55066263022277343669578718895168534326250603453777594175500187360389116729240 32670510020758816978083085130507043184471273380659243275938904335757337482424 3188302718685516567469484401954412053740690458641268622834934032588565067798 59676222880177841816944816430346551319075708718862432730259699474796006051387 113767489975063736793016818672417018685893282189434860864821854541919744418294 (by decide) (by decide) (by decide) (by decide) (by decide) (by decide) (by decide) (by decide) (by decide) (by decide) (by decide) (by decide)
  have hc104 : lift (.affine ((59676222880177841816944816430346551319075708718862432730259699474796006051387 : ℕ) : Int) ((113767489975063736793016818672417018685893282189434860864821854541919744418294 : ℕ) : Int)) = 9007199254740991 • Gm := by
    rw [hb104, hc103, hlG, ← add_nsmul]
  obtain ⟨hv105, hb105⟩ := dblNat_bridge 59676222880177841816944816430346551319075708718862432730259699474796006051387 113767489975063736793016818672417018685893282189434860864821854541919744418294 70319107982004576210251992688142491869786973879034326052351180854553280294491 2266766961788023578540671856371255363138760274838431481462520690355284905440 10560000189228896836428534868026474002527057536879614414302128054388209844632 (by decide) (by decide) (by decide) (by decide) (by decide) (by decide) (by decide) (by decide) (by decide)
  have hc105 : lift (.affine ((2266766961788023578540671856371255363138760274838431481462520690355284905440 : ℕ) : Int) ((10560000189228896836428534868026474002527057536879614414302128054388209844632 : ℕ) : Int)) = 18014398509481982 • Gm := by
    rw [hb105, hc104, ← add_nsmul]
  obtain ⟨hv106, hb106⟩ := addNat_bridge 2266766961788023578540671856371255363138760274838431481462520690355284905440 10560000189228896836428534868026474002527057536879614414302128054388209844632 55066263022277343669578718895168534326250603453777594175500187360389116729240 32670510020758816978083085130507043184471273380659243275938904335757337482424 92755780827418924210541269982647766553641116845623094489227329139262016458156 98100234653560119695957686315679911369155550787487864922517528515134848152008 7212593634438543088921851861508602600175719029930785490426529189202519408068 (by decide) (by decide) (by decide) (by decide) (by decide) (by decide) (by decide) (by decide) (by decide) (by decide) (by decide) (by decide)
  have hc106 : lift (.affine ((98100234653560119695957686315679911369155550787487864922517528515134848152008 : ℕ) : Int) ((7212593634438543088921851861508602600175719029930785490426529189202519408068 : ℕ) : Int)) = 18014398509481983 • Gm := by
    rw [hb106, hc105, hlG, ← add_nsmul]
  obtain ⟨hv107, hb107⟩ := dblNat_bridge 98100234653560119695957686315679911369155550787487864922517528515134848152008 7212593634438543088921851861508602600175719029930785490426529189202519408068 43621897188494757380964248723170434773257905654482204793694984120528937851043 87731336863399673453613353935062713343377076533356095273093701561604408858144 17413419347093828023552189040788378215098967240511462271556808803885490972701 (by decide) (by decide) (by decide) (by decide) (by decide) (by decide) (by decide) (by decide) (by decide)
  have hc107 : lift (.affine ((87731336863399673453613353935062713343377076533356095273093701561604408858144 : ℕ) : Int) ((17413419347093828023552189040788378215098967240511462271556808803885490972701 : ℕ) : Int)) = 36028797018963966 • Gm := by
    rw [hb107, hc106, ← add_nsmul]
  obtain ⟨hv108, hb108⟩ := addNat_bridge 87731336863399673453613353935062713343377076533356095273093701561604408858144 17413419347093828023552189040788378215098967240511462271556808803885490972701 55066263022277343669578718895168534326250603453777594175500187360389116729240 32670510020758816978083085130507043184471273380659243275938904335757337482424 84751248707869091065471242844815063112194194021634622589211779879653449397793 109786135944210397388873595693297054780874984542603101886974622445049253330421 61701105106867082881034592858086706691914021138219545599338088274892159051328 (by decide) (by decide) (by decide) (by decide) (by decide) (by decide) (by decide) (by decide) (by decide) (by decide) (by decide) (by decide)
  have hc108 : lift (.affine ((109786135944210397388873595693297054780874984542603101886974622445049253330421 : ℕ) : Int) ((61701105106867082881034592858086706691914021138219545599338088274892159051328 : ℕ) : Int)) = 36028797018963967 • Gm := by
    rw [hb108, hc107, hlG, ← add_nsmul]
  obtain ⟨hv109, hb109⟩ := dblNat_bridge 109786135944210397388873595693297054780874984542603101886974622445049253330421 61701105106867082881034592858086706691914021138219545599338088274892159051328 59840508552718390286197042190338832996308102991387290197765617193727554808702 23944277057876458707575348487022938961045791292437473592083861008980876790168 99156957990234931579347156710081486518695634504104638720661239305524642353918 (by decide) (by decide) (by decide) (by decide) (by decide) (by decide) (by decide) (by decide) (by decide)
  have hc109 : lift (.affine ((23944277057876458707575348487022938961045791292437473592083861008980876790168 : ℕ) : Int) ((99156957990234931579347156710081486518695634504104638720661239305524642353918 : ℕ) : Int)) = 72057594037927934 • Gm := by
    rw [hb109, hc108, ← add_nsmul]
  obtain ⟨hv110, hb110⟩ := addNat_bridge 23944277057876458707575348487022938961045791292437473592083861008980876790168 99156957990234931579347156710081486518695634504104638720661239305524642353918 55066263022277343669578718895168534326250603453777594175500187360389116729240 32670510020758816978083085130507043184471273380659243275938904335757337482424 105129589103995114171953286043463993560482005193181881022626563536193450372306 7352646653125235091539385753841948207584543302919810141880239610384640384548 57320003767610686451455525892128129875618335167199863304711300174957406945688 (by decide) (by decide) (by decide) (by decide) (by decide) (by decide) (by decide) (by decide) (by decide) (by decide) (by decide) (by decide)
  have hc110 : lift (.affine ((7352646653125235091539385753841948207584543302919810141880239610384640384548 : ℕ) : Int) ((57320003767610686451455525892128129875618335167199863304711300174957406945688 : ℕ) : Int)) = 72057594037927935 • Gm := by
    rw [hb110, hc109, hlG, ← add_nsmul]
  exact ⟨hv110, hc110⟩

/-- Steps 111–120 of the double-and-add certificate chain for the order of `G`. -/
theorem ordBlock11 :
    lift (Point.affine ((55066263022277343669578718895168534326250603453777594175500187360389116729240 : ℕ) : Int) ((32670510020758816978083085130507043184471273380659243275938904335757337482424 : ℕ) : Int)) = 1 • Gm →
    (Point.Valid (.affine ((7352646653125235091539385753841948207584543302919810141880239610384640384548 : ℕ) : Int) ((57320003767610686451455525892128129875618335167199863304711300174957406945688 : ℕ) : Int)) ∧
      lift (.affine ((7352646653125235091539385753841948207584543302919810141880239610384640384548 : ℕ) : Int) ((57320003767610686451455525892128129875618335167199863304711300174957406945688 : ℕ) : Int)) = 72057594037927935 • Gm) →
    Point.Valid (.affine ((30559635682027978320791015089724611029607503079697975096069657079304930371375 : ℕ) : Int) ((93616523751052126345341995451946380882122858827117094958113379847429411656123 : ℕ) : Int)) ∧
      lift (.affine ((30559635682027978320791015089724611029607503079697975096069657079304930371375 : ℕ) : Int) ((93616523751052126345341995451946380882122858827117094958113379847429411656123 : ℕ) : Int)) = 2305843009213693951 • Gm := by
  intro hlG h
  obtain ⟨hv, hl⟩ := h
  obtain ⟨hv111, hb111⟩ := dblNat_bridge 7352646653125235091539385753841948207584543302919810141880239610384640384548 57320003767610686451455525892128129875618335167199863304711300174957406945688 64127424690366853070091165051122451903291075634722200667227698716854206095855 34280653519843377451937139630501389029884168299181669306757128682916054469824 18997621901545843980776450514213425726505451461649816040250615876243104035473 (by decide) (by decide) (by decide) (by decide) (by decide) (by decide) (by decide) (by decide) (by decide)
  have hc111 : lift (.affine ((34280653519843377451937139630501389029884168299181669306757128682916054469824 : ℕ) : Int) ((18997621901545843980776450514213425726505451461649816040250615876243104035473 : ℕ) : Int)) = 144115188075855870 • Gm := by
    rw [hb111, hl, ← add_nsmul]
  obtain ⟨hv112, hb112⟩ := addNat_bridge 34280653519843377451937139630501389029884168299181669306757128682916054469824 18997621901545843980776450514213425726505451461649816040250615876243104035473 55066263022277343669578718895168534326250603453777594175500187360389116729240 32670510020758816978083085130507043184471273380659243275938904335757337482424 48956534255048797085601204349560015111394656058304099769505667051577579771255 41969211591311065423420781686540596611061980315976704126864750361657589822770 18091150181937180886070077401657120121560271397982636008473137183607468974995 (by decide) (by decide) (by decide) (by decide) (by decide) (by decide) (by decide) (by decide) (by decide) (by decide) (by decide) (by decide)
  have hc112 : lift (.affine ((41969211591311065423420781686540596611061980315976704126864750361657589822770 : ℕ) : Int) ((18091150181937180886070077401657120121560271397982636008473137183607468974995 : ℕ) : Int)) = 144115188075855871 • Gm := by
    rw [hb112, hc111, hlG, ← add_nsmul]
  obtain ⟨hv113, hb113⟩ := dblNat_bridge 41969211591311065423420781686540596611061980315976704126864750361657589822770 18091150181937180886070077401657120121560271397982636008473137183607468974995 39174627301049144618188301690768019442419257800104813625388798809144858120325 69796078189345457404347748818030558972274421414737415436708499974870334860585 67054839073467059311757002312709266410030708661514190727083819027468863641186 (by decide) (by decide) (by decide) (by decide) (by decide) (by decide) (by decide) (by decide) (by decide)
  have hc113 : lift (.affine ((69796078189345457404347748818030558972274421414737415436708499974870334860585 : ℕ) : Int) ((67054839073467059311757002312709266410030708661514190727083819027468863641186 : ℕ) : Int)) = 288230376151711742 • Gm := by
    rw [hb113, hc112, ← add_nsmul]
  obtain ⟨hv114, hb114⟩ := addNat_bridge 69796078189345457404347748818030558972274421414737415436708499974870334860585 67054839073467059311757002312709266410030708661514190727083819027468863641186 55066263022277343669578718895168534326250603453777594175500187360389116729240 32670510020758816978083085130507043184471273380659243275938904335757337482424 13464309846186564699153253018695815033699745002700877542583480787414304026249 57667694242125392227644440580916338161431509907942280918265426298998833804056 40595687447034664853414134434343920178781477120116109896506131246716613198067 (by decide) (by decide) (by decide) (by decide) (by decide) (by decide) (by decide) (by decide) (by decide) (by decide) (by decide) (by decide)
  have hc114 : lift (.affine ((57667694242125392227644440580916338161431509907942280918265426298998833804056 : ℕ) : Int) ((40595687447034664853414134434343920178781477120116109896506131246716613198067 : ℕ) : Int)) = 288230376151711743 • Gm := by
    rw [hb114, hc113, hlG, ← add_nsmul]
  obtain ⟨hv115, hb115⟩ := dblNat_bridge 57667694242125392227644440580916338161431509907942280918265426298998833804056 40595687447034664853414134434343920178781477120116109896506131246716613198067 76548826957749829150142366448670715489116281565045020884840446690102797928 100581078876771812367877698780862335848882125588687974241678657484425367666315 61897847860071194963588138165528540501549869033328917270882734112355224703594 (by decide) (by decide) (by decide) (by decide) (by decide) (by decide) (by decide) (by decide) (by decide)
  have hc115 : lift (.affine ((100581078876771812367877698780862335848882125588687974241678657484425367666315 : ℕ) : Int) ((61897847860071194963588138165528540501549869033328917270882734112355224703594 : ℕ) : Int)) = 576460752303423486 • Gm := by
    rw [hb115, hc114, ← add_nsmul]
  obtain ⟨hv116, hb116⟩ := addNat_bridge 100581078876771812367877698780862335848882125588687974241678657484425367666315 61897847860071194963588138165528540501549869033328917270882734112355224703594 55066263022277343669578718895168534326250603453777594175500187360389116729240 32670510020758816978083085130507043184471273380659243275938904335757337482424 109118173950982649732719998533328659159601453089682467690168667827192642751995 87248390119165522520034865009193321434278617932790836117487731915580823024219 59246090989571848327316085462031657784101477098192323455519636899309151460159 (by decide) (by decide) (by decide) (by decide) (by decide) (by decide) (by decide) (by decide) (by decide) (by decide) (by decide) (by decide)
  have hc116 : lift (.affine ((87248390119165522520034865009193321434278617932790836117487731915580823024219 : ℕ) : Int) ((59246090989571848327316085462031657784101477098192323455519636899309151460159 : ℕ) : Int)) = 576460752303423487 • Gm := by
    rw [hb116, hc115, hlG, ← add_nsmul]
  obtain ⟨hv117, hb117⟩ := dblNat_bridge 87248390119165522520034865009193321434278617932790836117487731915580823024219 59246090989571848327316085462031657784101477098192323455519636899309151460159 9709667714319792998347506366560471302846956905498070584264105536661535219253 43180301949281423608269570696868112703827526493230379930240486246966758342522 66125488718303916785605720066392340863458336204328129908700005440219778802163 (by decide) (by decide) (by decide) (by decide) (by decide) (by decide) (by decide) (by decide) (by decide)
  have hc117 : lift (.affine ((43180301949281423608269570696868112703827526493230379930240486246966758342522 : ℕ) : Int) ((66125488718303916785605720066392340863458336204328129908700005440219778802163 : ℕ) : Int)) = 1152921504606846974 • Gm := by
    rw [hb117, hc116, ← add_nsmul]
  obtain ⟨hv118, hb118⟩ := addNat_bridge 43180301949281423608269570696868112703827526493230379930240486246966758342522 66125488718303916785605720066392340863458336204328129908700005440219778802163 55066263022277343669578718895168534326250603453777594175500187360389116729240 32670510020758816978083085130507043184471273380659243275938904335757337482424 65986138479333211757684406114287529637611679713678143365126749398505994498029 42996732171235027011349421139832615101636114408540841320901258060022069199553 83396492006452181043085508240253868869541800938670863135164434536814228279719 (by decide) (by decide) (by decide) (by decide) (by decide) (by decide) (by decide) (by decide) (by decide) (by decide) (by decide) (by decide)
  have hc118 : lift (.affine ((42996732171235027011349421139832615101636114408540841320901258060022069199553 : ℕ) : Int) ((83396492006452181043085508240253868869541800938670863135164434536814228279719 : ℕ) : Int)) = 1152921504606846975 • Gm := by
    rw [hb118, hc117, hlG, ← add_nsmul]
  obtain ⟨hv119, hb119⟩ := dblNat_bridge 42996732171235027011349421139832615101636114408540841320901258060022069199553 83396492006452181043085508240253868869541800938670863135164434536814228279719 91567726808188147763488449553428616262328832673278194691274913994937259231895 34365412336047599202961517437764133311428721597411921859331650388683066527277 80825409244798481744222526367085099781201161470276815041473567205783290291988 (by decide) (by decide) (by decide) (by decide) (by decide) (by decide) (by decide) (by decide) (by decide)
  have hc119 : lift (.affine ((34365412336047599202961517437764133311428721597411921859331650388683066527277 : ℕ) : Int) ((80825409244798481744222526367085099781201161470276815041473567205783290291988 : ℕ) : Int)) = 2305843009213693950 • Gm := by
    rw [hb119, hc118, ← add_nsmul]
  obtain ⟨hv120, hb120⟩ := addNat_bridge 34365412336047599202961517437764133311428721597411921859331650388683066527277 80825409244798481744222526367085099781201161470276815041473567205783290291988 55066263022277343669578718895168534326250603453777594175500187360389116729240 32670510020758816978083085130507043184471273380659243275938904335757337482424 50807529732865571419578119485966803416458730346735302926876275033816913952932 30559635682027978320791015089724611029607503079697975096069657079304930371375 93616523751052126345341995451946380882122858827117094958113379847429411656123 (by decide) (by decide) (by decide) (by decide) (by decide) (by decide) (by decide) (by decide) (by decide) (by decide) (by decide) (by decide)
  have hc120 : lift (.affine ((30559635682027978320791015089724611029607503079697975096069657079304930371375 : ℕ) : Int) ((93616523751052126345341995451946380882122858827117094958113379847429411656123 : ℕ) : Int)) = 2305843009213693951 • Gm := by
    rw [hb120, hc119, hlG, ← add_nsmul]
  exact ⟨hv120, hc120⟩

/-- Steps 121–130 of the double-and-add certificate chain for the order of `G`. -/
theorem ordBlock12 :
    lift (Point.affine ((55066263022277343669578718895168534326250603453777594175500187360389116729240 : ℕ) : Int) ((32670510020758816978083085130507043184471273380659243275938904335757337482424 : ℕ) : Int)) = 1 • Gm →
    (Point.Valid (.affine ((30559635682027978320791015089724611029607503079697975096069657079304930371375 : ℕ) : Int) ((93616523751052126345341995451946380882122858827117094958113379847429411656123 : ℕ) : Int)) ∧
      lift (.affine ((30559635682027978320791015089724611029607503079697975096069657079304930371375 : ℕ) : Int) ((93616523751052126345341995451946380882122858827117094958113379847429411656123 : ℕ) : Int)) = 2305843009213693951 • Gm) →
    Point.Valid (.affine ((104382819233375948821060204835079409219650766341428760994907568541140407502992 : ℕ) : Int) ((58080574027248273943764977950910409798091407726190230366565479198690384878701 : ℕ) : Int)) ∧
      lift (.affine ((104382819233375948821060204835079409219650766341428760994907568541140407502992 : ℕ) : Int) ((58080574027248273943764977950910409798091407726190230366565479198690384878701 : ℕ) : Int)) = 73786976294838206463 • Gm := by
  intro hlG h
  obtain ⟨hv, hl⟩ := h
  obtain ⟨hv121, hb121⟩ := dblNat_bridge 30559635682027978320791015089724611029607503079697975096069657079304930371375 93616523751052126345341995451946380882122858827117094958113379847429411656123 67231459941475518827874033888565232698485605557334652223079691256737014390502 10178629213829222033768572296709655836979988407354047340799027023801449024236 30885347327920833701530407719026074668099170227259845597390428323258501658572 (by decide) (by decide) (by decide) (by decide) (by decide) (by decide) (by decide) (by decide) (by decide)
  have hc121 : lift (.affine ((10178629213829222033768572296709655836979988407354047340799027023801449024236 : ℕ) : Int) ((30885347327920833701530407719026074668099170227259845597390428323258501658572 : ℕ) : Int)) = 4611686018427387902 • Gm := by
    rw [hb121, hl, ← add_nsmul]
  obtain ⟨hv122, hb122⟩ := addNat_bridge 10178629213829222033768572296709655836979988407354047340799027023801449024236 30885347327920833701530407719026074668099170227259845597390428323258501658572 55066263022277343669578718895168534326250603453777594175500187360389116729240 32670510020758816978083085130507043184471273380659243275938904335757337482424 12726321136644199243835240660056274187235939116060508077259938469814599143276 18570449685475918431428622025021463034364882436471191283127859882586996609801 29368911820273316603297913236451994547728198217697271832963043753393767436509 (by decide) (by decide) (by decide) (by decide) (by decide) (by decide) (by decide) (by decide) (by decide) (by decide) (by decide) (by decide)
  have hc122 : lift (.affine ((18570449685475918431428622025021463034364882436471191283127859882586996609801 : ℕ) : Int) ((29368911820273316603297913236451994547728198217697271832963043753393767436509 : ℕ) : Int)) = 4611686018427387903 • Gm := by
    rw [hb122, hc121, hlG, ← add_nsmul]
  obtain ⟨hv123, hb123⟩ := dblNat_bridge 18570449685475918431428622025021463034364882436471191283127859882586996609801 29368911820273316603297913236451994547728198217697271832963043753393767436509 60626615577815612677064412852089173308027002773432651993581644002337822281080 12327526995915432620779262409120799109502738320264397133689224807203979859796 53454534591899847310118247474575791399383048928024700533268638099926201959084 (by decide) (by decide) (by decide) (by decide) (by decide) (by decide) (by decide) (by decide) (by decide)
  have hc123 : lift (.affine ((12327526995915432620779262409120799109502738320264397133689224807203979859796 : ℕ) : Int) ((53454534591899847310118247474575791399383048928024700533268638099926201959084 : ℕ) : Int)) = 9223372036854775806 • Gm := by
    rw [hb123, hc122, ← add_nsmul]
  obtain ⟨hv124, hb124⟩ := addNat_bridge 12327526995915432620779262409120799109502738320264397133689224807203979859796 53454534591899847310118247474575791399383048928024700533268638099926201959084 55066263022277343669578718895168534326250603453777594175500187360389116729240 32670510020758816978083085130507043184471273380659243275938904335757337482424 36625177091613076544420917432159732755741787983006509261185190174459836528247 15148391597642804072346119047125209977057190235171731969261106466169304622925 41676970176496293421530647206488575301456543808630528474409842952493016850574 (by decide) (by decide) (by decide) (by decide) (by decide) (by decide) (by decide) (by decide) (by decide) (by decide) (by decide) (by decide)
  have hc124 : lift (.affine ((15148391597642804072346119047125209977057190235171731969261106466169304622925 : ℕ) : Int) ((41676970176496293421530647206488575301456543808630528474409842952493016850574 : ℕ) : Int)) = 9223372036854775807 • Gm := by
    rw [hb124, hc123, hlG, ← add_nsmul]
  obtain ⟨hv125, hb125⟩ := dblNat_bridge 15148391597642804072346119047125209977057190235171731969261106466169304622925 41676970176496293421530647206488575301456543808630528474409842952493016850574 79047051633757188067909083410291286291502401431086802052784386083322164976465 101952480642391879094251207658098510468198261325992808981231262865452871953531 91582598311754693298915219434865473014497415123371568776592758853842381417518 (by decide) (by decide) (by decide) (by decide) (by decide) (by decide) (by decide) (by decide) (by decide)
  have hc125 : lift (.affine ((101952480642391879094251207658098510468198261325992808981231262865452871953531 : ℕ) : Int) ((91582598311754693298915219434865473014497415123371568776592758853842381417518 : ℕ) : Int)) = 18446744073709551614 • Gm := by
    rw [hb125, hc124, ← add_nsmul]
  obtain ⟨hv126, hb126⟩ := addNat_bridge 101952480642391879094251207658098510468198261325992808981231262865452871953531 91582598311754693298915219434865473014497415123371568776592758853842381417518 55066263022277343669578718895168534326250603453777594175500187360389116729240 32670510020758816978083085130507043184471273380659243275938904335757337482424 41665388894228397730650493237836434547107051536060319983755649378680737429588 22103564225080446607870885038642619297116411945151334988292469497259080155623 87221748030493249802157529909219195243606877670052731797952720158686957464281 (by decide) (by decide) (by decide) (by decide) (by decide) (by decide) (by decide) (by decide) (by decide) (by decide) (by decide) (by decide)
  have hc126 : lift (.affine ((22103564225080446607870885038642619297116411945151334988292469497259080155623 : ℕ) : Int) ((87221748030493249802157529909219195243606877670052731797952720158686957464281 : ℕ) : Int)) = 18446744073709551615 • Gm := by
    rw [hb126, hc125, hlG, ← add_nsmul]
  obtain ⟨hv127, hb127⟩ := dblNat_bridge 22103564225080446607870885038642619297116411945151334988292469497259080155623 87221748030493249802157529909219195243606877670052731797952720158686957464281 45271701547783011272310596335834142308948491849902830442339017873487681394025 113210879676304528419029931553524435461761070272255865471262583319749067903816 90279947238743211589891683212119236369918768015053042195743038755548468197266 (by decide) (by decide) (by decide) (by decide) (by decide) (by decide) (by decide) (by decide) (by decide)
  have hc127 : lift (.affine ((113210879676304528419029931553524435461761070272255865471262583319749067903816 : ℕ) : Int) ((90279947238743211589891683212119236369918768015053042195743038755548468197266 : ℕ) : Int)) = 36893488147419103230 • Gm := by
    rw [hb127, hc126, ← add_nsmul]
  obtain ⟨hv128, hb128⟩ := addNat_bridge 113210879676304528419029931553524435461761070272255865471262583319749067903816 90279947238743211589891683212119236369918768015053042195743038755548468197266 55066263022277343669578718895168534326250603453777594175500187360389116729240 32670510020758816978083085130507043184471273380659243275938904335757337482424 51842138988248633386333428201710527005155172357012233069325415791328246689380 53292770891319724299762508271388442336765622579730001681037373252459505320872 94622996831461279450281483111341390684559764412625585424944426108621126265229 (by decide) (by decide) (by decide) (by decide) (by decide) (by decide) (by decide) (by decide) (by decide) (by decide) (by decide) (by decide)
  have hc128 : lift (.affine ((53292770891319724299762508271388442336765622579730001681037373252459505320872 : ℕ) : Int) ((94622996831461279450281483111341390684559764412625585424944426108621126265229 : ℕ) : Int)) = 36893488147419103231 • Gm := by
    rw [hb128, hc127, hlG, ← add_nsmul]
  obtain ⟨hv129, hb129⟩ := dblNat_bridge 53292770891319724299762508271388442336765622579730001681037373252459505320872 94622996831461279450281483111341390684559764412625585424944426108621126265229 4991037151236011831524014108271706380680986092095087429872057732892866049758 28635733480691770648588206532260214094526331922081836765501070020984211481425 87942438673005288017379149741314583439630440574555080300659030233840153517213 (by decide) (by decide) (by decide) (by decide) (by decide) (by decide) (by decide) (by decide) (by decide)
  have hc129 : lift (.affine ((28635733480691770648588206532260214094526331922081836765501070020984211481425 : ℕ) : Int) ((87942438673005288017379149741314583439630440574555080300659030233840153517213 : ℕ) : Int)) = 73786976294838206462 • Gm := by
    rw [hb129, hc128, ← add_nsmul]
  obtain ⟨hv130, hb130⟩ := addNat_bridge 28635733480691770648588206532260214094526331922081836765501070020984211481425 87942438673005288017379149741314583439630440574555080300659030233840153517213 55066263022277343669578718895168534326250603453777594175500187360389116729240 32670510020758816978083085130507043184471273380659243275938904335757337482424 44042589322452788599607545404816215665236115815336897184824447664038175716707 104382819233375948821060204835079409219650766341428760994907568541140407502992 58080574027248273943764977950910409798091407726190230366565479198690384878701 (by decide) (by decide) (by decide) (by decide) (by decide) (by decide) (by decide) (by decide) (by decide) (by decide) (by decide) (by decide)
  have hc130 : lift (.affine ((104382819233375948821060204835079409219650766341428760994907568541140407502992 : ℕ) : Int) ((58080574027248273943764977950910409798091407726190230366565479198690384878701 : ℕ) : Int)) = 73786976294838206463 • Gm := by
    rw [hb130, hc129, hlG, ← add_nsmul]
  exact ⟨hv130, hc130⟩

/-- Steps 131–140 of the double-and-add certificate chain for the order of `G`. -/
theorem ordBlock13 :
    lift (Point.affine ((55066263022277343669578718895168534326250603453777594175500187360389116729240 : ℕ) : Int) ((32670510020758816978083085130507043184471273380659243275938904335757337482424 : ℕ) : Int)) = 1 • Gm →
    (Point.Valid (.affine ((104382819233375948821060204835079409219650766341428760994907568541140407502992 : ℕ) : Int) ((58080574027248273943764977950910409798091407726190230366565479198690384878701 : ℕ) : Int)) ∧
      lift (.affine ((104382819233375948821060204835079409219650766341428760994907568541140407502992 : ℕ) : Int) ((58080574027248273943764977950910409798091407726190230366565479198690384878701 : ℕ) : Int)) = 73786976294838206463 • Gm) →
    Point.Valid (.affine ((40006824179279478246383979390776198972214066998233568406143078794679478404604 : ℕ) : Int) ((63911107283045208288170787488200904916503676943126161184424021803573029420439 : ℕ) : Int)) ∧
      lift (.affine ((40006824179279478246383979390776198972214066998233568406143078794679478404604 : ℕ) : Int) ((63911107283045208288170787488200904916503676943126161184424021803573029420439 : ℕ) : Int)) = 2361183241434822606847 • Gm := by
  intro hlG h
  obtain ⟨hv, hl⟩ := h
  obtain ⟨hv131, hb131⟩ := dblNat_bridge 104382819233375948821060204835079409219650766341428760994907568541140407502992 58080574027248273943764977950910409798091407726190230366565479198690384878701 37307702212203562047866625882874787795236727002636116840474633176018078606526 100852890513209217768752312518982368619604473771512031385147662327364066283672 83458358279731601098164942838789626696785392759797694811116308380995766371981 (by decide) (by decide) (by decide) (by decide) (by decide) (by decide) (by decide) (by decide) (by decide)
  have hc131 : lift (.affine ((100852890513209217768752312518982368619604473771512031385147662327364066283672 : ℕ) : Int) ((83458358279731601098164942838789626696785392759797694811116308380995766371981 : ℕ) : Int)) = 147573952589676412926 • Gm := by
    rw [hb131, hl, ← add_nsmul]
  obtain ⟨hv132, hb132⟩ := addNat_bridge 100852890513209217768752312518982368619604473771512031385147662327364066283672 83458358279731601098164942838789626696785392759797694811116308380995766371981 55066263022277343669578718895168534326250603453777594175500187360389116729240 32670510020758816978083085130507043184471273380659243275938904335757337482424 114406714283076790062609247666147497172592945116458188010218981818304753099185 87121413235775345371139065968090261692681059191700557906619629644082465947353 97853506659582679243713408634146812076250274382292349320559653926697346453143 (by decide) (by decide) (by decide) (by decide) (by decide) (by decide) (by decide) (by decide) (by decide) (by decide) (by decide) (by decide)
  have hc132 : lift (.affine ((87121413235775345371139065968090261692681059191700557906619629644082465947353 : ℕ) : Int) ((97853506659582679243713408634146812076250274382292349320559653926697346453143 : ℕ) : Int)) = 147573952589676412927 • Gm := by
    rw [hb132, hc131, hlG, ← add_nsmul]
  obtain ⟨hv133, hb133⟩ := dblNat_bridge 87121413235775345371139065968090261692681059191700557906619629644082465947353 97853506659582679243713408634146812076250274382292349320559653926697346453143 38668378727705595167693360835957852458778772205647701782046275274524195310979 34920722305703570585297928448157468123040258628978144890436748937204190527128 12615413620923791886497727357479519713741040777007539478384129515708727078753 (by decide) (by decide) (by decide) (by decide) (by decide) (by decide) (by decide) (by decide) (by decide)
  have hc133 : lift (.affine ((34920722305703570585297928448157468123040258628978144890436748937204190527128 : ℕ) : Int) ((12615413620923791886497727357479519713741040777007539478384129515708727078753 : ℕ) : Int)) = 295147905179352825854 • Gm := by
    rw [hb133, hc132, ← add_nsmul]
  obtain ⟨hv134, hb134⟩ := addNat_bridge 34920722305703570585297928448157468123040258628978144890436748937204190527128 12615413620923791886497727357479519713741040777007539478384129515708727078753 55066263022277343669578718895168534326250603453777594175500187360389116729240 32670510020758816978083085130507043184471273380659243275938904335757337482424 94708224906631446379099526497029983250162282748436784204146681646140128746583 64508705600696268193602749164834025490812763671008480721405778441868310188192 108300173316676122653661466206322777908558378863144199447143333130204313159185 (by decide) (by decide) (by decide) (by decide) (by decide) (by decide) (by decide) (by decide) (by decide) (by decide) (by decide) (by decide)
  have hc134 : lift (.affine ((64508705600696268193602749164834025490812763671008480721405778441868310188192 : ℕ) : Int) ((108300173316676122653661466206322777908558378863144199447143333130204313159185 : ℕ) : Int)) = 295147905179352825855 • Gm := by
    rw [hb134, hc133, hlG, ← add_nsmul]
  obtain ⟨hv135, hb135⟩ := dblNat_bridge 64508705600696268193602749164834025490812763671008480721405778441868310188192 108300173316676122653661466206322777908558378863144199447143333130204313159185 4417486266849415455526950287127890463494499150128499498805974429600252410564 45216309709145393189099063858246762106205652494006031842442231648607292449253 1470086676908630402192533238271353634706640802114795216658118671411869227387 (by decide) (by decide) (by decide) (by decide) (by decide) (by decide) (by decide) (by decide) (by decide)
  have hc135 : lift (.affine ((45216309709145393189099063858246762106205652494006031842442231648607292449253 : ℕ) : Int) ((1470086676908630402192533238271353634706640802114795216658118671411869227387 : ℕ) : Int)) = 590295810358705651710 • Gm := by
    rw [hb135, hc134, ← add_nsmul]
  obtain ⟨hv136, hb136⟩ := addNat_bridge 45216309709145393189099063858246762106205652494006031842442231648607292449253 1470086676908630402192533238271353634706640802114795216658118671411869227387 55066263022277343669578718895168534326250603453777594175500187360389116729240 32670510020758816978083085130507043184471273380659243275938904335757337482424 113253325380590607403813303661096127079245048811782494185186131847605565806943 31553742580066097491681965644132770777863132275408121019366303930830391760727 75535856934091835189645468594095946388963228494197003992531589439897843132305 (by decide) (by decide) (by decide) (by decide) (by decide) (by decide) (by decide) (by decide) (by decide) (by decide) (by decide) (by decide)
  have hc136 : lift (.affine ((31553742580066097491681965644132770777863132275408121019366303930830391760727 : ℕ) : Int) ((75535856934091835189645468594095946388963228494197003992531589439897843132305 : ℕ) : Int)) = 590295810358705651711 • Gm := by
    rw [hb136, hc135, hlG, ← add_nsmul]
  obtain ⟨hv137, hb137⟩ := dblNat_bridge 31553742580066097491681965644132770777863132275408121019366303930830391760727 75535856934091835189645468594095946388963228494197003992531589439897843132305 102374972421610516702535714831766479746606190469448312892095070378353003657876 104904358704874335942980934743508382287926715503465217194405507991466997342408 114202540988488729768503369525509200749514967627048385462265170530011716768713 (by decide) (by decide) (by decide) (by decide) (by decide) (by decide) (by decide) (by decide) (by decide)
  have hc137 : lift (.affine ((104904358704874335942980934743508382287926715503465217194405507991466997342408 : ℕ) : Int) ((114202540988488729768503369525509200749514967627048385462265170530011716768713 : ℕ) : Int)) = 1180591620717411303422 • Gm := by
    rw [hb137, hc136, ← add_nsmul]
  obtain ⟨hv138, hb138⟩ := addNat_bridge 104904358704874335942980934743508382287926715503465217194405507991466997342408 114202540988488729768503369525509200749514967627048385462265170530011716768713 55066263022277343669578718895168534326250603453777594175500187360389116729240 32670510020758816978083085130507043184471273380659243275938904335757337482424 15525203464936594705025898988540791974126654324250366980151023744014594726205 79482838193812466566551157837259655554023322963445081684905365968084510890759 7672184863734075007806002791435125713704795189780522726534664394466569085246 (by decide) (by decide) (by decide) (by decide) (by decide) (by decide) (by decide) (by decide) (by decide) (by decide) (by decide) (by decide)
  have hc138 : lift (.affine ((79482838193812466566551157837259655554023322963445081684905365968084510890759 : ℕ) : Int) ((7672184863734075007806002791435125713704795189780522726534664394466569085246 : ℕ) : Int)) = 1180591620717411303423 • Gm := by
    rw [hb138, hc137, hlG, ← add_nsmul]
  obtain ⟨hv139, hb139⟩ := dblNat_bridge 79482838193812466566551157837259655554023322963445081684905365968084510890759 7672184863734075007806002791435125713704795189780522726534664394466569085246 82792432588197854460146568423034704537208407181415136454181030639777896945003 45011685278033515321813982364511916620645766008066947806212234520093824439582 34690527835625772355571004088162367859861791735781901773434039180099574854618 (by decide) (by decide) (by decide) (by decide) (by decide) (by decide) (by decide) (by decide) (by decide)
  have hc139 : lift (.affine ((45011685278033515321813982364511916620645766008066947806212234520093824439582 : ℕ) : Int) ((34690527835625772355571004088162367859861791735781901773434039180099574854618 : ℕ) : Int)) = 2361183241434822606846 • Gm := by
    rw [hb139, hc138, ← add_nsmul]
  obtain ⟨hv140, hb140⟩ := addNat_bridge 45011685278033515321813982364511916620645766008066947806212234520093824439582 34690527835625772355571004088162367859861791735781901773434039180099574854618 55066263022277343669578718895168534326250603453777594175500187360389116729240 32670510020758816978083085130507043184471273380659243275938904335757337482424 52045172971928114382485279340118504501225443201044885045229598473963732076915 40006824179279478246383979390776198972214066998233568406143078794679478404604 63911107283045208288170787488200904916503676943126161184424021803573029420439 (by decide) (by decide) (by decide) (by decide) (by decide) (by decide) (by decide) (by decide) (by decide) (by decide) (by decide) (by decide)
  have hc140 : lift (.affine ((40006824179279478246383979390776198972214066998233568406143078794679478404604 : ℕ) : Int) ((63911107283045208288170787488200904916503676943126161184424021803573029420439 : ℕ) : Int)) = 2361183241434822606847 • Gm := by
    rw [hb140, hc139, hlG, ← add_nsmul]
  exact ⟨hv140, hc140⟩

/-- Steps 141–150 of the double-and-add certificate chain for the order of `G`. -/
theorem ordBlock14 :
    lift (Point.affine ((55066263022277343669578718895168534326250603453777594175500187360389116729240 : ℕ) : Int) ((32670510020758816978083085130507043184471273380659243275938904335757337482424 : ℕ) : Int)) = 1 • Gm →
    (Point.Valid (.affine ((40006824179279478246383979390776198972214066998233568406143078794679478404604 : ℕ) : Int) ((63911107283045208288170787488200904916503676943126161184424021803573029420439 : ℕ) : Int)) ∧
      lift (.affine ((40006824179279478246383979390776198972214066998233568406143078794679478404604 : ℕ) : Int) ((63911107283045208288170787488200904916503676943126161184424021803573029420439 : ℕ) : Int)) = 2361183241434822606847 • Gm) →
    Point.Valid (.affine ((22450482926355316635789631825502755060507102722041815412186716301088658413126 : ℕ) : Int) ((49843515169238008942075553046175857807445154680580434101328073400629657380741 : ℕ) : Int)) ∧
      lift (.affine ((22450482926355316635789631825502755060507102722041815412186716301088658413126 : ℕ) : Int) ((49843515169238008942075553046175857807445154680580434101328073400629657380741 : ℕ) : Int)) = 75557863725914323419135 • Gm := by
  intro hlG h
  obtain ⟨hv, hl⟩ := h
  obtain ⟨hv141, hb141⟩ := dblNat_bridge 40006824179279478246383979390776198972214066998233568406143078794679478404604 63911107283045208288170787488200904916503676943126161184424021803573029420439 840136571804728214686861699983479724959482274912127073149874018910718591015 109640761196615707159808240374121281203921166279268423934612589322840647533032 103058750426718694959484477603054717237766739335414786954719492749873922089896 (by decide) (by decide) (by decide) (by decide) (by decide) (by decide) (by decide) (by decide) (by decide)
  have hc141 : lift (.affine ((109640761196615707159808240374121281203921166279268423934612589322840647533032 : ℕ) : Int) ((103058750426718694959484477603054717237766739335414786954719492749873922089896 : ℕ) : Int)) = 4722366482869645213694 • Gm := by
    rw [hb141, hl, ← add_nsmul]
  obtain ⟨hv142, hb142⟩ := addNat_bridge 109640761196615707159808240374121281203921166279268423934612589322840647533032 103058750426718694959484477603054717237766739335414786954719492749873922089896 55066263022277343669578718895168534326250603453777594175500187360389116729240 32670510020758816978083085130507043184471273380659243275938904335757337482424 90989777507679127688661337190094465208373344285201924106941722761644008040937 44324295561254480448644385315555472422567172545121385136730640228434188212349 64884880477979079406092136828758632240294980691231793283265141811645097833185 (by decide) (by decide) (by decide) (by decide) (by decide) (by decide) (by decide) (by decide) (by decide) (by decide) (by decide) (by decide)
  have hc142 : lift (.affine ((44324295561254480448644385315555472422567172545121385136730640228434188212349 : ℕ) : Int) ((64884880477979079406092136828758632240294980691231793283265141811645097833185 : ℕ) : Int)) = 4722366482869645213695 • Gm := by
    rw [hb142, hc141, hlG, ← add_nsmul]
  obtain ⟨hv143, hb143⟩ := dblNat_bridge 44324295561254480448644385315555472422567172545121385136730640228434188212349 64884880477979079406092136828758632240294980691231793283265141811645097833185 11514595689208989555608645438178644660697569399786500427218405456982060222241 2157688191658482573776211343691367095964395617868092638890321249708790224040 58579844167751436422159035990675211415121673575945849322266044022109819873551 (by decide) (by decide) (by decide) (by decide) (by decide) (by decide) (by decide) (by decide) (by decide)
  have hc143 : lift (.affine ((2157688191658482573776211343691367095964395617868092638890321249708790224040 : ℕ) : Int) ((58579844167751436422159035990675211415121673575945849322266044022109819873551 : ℕ) : Int)) = 9444732965739290427390 • Gm := by
    rw [hb143, hc142, ← add_nsmul]
  obtain ⟨hv144, hb144⟩ := addNat_bridge 2157688191658482573776211343691367095964395617868092638890321249708790224040 58579844167751436422159035990675211415121673575945849322266044022109819873551 55066263022277343669578718895168534326250603453777594175500187360389116729240 32670510020758816978083085130507043184471273380659243275938904335757337482424 15229267283924951033771273026710920740200075812621219215441748919385320190737 51762641834137309590377308555800551375204466011196116329469015971162053419513 48852435339900536910507169123584647636957722179464253582620347324402206618400 (by decide) (by decide) (by decide) (by decide) (by decide) (by decide) (by decide) (by decide) (by decide) (by decide) (by decide) (by decide)
  have hc144 : lift (.affine ((51762641834137309590377308555800551375204466011196116329469015971162053419513 : ℕ) : Int) ((48852435339900536910507169123584647636957722179464253582620347324402206618400 : ℕ) : Int)) = 9444732965739290427391 • Gm := by
    rw [hb144, hc143, hlG, ← add_nsmul]
  obtain ⟨hv145, hb145⟩ := dblNat_bridge 51762641834137309590377308555800551375204466011196116329469015971162053419513 48852435339900536910507169123584647636957722179464253582620347324402206618400 20271306443092875241097644557561379810014174593749296572999357764943253347159 62102185457114994845676853081492923316636682355518641939045186745113414634006 70718836984125267255805710601981032268889476764699446217400851431247027815387 (by decide) (by decide) (by decide) (by decide) (by decide) (by decide) (by decide) (by decide) (by decide)
  have hc145 : lift (.affine ((62102185457114994845676853081492923316636682355518641939045186745113414634006 : ℕ) : Int) ((70718836984125267255805710601981032268889476764699446217400851431247027815387 : ℕ) : Int)) = 18889465931478580854782 • Gm := by
    rw [hb145, hc144, ← add_nsmul]
  obtain ⟨hv146, hb146⟩ := addNat_bridge 62102185457114994845676853081492923316636682355518641939045186745113414634006 70718836984125267255805710601981032268889476764699446217400851431247027815387 55066263022277343669578718895168534326250603453777594175500187360389116729240 32670510020758816978083085130507043184471273380659243275938904335757337482424 42022527816407968676134072404539054592797633684154225382827926147629743468660 1625358302550356076144877112958928276657823741312782907330610610695073236158 51504747141565539305902879515269311253106798733493643399988409007227213877039 (by decide) (by decide) (by decide) (by decide) (by decide) (by decide) (by decide) (by decide) (by decide) (by decide) (by decide) (by decide)
  have hc146 : lift (.affine ((1625358302550356076144877112958928276657823741312782907330610610695073236158 : ℕ) : Int) ((51504747141565539305902879515269311253106798733493643399988409007227213877039 : ℕ) : Int)) = 18889465931478580854783 • Gm := by
    rw [hb146, hc145, hlG, ← add_nsmul]
  obtain ⟨hv147, hb147⟩ := dblNat_bridge 1625358302550356076144877112958928276657823741312782907330610610695073236158 51504747141565539305902879515269311253106798733493643399988409007227213877039 100824502891323408874896559050755023455353459902001395080596739299340282826094 84021375352214536460547218956757907786451333989430517933933248782152845367664 50521851166865010642373556081722262193156768982231191511021417891851271799691 (by decide) (by decide) (by decide) (by decide) (by decide) (by decide) (by decide) (by decide) (by decide)
  have hc147 : lift (.affine ((84021375352214536460547218956757907786451333989430517933933248782152845367664 : ℕ) : Int) ((50521851166865010642373556081722262193156768982231191511021417891851271799691 : ℕ) : Int)) = 37778931862957161709566 • Gm := by
    rw [hb147, hc146, ← add_nsmul]
  obtain ⟨hv148, hb148⟩ := addNat_bridge 84021375352214536460547218956757907786451333989430517933933248782152845367664 50521851166865010642373556081722262193156768982231191511021417891851271799691 55066263022277343669578718895168534326250603453777594175500187360389116729240 32670510020758816978083085130507043184471273380659243275938904335757337482424 26696538329843003004539564467350371701609874656077278146246482193319979145302 67478303162118444572504034558421348318215287021520112672580322163074389198316 45655519175430922080837987952804273992110774624168523433138214464888681080540 (by decide) (by decide) (by decide) (by decide) (by decide) (by decide) (by decide) (by decide) (by decide) (by decide) (by decide) (by decide)
  have hc148 : lift (.affine ((67478303162118444572504034558421348318215287021520112672580322163074389198316 : ℕ) : Int) ((45655519175430922080837987952804273992110774624168523433138214464888681080540 : ℕ) : Int)) = 37778931862957161709567 • Gm := by
    rw [hb148, hc147, hlG, ← add_nsmul]
  obtain ⟨hv149, hb149⟩ := dblNat_bridge 67478303162118444572504034558421348318215287021520112672580322163074389198316 45655519175430922080837987952804273992110774624168523433138214464888681080540 1216820313654058767891673016428210130181892728910070086250126302749106506379 101493111348930640579671528368810598816830952890235906165605662251140106326096 48498601024153563452869020294279010803477853873690451329452940112324389676224 (by decide) (by decide) (by decide) (by decide) (by decide) (by decide) (by decide) (by decide) (by decide)
  have hc149 : lift (.affine ((101493111348930640579671528368810598816830952890235906165605662251140106326096 : ℕ) : Int) ((48498601024153563452869020294279010803477853873690451329452940112324389676224 : ℕ) : Int)) = 75557863725914323419134 • Gm := by
    rw [hb149, hc148, ← add_nsmul]
  obtain ⟨hv150, hb150⟩ := addNat_bridge 101493111348930640579671528368810598816830952890235906165605662251140106326096 48498601024153563452869020294279010803477853873690451329452940112324389676224 55066263022277343669578718895168534326250603453777594175500187360389116729240 32670510020758816978083085130507043184471273380659243275938904335757337482424 57367007358754988517022130221340717975939300274877534651083132756767902944492 22450482926355316635789631825502755060507102722041815412186716301088658413126 49843515169238008942075553046175857807445154680580434101328073400629657380741 (by decide) (by decide) (by decide) (by decide) (by decide) (by decide) (by decide) (by decide) (by decide) (by decide) (by decide) (by decide)
  have hc150 : lift (.affine ((22450482926355316635789631825502755060507102722041815412186716301088658413126 : ℕ) : Int) ((49843515169238008942075553046175857807445154680580434101328073400629657380741 : ℕ) : Int)) = 75557863725914323419135 • Gm := by
    rw [hb150, hc149, hlG, ← add_nsmul]
  exact ⟨hv150, hc150⟩

/-- Steps 151–160 of the double-and-add certificate chain for the order of `G`. -/
theorem ordBlock15 :
    lift (Point.affine ((55066263022277343669578718895168534326250603453777594175500187360389116729240 : ℕ) : Int) ((32670510020758816978083085130507043184471273380659243275938904335757337482424 : ℕ) : Int)) = 1 • Gm →
    (Point.Valid (.affine ((22450482926355316635789631825502755060507102722041815412186716301088658413126 : ℕ) : Int) ((49843515169238008942075553046175857807445154680580434101328073400629657380741 : ℕ) : Int)) ∧
      lift (.affine ((22450482926355316635789631825502755060507102722041815412186716301088658413126 : ℕ) : Int) ((49843515169238008942075553046175857807445154680580434101328073400629657380741 : ℕ) : Int)) = 75557863725914323419135 • Gm) →
    Point.Valid (.affine ((39261184883770600215447004450698348776246648887622688659900461760596352567901 : ℕ) : Int) ((97866594687121262928169170491681964441544535216784462345826602066268902847490 : ℕ) : Int)) ∧
      lift (.affine ((39261184883770600215447004450698348776246648887622688659900461760596352567901 : ℕ) : Int) ((97866594687121262928169170491681964441544535216784462345826602066268902847490 : ℕ) : Int)) = 2417851639229258349412351 • Gm := by
  intro hlG h
  obtain ⟨hv, hl⟩ := h
  obtain ⟨hv151, hb151⟩ := dblNat_bridge 22450482926355316635789631825502755060507102722041815412186716301088658413126 49843515169238008942075553046175857807445154680580434101328073400629657380741 73842967111468804920441556143206542939832012235006588677913003355201948017807 56712877214964810736183720728886056020834529899963675735260574994029113434596 105660994438182685329509050169214638207951972927072670918447672885598770615056 (by decide) (by decide) (by decide) (by decide) (by decide) (by decide) (by decide) (by decide) (by decide)
  have hc151 : lift (.affine ((56712877214964810736183720728886056020834529899963675735260574994029113434596 : ℕ) : Int) ((105660994438182685329509050169214638207951972927072670918447672885598770615056 : ℕ) : Int)) = 151115727451828646838270 • Gm := by
    rw [hb151, hl, ← add_nsmul]
  obtain ⟨hv152, hb152⟩ := addNat_bridge 56712877214964810736183720728886056020834529899963675735260574994029113434596 105660994438182685329509050169214638207951972927072670918447672885598770615056 55066263022277343669578718895168534326250603453777594175500187360389116729240 32670510020758816978083085130507043184471273380659243275938904335757337482424 87235732339398190841757053525619314465054288132725352110857040592798599072724 96926370804713869128289460776553568157131032007905625868569623436326437691755 23252823836962129902354028496893626010132898403894580632794492175875151189457 (by decide) (by decide) (by decide) (by decide) (by decide) (by decide) (by decide) (by decide) (by decide) (by decide) (by decide) (by decide)
  have hc152 : lift (.affine ((96926370804713869128289460776553568157131032007905625868569623436326437691755 : ℕ) : Int) ((23252823836962129902354028496893626010132898403894580632794492175875151189457 : ℕ) : Int)) = 151115727451828646838271 • Gm := by
    rw [hb152, hc151, hlG, ← add_nsmul]
  obtain ⟨hv153, hb153⟩ := dblNat_bridge 96926370804713869128289460776553568157131032007905625868569623436326437691755 23252823836962129902354028496893626010132898403894580632794492175875151189457 53639790052634859969170880201475325183981595870793483453095198478372573756803 31437653471361162506132906954426246341245000964634733178415929522621137083372 63773341043204184721426994829588998650933827985151956417939028472781314891002 (by decide) (by decide) (by decide) (by decide) (by decide) (by decide) (by decide) (by decide) (by decide)
  have hc153 : lift (.affine ((31437653471361162506132906954426246341245000964634733178415929522621137083372 : ℕ) : Int) ((63773341043204184721426994829588998650933827985151956417939028472781314891002 : ℕ) : Int)) = 302231454903657293676542 • Gm := by
    rw [hb153, hc152, ← add_nsmul]
  obtain ⟨hv154, hb154⟩ := addNat_bridge 31437653471361162506132906954426246341245000964634733178415929522621137083372 63773341043204184721426994829588998650933827985151956417939028472781314891002 55066263022277343669578718895168534326250603453777594175500187360389116729240 32670510020758816978083085130507043184471273380659243275938904335757337482424 3835507023051183988013969552602533898748364452024674921530057154125936182656 9439408293664874412278516496081650999501770165545632430228224246191489170530 98545225526333006892662513911404721585272398614584929792248874790367090290029 (by decide) (by decide) (by decide) (by decide) (by decide) (by decide) (by decide) (by decide) (by decide) (by decide) (by decide) (by decide)
  have hc154 : lift (.affine ((9439408293664874412278516496081650999501770165545632430228224246191489170530 : ℕ) : Int) ((98545225526333006892662513911404721585272398614584929792248874790367090290029 : ℕ) : Int)) = 302231454903657293676543 • Gm := by
    rw [hb154, hc153, hlG, ← add_nsmul]
  obtain ⟨hv155, hb155⟩ := dblNat_bridge 9439408293664874412278516496081650999501770165545632430228224246191489170530 98545225526333006892662513911404721585272398614584929792248874790367090290029 68806731971561202354585587438770767024764401493089968337562363419563953056289 16423372235130632948134777293211830112240867744586614974329893160444020798778 102942427694018876676790542873352064161098428892507225116875133849809523483770 (by decide) (by decide) (by decide) (by decide) (by decide) (by decide) (by decide) (by decide) (by decide)
  have hc155 : lift (.affine ((16423372235130632948134777293211830112240867744586614974329893160444020798778 : ℕ) : Int) ((102942427694018876676790542873352064161098428892507225116875133849809523483770 : ℕ) : Int)) = 604462909807314587353086 • Gm := by
    rw [hb155, hc154, ← add_nsmul]
  obtain ⟨hv156, hb156⟩ := addNat_bridge 16423372235130632948134777293211830112240867744586614974329893160444020798778 102942427694018876676790542873352064161098428892507225116875133849809523483770 55066263022277343669578718895168534326250603453777594175500187360389116729240 32670510020758816978083085130507043184471273380659243275938904335757337482424 107052582606395261250641206968693337509554900832235614174588063687354801960698 49834199044402751342403980214968796739324455725387256194389274551610849691351 7409681337355278749505730871264480955432653060401635616427995442845443765261 (by decide) (by decide) (by decide) (by decide) (by decide) (by decide) (by decide) (by decide) (by decide) (by decide) (by decide) (by decide)
  have hc156 : lift (.affine ((49834199044402751342403980214968796739324455725387256194389274551610849691351 : ℕ) : Int) ((7409681337355278749505730871264480955432653060401635616427995442845443765261 : ℕ) : Int)) = 604462909807314587353087 • Gm := by
    rw [hb156, hc155, hlG, ← add_nsmul]
  obtain ⟨hv157, hb157⟩ := dblNat_bridge 49834199044402751342403980214968796739324455725387256194389274551610849691351 7409681337355278749505730871264480955432653060401635616427995442845443765261 95543181364732933520591334009381245235498928519466239112117270768810696790747 30685596459897934519258273022417673219968426882391225764609607083830729325381 99305598551240114923359420875677959357861463322711779340263181189097252683794 (by decide) (by decide) (by decide) (by decide) (by decide) (by decide) (by decide) (by decide) (by decide)
  have hc157 : lift (.affine ((30685596459897934519258273022417673219968426882391225764609607083830729325381 : ℕ) : Int) ((99305598551240114923359420875677959357861463322711779340263181189097252683794 : ℕ) : Int)) = 1208925819614629174706174 • Gm := by
    rw [hb157, hc156, ← add_nsmul]
  obtain ⟨hv158, hb158⟩ := addNat_bridge 30685596459897934519258273022417673219968426882391225764609607083830729325381 99305598551240114923359420875677959357861463322711779340263181189097252683794 55066263022277343669578718895168534326250603453777594175500187360389116729240 32670510020758816978083085130507043184471273380659243275938904335757337482424 99268941745139988233639486994370403114457185568032611521232791701205417271161 72377952735338845254336429394882820024390462803578547242704692126200452442878 107718924346953345005121608508382869193128446322347507670229170755489356619013 (by decide) (by decide) (by decide) (by decide) (by decide) (by decide) (by decide) (by decide) (by decide) (by decide) (by decide) (by decide)
  have hc158 : lift (.affine ((72377952735338845254336429394882820024390462803578547242704692126200452442878 : ℕ) : Int) ((107718924346953345005121608508382869193128446322347507670229170755489356619013 : ℕ) : Int)) = 1208925819614629174706175 • Gm := by
    rw [hb158, hc157, hlG, ← add_nsmul]
  obtain ⟨hv159, hb159⟩ := dblNat_bridge 72377952735338845254336429394882820024390462803578547242704692126200452442878 107718924346953345005121608508382869193128446322347507670229170755489356619013 82531338096428676368565475544649679908750612981462426934422638225740068454272 42798752998582824759067578710856426602332077189262133533566314498456649260001 95981680123127825853390492936344144571169831725580185218231256961771265452263 (by decide) (by decide) (by decide) (by decide) (by decide) (by decide) (by decide) (by decide) (by decide)
  have hc159 : lift (.affine ((42798752998582824759067578710856426602332077189262133533566314498456649260001 : ℕ) : Int) ((95981680123127825853390492936344144571169831725580185218231256961771265452263 : ℕ) : Int)) = 2417851639229258349412350 • Gm := by
    rw [hb159, hc158, ← add_nsmul]
  obtain ⟨hv160, hb160⟩ := addNat_bridge 42798752998582824759067578710856426602332077189262133533566314498456649260001 95981680123127825853390492936344144571169831725580185218231256961771265452263 55066263022277343669578718895168534326250603453777594175500187360389116729240 32670510020758816978083085130507043184471273380659243275938904335757337482424 2330889388789409294780677101902591100275626138233224864080053495281005759604 39261184883770600215447004450698348776246648887622688659900461760596352567901 97866594687121262928169170491681964441544535216784462345826602066268902847490 (by decide) (by decide) (by decide) (by decide) (by decide) (by decide) (by decide) (by decide) (by decide) (by decide) (by decide) (by decide)
  have hc160 : lift (.affine ((39261184883770600215447004450698348776246648887622688659900461760596352567901 : ℕ) : Int) ((97866594687121262928169170491681964441544535216784462345826602066268902847490 : ℕ) : Int)) = 2417851639229258349412351 • Gm := by
    rw [hb160, hc159, hlG, ← add_nsmul]
  exact ⟨hv160, hc160⟩

/-- Steps 161–170 of the double-and-add certificate chain for the order of `G`. -/
theorem ordBlock16 :
    lift (Point.affine ((55066263022277343669578718895168534326250603453777594175500187360389116729240 : ℕ) : Int) ((32670510020758816978083085130507043184471273380659243275938904335757337482424 : ℕ) : Int)) = 1 • Gm →
    (Point.Valid (.affine ((39261184883770600215447004450698348776246648887622688659900461760596352567901 : ℕ) : Int) ((97866594687121262928169170491681964441544535216784462345826602066268902847490 : ℕ) : Int)) ∧
      lift (.affine ((39261184883770600215447004450698348776246648887622688659900461760596352567901 : ℕ) : Int) ((97866594687121262928169170491681964441544535216784462345826602066268902847490 : ℕ) : Int)) = 2417851639229258349412351 • Gm) →
    Point.Valid (.affine ((26347203382034468033080519127286096502355415302567320409996544909172235566217 : ℕ) : Int) ((85432587551390156173118841594382432269569274666841517319523891318444222352484 : ℕ) : Int)) ∧
      lift (.affine ((26347203382034468033080519127286096502355415302567320409996544909172235566217 : ℕ) : Int) ((85432587551390156173118841594382432269569274666841517319523891318444222352484 : ℕ) : Int)) = 77371252455336267181195263 • Gm := by
  intro hlG h
  obtain ⟨hv, hl⟩ := h
  obtain ⟨hv161, hb161⟩ := dblNat_bridge 39261184883770600215447004450698348776246648887622688659900461760596352567901 97866594687121262928169170491681964441544535216784462345826602066268902847490 105484880471442900400836772065994091243249353890525207683576075993291644790461 93254506469085774650194021267996982171438117325042175510031262549657011199734 74789449349581692497001848880286485092429918174859528925290026580203064630883 (by decide) (by decide) (by decide) (by decide) (by decide) (by decide) (by decide) (by decide) (by decide)
  have hc161 : lift (.affine ((93254506469085774650194021267996982171438117325042175510031262549657011199734 : ℕ) : Int) ((74789449349581692497001848880286485092429918174859528925290026580203064630883 : ℕ) : Int)) = 4835703278458516698824702 • Gm := by
    rw [hb161, hl, ← add_nsmul]
  obtain ⟨hv162, hb162⟩ := addNat_bridge 93254506469085774650194021267996982171438117325042175510031262549657011199734 74789449349581692497001848880286485092429918174859528925290026580203064630883 55066263022277343669578718895168534326250603453777594175500187360389116729240 32670510020758816978083085130507043184471273380659243275938904335757337482424 100434673180186325804040116944681115611516263923135679140374527420441735772973 78391608898286991109340831172841046674056218500992096819680074474155289461748 54379522251155358386601140265712536356632695247176263483288813044983599475409 (by decide) (by decide) (by decide) (by decide) (by decide) (by decide) (by decide) (by decide) (by decide) (by decide) (by decide) (by decide)
  have hc162 : lift (.affine ((78391608898286991109340831172841046674056218500992096819680074474155289461748 : ℕ) : Int) ((54379522251155358386601140265712536356632695247176263483288813044983599475409 : ℕ) : Int)) = 4835703278458516698824703 • Gm := by
    rw [hb162, hc161, hlG, ← add_nsmul]
  obtain ⟨hv163, hb163⟩ := dblNat_bridge 78391608898286991109340831172841046674056218500992096819680074474155289461748 54379522251155358386601140265712536356632695247176263483288813044983599475409 6695168393099767330256444416361842241522756168812162187648425240027117391494 6729052514778949745814559992468078507671806883691110031253608856400752508469 58796928038034460752127296492896850966052649581762568158129419155636566250757 (by decide) (by decide) (by decide) (by decide) (by decide) (by decide) (by decide) (by decide) (by decide)
  have hc163 : lift (.affine ((6729052514778949745814559992468078507671806883691110031253608856400752508469 : ℕ) : Int) ((58796928038034460752127296492896850966052649581762568158129419155636566250757 : ℕ) : Int)) = 9671406556917033397649406 • Gm := by
    rw [hb163, hc162, ← add_nsmul]
  obtain ⟨hv164, hb164⟩ := addNat_bridge 6729052514778949745814559992468078507671806883691110031253608856400752508469 58796928038034460752127296492896850966052649581762568158129419155636566250757 55066263022277343669578718895168534326250603453777594175500187360389116729240 32670510020758816978083085130507043184471273380659243275938904335757337482424 111731960538689861798756408722590636812458305370309815729899039750821464936115 4998765799601109863848317745685921768817201777791150648007554562543172356152 24183410519953040633026237345180369153815915420979200924045974595689469370254 (by decide) (by decide) (by decide) (by decide) (by decide) (by decide) (by decide) (by decide) (by decide) (by decide) (by decide) (by decide)
  have hc164 : lift (.affine ((4998765799601109863848317745685921768817201777791150648007554562543172356152 : ℕ) : Int) ((24183410519953040633026237345180369153815915420979200924045974595689469370254 : ℕ) : Int)) = 9671406556917033397649407 • Gm := by
    rw [hb164, hc163, hlG, ← add_nsmul]
  obtain ⟨hv165, hb165⟩ := dblNat_bridge 4998765799601109863848317745685921768817201777791150648007554562543172356152 24183410519953040633026237345180369153815915420979200924045974595689469370254 16152132345840619093716580461964294355381918819269090864731491447015141526072 92789546240918323037276140540093360493868053160549584992489873508727482241315 4122864374429390156221597088512502581870957103363902058631539732140726278953 (by decide) (by decide) (by decide) (by decide) (by decide) (by decide) (by decide) (by decide) (by decide)
  have hc165 : lift (.affine ((92789546240918323037276140540093360493868053160549584992489873508727482241315 : ℕ) : Int) ((4122864374429390156221597088512502581870957103363902058631539732140726278953 : ℕ) : Int)) = 19342813113834066795298814 • Gm := by
    rw [hb165, hc164, ← add_nsmul]
  obtain ⟨hv166, hb166⟩ := addNat_bridge 92789546240918323037276140540093360493868053160549584992489873508727482241315 4122864374429390156221597088512502581870957103363902058631539732140726278953 55066263022277343669578718895168534326250603453777594175500187360389116729240 32670510020758816978083085130507043184471273380659243275938904335757337482424 23497039948784586441027116753543066313882953754020187081555660192264208634990 75037641525330548438366345211249800454023883339528549724724326336040899951780 78087127835062635979478142873227887799376173229474834051048138993141344992239 (by decide) (by decide) (by decide) (by decide) (by decide) (by decide) (by decide) (by decide) (by decide) (by decide) (by decide) (by decide)
  have hc166 : lift (.affine ((75037641525330548438366345211249800454023883339528549724724326336040899951780 : ℕ) : Int) ((78087127835062635979478142873227887799376173229474834051048138993141344992239 : ℕ) : Int)) = 19342813113834066795298815 • Gm := by
    rw [hb166, hc165, hlG, ← add_nsmul]
  obtain ⟨hv167, hb167⟩ := dblNat_bridge 75037641525330548438366345211249800454023883339528549724724326336040899951780 78087127835062635979478142873227887799376173229474834051048138993141344992239 74227992570124173924602696290271300447336067135888721364874604921135767631286 10452049731724109972559368991889308066815565751936853593704076703425731834970 73138108142333356652323368264617711853133425993778190891680280471571486658319 (by decide) (by decide) (by decide) (by decide) (by decide) (by decide) (by decide) (by decide) (by decide)
  have hc167 : lift (.affine ((10452049731724109972559368991889308066815565751936853593704076703425731834970 : ℕ) : Int) ((73138108142333356652323368264617711853133425993778190891680280471571486658319 : ℕ) : Int)) = 38685626227668133590597630 • Gm := by
    rw [hb167, hc166, ← add_nsmul]
  obtain ⟨hv168, hb168⟩ := addNat_bridge 10452049731724109972559368991889308066815565751936853593704076703425731834970 73138108142333356652323368264617711853133425993778190891680280471571486658319 55066263022277343669578718895168534326250603453777594175500187360389116729240 32670510020758816978083085130507043184471273380659243275938904335757337482424 60246613608933191212847607490149284861402008857457053634747253916150549745668 17426941972997457114419396342801255422479936823522368424444413012512492841678 79380105453532112637073441233597122529064501807957802003095822434313040682634 (by decide) (by decide) (by decide) (by decide) (by decide) (by decide) (by decide) (by decide) (by decide) (by decide) (by decide) (by decide)
  have hc168 : lift (.affine ((17426941972997457114419396342801255422479936823522368424444413012512492841678 : ℕ) : Int) ((79380105453532112637073441233597122529064501807957802003095822434313040682634 : ℕ) : Int)) = 38685626227668133590597631 • Gm := by
    rw [hb168, hc167, hlG, ← add_nsmul]
  obtain ⟨hv169, hb169⟩ := dblNat_bridge 17426941972997457114419396342801255422479936823522368424444413012512492841678 79380105453532112637073441233597122529064501807957802003095822434313040682634 105432482485490896632920815959351268718369520091586239839283309573045113095922 97323482397396838185691498016191996947978336020737436900564706374149035474399 55082059288432353585971265205167535961458372362525037522150114936020789143675 (by decide) (by decide) (by decide) (by decide) (by decide) (by decide) (by decide) (by decide) (by decide)
  have hc169 : lift (.affine ((97323482397396838185691498016191996947978336020737436900564706374149035474399 : ℕ) : Int) ((55082059288432353585971265205167535961458372362525037522150114936020789143675 : ℕ) : Int)) = 77371252455336267181195262 • Gm := by
    rw [hb169, hc168, ← add_nsmul]
  obtain ⟨hv170, hb170⟩ := addNat_bridge 97323482397396838185691498016191996947978336020737436900564706374149035474399 55082059288432353585971265205167535961458372362525037522150114936020789143675 55066263022277343669578718895168534326250603453777594175500187360389116729240 32670510020758816978083085130507043184471273380659243275938904335757337482424 60135128303932643147492773636375741711449663187101730808877484317508010864842 26347203382034468033080519127286096502355415302567320409996544909172235566217 85432587551390156173118841594382432269569274666841517319523891318444222352484 (by decide) (by decide) (by decide) (by decide) (by decide) (by decide) (by decide) (by decide) (by decide) (by decide) (by decide) (by decide)
  have hc170 : lift (.affine ((26347203382034468033080519127286096502355415302567320409996544909172235566217 : ℕ) : Int) ((85432587551390156173118841594382432269569274666841517319523891318444222352484 : ℕ) : Int)) = 77371252455336267181195263 • Gm := by
    rw [hb170, hc169, hlG, ← add_nsmul]
  exact ⟨hv170, hc170⟩

/-- Steps 171–180 of the double-and-add certificate chain for the order of `G`. -/
theorem ordBlock17 :
    lift (Point.affine ((55066263022277343669578718895168534326250603453777594175500187360389116729240 : ℕ) : Int) ((32670510020758816978083085130507043184471273380659243275938904335757337482424 : ℕ) : Int)) = 1 • Gm →
    (Point.Valid (.affine ((26347203382034468033080519127286096502355415302567320409996544909172235566217 : ℕ) : Int) ((85432587551390156173118841594382432269569274666841517319523891318444222352484 : ℕ) : Int)) ∧
      lift (.affine ((26347203382034468033080519127286096502355415302567320409996544909172235566217 : ℕ) : Int) ((85432587551390156173118841594382432269569274666841517319523891318444222352484 : ℕ) : Int)) = 77371252455336267181195263 • Gm) →
    Point.Valid (.affine ((65967382018648410648669938430845748948979018436165648101126346724617689235532 : ℕ) : Int) ((7466804574754832087630787566817553356455700163061936282489654670020242887414 : ℕ) : Int)) ∧
      lift (.affine ((65967382018648410648669938430845748948979018436165648101126346724617689235532 : ℕ) : Int) ((7466804574754832087630787566817553356455700163061936282489654670020242887414 : ℕ) : Int)) = 2475880078570760549798248447 • Gm := by
  intro hlG h
  obtain ⟨hv, hl⟩ := h
  obtain ⟨hv171, hb171⟩ := dblNat_bridge 26347203382034468033080519127286096502355415302567320409996544909172235566217 85432587551390156173118841594382432269569274666841517319523891318444222352484 14279727273508910009295063038797274295683448793660249436701758711009301672123 87127510385202538299241513715807412919880742065217147801049528016068620318002 76337950095782836780121061642009599846047063496869321402711548790366459131123 (by decide) (by decide) (by decide) (by decide) (by decide) (by decide) (by decide) (by decide) (by decide)
  have hc171 : lift (.affine ((87127510385202538299241513715807412919880742065217147801049528016068620318002 : ℕ) : Int) ((76337950095782836780121061642009599846047063496869321402711548790366459131123 : ℕ) : Int)) = 154742504910672534362390526 • Gm := by
    rw [hb171, hl, ← add_nsmul]
  obtain ⟨hv172, hb172⟩ := addNat_bridge 87127510385202538299241513715807412919880742065217147801049528016068620318002 76337950095782836780121061642009599846047063496869321402711548790366459131123 55066263022277343669578718895168534326250603453777594175500187360389116729240 32670510020758816978083085130507043184471273380659243275938904335757337482424 62750802154680610758438348419132450989202332469101060112130716258116429952834 18166280485767914275545975574292819229859271261254471508564439756641624649491 83135691512334951658475270306757335662523759747013565029786942549106432938249 (by decide) (by decide) (by decide) (by decide) (by decide) (by decide) (by decide) (by decide) (by decide) (by decide) (by decide) (by decide)
  have hc172 : lift (.affine ((18166280485767914275545975574292819229859271261254471508564439756641624649491 : ℕ) : Int) ((83135691512334951658475270306757335662523759747013565029786942549106432938249 : ℕ) : Int)) = 154742504910672534362390527 • Gm := by
    rw [hb172, hc171, hlG, ← add_nsmul]
  obtain ⟨hv173, hb173⟩ := dblNat_bridge 18166280485767914275545975574292819229859271261254471508564439756641624649491 83135691512334951658475270306757335662523759747013565029786942549106432938249 60826815505038107182372360376955010824697507880348410850083281759345753395325 64864708946798330474105088098592793349651973290214925167802004816837499641554 67439243556370894799106982633335286556282588608359389011658975901278040562667 (by decide) (by decide) (by decide) (by decide) (by decide) (by decide) (by decide) (by decide) (by decide)
  have hc173 : lift (.affine ((64864708946798330474105088098592793349651973290214925167802004816837499641554 : ℕ) : Int) ((67439243556370894799106982633335286556282588608359389011658975901278040562667 : ℕ) : Int)) = 309485009821345068724781054 • Gm := by
    rw [hb173, hc172, ← add_nsmul]
  obtain ⟨hv174, hb174⟩ := addNat_bridge 64864708946798330474105088098592793349651973290214925167802004816837499641554 67439243556370894799106982633335286556282588608359389011658975901278040562667 55066263022277343669578718895168534326250603453777594175500187360389116729240 32670510020758816978083085130507043184471273380659243275938904335757337482424 51356871344653768335728676431541542172574501380762570006283412668373853867407 18816364958072231856799819589858268710233117078719091626661525339504360003754 36867892477737698968889535658786426153182090557884436555791874656876469945088 (by decide) (by decide) (by decide) (by decide) (by decide) (by decide) (by decide) (by decide) (by decide) (by decide) (by decide) (by decide)
  have hc174 : lift (.affine ((18816364958072231856799819589858268710233117078719091626661525339504360003754 : ℕ) : Int) ((36867892477737698968889535658786426153182090557884436555791874656876469945088 : ℕ) : Int)) = 309485009821345068724781055 • Gm := by
    rw [hb174, hc173, hlG, ← add_nsmul]
  obtain ⟨hv175, hb175⟩ := dblNat_bridge 18816364958072231856799819589858268710233117078719091626661525339504360003754 36867892477737698968889535658786426153182090557884436555791874656876469945088 45747707831141582096410967266779431167388365557223011881367879301005783006836 56448770304428247253428940429019270694474680778067591451797099252581420881196 102266107619273362166641792297090810684098628075338628817683390819199633086848 (by decide) (by decide) (by decide) (by decide) (by decide) (by decide) (by decide) (by decide) (by decide)
  have hc175 : lift (.affine ((56448770304428247253428940429019270694474680778067591451797099252581420881196 : ℕ) : Int) ((102266107619273362166641792297090810684098628075338628817683390819199633086848 : ℕ) : Int)) = 618970019642690137449562110 • Gm := by
    rw [hb175, hc174, ← add_nsmul]
  obtain ⟨hv176, hb176⟩ := addNat_bridge 56448770304428247253428940429019270694474680778067591451797099252581420881196 102266107619273362166641792297090810684098628075338628817683390819199633086848 55066263022277343669578718895168534326250603453777594175500187360389116729240 32670510020758816978083085130507043184471273380659243275938904335757337482424 85622744483674369614711782250274203088679645091880411132581865502889906605940 1799958418549200200132778447850746373764127634947205756770292519586026677000 17444440728881949095944644608642750871019737053155692375178107984761597234796 (by decide) (by decide) (by decide) (by decide) (by decide) (by decide) (by decide) (by decide) (by decide) (by decide) (by decide) (by decide)
  have hc176 : lift (.affine ((1799958418549200200132778447850746373764127634947205756770292519586026677000 : ℕ) : Int) ((17444440728881949095944644608642750871019737053155692375178107984761597234796 : ℕ) : Int)) = 618970019642690137449562111 • Gm := by
    rw [hb176, hc175, hlG, ← add_nsmul]
  obtain ⟨hv177, hb177⟩ := dblNat_bridge 1799958418549200200132778447850746373764127634947205756770292519586026677000 17444440728881949095944644608642750871019737053155692375178107984761597234796 12307268330988403178691497150568816179747289989787635274626905997162429051584 3486636820777030922682234469650544043588200249076528923594876627024785186153 114802838501364451778504750903690045509994959307097469330109347162145156195943 (by decide) (by decide) (by decide) (by decide) (by decide) (by decide) (by decide) (by decide) (by decide)
  have hc177 : lift (.affine ((3486636820777030922682234469650544043588200249076528923594876627024785186153 : ℕ) : Int) ((114802838501364451778504750903690045509994959307097469330109347162145156195943 : ℕ) : Int)) = 1237940039285380274899124222 • Gm := by
    rw [hb177, hc176, ← add_nsmul]
  obtain ⟨hv178, hb178⟩ := addNat_bridge 3486636820777030922682234469650544043588200249076528923594876627024785186153 114802838501364451778504750903690045509994959307097469330109347162145156195943 55066263022277343669578718895168534326250603453777594175500187360389116729240 32670510020758816978083085130507043184471273380659243275938904335757337482424 114955159523079601492574529989393250553815324427930840264501809241781998329382 25162227753871020661883726056543797977961407938269493839802606642524493540353 50008501253211635306150125218852786748906376747377421695413396692554436804037 (by decide) (by decide) (by decide) (by decide) (by decide) (by decide) (by decide) (by decide) (by decide) (by decide) (by decide) (by decide)
  have hc178 : lift (.affine ((25162227753871020661883726056543797977961407938269493839802606642524493540353 : ℕ) : Int) ((50008501253211635306150125218852786748906376747377421695413396692554436804037 : ℕ) : Int)) = 1237940039285380274899124223 • Gm := by
    rw [hb178, hc177, hlG, ← add_nsmul]
  obtain ⟨hv179, hb179⟩ := dblNat_bridge 25162227753871020661883726056543797977961407938269493839802606642524493540353 50008501253211635306150125218852786748906376747377421695413396692554436804037 35183248918614575133957633804472231915932999357182301677433161004312066932022 6358821573276451559263352478385229966024128764651750037874497570306787067317 89385682973455592091758819290603770457900401045290229368742028958740706792254 (by decide) (by decide) (by decide) (by decide) (by decide) (by decide) (by decide) (by decide) (by decide)
  have hc179 : lift (.affine ((6358821573276451559263352478385229966024128764651750037874497570306787067317 : ℕ) : Int) ((89385682973455592091758819290603770457900401045290229368742028958740706792254 : ℕ) : Int)) = 2475880078570760549798248446 • Gm := by
    rw [hb179, hc178, ← add_nsmul]
  obtain ⟨hv180, hb180⟩ := addNat_bridge 6358821573276451559263352478385229966024128764651750037874497570306787067317 89385682973455592091758819290603770457900401045290229368742028958740706792254 55066263022277343669578718895168534326250603453777594175500187360389116729240 32670510020758816978083085130507043184471273380659243275938904335757337482424 23891083437635741453251981519596951989922024666704547606533774478123959585663 65967382018648410648669938430845748948979018436165648101126346724617689235532 7466804574754832087630787566817553356455700163061936282489654670020242887414 (by decide) (by decide) (by decide) (by decide) (by decide) (by decide) (by decide) (by decide) (by decide) (by decide) (by decide) (by decide)
  have hc180 : lift (.affine ((65967382018648410648669938430845748948979018436165648101126346724617689235532 : ℕ) : Int) ((7466804574754832087630787566817553356455700163061936282489654670020242887414 : ℕ) : Int)) = 2475880078570760549798248447 • Gm := by
    rw [hb180, hc179, hlG, ← add_nsmul]
  exact ⟨hv180, hc180⟩

/-- Steps 181–190 of the double-and-add certificate chain for the order of `G`. -/
theorem ordBlock18 :
    lift (Point.affine ((55066263022277343669578718895168534326250603453777594175500187360389116729240 : ℕ) : Int) ((32670510020758816978083085130507043184471273380659243275938904335757337482424 : ℕ) : Int)) = 1 • Gm →
    (Point.Valid (.affine ((65967382018648410648669938430845748948979018436165648101126346724617689235532 : ℕ) : Int) ((7466804574754832087630787566817553356455700163061936282489654670020242887414 : ℕ) : Int)) ∧
      lift (.affine ((65967382018648410648669938430845748948979018436165648101126346724617689235532 : ℕ) : Int) ((7466804574754832087630787566817553356455700163061936282489654670020242887414 : ℕ) : Int)) = 2475880078570760549798248447 • Gm) →
    Point.Valid (.affine ((5183438368247823987934399863722173059875496618660569865721429870666379617877 : ℕ) : Int) ((115067447288329648966706540646687111117073724853801414676526903346642653874806 : ℕ) : Int)) ∧
      lift (.affine ((5183438368247823987934399863722173059875496618660569865721429870666379617877 : ℕ) : Int) ((115067447288329648966706540646687111117073724853801414676526903346642653874806 : ℕ) : Int)) = 79228162514264337593543950335 • Gm := by
  intro hlG h
  obtain ⟨hv, hl⟩ := h
  obtain ⟨hv181, hb181⟩ := dblNat_bridge 65967382018648410648669938430845748948979018436165648101126346724617689235532 7466804574754832087630787566817553356455700163061936282489654670020242887414 96929104648752224919483976552435715858630440194061483905125213724507840778022 96151913024015674729673925148335296027116302424259922211585754722312722376151 62936911000420429572936275783353270634418693912224489707768110285044752619438 (by decide) (by decide) (by decide) (by decide) (by decide) (by decide) (by decide) (by decide) (by decide)
  have hc181 : lift (.affine ((96151913024015674729673925148335296027116302424259922211585754722312722376151 : ℕ) : Int) ((62936911000420429572936275783353270634418693912224489707768110285044752619438 : ℕ) : Int)) = 4951760157141521099596496894 • Gm := by
    rw [hb181, hl, ← add_nsmul]
  obtain ⟨hv182, hb182⟩ := addNat_bridge 96151913024015674729673925148335296027116302424259922211585754722312722376151 62936911000420429572936275783353270634418693912224489707768110285044752619438 55066263022277343669578718895168534326250603453777594175500187360389116729240 32670510020758816978083085130507043184471273380659243275938904335757337482424 34073927417965726677035314312583459467813453967952074291340999274936606623497 88071864554854875366963232129519783156941560552200955184557617503154403699844 32406189656767086441144329253230241735086306548571599181960798754710704209984 (by decide) (by decide) (by decide) (by decide) (by decide) (by decide) (by decide) (by decide) (by decide) (by decide) (by decide) (by decide)
  have hc182 : lift (.affine ((88071864554854875366963232129519783156941560552200955184557617503154403699844 : ℕ) : Int) ((32406189656767086441144329253230241735086306548571599181960798754710704209984 : ℕ) : Int)) = 4951760157141521099596496895 • Gm := by
    rw [hb182, hc181, hlG, ← add_nsmul]
  obtain ⟨hv183, hb183⟩ := dblNat_bridge 88071864554854875366963232129519783156941560552200955184557617503154403699844 32406189656767086441144329253230241735086306548571599181960798754710704209984 93267906541031184528921786133744715374106445573244204589756360999220614402661 57501060064623002044550515643062128673614361985106009687405320137016649539493 92762077756286804540284254515864109139155577409622167549725516737239988983156 (by decide) (by decide) (by decide) (by decide) (by decide) (by decide) (by decide) (by decide) (by decide)
  have hc183 : lift (.affine ((57501060064623002044550515643062128673614361985106009687405320137016649539493 : ℕ) : Int) ((92762077756286804540284254515864109139155577409622167549725516737239988983156 : ℕ) : Int)) = 9903520314283042199192993790 • Gm := by
    rw [hb183, hc182, ← add_nsmul]
  obtain ⟨hv184, hb184⟩ := addNat_bridge 57501060064623002044550515643062128673614361985106009687405320137016649539493 92762077756286804540284254515864109139155577409622167549725516737239988983156 55066263022277343669578718895168534326250603453777594175500187360389116729240 32670510020758816978083085130507043184471273380659243275938904335757337482424 80710572714602761845138975729552496999524497463351155662638510457403481439561 33647824729774977656578074045440848241528623862287676545166914390554209055171 67757827481859945944693206747004460712751242251810309179179381928726310812172 (by decide) (by decide) (by decide) (by decide) (by decide) (by decide) (by decide) (by decide) (by decide) (by decide) (by decide) (by decide)
  have hc184 : lift (.affine ((33647824729774977656578074045440848241528623862287676545166914390554209055171 : ℕ) : Int) ((67757827481859945944693206747004460712751242251810309179179381928726310812172 : ℕ) : Int)) = 9903520314283042199192993791 • Gm := by
    rw [hb184, hc183, hlG, ← add_nsmul]
  obtain ⟨hv185, hb185⟩ := dblNat_bridge 33647824729774977656578074045440848241528623862287676545166914390554209055171 67757827481859945944693206747004460712751242251810309179179381928726310812172 103390859296941745193310211781191880589834204629842264018705342188573839458332 82677435577408151662046833304061017787698309185223407937389330968115174754983 28430371675832607474342621050719082464484727589273101717086490427404618635410 (by decide) (by decide) (by decide) (by decide) (by decide) (by decide) (by decide) (by decide) (by decide)
  have hc185 : lift (.affine ((82677435577408151662046833304061017787698309185223407937389330968115174754983 : ℕ) : Int) ((28430371675832607474342621050719082464484727589273101717086490427404618635410 : ℕ) : Int)) = 19807040628566084398385987582 • Gm := by
    rw [hb185, hc184, ← add_nsmul]
  obtain ⟨hv186, hb186⟩ := addNat_bridge 82677435577408151662046833304061017787698309185223407937389330968115174754983 28430371675832607474342621050719082464484727589273101717086490427404618635410 55066263022277343669578718895168534326250603453777594175500187360389116729240 32670510020758816978083085130507043184471273380659243275938904335757337482424 79631748591474078768845904963312591025297590806679609309758295364435494038800 68521788725839518235063649826807556586750705074163333048288365418416836295183 59580940071292104996470257562422935393607442419991252214420216275759856024921 (by decide) (by decide) (by decide) (by decide) (by decide) (by decide) (by decide) (by decide) (by decide) (by decide) (by decide) (by decide)
  have hc186 : lift (.affine ((68521788725839518235063649826807556586750705074163333048288365418416836295183 : ℕ) : Int) ((59580940071292104996470257562422935393607442419991252214420216275759856024921 : ℕ) : Int)) = 19807040628566084398385987583 • Gm := by
    rw [hb186, hc185, hlG, ← add_nsmul]
  obtain ⟨hv187, hb187⟩ := dblNat_bridge 68521788725839518235063649826807556586750705074163333048288365418416836295183 59580940071292104996470257562422935393607442419991252214420216275759856024921 90245616049924159550708177051381688256333008004600181998019312204088806280543 97315789423771187202492797694639438221472990151076640990509598763378543956798 90426974190393596624902589456845085068368298441912433688375079440885739449745 (by decide) (by decide) (by decide) (by decide) (by decide) (by decide) (by decide) (by decide) (by decide)
  have hc187 : lift (.affine ((97315789423771187202492797694639438221472990151076640990509598763378543956798 : ℕ) : Int) ((90426974190393596624902589456845085068368298441912433688375079440885739449745 : ℕ) : Int)) = 39614081257132168796771975166 • Gm := by
    rw [hb187, hc186, ← add_nsmul]
  obtain ⟨hv188, hb188⟩ := addNat_bridge 97315789423771187202492797694639438221472990151076640990509598763378543956798 90426974190393596624902589456845085068368298441912433688375079440885739449745 55066263022277343669578718895168534326250603453777594175500187360389116729240 32670510020758816978083085130507043184471273380659243275938904335757337482424 53146820078951132420893280038096282008007679079343079138670021713506657117011 13652992936343354200674271534276445068996666064736774357908390385380543935291 114643658998233316445749385671843223910597817580493059601481568704824185863194 (by decide) (by decide) (by decide) (by decide) (by decide) (by decide) (by decide) (by decide) (by decide) (by decide) (by decide) (by decide)
  have hc188 : lift (.affine ((13652992936343354200674271534276445068996666064736774357908390385380543935291 : ℕ) : Int) ((114643658998233316445749385671843223910597817580493059601481568704824185863194 : ℕ) : Int)) = 39614081257132168796771975167 • Gm := by
    rw [hb188, hc187, hlG, ← add_nsmul]
  obtain ⟨hv189, hb189⟩ := dblNat_bridge 13652992936343354200674271534276445068996666064736774357908390385380543935291 114643658998233316445749385671843223910597817580493059601481568704824185863194 99706660944977411638399789138568052577325187310726345003318648359001952324937 102785442445534892648022940406732795271967137523496495826089792376699490697036 80250429243896820763396976736304666066078771707903210423518503209269361484332 (by decide) (by decide) (by decide) (by decide) (by decide) (by decide) (by decide) (by decide) (by decide)
  have hc189 : lift (.affine ((102785442445534892648022940406732795271967137523496495826089792376699490697036 : ℕ) : Int) ((80250429243896820763396976736304666066078771707903210423518503209269361484332 : ℕ) : Int)) = 79228162514264337593543950334 • Gm := by
    rw [hb189, hc188, ← add_nsmul]
  obtain ⟨hv190, hb190⟩ := addNat_bridge 102785442445534892648022940406732795271967137523496495826089792376699490697036 80250429243896820763396976736304666066078771707903210423518503209269361484332 55066263022277343669578718895168534326250603453777594175500187360389116729240 32670510020758816978083085130507043184471273380659243275938904335757337482424 57682720476732549690787262753576536648978916245212832770437835700823455501045 5183438368247823987934399863722173059875496618660569865721429870666379617877 115067447288329648966706540646687111117073724853801414676526903346642653874806 (by decide) (by decide) (by decide) (by decide) (by decide) (by decide) (by decide) (by decide) (by decide) (by decide) (by decide) (by decide)
  have hc190 : lift (.affine ((5183438368247823987934399863722173059875496618660569865721429870666379617877 : ℕ) : Int) ((115067447288329648966706540646687111117073724853801414676526903346642653874806 : ℕ) : Int)) = 79228162514264337593543950335 • Gm := by
    rw [hb190, hc189, hlG, ← add_nsmul]
  exact ⟨hv190, hc190⟩

/-- Steps 191–200 of the double-and-add certificate chain for the order of `G`. -/
theorem ordBlock19 :
    lift (Point.affine ((55066263022277343669578718895168534326250603453777594175500187360389116729240 : ℕ) : Int) ((32670510020758816978083085130507043184471273380659243275938904335757337482424 : ℕ) : Int)) = 1 • Gm →
    (Point.Valid (.affine ((5183438368247823987934399863722173059875496618660569865721429870666379617877 : ℕ) : Int) ((115067447288329648966706540646687111117073724853801414676526903346642653874806 : ℕ) : Int)) ∧
      lift (.affine ((5183438368247823987934399863722173059875496618660569865721429870666379617877 : ℕ) : Int) ((115067447288329648966706540646687111117073724853801414676526903346642653874806 : ℕ) : Int)) = 79228162514264337593543950335 • Gm) →
    Point.Valid (.affine ((10752548984708060787935441064308651627251586712198002147890635702644404804023 : ℕ) : Int) ((17051151149920519885131096816628718847154132309971188927398597400346700921903 : ℕ) : Int)) ∧
      lift (.affine ((10752548984708060787935441064308651627251586712198002147890635702644404804023 : ℕ) : Int) ((17051151149920519885131096816628718847154132309971188927398597400346700921903 : ℕ) : Int)) = 2535301200456458802993406410751 • Gm := by
  intro hlG h
  obtain ⟨hv, hl⟩ := h
  obtain ⟨hv191, hb191⟩ := dblNat_bridge 5183438368247823987934399863722173059875496618660569865721429870666379617877 115067447288329648966706540646687111117073724853801414676526903346642653874806 62680565912321205976050636552014679656252505124568294840958259867975099422846 6468278781715521178307845610610493319954020334294223621088733301508670344293 46346598692436550000551267230419790944950255954363435751942739997611485931795 (by decide) (by decide) (by decide) (by decide) (by decide) (by decide) (by decide) (by decide) (by decide)
  have hc191 : lift (.affine ((6468278781715521178307845610610493319954020334294223621088733301508670344293 : ℕ) : Int) ((46346598692436550000551267230419790944950255954363435751942739997611485931795 : ℕ) : Int)) = 158456325028528675187087900670 • Gm := by
    rw [hb191, hl, ← add_nsmul]
  obtain ⟨hv192, hb192⟩ := addNat_bridge 6468278781715521178307845610610493319954020334294223621088733301508670344293 46346598692436550000551267230419790944950255954363435751942739997611485931795 55066263022277343669578718895168534326250603453777594175500187360389116729240 32670510020758816978083085130507043184471273380659243275938904335757337482424 19041851617070241242308138705604655208580743837847349228657317151764434801422 12615825889808857633582284755985647865431778731763513439623400169099788151558 64291674866318017988829761144385326984295683292176404657073474226947343532013 (by decide) (by decide) (by decide) (by decide) (by decide) (by decide) (by decide) (by decide) (by decide) (by decide) (by decide) (by decide)
  have hc192 : lift (.affine ((12615825889808857633582284755985647865431778731763513439623400169099788151558 : ℕ) : Int) ((64291674866318017988829761144385326984295683292176404657073474226947343532013 : ℕ) : Int)) = 158456325028528675187087900671 • Gm := by
    rw [hb192, hc191, hlG, ← add_nsmul]
  obtain ⟨hv193, hb193⟩ := dblNat_bridge 12615825889808857633582284755985647865431778731763513439623400169099788151558 64291674866318017988829761144385326984295683292176404657073474226947343532013 70323293694306173208896653296106174944986330092319135924253135525234978663550 107657831922160331256501175884595595942525042552991918388931220405577497695462 59729627194158725888811878222020775566889550711420214350158471718096986929096 (by decide) (by decide) (by decide) (by decide) (by decide) (by decide) (by decide) (by decide) (by decide)
  have hc193 : lift (.affine ((107657831922160331256501175884595595942525042552991918388931220405577497695462 : ℕ) : Int) ((59729627194158725888811878222020775566889550711420214350158471718096986929096 : ℕ) : Int)) = 316912650057057350374175801342 • Gm := by
    rw [hb193, hc192, ← add_nsmul]
  obtain ⟨hv194, hb194⟩ := addNat_bridge 107657831922160331256501175884595595942525042552991918388931220405577497695462 59729627194158725888811878222020775566889550711420214350158471718096986929096 55066263022277343669578718895168534326250603453777594175500187360389116729240 32670510020758816978083085130507043184471273380659243275938904335757337482424 90374231550199076566986979629875872273880034179485830977416740743684839355660 33483375259168450196089000272526126434233697699313150073748555559851377386791 106273089706965546209401090809445804069385909002844041432605374593656188708164 (by decide) (by decide) (by decide) (by decide) (by decide) (by decide) (by decide) (by decide) (by decide) (by decide) (by decide) (by decide)
  have hc194 : lift (.affine ((33483375259168450196089000272526126434233697699313150073748555559851377386791 : ℕ) : Int) ((106273089706965546209401090809445804069385909002844041432605374593656188708164 : ℕ) : Int)) = 316912650057057350374175801343 • Gm := by
    rw [hb194, hc193, hlG, ← add_nsmul]
  obtain ⟨hv195, hb195⟩ := dblNat_bridge 33483375259168450196089000272526126434233697699313150073748555559851377386791 106273089706965546209401090809445804069385909002844041432605374593656188708164 107286405003769122454709014897754153044377332869603455711713648366179564161508 85417867764259414021413232977044460741743548071544198159925109324812638994472 70810090510714538200616401192311256596196153499521122194702825919693210337330 (by decide) (by decide) (by decide) (by decide) (by decide) (by decide) (by decide) (by decide) (by decide)
  have hc195 : lift (.affine ((85417867764259414021413232977044460741743548071544198159925109324812638994472 : ℕ) : Int) ((70810090510714538200616401192311256596196153499521122194702825919693210337330 : ℕ) : Int)) = 633825300114114700748351602686 • Gm := by
    rw [hb195, hc194, ← add_nsmul]
  obtain ⟨hv196, hb196⟩ := addNat_bridge 85417867764259414021413232977044460741743548071544198159925109324812638994472 70810090510714538200616401192311256596196153499521122194702825919693210337330 55066263022277343669578718895168534326250603453777594175500187360389116729240 32670510020758816978083085130507043184471273380659243275938904335757337482424 79340244027846413958657933950002229588162765404761844608247295128132921206411 729063497481471130894145684663080009327014481001510589549029014048312980173 75152679016572852045850271386798282930947335283454525263414162693874526149327 (by decide) (by decide) (by decide) (by decide) (by decide) (by decide) (by decide) (by decide) (by decide) (by decide) (by decide) (by decide)
  have hc196 : lift (.affine ((729063497481471130894145684663080009327014481001510589549029014048312980173 : ℕ) : Int) ((75152679016572852045850271386798282930947335283454525263414162693874526149327 : ℕ) : Int)) = 633825300114114700748351602687 • Gm := by
    rw [hb196, hc195, hlG, ← add_nsmul]
  obtain ⟨hv197, hb197⟩ := dblNat_bridge 729063497481471130894145684663080009327014481001510589549029014048312980173 75152679016572852045850271386798282930947335283454525263414162693874526149327 11622618310895955795800261669143235260899593601591513659156745358754810663681 77487413936016049428031249602795129654726311004103161111016529968131815194033 111184845611425873707438397607365039993249246163773142287184168254023721506902 (by decide) (by decide) (by decide) (by decide) (by decide) (by decide) (by decide) (by decide) (by decide)
  have hc197 : lift (.affine ((77487413936016049428031249602795129654726311004103161111016529968131815194033 : ℕ) : Int) ((111184845611425873707438397607365039993249246163773142287184168254023721506902 : ℕ) : Int)) = 1267650600228229401496703205374 • Gm := by
    rw [hb197, hc196, ← add_nsmul]
  obtain ⟨hv198, hb198⟩ := addNat_bridge 77487413936016049428031249602795129654726311004103161111016529968131815194033 111184845611425873707438397607365039993249246163773142287184168254023721506902 55066263022277343669578718895168534326250603453777594175500187360389116729240 32670510020758816978083085130507043184471273380659243275938904335757337482424 69515840441252617228682146195042635111703122486508544094201337567604335403793 44912490242885908108959042002864676411069515760716302434478377697936151645968 19357940269950114003991686953285473272260622581616633300341033489354218995558 (by decide) (by decide) (by decide) (by decide) (by decide) (by decide) (by decide) (by decide) (by decide) (by decide) (by decide) (by decide)
  have hc198 : lift (.affine ((44912490242885908108959042002864676411069515760716302434478377697936151645968 : ℕ) : Int) ((19357940269950114003991686953285473272260622581616633300341033489354218995558 : ℕ) : Int)) = 1267650600228229401496703205375 • Gm := by
    rw [hb198, hc197, hlG, ← add_nsmul]
  obtain ⟨hv199, hb199⟩ := dblNat_bridge 44912490242885908108959042002864676411069515760716302434478377697936151645968 19357940269950114003991686953285473272260622581616633300341033489354218995558 13294107655956651751042702944810532152554114344391158312589462961708647945251 72808524613234736085406411410405562781773074035529764357456552807229817750826 5503342545099072748562951467939348350100178469095941446472053302141363302768 (by decide) (by decide) (by decide) (by decide) (by decide) (by decide) (by decide) (by decide) (by decide)
  have hc199 : lift (.affine ((72808524613234736085406411410405562781773074035529764357456552807229817750826 : ℕ) : Int) ((5503342545099072748562951467939348350100178469095941446472053302141363302768 : ℕ) : Int)) = 2535301200456458802993406410750 • Gm := by
    rw [hb199, hc198, ← add_nsmul]
  obtain ⟨hv200, hb200⟩ := addNat_bridge 72808524613234736085406411410405562781773074035529764357456552807229817750826 5503342545099072748562951467939348350100178469095941446472053302141363302768 55066263022277343669578718895168534326250603453777594175500187360389116729240 32670510020758816978083085130507043184471273380659243275938904335757337482424 103666786753563868388485997495526156334777455307932600024886444816730882341934 10752548984708060787935441064308651627251586712198002147890635702644404804023 17051151149920519885131096816628718847154132309971188927398597400346700921903 (by decide) (by decide) (by decide) (by decide) (by decide) (by decide) (by decide) (by decide) (by decide) (by decide) (by decide) (by decide)
  have hc200 : lift (.affine ((10752548984708060787935441064308651627251586712198002147890635702644404804023 : ℕ) : Int) ((17051151149920519885131096816628718847154132309971188927398597400346700921903 : ℕ) : Int)) = 2535301200456458802993406410751 • Gm := by
    rw [hb200, hc199, hlG, ← add_nsmul]
  exact ⟨hv200, hc200⟩

/-- Steps 201–210 of the double-and-add certificate chain for the order of `G`. -/
theorem ordBlock20 :
    lift (Point.affine ((55066263022277343669578718895168534326250603453777594175500187360389116729240 : ℕ) : Int) ((32670510020758816978083085130507043184471273380659243275938904335757337482424 : ℕ) : Int)) = 1 • Gm →
    (Point.Valid (.affine ((10752548984708060787935441064308651627251586712198002147890635702644404804023 : ℕ) : Int) ((17051151149920519885131096816628718847154132309971188927398597400346700921903 : ℕ) : Int)) ∧
      lift (.affine ((10752548984708060787935441064308651627251586712198002147890635702644404804023 : ℕ) : Int) ((17051151149920519885131096816628718847154132309971188927398597400346700921903 : ℕ) : Int)) = 2535301200456458802993406410751 • Gm) →
    Point.Valid (.affine ((51253676063991030681999093699377998613278485344468749305024269857048704957496 : ℕ) : Int) ((24902523641585850222755787698201706594247480530307441313918066463697304475478 : ℕ) : Int)) ∧
      lift (.affine ((51253676063991030681999093699377998613278485344468749305024269857048704957496 : ℕ) : Int) ((24902523641585850222755787698201706594247480530307441313918066463697304475478 : ℕ) : Int)) = 81129638414606681695789005144063 • Gm := by
  intro hlG h
  obtain ⟨hv, hl⟩ := h
  obtain ⟨hv201, hb201⟩ := dblNat_bridge 10752548984708060787935441064308651627251586712198002147890635702644404804023 17051151149920519885131096816628718847154132309971188927398597400346700921903 45120575657670384098524555641733480862844931785967432288435423530590248769255 69388001477192873579312454397541359955651693957904716725703949604653000025619 81783769832862142810327798595479771159086193164218632271913228557420725524024 (by decide) (by decide) (by decide) (by decide) (by decide) (by decide) (by decide) (by decide) (by decide)
  have hc201 : lift (.affine ((69388001477192873579312454397541359955651693957904716725703949604653000025619 : ℕ) : Int) ((81783769832862142810327798595479771159086193164218632271913228557420725524024 : ℕ) : Int)) = 5070602400912917605986812821502 • Gm := by
    rw [hb201, hl, ← add_nsmul]
  obtain ⟨hv202, hb202⟩ := addNat_bridge 69388001477192873579312454397541359955651693957904716725703949604653000025619 81783769832862142810327798595479771159086193164218632271913228557420725524024 55066263022277343669578718895168534326250603453777594175500187360389116729240 32670510020758816978083085130507043184471273380659243275938904335757337482424 113698133022546925500208918267221574998927483417161535100817551177956107127410 106022196343040744402304149090537990026462385285105995487500122512152991467798 15706520316812723488693591801924124392821349415583520982299451221325147129282 (by decide) (by decide) (by decide) (by decide) (by decide) (by decide) (by decide) (by decide) (by decide) (by decide) (by decide) (by decide)
  have hc202 : lift (.affine ((106022196343040744402304149090537990026462385285105995487500122512152991467798 : ℕ) : Int) ((15706520316812723488693591801924124392821349415583520982299451221325147129282 : ℕ) : Int)) = 5070602400912917605986812821503 • Gm := by
    rw [hb202, hc201, hlG, ← add_nsmul]
  obtain ⟨hv203, hb203⟩ := dblNat_bridge 106022196343040744402304149090537990026462385285105995487500122512152991467798 15706520316812723488693591801924124392821349415583520982299451221325147129282 96433244700541887928288936058444030146574528236923732322059847639891981934991 91415861878593473990443190431687835393689695865222834032997565336776149898477 83907641229123469240299293387524444479025623234188884279469432626198197070509 (by decide) (by decide) (by decide) (by decide) (by decide) (by decide) (by decide) (by decide) (by decide)
  have hc203 : lift (.affine ((91415861878593473990443190431687835393689695865222834032997565336776149898477 : ℕ) : Int) ((83907641229123469240299293387524444479025623234188884279469432626198197070509 : ℕ) : Int)) = 10141204801825835211973625643006 • Gm := by
    rw [hb203, hc202, ← add_nsmul]
  obtain ⟨hv204, hb204⟩ := addNat_bridge 91415861878593473990443190431687835393689695865222834032997565336776149898477 83907641229123469240299293387524444479025623234188884279469432626198197070509 55066263022277343669578718895168534326250603453777594175500187360389116729240 32670510020758816978083085130507043184471273380659243275938904335757337482424 44679508941785014893387419827744325968885766676405907480761423528907205750520 48060429532469798670270163084956895289694097744979767386948899876195850950063 46610591674283366339117676134377647351210567701257685453493192787990645684709 (by decide) (by decide) (by decide) (by decide) (by decide) (by decide) (by decide) (by decide) (by decide) (by decide) (by decide) (by decide)
  have hc204 : lift (.affine ((48060429532469798670270163084956895289694097744979767386948899876195850950063 : ℕ) : Int) ((46610591674283366339117676134377647351210567701257685453493192787990645684709 : ℕ) : Int)) = 10141204801825835211973625643007 • Gm := by
    rw [hb204, hc203, hlG, ← add_nsmul]
  obtain ⟨hv205, hb205⟩ := dblNat_bridge 48060429532469798670270163084956895289694097744979767386948899876195850950063 46610591674283366339117676134377647351210567701257685453493192787990645684709 84681722059382736346910892711902537039502332576554097582394575860319521675729 16217376806708691460096118113302696525784288417386374312696481119587247846147 29028349919440825467240336690006375686637656924429316645461337282957754133392 (by decide) (by decide) (by decide) (by decide) (by decide) (by decide) (by decide) (by decide) (by decide)
  have hc205 : lift (.affine ((16217376806708691460096118113302696525784288417386374312696481119587247846147 : ℕ) : Int) ((29028349919440825467240336690006375686637656924429316645461337282957754133392 : ℕ) : Int)) = 20282409603651670423947251286014 • Gm := by
    rw [hb205, hc204, ← add_nsmul]
  obtain ⟨hv206, hb206⟩ := addNat_bridge 16217376806708691460096118113302696525784288417386374312696481119587247846147 29028349919440825467240336690006375686637656924429316645461337282957754133392 55066263022277343669578718895168534326250603453777594175500187360389116729240 32670510020758816978083085130507043184471273380659243275938904335757337482424 109009525026464142944981053796347442275221891272951258110170253407931573573355 78139633050678373183176658260309023204745874520155137150233710071868087822133 81044727238272521919177149746173519986620162382608422177279996749100315712943 (by decide) (by decide) (by decide) (by decide) (by decide) (by decide) (by decide) (by decide) (by decide) (by decide) (by decide) (by decide)
  have hc206 : lift (.affine ((78139633050678373183176658260309023204745874520155137150233710071868087822133 : ℕ) : Int) ((81044727238272521919177149746173519986620162382608422177279996749100315712943 : ℕ) : Int)) = 20282409603651670423947251286015 • Gm := by
    rw [hb206, hc205, hlG, ← add_nsmul]
  obtain ⟨hv207, hb207⟩ := dblNat_bridge 78139633050678373183176658260309023204745874520155137150233710071868087822133 81044727238272521919177149746173519986620162382608422177279996749100315712943 46523941505224109225139796515845075823476249185720262601239830216953950933383 68750605629400917511589211141587750431266856070769063904736473744261689279786 41209246135085230304322167732143524058670351604730873292831074388170684823329 (by decide) (by decide) (by decide) (by decide) (by decide) (by decide) (by decide) (by decide) (by decide)
  have hc207 : lift (.affine ((68750605629400917511589211141587750431266856070769063904736473744261689279786 : ℕ) : Int) ((41209246135085230304322167732143524058670351604730873292831074388170684823329 : ℕ) : Int)) = 40564819207303340847894502572030 • Gm := by
    rw [hb207, hc206, ← add_nsmul]
  obtain ⟨hv208, hb208⟩ := addNat_bridge 68750605629400917511589211141587750431266856070769063904736473744261689279786 41209246135085230304322167732143524058670351604730873292831074388170684823329 55066263022277343669578718895168534326250603453777594175500187360389116729240 32670510020758816978083085130507043184471273380659243275938904335757337482424 99913121074535656111310402772841855306593634105983611228428644821675682431664 65425388923386185849641985687306539399506718372427747246605245518419292117175 83288569000860742996125490941812220567989051088276190695183925714920405922599 (by decide) (by decide) (by decide) (by decide) (by decide) (by decide) (by decide) (by decide) (by decide) (by decide) (by decide) (by decide)
  have hc208 : lift (.affine ((65425388923386185849641985687306539399506718372427747246605245518419292117175 : ℕ) : Int) ((83288569000860742996125490941812220567989051088276190695183925714920405922599 : ℕ) : Int)) = 40564819207303340847894502572031 • Gm := by
    rw [hb208, hc207, hlG, ← add_nsmul]
  obtain ⟨hv209, hb209⟩ := dblNat_bridge 65425388923386185849641985687306539399506718372427747246605245518419292117175 83288569000860742996125490941812220567989051088276190695183925714920405922599 99433416184546387737625993146229983681602956409015636480432279695659880387692 21689948143783038088233708544047797766896474958544062500133542253813246428067 36551430990807019378261412509965233510931140540104257372327976332701906776434 (by decide) (by decide) (by decide) (by decide) (by decide) (by decide) (by decide) (by decide) (by decide)
  have hc209 : lift (.affine ((21689948143783038088233708544047797766896474958544062500133542253813246428067 : ℕ) : Int) ((36551430990807019378261412509965233510931140540104257372327976332701906776434 : ℕ) : Int)) = 81129638414606681695789005144062 • Gm := by
    rw [hb209, hc208, ← add_nsmul]
  obtain ⟨hv210, hb210⟩ := addNat_bridge 21689948143783038088233708544047797766896474958544062500133542253813246428067 36551430990807019378261412509965233510931140540104257372327976332701906776434 55066263022277343669578718895168534326250603453777594175500187360389116729240 32670510020758816978083085130507043184471273380659243275938904335757337482424 54638964144622713581107396021053357210808425994002545144685183649786365367887 51253676063991030681999093699377998613278485344468749305024269857048704957496 24902523641585850222755787698201706594247480530307441313918066463697304475478 (by decide) (by decide) (by decide) (by decide) (by decide) (by decide) (by decide) (by decide) (by decide) (by decide) (by decide) (by decide)
  have hc210 : lift (.affine ((51253676063991030681999093699377998613278485344468749305024269857048704957496 : ℕ) : Int) ((24902523641585850222755787698201706594247480530307441313918066463697304475478 : ℕ) : Int)) = 81129638414606681695789005144063 • Gm := by
    rw [hb210, hc209, hlG, ← add_nsmul]
  exact ⟨hv210, hc210⟩

/-- Steps 211–220 of the double-and-add certificate chain for the order of `G`. -/
theorem ordBlock21 :
    lift (Point.affine ((55066263022277343669578718895168534326250603453777594175500187360389116729240 : ℕ) : Int) ((32670510020758816978083085130507043184471273380659243275938904335757337482424 : ℕ) : Int)) = 1 • Gm →
    (Point.Valid (.affine ((51253676063991030681999093699377998613278485344468749305024269857048704957496 : ℕ) : Int) ((24902523641585850222755787698201706594247480530307441313918066463697304475478 : ℕ) : Int)) ∧
      lift (.affine ((51253676063991030681999093699377998613278485344468749305024269857048704957496 : ℕ) : Int) ((24902523641585850222755787698201706594247480530307441313918066463697304475478 : ℕ) : Int)) = 81129638414606681695789005144063 • Gm) →
    Point.Valid (.affine ((104974888522412900002523401899214871882209418303258581731111445006775132409881 : ℕ) : Int) ((97289757591100626560245725244308979317271867234049913686738034025207750706259 : ℕ) : Int)) ∧
      lift (.affine ((104974888522412900002523401899214871882209418303258581731111445006775132409881 : ℕ) : Int) ((97289757591100626560245725244308979317271867234049913686738034025207750706259 : ℕ) : Int)) = 2596148429267413814265248164610047 • Gm := by
  intro hlG h
  obtain ⟨hv, hl⟩ := h
  obtain ⟨hv211, hb211⟩ := dblNat_bridge 51253676063991030681999093699377998613278485344468749305024269857048704957496 24902523641585850222755787698201706594247480530307441313918066463697304475478 114448925032867676816447622117406551350136228034675698183783585525882099640326 18080800506221157284227151604800599788730242429939372619431408947929056437619 71259119348780871751343617892130507556214541832455679182830694200246706248357 (by decide) (by decide) (by decide) (by decide) (by decide) (by decide) (by decide) (by decide) (by decide)
  have hc211 : lift (.affine ((18080800506221157284227151604800599788730242429939372619431408947929056437619 : ℕ) : Int) ((71259119348780871751343617892130507556214541832455679182830694200246706248357 : ℕ) : Int)) = 162259276829213363391578010288126 • Gm := by
    rw [hb211, hl, ← add_nsmul]
  obtain ⟨hv212, hb212⟩ := addNat_bridge 18080800506221157284227151604800599788730242429939372619431408947929056437619 71259119348780871751343617892130507556214541832455679182830694200246706248357 55066263022277343669578718895168534326250603453777594175500187360389116729240 32670510020758816978083085130507043184471273380659243275938904335757337482424 71726251757266877839281539187924546380411841224823193514444286312865300357248 62423678489914174307948191341287146393574131485740395312630692086832895215651 51130807876171568959603290062523537460655412532885413045405649820951497477073 (by decide) (by decide) (by decide) (by decide) (by decide) (by decide) (by decide) (by decide) (by decide) (by decide) (by decide) (by decide)
  have hc212 : lift (.affine ((62423678489914174307948191341287146393574131485740395312630692086832895215651 : ℕ) : Int) ((51130807876171568959603290062523537460655412532885413045405649820951497477073 : ℕ) : Int)) = 162259276829213363391578010288127 • Gm := by
    rw [hb212, hc211, hlG, ← add_nsmul]
  obtain ⟨hv213, hb213⟩ := dblNat_bridge 62423678489914174307948191341287146393574131485740395312630692086832895215651 51130807876171568959603290062523537460655412532885413045405649820951497477073 63773418334466873020620627605724618065637175490578388388337693926346821438732 60325977684467088896985255780725246575237517751636738410059911900160285666389 25871081982947209927735851712479113846816218450704059404249186442340862400399 (by decide) (by decide) (by decide) (by decide) (by decide) (by decide) (by decide) (by decide) (by decide)
  have hc213 : lift (.affine ((60325977684467088896985255780725246575237517751636738410059911900160285666389 : ℕ) : Int) ((25871081982947209927735851712479113846816218450704059404249186442340862400399 : ℕ) : Int)) = 324518553658426726783156020576254 • Gm := by
    rw [hb213, hc212, ← add_nsmul]
  obtain ⟨hv214, hb214⟩ := addNat_bridge 60325977684467088896985255780725246575237517751636738410059911900160285666389 25871081982947209927735851712479113846816218450704059404249186442340862400399 55066263022277343669578718895168534326250603453777594175500187360389116729240 32670510020758816978083085130507043184471273380659243275938904335757337482424 104951086257208963823271595957848406173588602570430724455556682644169581555629 15171433577467856354690767054464015993135551228148717739006009387561506468545 78333371966882902872044270106591121306375951238502116587685877804091389479158 (by decide) (by decide) (by decide) (by decide) (by decide) (by decide) (by decide) (by decide) (by decide) (by decide) (by decide) (by decide)
  have hc214 : lift (.affine ((15171433577467856354690767054464015993135551228148717739006009387561506468545 : ℕ) : Int) ((78333371966882902872044270106591121306375951238502116587685877804091389479158 : ℕ) : Int)) = 324518553658426726783156020576255 • Gm := by
    rw [hb214, hc213, hlG, ← add_nsmul]
  obtain ⟨hv215, hb215⟩ := dblNat_bridge 15171433577467856354690767054464015993135551228148717739006009387561506468545 78333371966882902872044270106591121306375951238502116587685877804091389479158 61017392463748745842520478283897116010946607858360945464398247196018264515931 53435289367915965506973031892679035687876316706229909202796554419243622403648 13569361306512708334199607521131875783246476029114120451756508998342763964705 (by decide) (by decide) (by decide) (by decide) (by decide) (by decide) (by decide) (by decide) (by decide)
  have hc215 : lift (.affine ((53435289367915965506973031892679035687876316706229909202796554419243622403648 : ℕ) : Int) ((13569361306512708334199607521131875783246476029114120451756508998342763964705 : ℕ) : Int)) = 649037107316853453566312041152510 • Gm := by
    rw [hb215, hc214, ← add_nsmul]
  obtain ⟨hv216, hb216⟩ := addNat_bridge 53435289367915965506973031892679035687876316706229909202796554419243622403648 13569361306512708334199607521131875783246476029114120451756508998342763964705 55066263022277343669578718895168534326250603453777594175500187360389116729240 32670510020758816978083085130507043184471273380659243275938904335757337482424 1498238250875767702096392050953009092656049897484015096599965756396479228131 90502903096772556311946961658133462694790392256481257455576766535820176252562 22166459749028423249980427669789117629348140935937618363123940870729799678844 (by decide) (by decide) (by decide) (by decide) (by decide) (by decide) (by decide) (by decide) (by decide) (by decide) (by decide) (by decide)
  have hc216 : lift (.affine ((90502903096772556311946961658133462694790392256481257455576766535820176252562 : ℕ) : Int) ((22166459749028423249980427669789117629348140935937618363123940870729799678844 : ℕ) : Int)) = 649037107316853453566312041152511 • Gm := by
    rw [hb216, hc215, hlG, ← add_nsmul]
  obtain ⟨hv217, hb217⟩ := dblNat_bridge 90502903096772556311946961658133462694790392256481257455576766535820176252562 22166459749028423249980427669789117629348140935937618363123940870729799678844 98471596444466505613281446738645688337049963084419641174750188986302765558494 28769724113787104813672562220340952109686524807147113620983172095711863699233 105872669289861256523336331805201713170637676793021198077951586528658776341893 (by decide) (by decide) (by decide) (by decide) (by decide) (by decide) (by decide) (by decide) (by decide)
  have hc217 : lift (.affine ((28769724113787104813672562220340952109686524807147113620983172095711863699233 : ℕ) : Int) ((105872669289861256523336331805201713170637676793021198077951586528658776341893 : ℕ) : Int)) = 1298074214633706907132624082305022 • Gm := by
    rw [hb217, hc216, ← add_nsmul]
  obtain ⟨hv218, hb218⟩ := addNat_bridge 28769724113787104813672562220340952109686524807147113620983172095711863699233 105872669289861256523336331805201713170637676793021198077951586528658776341893 55066263022277343669578718895168534326250603453777594175500187360389116729240 32670510020758816978083085130507043184471273380659243275938904335757337482424 43821612780852592513782481828264013804255523053380388865055386917918459045140 99057580558302078445750679671027677076559049974422172101662126201752361792595 9632313120761699489319844273726529140004428366985486821569923362175009816648 (by decide) (by decide) (by decide) (by decide) (by decide) (by decide) (by decide) (by decide) (by decide) (by decide) (by decide) (by decide)
  have hc218 : lift (.affine ((99057580558302078445750679671027677076559049974422172101662126201752361792595 : ℕ) : Int) ((9632313120761699489319844273726529140004428366985486821569923362175009816648 : ℕ) : Int)) = 1298074214633706907132624082305023 • Gm := by
    rw [hb218, hc217, hlG, ← add_nsmul]
  obtain ⟨hv219, hb219⟩ := dblNat_bridge 99057580558302078445750679671027677076559049974422172101662126201752361792595 9632313120761699489319844273726529140004428366985486821569923362175009816648 32550533479452572216674123072504911411752632039295088723105448122137679641143 40303974825318303256924289613800018525254793572927413753870053569936923160715 22049618615183009916561881272401447408979478231793006312101199279459004823763 (by decide) (by decide) (by decide) (by decide) (by decide) (by decide) (by decide) (by decide) (by decide)
  have hc219 : lift (.affine ((40303974825318303256924289613800018525254793572927413753870053569936923160715 : ℕ) : Int) ((22049618615183009916561881272401447408979478231793006312101199279459004823763 : ℕ) : Int)) = 2596148429267413814265248164610046 • Gm := by
    rw [hb219, hc218, ← add_nsmul]
  obtain ⟨hv220, hb220⟩ := addNat_bridge 40303974825318303256924289613800018525254793572927413753870053569936923160715 22049618615183009916561881272401447408979478231793006312101199279459004823763 55066263022277343669578718895168534326250603453777594175500187360389116729240 32670510020758816978083085130507043184471273380659243275938904335757337482424 103303475516828485970572501444707877687350260075577800388977348139841175038505 104974888522412900002523401899214871882209418303258581731111445006775132409881 97289757591100626560245725244308979317271867234049913686738034025207750706259 (by decide) (by decide) (by decide) (by decide) (by decide) (by decide) (by decide) (by decide) (by decide) (by decide) (by decide) (by decide)
  have hc220 : lift (.affine ((104974888522412900002523401899214871882209418303258581731111445006775132409881 : ℕ) : Int) ((97289757591100626560245725244308979317271867234049913686738034025207750706259 : ℕ) : Int)) = 2596148429267413814265248164610047 • Gm := by
    rw [hb220, hc219, hlG, ← add_nsmul]
  exact ⟨hv220, hc220⟩

/-- Steps 221–230 of the double-and-add certificate chain for the order of `G`. -/
theorem ordBlock22 :
    lift (Point.affine ((55066263022277343669578718895168534326250603453777594175500187360389116729240 : ℕ) : Int) ((32670510020758816978083085130507043184471273380659243275938904335757337482424 : ℕ) : Int)) = 1 • Gm →
    (Point.Valid (.affine ((104974888522412900002523401899214871882209418303258581731111445006775132409881 : ℕ) : Int) ((97289757591100626560245725244308979317271867234049913686738034025207750706259 : ℕ) : Int)) ∧
      lift (.affine ((104974888522412900002523401899214871882209418303258581731111445006775132409881 : ℕ) : Int) ((97289757591100626560245725244308979317271867234049913686738034025207750706259 : ℕ) : Int)) = 2596148429267413814265248164610047 • Gm) →
    Point.Valid (.affine ((99544117707868909443754797662878906691779847424433669375312674540126210509577 : ℕ) : Int) ((113662362768647842278349268097669139843532339568490564718523067461270545787211 : ℕ) : Int)) ∧
      lift (.affine ((99544117707868909443754797662878906691779847424433669375312674540126210509577 : ℕ) : Int) ((113662362768647842278349268097669139843532339568490564718523067461270545787211 : ℕ) : Int)) = 83076749736557242056487941267521535 • Gm := by
  intro hlG h
  obtain ⟨hv, hl⟩ := h
  obtain ⟨hv221, hb221⟩ := dblNat_bridge 104974888522412900002523401899214871882209418303258581731111445006775132409881 97289757591100626560245725244308979317271867234049913686738034025207750706259 78654064139819235697561138468470562173358090495501379468533363353159701300476 47914464046774558340229137054142775618596628202786230095861890827736425345141 77958130651017498968205021662110792380123261790112355106946683520651682163964 (by decide) (by decide) (by decide) (by decide) (by decide) (by decide) (by decide) (by decide) (by decide)
  have hc221 : lift (.affine ((47914464046774558340229137054142775618596628202786230095861890827736425345141 : ℕ) : Int) ((77958130651017498968205021662110792380123261790112355106946683520651682163964 : ℕ) : Int)) = 5192296858534827628530496329220094 • Gm := by
    rw [hb221, hl, ← add_nsmul]
  obtain ⟨hv222, hb222⟩ := addNat_bridge 47914464046774558340229137054142775618596628202786230095861890827736425345141 77958130651017498968205021662110792380123261790112355106946683520651682163964 55066263022277343669578718895168534326250603453777594175500187360389116729240 32670510020758816978083085130507043184471273380659243275938904335757337482424 107487236850271786564648896875357332190484052750861526295414252527515070352256 17094445843246388782807047934495131951550157610276045715606318194015767473870 86381763383078582546737772157888348651468922085198088917854629613501820706960 (by decide) (by decide) (by decide) (by decide) (by decide) (by decide) (by decide) (by decide) (by decide) (by decide) (by decide) (by decide)
  have hc222 : lift (.affine ((17094445843246388782807047934495131951550157610276045715606318194015767473870 : ℕ) : Int) ((86381763383078582546737772157888348651468922085198088917854629613501820706960 : ℕ) : Int)) = 5192296858534827628530496329220095 • Gm := by
    rw [hb222, hc221, hlG, ← add_nsmul]
  obtain ⟨hv223, hb223⟩ := dblNat_bridge 17094445843246388782807047934495131951550157610276045715606318194015767473870 86381763383078582546737772157888348651468922085198088917854629613501820706960 24104302567917037440276118248048556433026669087841534741921582681973231061175 110228038564823204773078885995652869633103420418446258987649850384234177315210 75410752530204165606258763884401249500263906350753978906303513499770298094850 (by decide) (by decide) (by decide) (by decide) (by decide) (by decide) (by decide) (by decide) (by decide)
  have hc223 : lift (.affine ((110228038564823204773078885995652869633103420418446258987649850384234177315210 : ℕ) : Int) ((75410752530204165606258763884401249500263906350753978906303513499770298094850 : ℕ) : Int)) = 10384593717069655257060992658440190 • Gm := by
    rw [hb223, hc222, ← add_nsmul]
  obtain ⟨hv224, hb224⟩ := addNat_bridge 110228038564823204773078885995652869633103420418446258987649850384234177315210 75410752530204165606258763884401249500263906350753978906303513499770298094850 55066263022277343669578718895168534326250603453777594175500187360389116729240 32670510020758816978083085130507043184471273380659243275938904335757337482424 107343280139666778921986116776940544882318864127772251747396828343752181297016 17771571735965953253471420791300293997656220382701564332842383046840410169949 21676981378121622119582307596384296058269040135118451542643794568445554346533 (by decide) (by decide) (by decide) (by decide) (by decide) (by decide) (by decide) (by decide) (by decide) (by decide) (by decide) (by decide)
  have hc224 : lift (.affine ((17771571735965953253471420791300293997656220382701564332842383046840410169949 : ℕ) : Int) ((21676981378121622119582307596384296058269040135118451542643794568445554346533 : ℕ) : Int)) = 10384593717069655257060992658440191 • Gm := by
    rw [hb224, hc223, hlG, ← add_nsmul]
  obtain ⟨hv225, hb225⟩ := dblNat_bridge 17771571735965953253471420791300293997656220382701564332842383046840410169949 21676981378121622119582307596384296058269040135118451542643794568445554346533 78661523711462803825090412474270214069002340110283204360157016163967140171138 23432890532356342854498764939115148846976774916549230734826566540054219449347 37001831005047195393487847574940568382459739855008519257789462925224316972133 (by decide) (by decide) (by decide) (by decide) (by decide) (by decide) (by decide) (by decide) (by decide)
  have hc225 : lift (.affine ((23432890532356342854498764939115148846976774916549230734826566540054219449347 : ℕ) : Int) ((37001831005047195393487847574940568382459739855008519257789462925224316972133 : ℕ) : Int)) = 20769187434139310514121985316880382 • Gm := by
    rw [hb225, hc224, ← add_nsmul]
  obtain ⟨hv226, hb226⟩ := addNat_bridge 23432890532356342854498764939115148846976774916549230734826566540054219449347 37001831005047195393487847574940568382459739855008519257789462925224316972133 55066263022277343669578718895168534326250603453777594175500187360389116729240 32670510020758816978083085130507043184471273380659243275938904335757337482424 19205810430381614068392806323874197855474832287961592871877444661241811122665 38621021452438382006694958330596152025610673929961122182373421759972911150351 22261947805893413772816139774139881685281902777854494539771383933900210098220 (by decide) (by decide) (by decide) (by decide) (by decide) (by decide) (by decide) (by decide) (by decide) (by decide) (by decide) (by decide)
  have hc226 : lift (.affine ((38621021452438382006694958330596152025610673929961122182373421759972911150351 : ℕ) : Int) ((22261947805893413772816139774139881685281902777854494539771383933900210098220 : ℕ) : Int)) = 20769187434139310514121985316880383 • Gm := by
    rw [hb226, hc225, hlG, ← add_nsmul]
  obtain ⟨hv227, hb227⟩ := dblNat_bridge 38621021452438382006694958330596152025610673929961122182373421759972911150351 22261947805893413772816139774139881685281902777854494539771383933900210098220 96722744499496456127278284675502881829051851639215597263748639889550211256264 17284329575503493350931470111293126145966924406420375687427234581142327517280 77186450133861189800117300919098309064964593874303626535310368388446779338411 (by decide) (by decide) (by decide) (by decide) (by decide) (by decide) (by decide) (by decide) (by decide)
  have hc227 : lift (.affine ((17284329575503493350931470111293126145966924406420375687427234581142327517280 : ℕ) : Int) ((77186450133861189800117300919098309064964593874303626535310368388446779338411 : ℕ) : Int)) = 41538374868278621028243970633760766 • Gm := by
    rw [hb227, hc226, ← add_nsmul]
  obtain ⟨hv228, hb228⟩ := addNat_bridge 17284329575503493350931470111293126145966924406420375687427234581142327517280 77186450133861189800117300919098309064964593874303626535310368388446779338411 55066263022277343669578718895168534326250603453777594175500187360389116729240 32670510020758816978083085130507043184471273380659243275938904335757337482424 63059745880292842771606642420038296841111641946913676256976115448933140955449 19357972556120398054289850320762044641814040644682273734628626060699241843516 97708701507464560624384186437540801921291404812210183061964621538139223136702 (by decide) (by decide) (by decide) (by decide) (by decide) (by decide) (by decide) (by decide) (by decide) (by decide) (by decide) (by decide)
  have hc228 : lift (.affine ((19357972556120398054289850320762044641814040644682273734628626060699241843516 : ℕ) : Int) ((97708701507464560624384186437540801921291404812210183061964621538139223136702 : ℕ) : Int)) = 41538374868278621028243970633760767 • Gm := by
    rw [hb228, hc227, hlG, ← add_nsmul]
  obtain ⟨hv229, hb229⟩ := dblNat_bridge 19357972556120398054289850320762044641814040644682273734628626060699241843516 97708701507464560624384186437540801921291404812210183061964621538139223136702 50522164190882540255423063873597649626172051352967023719615235700102913356746 46043956825824711338538478884173222667424510337014238514425545475382367229105 55381699144471833952869654034330483822930458699684752459790908970338441989949 (by decide) (by decide) (by decide) (by decide) (by decide) (by decide) (by decide) (by decide) (by decide)
  have hc229 : lift (.affine ((46043956825824711338538478884173222667424510337014238514425545475382367229105 : ℕ) : Int) ((55381699144471833952869654034330483822930458699684752459790908970338441989949 : ℕ) : Int)) = 83076749736557242056487941267521534 • Gm := by
    rw [hb229, hc228, ← add_nsmul]
  obtain ⟨hv230, hb230⟩ := addNat_bridge 46043956825824711338538478884173222667424510337014238514425545475382367229105 55381699144471833952869654034330483822930458699684752459790908970338441989949 55066263022277343669578718895168534326250603453777594175500187360389116729240 32670510020758816978083085130507043184471273380659243275938904335757337482424 91485526554406434892579698788534824225433316105880496558872568884277750127954 99544117707868909443754797662878906691779847424433669375312674540126210509577 113662362768647842278349268097669139843532339568490564718523067461270545787211 (by decide) (by decide) (by decide) (by decide) (by decide) (by decide) (by decide) (by decide) (by decide) (by decide) (by decide) (by decide)
  have hc230 : lift (.affine ((99544117707868909443754797662878906691779847424433669375312674540126210509577 : ℕ) : Int) ((113662362768647842278349268097669139843532339568490564718523067461270545787211 : ℕ) : Int)) = 83076749736557242056487941267521535 • Gm := by
    rw [hb230, hc229, hlG, ← add_nsmul]
  exact ⟨hv230, hc230⟩

/-- Steps 231–240 of the double-and-add certificate chain for the order of `G`. -/
theorem ordBlock23 :
    lift (Point.affine ((55066263022277343669578718895168534326250603453777594175500187360389116729240 : ℕ) : Int) ((32670510020758816978083085130507043184471273380659243275938904335757337482424 : ℕ) : Int)) = 1 • Gm →
    (Point.Valid (.affine ((99544117707868909443754797662878906691779847424433669375312674540126210509577 : ℕ) : Int) ((113662362768647842278349268097669139843532339568490564718523067461270545787211 : ℕ) : Int)) ∧
      lift (.affine ((99544117707868909443754797662878906691779847424433669375312674540126210509577 : ℕ) : Int) ((113662362768647842278349268097669139843532339568490564718523067461270545787211 : ℕ) : Int)) = 83076749736557242056487941267521535 • Gm) →
    Point.Valid (.affine ((2241702475118758140351471486301357544376996171911961067614365186388315009644 : ℕ) : Int) ((70520421453189585632773552208603942898855516311756109864076001277270305443565 : ℕ) : Int)) ∧
      lift (.affine ((2241702475118758140351471486301357544376996171911961067614365186388315009644 : ℕ) : Int) ((70520421453189585632773552208603942898855516311756109864076001277270305443565 : ℕ) : Int)) = 2658455991569831745807614120560689151 • Gm := by
  intro hlG h
  obtain ⟨hv, hl⟩ := h
  obtain ⟨hv231, hb231⟩ := dblNat_bridge 99544117707868909443754797662878906691779847424433669375312674540126210509577 113662362768647842278349268097669139843532339568490564718523067461270545787211 99757593317896415988884284053307209113995432098065556036983303567562144170112 46464973099387419697183147946270207605288490331086240885500629503935010914871 27223011805526720766200739621835799131480229287525616617209414352850658781797 (by decide) (by decide) (by decide) (by decide) (by decide) (by decide) (by decide) (by decide) (by decide)
  have hc231 : lift (.affine ((46464973099387419697183147946270207605288490331086240885500629503935010914871 : ℕ) : Int) ((27223011805526720766200739621835799131480229287525616617209414352850658781797 : ℕ) : Int)) = 166153499473114484112975882535043070 • Gm := by
    rw [hb231, hl, ← add_nsmul]
  obtain ⟨hv232, hb232⟩ := addNat_bridge 46464973099387419697183147946270207605288490331086240885500629503935010914871 27223011805526720766200739621835799131480229287525616617209414352850658781797 55066263022277343669578718895168534326250603453777594175500187360389116729240 32670510020758816978083085130507043184471273380659243275938904335757337482424 51445899467250289689597323270810114880040251906365056571682013472580287056960 39658475619831363419619804356122304284803292429613512168995620131969247112634 90632588532434197300246168781382494875897068879559811880873017727895837100176 (by decide) (by decide) (by decide) (by decide) (by decide) (by decide) (by decide) (by decide) (by decide) (by decide) (by decide) (by decide)
  have hc232 : lift (.affine ((39658475619831363419619804356122304284803292429613512168995620131969247112634 : ℕ) : Int) ((90632588532434197300246168781382494875897068879559811880873017727895837100176 : ℕ) : Int)) = 166153499473114484112975882535043071 • Gm := by
    rw [hb232, hc231, hlG, ← add_nsmul]
  obtain ⟨hv233, hb233⟩ := dblNat_bridge 39658475619831363419619804356122304284803292429613512168995620131969247112634 90632588532434197300246168781382494875897068879559811880873017727895837100176 56524126086101841844492997806612329466187756524609042897159593446337430210107 56290280395498484114995017197456451906629475758599988185277472995313474566853 76001096710304907363949522820375422449287167039354331320327674798050901188290 (by decide) (by decide) (by decide) (by decide) (by decide) (by decide) (by decide) (by decide) (by decide)
  have hc233 : lift (.affine ((56290280395498484114995017197456451906629475758599988185277472995313474566853 : ℕ) : Int) ((76001096710304907363949522820375422449287167039354331320327674798050901188290 : ℕ) : Int)) = 332306998946228968225951765070086142 • Gm := by
    rw [hb233, hc232, ← add_nsmul]
  obtain ⟨hv234, hb234⟩ := addNat_bridge 56290280395498484114995017197456451906629475758599988185277472995313474566853 76001096710304907363949522820375422449287167039354331320327674798050901188290 55066263022277343669578718895168534326250603453777594175500187360389116729240 32670510020758816978083085130507043184471273380659243275938904335757337482424 55267580139633689970717543493156431647664893124595163422054316880200388696116 42968108831271476510851864148006669022828295826448484506201168567901691367632 28114379227529671315521144680933619274154905335209056545781906556844202122006 (by decide) (by decide) (by decide) (by decide) (by decide) (by decide) (by decide) (by decide) (by decide) (by decide) (by decide) (by decide)
  have hc234 : lift (.affine ((42968108831271476510851864148006669022828295826448484506201168567901691367632 : ℕ) : Int) ((28114379227529671315521144680933619274154905335209056545781906556844202122006 : ℕ) : Int)) = 332306998946228968225951765070086143 • Gm := by
    rw [hb234, hc233, hlG, ← add_nsmul]
  obtain ⟨hv235, hb235⟩ := dblNat_bridge 42968108831271476510851864148006669022828295826448484506201168567901691367632 28114379227529671315521144680933619274154905335209056545781906556844202122006 41925140987643249237137721515596479684587187376899299085974431960938004543666 926917096059351889623204047025347710101956909719273126248880579994851227799 9392028982925573106626568856962646900153024075539974425545867503012428545952 (by decide) (by decide) (by decide) (by decide) (by decide) (by decide) (by decide) (by decide) (by decide)
  have hc235 : lift (.affine ((926917096059351889623204047025347710101956909719273126248880579994851227799 : ℕ) : Int) ((9392028982925573106626568856962646900153024075539974425545867503012428545952 : ℕ) : Int)) = 664613997892457936451903530140172286 • Gm := by
    rw [hb235, hc234, ← add_nsmul]
  obtain ⟨hv236, hb236⟩ := addNat_bridge 926917096059351889623204047025347710101956909719273126248880579994851227799 9392028982925573106626568856962646900153024075539974425545867503012428545952 55066263022277343669578718895168534326250603453777594175500187360389116729240 32670510020758816978083085130507043184471273380659243275938904335757337482424 40580901823952469980750328098529969149388561692095270645637783904652680291420 80938203893428479870254506523984841798426552524225412250550703057037531720035 10147417670071250306848356775050600965463936214397533129308412868229542552275 (by decide) (by decide) (by decide) (by decide) (by decide) (by decide) (by decide) (by decide) (by decide) (by decide) (by decide) (by decide)
  have hc236 : lift (.affine ((80938203893428479870254506523984841798426552524225412250550703057037531720035 : ℕ) : Int) ((10147417670071250306848356775050600965463936214397533129308412868229542552275 : ℕ) : Int)) = 664613997892457936451903530140172287 • Gm := by
    rw [hb236, hc235, hlG, ← add_nsmul]
  obtain ⟨hv237, hb237⟩ := dblNat_bridge 80938203893428479870254506523984841798426552524225412250550703057037531720035 10147417670071250306848356775050600965463936214397533129308412868229542552275 92305453116202015777194135241391164386539872345398331656455832679056867298108 51517028311536510966815689590373856223315483936968151029407184791807327934501 74807762725342165661370022656494094606840886626781433124578564951333583352302 (by decide) (by decide) (by decide) (by decide) (by decide) (by decide) (by decide) (by decide) (by decide)
  have hc237 : lift (.affine ((51517028311536510966815689590373856223315483936968151029407184791807327934501 : ℕ) : Int) ((74807762725342165661370022656494094606840886626781433124578564951333583352302 : ℕ) : Int)) = 1329227995784915872903807060280344574 • Gm := by
    rw [hb237, hc236, ← add_nsmul]
  obtain ⟨hv238, hb238⟩ := addNat_bridge 51517028311536510966815689590373856223315483936968151029407184791807327934501 74807762725342165661370022656494094606840886626781433124578564951333583352302 55066263022277343669578718895168534326250603453777594175500187360389116729240 32670510020758816978083085130507043184471273380659243275938904335757337482424 64140218924697296969768546029823249180301706551744368117184090543926206787345 99783062481929763298895154644208221421349043522236968117358273003590171967359 76077462664931240148802448179946552737717098049242819873660170300131041875017 (by decide) (by decide) (by decide) (by decide) (by decide) (by decide) (by decide) (by decide) (by decide) (by decide) (by decide) (by decide)
  have hc238 : lift (.affine ((99783062481929763298895154644208221421349043522236968117358273003590171967359 : ℕ) : Int) ((76077462664931240148802448179946552737717098049242819873660170300131041875017 : ℕ) : Int)) = 1329227995784915872903807060280344575 • Gm := by
    rw [hb238, hc237, hlG, ← add_nsmul]
  obtain ⟨hv239, hb239⟩ := dblNat_bridge 99783062481929763298895154644208221421349043522236968117358273003590171967359 76077462664931240148802448179946552737717098049242819873660170300131041875017 18455393653522642602035768722699092367450756629256684672586863474044985078677 37464755172699901694843434897464754889058811826698514912150459007185426049596 35990359404064835665164825778552629516635340152851157020261154291258240322801 (by decide) (by decide) (by decide) (by decide) (by decide) (by decide) (by decide) (by decide) (by decide)
  have hc239 : lift (.affine ((37464755172699901694843434897464754889058811826698514912150459007185426049596 : ℕ) : Int) ((35990359404064835665164825778552629516635340152851157020261154291258240322801 : ℕ) : Int)) = 2658455991569831745807614120560689150 • Gm := by
    rw [hb239, hc238, ← add_nsmul]
  obtain ⟨hv240, hb240⟩ := addNat_bridge 37464755172699901694843434897464754889058811826698514912150459007185426049596 35990359404064835665164825778552629516635340152851157020261154291258240322801 55066263022277343669578718895168534326250603453777594175500187360389116729240 32670510020758816978083085130507043184471273380659243275938904335757337482424 11593518418037177640850168843868854100019417667030325208796678511031929420296 2241702475118758140351471486301357544376996171911961067614365186388315009644 70520421453189585632773552208603942898855516311756109864076001277270305443565 (by decide) (by decide) (by decide) (by decide) (by decide) (by decide) (by decide) (by decide) (by decide) (by decide) (by decide) (by decide)
  have hc240 : lift (.affine ((2241702475118758140351471486301357544376996171911961067614365186388315009644 : ℕ) : Int) ((70520421453189585632773552208603942898855516311756109864076001277270305443565 : ℕ) : Int)) = 2658455991569831745807614120560689151 • Gm := by
    rw [hb240, hc239, hlG, ← add_nsmul]
  exact ⟨hv240, hc240⟩

/-- Steps 241–250 of the double-and-add certificate chain for the order of `G`. -/
theorem ordBlock24 :
    lift (Point.affine ((55066263022277343669578718895168534326250603453777594175500187360389116729240 : ℕ) : Int) ((32670510020758816978083085130507043184471273380659243275938904335757337482424 : ℕ) : Int)) = 1 • Gm →
    (Point.Valid (.affine ((2241702475118758140351471486301357544376996171911961067614365186388315009644 : ℕ) : Int) ((70520421453189585632773552208603942898855516311756109864076001277270305443565 : ℕ) : Int)) ∧
      lift (.affine ((2241702475118758140351471486301357544376996171911961067614365186388315009644 : ℕ) : Int) ((70520421453189585632773552208603942898855516311756109864076001277270305443565 : ℕ) : Int)) = 2658455991569831745807614120560689151 • Gm) →
    Point.Valid (.affine ((74908289780128607900103260308928883264974317854699790870488896481230705601487 : ℕ) : Int) ((87662823518640088119700372408111401550278419917114495926862653782390007928595 : ℕ) : Int)) ∧
      lift (.affine ((74908289780128607900103260308928883264974317854699790870488896481230705601487 : ℕ) : Int) ((87662823518640088119700372408111401550278419917114495926862653782390007928595 : ℕ) : Int)) = 85070591730234615865843651857942052863 • Gm := by
  intro hlG h
  obtain ⟨hv, hl⟩ := h
  obtain ⟨hv241, hb241⟩ := dblNat_bridge 2241702475118758140351471486301357544376996171911961067614365186388315009644 70520421453189585632773552208603942898855516311756109864076001277270305443565 110605199533457349788962582497836771074695920285648285304783552134921455085932 55275427068351492735174817104724160138068957280562201102612507702066619657839 72630305107852208782679119038399609895649356345907121919125410133922085076793 (by decide) (by decide) (by decide) (by decide) (by decide) (by decide) (by decide) (by decide) (by decide)
  have hc241 : lift (.affine ((55275427068351492735174817104724160138068957280562201102612507702066619657839 : ℕ) : Int) ((72630305107852208782679119038399609895649356345907121919125410133922085076793 : ℕ) : Int)) = 5316911983139663491615228241121378302 • Gm := by
    rw [hb241, hl, ← add_nsmul]
  obtain ⟨hv242, hb242⟩ := addNat_bridge 55275427068351492735174817104724160138068957280562201102612507702066619657839 72630305107852208782679119038399609895649356345907121919125410133922085076793 55066263022277343669578718895168534326250603453777594175500187360389116729240 32670510020758816978083085130507043184471273380659243275938904335757337482424 90629864057883882985455753949724908992789771693681933592597314611731869144451 97681239841240334644550806835810621738575261562599169183792956624229918888140 42245486313330494885910345274851983781298614443662196919984634308008957298442 (by decide) (by decide) (by decide) (by decide) (by decide) (by decide) (by decide) (by decide) (by decide) (by decide) (by decide) (by decide)
  have hc242 : lift (.affine ((97681239841240334644550806835810621738575261562599169183792956624229918888140 : ℕ) : Int) ((42245486313330494885910345274851983781298614443662196919984634308008957298442 : ℕ) : Int)) = 5316911983139663491615228241121378303 • Gm := by
    rw [hb242, hc241, hlG, ← add_nsmul]
  obtain ⟨hv243, hb243⟩ := dblNat_bridge 97681239841240334644550806835810621738575261562599169183792956624229918888140 42245486313330494885910345274851983781298614443662196919984634308008957298442 50601671843241685896779830067048435002931436494415381819965621018889777460514 50748170987335045594346592501766558292470273326088145157947455753976828151961 65824857036685966363414360862694785752991072262781843948623506860884515686057 (by decide) (by decide) (by decide) (by decide) (by decide) (by decide) (by decide) (by decide) (by decide)
  have hc243 : lift (.affine ((50748170987335045594346592501766558292470273326088145157947455753976828151961 : ℕ) : Int) ((65824857036685966363414360862694785752991072262781843948623506860884515686057 : ℕ) : Int)) = 10633823966279326983230456482242756606 • Gm := by
    rw [hb243, hc242, ← add_nsmul]
  obtain ⟨hv244, hb244⟩ := addNat_bridge 50748170987335045594346592501766558292470273326088145157947455753976828151961 65824857036685966363414360862694785752991072262781843948623506860884515686057 55066263022277343669578718895168534326250603453777594175500187360389116729240 32670510020758816978083085130507043184471273380659243275938904335757337482424 61835114638428675262542516977073777445142951967339924000537425683246968272569 113675539420863093046960980682371821873048848179531292009698275421568312488207 112248129135470962851640439295516044621041275812622227624943114291058719090601 (by decide) (by decide) (by decide) (by decide) (by decide) (by decide) (by decide) (by decide) (by decide) (by decide) (by decide) (by decide)
  have hc244 : lift (.affine ((113675539420863093046960980682371821873048848179531292009698275421568312488207 : ℕ) : Int) ((112248129135470962851640439295516044621041275812622227624943114291058719090601 : ℕ) : Int)) = 10633823966279326983230456482242756607 • Gm := by
    rw [hb244, hc243, hlG, ← add_nsmul]
  obtain ⟨hv245, hb245⟩ := dblNat_bridge 113675539420863093046960980682371821873048848179531292009698275421568312488207 112248129135470962851640439295516044621041275812622227624943114291058719090601 60184127914083468286403468376266418547030019686968388903913720290309847171542 68269739857874159476018257833674358058974167523889970355151997236737070198030 108162219461176390146078893357823556065434278881696929218913215633327915048880 (by decide) (by decide) (by decide) (by decide) (by decide) (by decide) (by decide) (by decide) (by decide)
  have hc245 : lift (.affine ((68269739857874159476018257833674358058974167523889970355151997236737070198030 : ℕ) : Int) ((108162219461176390146078893357823556065434278881696929218913215633327915048880 : ℕ) : Int)) = 21267647932558653966460912964485513214 • Gm := by
    rw [hb245, hc244, ← add_nsmul]
  obtain ⟨hv246, hb246⟩ := addNat_bridge 68269739857874159476018257833674358058974167523889970355151997236737070198030 108162219461176390146078893357823556065434278881696929218913215633327915048880 55066263022277343669578718895168534326250603453777594175500187360389116729240 32670510020758816978083085130507043184471273380659243275938904335757337482424 68526885909123481322717424502779700342499359875404410777296238622523266936687 30325161051065299243085547591443159805902157153981635361185038582926502084824 33681045752342013293869065378190574927112883788273327923812963506581401579645 (by decide) (by decide) (by decide) (by decide) (by decide) (by decide) (by decide) (by decide) (by decide) (by decide) (by decide) (by decide)
  have hc246 : lift (.affine ((30325161051065299243085547591443159805902157153981635361185038582926502084824 : ℕ) : Int) ((33681045752342013293869065378190574927112883788273327923812963506581401579645 : ℕ) : Int)) = 21267647932558653966460912964485513215 • Gm := by
    rw [hb246, hc245, hlG, ← add_nsmul]
  obtain ⟨hv247, hb247⟩ := dblNat_bridge 30325161051065299243085547591443159805902157153981635361185038582926502084824 33681045752342013293869065378190574927112883788273327923812963506581401579645 36534158084738540130132261991377131776122632782198577900931429936577754976101 95417341016597744294033101155937530486859810622406822505666224266757386025554 40965003150300794594678112134451572739710636516681222557571937249818665008685 (by decide) (by decide) (by decide) (by decide) (by decide) (by decide) (by decide) (by decide) (by decide)
  have hc247 : lift (.affine ((95417341016597744294033101155937530486859810622406822505666224266757386025554 : ℕ) : Int) ((40965003150300794594678112134451572739710636516681222557571937249818665008685 : ℕ) : Int)) = 42535295865117307932921825928971026430 • Gm := by
    rw [hb247, hc246, ← add_nsmul]
  obtain ⟨hv248, hb248⟩ := addNat_bridge 95417341016597744294033101155937530486859810622406822505666224266757386025554 40965003150300794594678112134451572739710636516681222557571937249818665008685 55066263022277343669578718895168534326250603453777594175500187360389116729240 32670510020758816978083085130507043184471273380659243275938904335757337482424 71803920838110081864172320864152616332636007861088882677825101045524958738203 20655408614480095796138947353558619681393472506174843351440780492656256369384 100150957601371860619527154472713016321749559254173654066011988483952718446484 (by decide) (by decide) (by decide) (by decide) (by decide) (by decide) (by decide) (by decide) (by decide) (by decide) (by decide) (by decide)
  have hc248 : lift (.affine ((20655408614480095796138947353558619681393472506174843351440780492656256369384 : ℕ) : Int) ((100150957601371860619527154472713016321749559254173654066011988483952718446484 : ℕ) : Int)) = 42535295865117307932921825928971026431 • Gm := by
    rw [hb248, hc247, hlG, ← add_nsmul]
  obtain ⟨hv249, hb249⟩ := dblNat_bridge 20655408614480095796138947353558619681393472506174843351440780492656256369384 100150957601371860619527154472713016321749559254173654066011988483952718446484 84202681464700200194113385545260246070138250748785647721046168907581595951714 65015121373423101403781784331045374584439641771641230840661294954371119199876 86600062279810174344106947156048336994359938510149715676498754697826664993588 (by decide) (by decide) (by decide) (by decide) (by decide) (by decide) (by decide) (by decide) (by decide)
  have hc249 : lift (.affine ((65015121373423101403781784331045374584439641771641230840661294954371119199876 : ℕ) : Int) ((86600062279810174344106947156048336994359938510149715676498754697826664993588 : ℕ) : Int)) = 85070591730234615865843651857942052862 • Gm := by
    rw [hb249, hc248, ← add_nsmul]
  obtain ⟨hv250, hb250⟩ := addNat_bridge 65015121373423101403781784331045374584439641771641230840661294954371119199876 86600062279810174344106947156048336994359938510149715676498754697826664993588 55066263022277343669578718895168534326250603453777594175500187360389116729240 32670510020758816978083085130507043184471273380659243275938904335757337482424 27642288589643825223626553344809815275276095601942721386465741281040129731865 74908289780128607900103260308928883264974317854699790870488896481230705601487 87662823518640088119700372408111401550278419917114495926862653782390007928595 (by decide) (by decide) (by decide) (by decide) (by decide) (by decide) (by decide) (by decide) (by decide) (by decide) (by decide) (by decide)
  have hc250 : lift (.affine ((74908289780128607900103260308928883264974317854699790870488896481230705601487 : ℕ) : Int) ((87662823518640088119700372408111401550278419917114495926862653782390007928595 : ℕ) : Int)) = 85070591730234615865843651857942052863 • Gm := by
    rw [hb250, hc249, hlG, ← add_nsmul]
  exact ⟨hv250, hc250⟩

/-- Steps 251–260 of the double-and-add certificate chain for the order of `G`. -/
theorem ordBlock25 :
    lift (Point.affine ((55066263022277343669578718895168534326250603453777594175500187360389116729240 : ℕ) : Int) ((32670510020758816978083085130507043184471273380659243275938904335757337482424 : ℕ) : Int)) = 1 • Gm →
    (Point.Valid (.affine ((74908289780128607900103260308928883264974317854699790870488896481230705601487 : ℕ) : Int) ((87662823518640088119700372408111401550278419917114495926862653782390007928595 : ℕ) : Int)) ∧
      lift (.affine ((74908289780128607900103260308928883264974317854699790870488896481230705601487 : ℕ) : Int) ((87662823518640088119700372408111401550278419917114495926862653782390007928595 : ℕ) : Int)) = 85070591730234615865843651857942052863 • Gm) →
    Point.Valid (.affine ((1993281497699846573732273651845976636063318964662665526366968901545071462126 : ℕ) : Int) ((108843799672337935394024558370159277864399954377755665967707185164829039603721 : ℕ) : Int)) ∧
      lift (.affine ((1993281497699846573732273651845976636063318964662665526366968901545071462126 : ℕ) : Int) ((108843799672337935394024558370159277864399954377755665967707185164829039603721 : ℕ) : Int)) = 5444517870735015415413993718908291383275 • Gm := by
  intro hlG h
  obtain ⟨hv, hl⟩ := h
  obtain ⟨hv251, hb251⟩ := dblNat_bridge 74908289780128607900103260308928883264974317854699790870488896481230705601487 87662823518640088119700372408111401550278419917114495926862653782390007928595 1037048192695537634571026180385127932107582444154479260113194802037496011863 29146787670961382463446161759236414178786333503999717616099142125313371595286 27896972286324493155108198353748362638984931432938199689681358227396137362026 (by decide) (by decide) (by decide) (by decide) (by decide) (by decide) (by decide) (by decide) (by decide)
  have hc251 : lift (.affine ((29146787670961382463446161759236414178786333503999717616099142125313371595286 : ℕ) : Int) ((27896972286324493155108198353748362638984931432938199689681358227396137362026 : ℕ) : Int)) = 170141183460469231731687303715884105726 • Gm := by
    rw [hb251, hl, ← add_nsmul]
  obtain ⟨hv252, hb252⟩ := addNat_bridge 29146787670961382463446161759236414178786333503999717616099142125313371595286 27896972286324493155108198353748362638984931432938199689681358227396137362026 55066263022277343669578718895168534326250603453777594175500187360389116729240 32670510020758816978083085130507043184471273380659243275938904335757337482424 30909879884176564205367820163869550157499556320904966228063108013528260690319 60235763145053773929464348133510900516016684455921028638380419597223531861030 89513848975611855038621078042675025485452833182273567167128655323621600023883 (by decide) (by decide) (by decide) (by decide) (by decide) (by decide) (by decide) (by decide) (by decide) (by decide) (by decide) (by decide)
  have hc252 : lift (.affine ((60235763145053773929464348133510900516016684455921028638380419597223531861030 : ℕ) : Int) ((89513848975611855038621078042675025485452833182273567167128655323621600023883 : ℕ) : Int)) = 170141183460469231731687303715884105727 • Gm := by
    rw [hb252, hc251, hlG, ← add_nsmul]
  obtain ⟨hv253, hb253⟩ := dblNat_bridge 60235763145053773929464348133510900516016684455921028638380419597223531861030 89513848975611855038621078042675025485452833182273567167128655323621600023883 9871471953671084396564238663337772222599868074113967033114603465892428054179 68692142850392660802015396329039649451204381635119853432798177972246951304803 102365750941148103039035143763801997307773149029056103307434350881605350249461 (by decide) (by decide) (by decide) (by decide) (by decide) (by decide) (by decide) (by decide) (by decide)
  have hc253 : lift (.affine ((68692142850392660802015396329039649451204381635119853432798177972246951304803 : ℕ) : Int) ((102365750941148103039035143763801997307773149029056103307434350881605350249461 : ℕ) : Int)) = 340282366920938463463374607431768211454 • Gm := by
    rw [hb253, hc252, ← add_nsmul]
  obtain ⟨hv254, hb254⟩ := dblNat_bridge 68692142850392660802015396329039649451204381635119853432798177972246951304803 102365750941148103039035143763801997307773149029056103307434350881605350249461 51100646332634219971023989770755424562273106572591960939074432589241721958022 55167813412955997544392679919383979178677355355598407661004827128619964248168 100384951171414826746918692544367408328050369079782297301949678560246265023245 (by decide) (by decide) (by decide) (by decide) (by decide) (by decide) (by decide) (by decide) (by decide)
  have hc254 : lift (.affine ((55167813412955997544392679919383979178677355355598407661004827128619964248168 : ℕ) : Int) ((100384951171414826746918692544367408328050369079782297301949678560246265023245 : ℕ) : Int)) = 680564733841876926926749214863536422908 • Gm := by
    rw [hb254, hc253, ← add_nsmul]
  obtain ⟨hv255, hb255⟩ := addNat_bridge 55167813412955997544392679919383979178677355355598407661004827128619964248168 100384951171414826746918692544367408328050369079782297301949678560246265023245 55066263022277343669578718895168534326250603453777594175500187360389116729240 32670510020758816978083085130507043184471273380659243275938904335757337482424 36561425713747821737261491715741555095203958978147747161119077711020054198101 109039081194021527811964385583496477222785309499533614830337942106300393007500 69353713709823397331291410058002398534734481997681855688237955206445303706601 (by decide) (by decide) (by decide) (by decide) (by decide) (by decide) (by decide) (by decide) (by decide) (by decide) (by decide) (by decide)
  have hc255 : lift (.affine ((109039081194021527811964385583496477222785309499533614830337942106300393007500 : ℕ) : Int) ((69353713709823397331291410058002398534734481997681855688237955206445303706601 : ℕ) : Int)) = 680564733841876926926749214863536422909 • Gm := by
    rw [hb255, hc254, hlG, ← add_nsmul]
  obtain ⟨hv256, hb256⟩ := dblNat_bridge 109039081194021527811964385583496477222785309499533614830337942106300393007500 69353713709823397331291410058002398534734481997681855688237955206445303706601 54975288636536961984451369014739917655287785870776271399638077561657867714252 58199239149416701242561428518064070889374727500010008537384242788847369230300 95904493180343666831870095692737715931837140152292107811300376238146538433936 (by decide) (by decide) (by decide) (by decide) (by decide) (by decide) (by decide) (by decide) (by decide)
  have hc256 : lift (.affine ((58199239149416701242561428518064070889374727500010008537384242788847369230300 : ℕ) : Int) ((95904493180343666831870095692737715931837140152292107811300376238146538433936 : ℕ) : Int)) = 1361129467683753853853498429727072845818 • Gm := by
    rw [hb256, hc255, ← add_nsmul]
  obtain ⟨hv257, hb257⟩ := dblNat_bridge 58199239149416701242561428518064070889374727500010008537384242788847369230300 95904493180343666831870095692737715931837140152292107811300376238146538433936 33310768342321057208576672776715649250778911557054641140546570991894229022246 91636555016614841210700707474943512852727732288347821106207368916064252847803 54849497094113685872015754854927019058748338084159429713178765198970462171623 (by decide) (by decide) (by decide) (by decide) (by decide) (by decide) (by decide) (by decide) (by decide)
  have hc257 : lift (.affine ((91636555016614841210700707474943512852727732288347821106207368916064252847803 : ℕ) : Int) ((54849497094113685872015754854927019058748338084159429713178765198970462171623 : ℕ) : Int)) = 2722258935367507707706996859454145691636 • Gm := by
    rw [hb257, hc256, ← add_nsmul]
  obtain ⟨hv258, hb258⟩ := addNat_bridge 91636555016614841210700707474943512852727732288347821106207368916064252847803 54849497094113685872015754854927019058748338084159429713178765198970462171623 55066263022277343669578718895168534326250603453777594175500187360389116729240 32670510020758816978083085130507043184471273380659243275938904335757337482424 111305741139439348983912218022877727626546126425174646789611479663037761697915 90949833294341766642404563638073633162796283227472181339194471333320299707262 105963621296051555584076142828950760504936730158846278684126593785393064709958 (by decide) (by decide) (by decide) (by decide) (by decide) (by decide) (by decide) (by decide) (by decide) (by decide) (by decide) (by decide)
  have hc258 : lift (.affine ((90949833294341766642404563638073633162796283227472181339194471333320299707262 : ℕ) : Int) ((105963621296051555584076142828950760504936730158846278684126593785393064709958 : ℕ) : Int)) = 2722258935367507707706996859454145691637 • Gm := by
    rw [hb258, hc257, hlG, ← add_nsmul]
  obtain ⟨hv259, hb259⟩ := dblNat_bridge 90949833294341766642404563638073633162796283227472181339194471333320299707262 105963621296051555584076142828950760504936730158846278684126593785393064709958 53607507290433260896322565125527133106248081533221965085872053254243192837264 35517587808548078802672800559487372392027613650814179108857084470050472635324 27186092853038508193635254494987202413331470351436226497685207552112694018818 (by decide) (by decide) (by decide) (by decide) (by decide) (by decide) (by decide) (by decide) (by decide)
  have hc259 : lift (.affine ((35517587808548078802672800559487372392027613650814179108857084470050472635324 : ℕ) : Int) ((27186092853038508193635254494987202413331470351436226497685207552112694018818 : ℕ) : Int)) = 5444517870735015415413993718908291383274 • Gm := by
    rw [hb259, hc258, ← add_nsmul]
  obtain ⟨hv260, hb260⟩ := addNat_bridge 35517587808548078802672800559487372392027613650814179108857084470050472635324 27186092853038508193635254494987202413331470351436226497685207552112694018818 55066263022277343669578718895168534326250603453777594175500187360389116729240 32670510020758816978083085130507043184471273380659243275938904335757337482424 69987038082448382552134284797121822750257037103956803962010985682341075239770 1993281497699846573732273651845976636063318964662665526366968901545071462126 108843799672337935394024558370159277864399954377755665967707185164829039603721 (by decide) (by decide) (by decide) (by decide) (by decide) (by decide) (by decide) (by decide) (by decide) (by decide) (by decide) (by decide)
  have hc260 : lift (.affine ((1993281497699846573732273651845976636063318964662665526366968901545071462126 : ℕ) : Int) ((108843799672337935394024558370159277864399954377755665967707185164829039603721 : ℕ) : Int)) = 5444517870735015415413993718908291383275 • Gm := by
    rw [hb260, hc259, hlG, ← add_nsmul]
  exact ⟨hv260, hc260⟩

/-- Steps 261–270 of the double-and-add certificate chain for the order of `G`. -/
theorem ordBlock26 :
    lift (Point.affine ((55066263022277343669578718895168534326250603453777594175500187360389116729240 : ℕ) : Int) ((32670510020758816978083085130507043184471273380659243275938904335757337482424 : ℕ) : Int)) = 1 • Gm →
    (Point.Valid (.affine ((1993281497699846573732273651845976636063318964662665526366968901545071462126 : ℕ) : Int) ((108843799672337935394024558370159277864399954377755665967707185164829039603721 : ℕ) : Int)) ∧
      lift (.affine ((1993281497699846573732273651845976636063318964662665526366968901545071462126 : ℕ) : Int) ((108843799672337935394024558370159277864399954377755665967707185164829039603721 : ℕ) : Int)) = 5444517870735015415413993718908291383275 • Gm) →
    Point.Valid (.affine ((934800640898178764754699146428715443971598172725453487674150240960374263002 : ℕ) : Int) ((8745452872167734231631965253924654863335681065969593534025252845384434950747 : ℕ) : Int)) ∧
      lift (.affine ((934800640898178764754699146428715443971598172725453487674150240960374263002 : ℕ) : Int) ((8745452872167734231631965253924654863335681065969593534025252845384434950747 : ℕ) : Int)) = 696898287454081973172991196020261297059284 • Gm := by
  intro hlG h
  obtain ⟨hv, hl⟩ := h
  obtain ⟨hv261, hb261⟩ := dblNat_bridge 1993281497699846573732273651845976636063318964662665526366968901545071462126 108843799672337935394024558370159277864399954377755665967707185164829039603721 2028339160496300612337793299150449368909337891762963985527227687215772040588 97546098070300564207572283476477108117588643305946602253881633248917756519465 21621102993029683639150974487358648026681327171995868656548472342344704568126 (by decide) (by decide) (by decide) (by decide) (by decide) (by decide) (by decide) (by decide) (by decide)
  have hc261 : lift (.affine ((97546098070300564207572283476477108117588643305946602253881633248917756519465 : ℕ) : Int) ((21621102993029683639150974487358648026681327171995868656548472342344704568126 : ℕ) : Int)) = 10889035741470030830827987437816582766550 • Gm := by
    rw [hb261, hl, ← add_nsmul]
  obtain ⟨hv262, hb262⟩ := addNat_bridge 97546098070300564207572283476477108117588643305946602253881633248917756519465 21621102993029683639150974487358648026681327171995868656548472342344704568126 55066263022277343669578718895168534326250603453777594175500187360389116729240 32670510020758816978083085130507043184471273380659243275938904335757337482424 61426533157369847905356751346018818419801201974762598422834443572613346870228 94418560965844053364936767912323810278747098139363362616138027098632911443934 30289528240013558067352603866162461149061095374597430614834975784698532289088 (by decide) (by decide) (by decide) (by decide) (by decide) (by decide) (by decide) (by decide) (by decide) (by decide) (by decide) (by decide)
  have hc262 : lift (.affine ((94418560965844053364936767912323810278747098139363362616138027098632911443934 : ℕ) : Int) ((30289528240013558067352603866162461149061095374597430614834975784698532289088 : ℕ) : Int)) = 10889035741470030830827987437816582766551 • Gm := by
    rw [hb262, hc261, hlG, ← add_nsmul]
  obtain ⟨hv263, hb263⟩ := dblNat_bridge 94418560965844053364936767912323810278747098139363362616138027098632911443934 30289528240013558067352603866162461149061095374597430614834975784698532289088 70573379340187150211957636157177859751645065215674658660667446837799933573386 37648710582036764873170452736300449013294334286122735885631273964411917319317 21205574605329840683194463487573542044832260956176015043024349102059051773993 (by decide) (by decide) (by decide) (by decide) (by decide) (by decide) (by decide) (by decide) (by decide)
  have hc263 : lift (.affine ((37648710582036764873170452736300449013294334286122735885631273964411917319317 : ℕ) : Int) ((21205574605329840683194463487573542044832260956176015043024349102059051773993 : ℕ) : Int)) = 21778071482940061661655974875633165533102 • Gm := by
    rw [hb263, hc262, ← add_nsmul]
  obtain ⟨hv264, hb264⟩ := dblNat_bridge 37648710582036764873170452736300449013294334286122735885631273964411917319317 21205574605329840683194463487573542044832260956176015043024349102059051773993 204410874903041854044744549191187808107480435534799029641151878949948560844 106629538826767171458764735397451896903407908986657558655028638291500900725794 100272708209601660008942831346608311452766986067054864031390620211204848223366 (by decide) (by decide) (by decide) (by decide) (by decide) (by decide) (by decide) (by decide) (by decide)
  have hc264 : lift (.affine ((106629538826767171458764735397451896903407908986657558655028638291500900725794 : ℕ) : Int) ((100272708209601660008942831346608311452766986067054864031390620211204848223366 : ℕ) : Int)) = 43556142965880123323311949751266331066204 • Gm := by
    rw [hb264, hc263, ← add_nsmul]
  obtain ⟨hv265, hb265⟩ := addNat_bridge 106629538826767171458764735397451896903407908986657558655028638291500900725794 100272708209601660008942831346608311452766986067054864031390620211204848223366 55066263022277343669578718895168534326250603453777594175500187360389116729240 32670510020758816978083085130507043184471273380659243275938904335757337482424 106003985372715502663760222206138941712505347946416999716257300817550419437171 54296923876539721957278718831795790499884448320528306268495133859469298705052 112991332684541601195113127698165315450904534531826872651848937326659208812821 (by decide) (by decide) (by decide) (by decide) (by decide) (by decide) (by decide) (by decide) (by decide) (by decide) (by decide) (by decide)
  have hc265 : lift (.affine ((54296923876539721957278718831795790499884448320528306268495133859469298705052 : ℕ) : Int) ((112991332684541601195113127698165315450904534531826872651848937326659208812821 : ℕ) : Int)) = 43556142965880123323311949751266331066205 • Gm := by
    rw [hb265, hc264, hlG, ← add_nsmul]
  obtain ⟨hv266, hb266⟩ := dblNat_bridge 54296923876539721957278718831795790499884448320528306268495133859469298705052 112991332684541601195113127698165315450904534531826872651848937326659208812821 39439673912964853657398943031766284087239727612278965814864751734282631222582 23386655904038579724702493496484408272177640471541533430102479464506259404228 53663039570426527382473188235310655796464825472465894894573141556644110109924 (by decide) (by decide) (by decide) (by decide) (by decide) (by decide) (by decide) (by decide) (by decide)
  have hc266 : lift (.affine ((23386655904038579724702493496484408272177640471541533430102479464506259404228 : ℕ) : Int) ((53663039570426527382473188235310655796464825472465894894573141556644110109924 : ℕ) : Int)) = 87112285931760246646623899502532662132410 • Gm := by
    rw [hb266, hc265, ← add_nsmul]
  obtain ⟨hv267, hb267⟩ := dblNat_bridge 23386655904038579724702493496484408272177640471541533430102479464506259404228 53663039570426527382473188235310655796464825472465894894573141556644110109924 14061699326108934888966259076194174011279480526632307552946886875526684029145 81988537699629945089274262445556773104126966932326646794182401455809986410991 113170736107213884158928222073599677823735986001229166808876206782669959034075 (by decide) (by decide) (by decide) (by decide) (by decide) (by decide) (by decide) (by decide) (by decide)
  have hc267 : lift (.affine ((81988537699629945089274262445556773104126966932326646794182401455809986410991 : ℕ) : Int) ((113170736107213884158928222073599677823735986001229166808876206782669959034075 : ℕ) : Int)) = 174224571863520493293247799005065324264820 • Gm := by
    rw [hb267, hc266, ← add_nsmul]
  obtain ⟨hv268, hb268⟩ := addNat_bridge 81988537699629945089274262445556773104126966932326646794182401455809986410991 113170736107213884158928222073599677823735986001229166808876206782669959034075 55066263022277343669578718895168534326250603453777594175500187360389116729240 32670510020758816978083085130507043184471273380659243275938904335757337482424 52164684850995544565355712743038733733182482027562354926485528452841825794810 11408168232891769788580035562964339760838990753727284964938955467171413992924 51243434473563855822468378251413321832889468807290175484985813125928365472549 (by decide) (by decide) (by decide) (by decide) (by decide) (by decide) (by decide) (by decide) (by decide) (by decide) (by decide) (by decide)
  have hc268 : lift (.affine ((11408168232891769788580035562964339760838990753727284964938955467171413992924 : ℕ) : Int) ((51243434473563855822468378251413321832889468807290175484985813125928365472549 : ℕ) : Int)) = 174224571863520493293247799005065324264821 • Gm := by
    rw [hb268, hc267, hlG, ← add_nsmul]
  obtain ⟨hv269, hb269⟩ := dblNat_bridge 11408168232891769788580035562964339760838990753727284964938955467171413992924 51243434473563855822468378251413321832889468807290175484985813125928365472549 103155597552316380107527195915139969047129849176354855997842165738749314313162 71906124837499451728425102543231019586312684898375968668124832646750180070357 45019844237564048573460409804957974017969254375795961709077871588529040541144 (by decide) (by decide) (by decide) (by decide) (by decide) (by decide) (by decide) (by decide) (by decide)
  have hc269 : lift (.affine ((71906124837499451728425102543231019586312684898375968668124832646750180070357 : ℕ) : Int) ((45019844237564048573460409804957974017969254375795961709077871588529040541144 : ℕ) : Int)) = 348449143727040986586495598010130648529642 • Gm := by
    rw [hb269, hc268, ← add_nsmul]
  obtain ⟨hv270, hb270⟩ := dblNat_bridge 71906124837499451728425102543231019586312684898375968668124832646750180070357 45019844237564048573460409804957974017969254375795961709077871588529040541144 61141773048877486284552746341532917725702419231747113925781525140331410902441 934800640898178764754699146428715443971598172725453487674150240960374263002 8745452872167734231631965253924654863335681065969593534025252845384434950747 (by decide) (by decide) (by decide) (by decide) (by decide) (by decide) (by decide) (by decide) (by decide)
  have hc270 : lift (.affine ((934800640898178764754699146428715443971598172725453487674150240960374263002 : ℕ) : Int) ((8745452872167734231631965253924654863335681065969593534025252845384434950747 : ℕ) : Int)) = 696898287454081973172991196020261297059284 • Gm := by
    rw [hb270, hc269, ← add_nsmul]
  exact ⟨hv270, hc270⟩

/-- Steps 271–280 of the double-and-add certificate chain for the order of `G`. -/
theorem ordBlock27 :
    lift (Point.affine ((55066263022277343669578718895168534326250603453777594175500187360389116729240 : ℕ) : Int) ((32670510020758816978083085130507043184471273380659243275938904335757337482424 : ℕ) : Int)) = 1 • Gm →
    (Point.Valid (.affine ((934800640898178764754699146428715443971598172725453487674150240960374263002 : ℕ) : Int) ((8745452872167734231631965253924654863335681065969593534025252845384434950747 : ℕ) : Int)) ∧
      lift (.affine ((934800640898178764754699146428715443971598172725453487674150240960374263002 : ℕ) : Int) ((8745452872167734231631965253924654863335681065969593534025252845384434950747 : ℕ) : Int)) = 696898287454081973172991196020261297059284 • Gm) →
    Point.Valid (.affine ((5025905875834629233292274535759005410570592753871069522921774390312351621641 : ℕ) : Int) ((14325817733619368058250080238088197534162630243179145428658047997151513588694 : ℕ) : Int)) ∧
      lift (.affine ((5025905875834629233292274535759005410570592753871069522921774390312351621641 : ℕ) : Int) ((14325817733619368058250080238088197534162630243179145428658047997151513588694 : ℕ) : Int)) = 44601490397061246283071436545296723011794268 • Gm := by
  intro hlG h
  obtain ⟨hv, hl⟩ := h
  obtain ⟨hv271, hb271⟩ := addNat_bridge 934800640898178764754699146428715443971598172725453487674150240960374263002 8745452872167734231631965253924654863335681065969593534025252845384434950747 55066263022277343669578718895168534326250603453777594175500187360389116729240 32670510020758816978083085130507043184471273380659243275938904335757337482424 69432574494980025239797355845884971044353670057497908564930718474774624892106 70895545968440655713698860821624165067063670560294267905691028182634301018798 84613785536853192562699376609975817309067331730162629166957544783901820191263 (by decide) (by decide) (by decide) (by decide) (by decide) (by decide) (by decide) (by decide) (by decide) (by decide) (by decide) (by decide)
  have hc271 : lift (.affine ((70895545968440655713698860821624165067063670560294267905691028182634301018798 : ℕ) : Int) ((84613785536853192562699376609975817309067331730162629166957544783901820191263 : ℕ) : Int)) = 696898287454081973172991196020261297059285 • Gm := by
    rw [hb271, hl, hlG, ← add_nsmul]
  obtain ⟨hv272, hb272⟩ := dblNat_bridge 70895545968440655713698860821624165067063670560294267905691028182634301018798 84613785536853192562699376609975817309067331730162629166957544783901820191263 21546527209833510666751843934912848964090615694550173679727036442268754554700 90928816756100329471107806326099795232988713513782001532225517956896352438511 82886922908322144529742409202634788909847604689275979232386342283061227098612 (by decide) (by decide) (by decide) (by decide) (by decide) (by decide) (by decide) (by decide) (by decide)
  have hc272 : lift (.affine ((90928816756100329471107806326099795232988713513782001532225517956896352438511 : ℕ) : Int) ((82886922908322144529742409202634788909847604689275979232386342283061227098612 : ℕ) : Int)) = 1393796574908163946345982392040522594118570 • Gm := by
    rw [hb272, hc271, ← add_nsmul]
  obtain ⟨hv273, hb273⟩ := dblNat_bridge 90928816756100329471107806326099795232988713513782001532225517956896352438511 82886922908322144529742409202634788909847604689275979232386342283061227098612 103349370625356265532945696786405279836480893480448648805857526325049756335613 51340839948156905176223159475698098657902798397691595852063407776927136696962 49534046549029092508516522284022860596624288226321486121983681011146276833901 (by decide) (by decide) (by decide) (by decide) (by decide) (by decide) (by decide) (by decide) (by decide)
  have hc273 : lift (.affine ((51340839948156905176223159475698098657902798397691595852063407776927136696962 : ℕ) : Int) ((49534046549029092508516522284022860596624288226321486121983681011146276833901 : ℕ) : Int)) = 2787593149816327892691964784081045188237140 • Gm := by
    rw [hb273, hc272, ← add_nsmul]
  obtain ⟨hv274, hb274⟩ := addNat_bridge 51340839948156905176223159475698098657902798397691595852063407776927136696962 49534046549029092508516522284022860596624288226321486121983681011146276833901 55066263022277343669578718895168534326250603453777594175500187360389116729240 32670510020758816978083085130507043184471273380659243275938904335757337482424 93034327825936320364032515874127835891056695767398094839714523921965157083927 75447850666541100812134593795734119572546143547039954027448801038386202697286 99425542072505953253095114797914799609000622534486150323604330154939357315041 (by decide) (by decide) (by decide) (by decide) (by decide) (by decide) (by decide) (by decide) (by decide) (by decide) (by decide) (by decide)
  have hc274 : lift (.affine ((75447850666541100812134593795734119572546143547039954027448801038386202697286 : ℕ) : Int) ((99425542072505953253095114797914799609000622534486150323604330154939357315041 : ℕ) : Int)) = 2787593149816327892691964784081045188237141 • Gm := by
    rw [hb274, hc273, hlG, ← add_nsmul]
  obtain ⟨hv275, hb275⟩ := dblNat_bridge 75447850666541100812134593795734119572546143547039954027448801038386202697286 99425542072505953253095114797914799609000622534486150323604330154939357315041 36471489693085283335556272281038474309323177995217228491846613915618321809402 105889126548377885940663137459647269752419888657781301920497430952243665056001 19786468324571460197125146958764412468090339350487084241129007631384297844150 (by decide) (by decide) (by decide) (by decide) (by decide) (by decide) (by decide) (by decide) (by decide)
  have hc275 : lift (.affine ((105889126548377885940663137459647269752419888657781301920497430952243665056001 : ℕ) : Int) ((19786468324571460197125146958764412468090339350487084241129007631384297844150 : ℕ) : Int)) = 5575186299632655785383929568162090376474282 • Gm := by
    rw [hb275, hc274, ← add_nsmul]
  obtain ⟨hv276, hb276⟩ := addNat_bridge 105889126548377885940663137459647269752419888657781301920497430952243665056001 19786468324571460197125146958764412468090339350487084241129007631384297844150 55066263022277343669578718895168534326250603453777594175500187360389116729240 32670510020758816978083085130507043184471273380659243275938904335757337482424 14792131586100552761714979364312704611710680433139596435926104371791505051269 93137585295009831717503923219132274601512963293813092456927518364094427876386 42848698472114049156958887307705760398122528791441845313903169216206910227472 (by decide) (by decide) (by decide) (by decide) (by decide) (by decide) (by decide) (by decide) (by decide) (by decide) (by decide) (by decide)
  have hc276 : lift (.affine ((93137585295009831717503923219132274601512963293813092456927518364094427876386 : ℕ) : Int) ((42848698472114049156958887307705760398122528791441845313903169216206910227472 : ℕ) : Int)) = 5575186299632655785383929568162090376474283 • Gm := by
    rw [hb276, hc275, hlG, ← add_nsmul]
  obtain ⟨hv277, hb277⟩ := dblNat_bridge 93137585295009831717503923219132274601512963293813092456927518364094427876386 42848698472114049156958887307705760398122528791441845313903169216206910227472 28750539787140139622318259724726215506774690586901378698895558108379022304697 13892916162739634219179579231759783663677375984043395913564939832689636673587 75990885517705210678512782715688741548991064041783287199469478466140858431843 (by decide) (by decide) (by decide) (by decide) (by decide) (by decide) (by decide) (by decide) (by decide)
  have hc277 : lift (.affine ((13892916162739634219179579231759783663677375984043395913564939832689636673587 : ℕ) : Int) ((75990885517705210678512782715688741548991064041783287199469478466140858431843 : ℕ) : Int)) = 11150372599265311570767859136324180752948566 • Gm := by
    rw [hb277, hc276, ← add_nsmul]
  obtain ⟨hv278, hb278⟩ := addNat_bridge 13892916162739634219179579231759783663677375984043395913564939832689636673587 75990885517705210678512782715688741548991064041783287199469478466140858431843 55066263022277343669578718895168534326250603453777594175500187360389116729240 32670510020758816978083085130507043184471273380659243275938904335757337482424 18331985076050529722743022502010272545543879722256869126883129820294315150996 35073490791073314748247780191099918597339391202424005648874130151364323865376 34253079114182657731264352446937723996051643427025003879442617442267661971896 (by decide) (by decide) (by decide) (by decide) (by decide) (by decide) (by decide) (by decide) (by decide) (by decide) (by decide) (by decide)
  have hc278 : lift (.affine ((35073490791073314748247780191099918597339391202424005648874130151364323865376 : ℕ) : Int) ((34253079114182657731264352446937723996051643427025003879442617442267661971896 : ℕ) : Int)) = 11150372599265311570767859136324180752948567 • Gm := by
    rw [hb278, hc277, hlG, ← add_nsmul]
  obtain ⟨hv279, hb279⟩ := dblNat_bridge 35073490791073314748247780191099918597339391202424005648874130151364323865376 34253079114182657731264352446937723996051643427025003879442617442267661971896 35251375409790291684023312788528564728106221032549442809996257165504232340744 28586767670040456310616221907251914343795286723356100715307541993043500323658 809373935437983616643794809700215623393373564677226761370754602900314325594 (by decide) (by decide) (by decide) (by decide) (by decide) (by decide) (by decide) (by decide) (by decide)
  have hc279 : lift (.affine ((28586767670040456310616221907251914343795286723356100715307541993043500323658 : ℕ) : Int) ((809373935437983616643794809700215623393373564677226761370754602900314325594 : ℕ) : Int)) = 22300745198530623141535718272648361505897134 • Gm := by
    rw [hb279, hc278, ← add_nsmul]
  obtain ⟨hv280, hb280⟩ := dblNat_bridge 28586767670040456310616221907251914343795286723356100715307541993043500323658 809373935437983616643794809700215623393373564677226761370754602900314325594 97273360491702747816499104918845186874641381223962903568614039889074560441498 5025905875834629233292274535759005410570592753871069522921774390312351621641 14325817733619368058250080238088197534162630243179145428658047997151513588694 (by decide) (by decide) (by decide) (by decide) (by decide) (by decide) (by decide) (by decide) (by decide)
  have hc280 : lift (.affine ((5025905875834629233292274535759005410570592753871069522921774390312351621641 : ℕ) : Int) ((14325817733619368058250080238088197534162630243179145428658047997151513588694 : ℕ) : Int)) = 44601490397061246283071436545296723011794268 • Gm := by
    rw [hb280, hc279, ← add_nsmul]
  exact ⟨hv280, hc280⟩

/-- Steps 281–290 of the double-and-add certificate chain for the order of `G`. -/
theorem ordBlock28 :
    lift (Point.affine ((55066263022277343669578718895168534326250603453777594175500187360389116729240 : ℕ) : Int) ((32670510020758816978083085130507043184471273380659243275938904335757337482424 : ℕ) : Int)) = 1 • Gm →
    (Point.Valid (.affine ((5025905875834629233292274535759005410570592753871069522921774390312351621641 : ℕ) : Int) ((14325817733619368058250080238088197534162630243179145428658047997151513588694 : ℕ) : Int)) ∧
      lift (.affine ((5025905875834629233292274535759005410570592753871069522921774390312351621641 : ℕ) : Int) ((14325817733619368058250080238088197534162630243179145428658047997151513588694 : ℕ) : Int)) = 44601490397061246283071436545296723011794268 • Gm) →
    Point.Valid (.affine ((57543592279914439410854809093403886827866102128490075116360555041913827667562 : ℕ) : Int) ((3813421376355717067146105257010739085195607479338301799311897389674258069347 : ℕ) : Int)) ∧
      lift (.affine ((57543592279914439410854809093403886827866102128490075116360555041913827667562 : ℕ) : Int) ((3813421376355717067146105257010739085195607479338301799311897389674258069347 : ℕ) : Int)) = 1427247692705959881058285969449495136377416631 • Gm := by
  intro hlG h
  obtain ⟨hv, hl⟩ := h
  obtain ⟨hv281, hb281⟩ := addNat_bridge 5025905875834629233292274535759005410570592753871069522921774390312351621641 14325817733619368058250080238088197534162630243179145428658047997151513588694 55066263022277343669578718895168534326250603453777594175500187360389116729240 32670510020758816978083085130507043184471273380659243275938904335757337482424 4389400792662806044066689670352076013990042929542676966516241110245061917865 54516435377291579926470314711218970959802187241237676008646958169889531907688 88083763820493767376104277547571361870682468914962957615826069637810491150572 (by decide) (by decide) (by decide) (by decide) (by decide) (by decide) (by decide) (by decide) (by decide) (by decide) (by decide) (by decide)
  have hc281 : lift (.affine ((54516435377291579926470314711218970959802187241237676008646958169889531907688 : ℕ) : Int) ((88083763820493767376104277547571361870682468914962957615826069637810491150572 : ℕ) : Int)) = 44601490397061246283071436545296723011794269 • Gm := by
    rw [hb281, hl, hlG, ← add_nsmul]
  obtain ⟨hv282, hb282⟩ := dblNat_bridge 54516435377291579926470314711218970959802187241237676008646958169889531907688 88083763820493767376104277547571361870682468914962957615826069637810491150572 17402666542532012709610771467470066579413924406410179645561984104491880740315 104192800658121097956173167227214387753857351490537382840495330195523756036179 70037515945847390021893499521787383651020657875660090999115385238486076587379 (by decide) (by decide) (by decide) (by decide) (by decide) (by decide) (by decide) (by decide) (by decide)
  have hc282 : lift (.affine ((104192800658121097956173167227214387753857351490537382840495330195523756036179 : ℕ) : Int) ((70037515945847390021893499521787383651020657875660090999115385238486076587379 : ℕ) : Int)) = 89202980794122492566142873090593446023588538 • Gm := by
    rw [hb282, hc281, ← add_nsmul]
  obtain ⟨hv283, hb283⟩ := addNat_bridge 104192800658121097956173167227214387753857351490537382840495330195523756036179 70037515945847390021893499521787383651020657875660090999115385238486076587379 55066263022277343669578718895168534326250603453777594175500187360389116729240 32670510020758816978083085130507043184471273380659243275938904335757337482424 91061248347661422192456233588860749712277627907434522778656078193375087102395 94315397758018000710755236804956124466065608401315317604829844358796263424743 90852556539414271289115389073263370646794171630779096797501583262631941138674 (by decide) (by decide) (by decide) (by decide) (by decide) (by decide) (by decide) (by decide) (by decide) (by decide) (by decide) (by decide)
  have hc283 : lift (.affine ((94315397758018000710755236804956124466065608401315317604829844358796263424743 : ℕ) : Int) ((90852556539414271289115389073263370646794171630779096797501583262631941138674 : ℕ) : Int)) = 89202980794122492566142873090593446023588539 • Gm := by
    rw [hb283, hc282, hlG, ← add_nsmul]
  obtain ⟨hv284, hb284⟩ := dblNat_bridge 94315397758018000710755236804956124466065608401315317604829844358796263424743 90852556539414271289115389073263370646794171630779096797501583262631941138674 104868597698239925182389997349581786086329429705105319749585204478787620675985 48208098887189636603734826871710201836999174086182653103862437298801970529967 37238419154701498855448493581813273885931190291828934218692426856174125843133 (by decide) (by decide) (by decide) (by decide) (by decide) (by decide) (by decide) (by decide) (by decide)
  have hc284 : lift (.affine ((48208098887189636603734826871710201836999174086182653103862437298801970529967 : ℕ) : Int) ((37238419154701498855448493581813273885931190291828934218692426856174125843133 : ℕ) : Int)) = 178405961588244985132285746181186892047177078 • Gm := by
    rw [hb284, hc283, ← add_nsmul]
  obtain ⟨hv285, hb285⟩ := dblNat_bridge 48208098887189636603734826871710201836999174086182653103862437298801970529967 37238419154701498855448493581813273885931190291828934218692426856174125843133 91722209775203460789601905514199263535486890352739614273897589531277396531758 35431385646638177791383875956583955671511159940018622843043759158986796610254 35960996763822025106732725110927281779201836193619014234882642093816329805817 (by decide) (by decide) (by decide) (by decide) (by decide) (by decide) (by decide) (by decide) (by decide)
  have hc285 : lift (.affine ((35431385646638177791383875956583955671511159940018622843043759158986796610254 : ℕ) : Int) ((35960996763822025106732725110927281779201836193619014234882642093816329805817 : ℕ) : Int)) = 356811923176489970264571492362373784094354156 • Gm := by
    rw [hb285, hc284, ← add_nsmul]
  obtain ⟨hv286, hb286⟩ := addNat_bridge 35431385646638177791383875956583955671511159940018622843043759158986796610254 35960996763822025106732725110927281779201836193619014234882642093816329805817 55066263022277343669578718895168534326250603453777594175500187360389116729240 32670510020758816978083085130507043184471273380659243275938904335757337482424 43490516335049723224874720905325866491248827922740368364309307390292897698352 52158781877883679585651995067841730653222015149056921297325496060804438477996 22609625042853636619882580266589294168396622691849426580098789046342540696505 (by decide) (by decide) (by decide) (by decide) (by decide) (by decide) (by decide) (by decide) (by decide) (by decide) (by decide) (by decide)
  have hc286 : lift (.affine ((52158781877883679585651995067841730653222015149056921297325496060804438477996 : ℕ) : Int) ((22609625042853636619882580266589294168396622691849426580098789046342540696505 : ℕ) : Int)) = 356811923176489970264571492362373784094354157 • Gm := by
    rw [hb286, hc285, hlG, ← add_nsmul]
  obtain ⟨hv287, hb287⟩ := dblNat_bridge 52158781877883679585651995067841730653222015149056921297325496060804438477996 22609625042853636619882580266589294168396622691849426580098789046342540696505 91080452421056626584991315506359977989891598176028255743609372996594852343483 99934047430383176350853394324377926891345229485023934576579795282315074464748 551025794136256344617173062333541304677523441461905796559488160362349832269 (by decide) (by decide) (by decide) (by decide) (by decide) (by decide) (by decide) (by decide) (by decide)
  have hc287 : lift (.affine ((99934047430383176350853394324377926891345229485023934576579795282315074464748 : ℕ) : Int) ((551025794136256344617173062333541304677523441461905796559488160362349832269 : ℕ) : Int)) = 713623846352979940529142984724747568188708314 • Gm := by
    rw [hb287, hc286, ← add_nsmul]
  obtain ⟨hv288, hb288⟩ := addNat_bridge 99934047430383176350853394324377926891345229485023934576579795282315074464748 551025794136256344617173062333541304677523441461905796559488160362349832269 55066263022277343669578718895168534326250603453777594175500187360389116729240 32670510020758816978083085130507043184471273380659243275938904335757337482424 14714843801115850961852497432666827079402085580205675781204046050370643654937 71407923516254166074178809210123885316210933571372921294952545044396861945997 74111476448796655148299200331539110694878113455839151562885774855115012439961 (by decide) (by decide) (by decide) (by decide) (by decide) (by decide) (by decide) (by decide) (by decide) (by decide) (by decide) (by decide)
  have hc288 : lift (.affine ((71407923516254166074178809210123885316210933571372921294952545044396861945997 : ℕ) : Int) ((74111476448796655148299200331539110694878113455839151562885774855115012439961 : ℕ) : Int)) = 713623846352979940529142984724747568188708315 • Gm := by
    rw [hb288, hc287, hlG, ← add_nsmul]
  obtain ⟨hv289, hb289⟩ := dblNat_bridge 71407923516254166074178809210123885316210933571372921294952545044396861945997 74111476448796655148299200331539110694878113455839151562885774855115012439961 19131130733477544075922705187606280291469929534442250257635486888961258335186 86298597856983110749889370662495750518309831366662343307605205204435805323648 21454264281427535701374340587554219238426523135513132264520470296799924358992 (by decide) (by decide) (by decide) (by decide) (by decide) (by decide) (by decide) (by decide) (by decide)
  have hc289 : lift (.affine ((86298597856983110749889370662495750518309831366662343307605205204435805323648 : ℕ) : Int) ((21454264281427535701374340587554219238426523135513132264520470296799924358992 : ℕ) : Int)) = 1427247692705959881058285969449495136377416630 • Gm := by
    rw [hb289, hc288, ← add_nsmul]
  obtain ⟨hv290, hb290⟩ := addNat_bridge 86298597856983110749889370662495750518309831366662343307605205204435805323648 21454264281427535701374340587554219238426523135513132264520470296799924358992 55066263022277343669578718895168534326250603453777594175500187360389116729240 32670510020758816978083085130507043184471273380659243275938904335757337482424 25797968908128990851832849675910032236040037155034255004752050923589393245715 57543592279914439410854809093403886827866102128490075116360555041913827667562 3813421376355717067146105257010739085195607479338301799311897389674258069347 (by decide) (by decide) (by decide) (by decide) (by decide) (by decide) (by decide) (by decide) (by decide) (by decide) (by decide) (by decide)
  have hc290 : lift (.affine ((57543592279914439410854809093403886827866102128490075116360555041913827667562 : ℕ) : Int) ((3813421376355717067146105257010739085195607479338301799311897389674258069347 : ℕ) : Int)) = 1427247692705959881058285969449495136377416631 • Gm := by
    rw [hb290, hc289, hlG, ← add_nsmul]
  exact ⟨hv290, hc290⟩

/-- Steps 291–300 of the double-and-add certificate chain for the order of `G`. -/
theorem ordBlock29 :
    lift (Point.affine ((55066263022277343669578718895168534326250603453777594175500187360389116729240 : ℕ) : Int) ((32670510020758816978083085130507043184471273380659243275938904335757337482424 : ℕ) : Int)) = 1 • Gm →
    (Point.Valid (.affine ((57543592279914439410854809093403886827866102128490075116360555041913827667562 : ℕ) : Int) ((3813421376355717067146105257010739085195607479338301799311897389674258069347 : ℕ) : Int)) ∧
      lift (.affine ((57543592279914439410854809093403886827866102128490075116360555041913827667562 : ℕ) : Int) ((3813421376355717067146105257010739085195607479338301799311897389674258069347 : ℕ) : Int)) = 1427247692705959881058285969449495136377416631 • Gm) →
    Point.Valid (.affine ((73687138071649545060267559015830595040135377465786510066162569010447960674403 : ℕ) : Int) ((91318617292738439851851212191531086231665707629539542426922331790867954590619 : ℕ) : Int)) ∧
      lift (.affine ((73687138071649545060267559015830595040135377465786510066162569010447960674403 : ℕ) : Int) ((91318617292738439851851212191531086231665707629539542426922331790867954590619 : ℕ) : Int)) = 182687704666362864775460604089535377456309328796 • Gm := by
  intro hlG h
  obtain ⟨hv, hl⟩ := h
  obtain ⟨hv291, hb291⟩ := dblNat_bridge 57543592279914439410854809093403886827866102128490075116360555041913827667562 3813421376355717067146105257010739085195607479338301799311897389674258069347 61578912555628069854729977349749938300475327707525752910089087530621943964204 91006848860769241074387648015256629948898895425121881919115010949924219317644 54820068126741455169946104349653414029574722585827576833304601598797184823006 (by decide) (by decide) (by decide) (by decide) (by decide) (by decide) (by decide) (by decide) (by decide)
  have hc291 : lift (.affine ((91006848860769241074387648015256629948898895425121881919115010949924219317644 : ℕ) : Int) ((54820068126741455169946104349653414029574722585827576833304601598797184823006 : ℕ) : Int)) = 2854495385411919762116571938898990272754833262 • Gm := by
    rw [hb291, hl, ← add_nsmul]
  obtain ⟨hv292, hb292⟩ := dblNat_bridge 91006848860769241074387648015256629948898895425121881919115010949924219317644 54820068126741455169946104349653414029574722585827576833304601598797184823006 65356422651886831998359129899583509616993069735777048787381858305092694472436 81165311114185953440354900777128142251839145553228093947741701454096896522712 79024001629993924486880222546222881057872171693910219242620912792028550696045 (by decide) (by decide) (by decide) (by decide) (by decide) (by decide) (by decide) (by decide) (by decide)
  have hc292 : lift (.affine ((81165311114185953440354900777128142251839145553228093947741701454096896522712 : ℕ) : Int) ((79024001629993924486880222546222881057872171693910219242620912792028550696045 : ℕ) : Int)) = 5708990770823839524233143877797980545509666524 • Gm := by
    rw [hb292, hc291, ← add_nsmul]
  obtain ⟨hv293, hb293⟩ := dblNat_bridge 81165311114185953440354900777128142251839145553228093947741701454096896522712 79024001629993924486880222546222881057872171693910219242620912792028550696045 665820514180400351495377406996166764666229416714637459727468389850333144750 92948292328906977975357393185314690301622771258624624190694483579315433655818 80165491884517144500691841497747964325944512846964578463220004801878539423288 (by decide) (by decide) (by decide) (by decide) (by decide) (by decide) (by decide) (by decide) (by decide)
  have hc293 : lift (.affine ((92948292328906977975357393185314690301622771258624624190694483579315433655818 : ℕ) : Int) ((80165491884517144500691841497747964325944512846964578463220004801878539423288 : ℕ) : Int)) = 11417981541647679048466287755595961091019333048 • Gm := by
    rw [hb293, hc292, ← add_nsmul]
  obtain ⟨hv294, hb294⟩ := addNat_bridge 92948292328906977975357393185314690301622771258624624190694483579315433655818 80165491884517144500691841497747964325944512846964578463220004801878539423288 55066263022277343669578718895168534326250603453777594175500187360389116729240 32670510020758816978083085130507043184471273380659243275938904335757337482424 2529951617659565495433702602336503027721413797321464177914523848457947468595 62036757822693542570355992678936913086859496773056050913598987740028830675886 9407911550724932096876519449063418153720516988269820212772580238197629086081 (by decide) (by decide) (by decide) (by decide) (by decide) (by decide) (by decide) (by decide) (by decide) (by decide) (by decide) (by decide)
  have hc294 : lift (.affine ((62036757822693542570355992678936913086859496773056050913598987740028830675886 : ℕ) : Int) ((9407911550724932096876519449063418153720516988269820212772580238197629086081 : ℕ) : Int)) = 11417981541647679048466287755595961091019333049 • Gm := by
    rw [hb294, hc293, hlG, ← add_nsmul]
  obtain ⟨hv295, hb295⟩ := dblNat_bridge 62036757822693542570355992678936913086859496773056050913598987740028830675886 9407911550724932096876519449063418153720516988269820212772580238197629086081 29945052301859116085582634179850163067204527451371752841080576557526626164224 106055540948938764238730481841787865087427857733981619597754856368452950023539 67005419559310663019037225842306918580958056430370014522551241884077020213255 (by decide) (by decide) (by decide) (by decide) (by decide) (by decide) (by decide) (by decide) (by decide)
  have hc295 : lift (.affine ((106055540948938764238730481841787865087427857733981619597754856368452950023539 : ℕ) : Int) ((67005419559310663019037225842306918580958056430370014522551241884077020213255 : ℕ) : Int)) = 22835963083295358096932575511191922182038666098 • Gm := by
    rw [hb295, hc294, ← add_nsmul]
  obtain ⟨hv296, hb296⟩ := addNat_bridge 106055540948938764238730481841787865087427857733981619597754856368452950023539 67005419559310663019037225842306918580958056430370014522551241884077020213255 55066263022277343669578718895168534326250603453777594175500187360389116729240 32670510020758816978083085130507043184471273380659243275938904335757337482424 90548323232954264012605001125068510702422225649793913984114239879061613138116 40147433029030225539039310438639050891266968604463251775943612127369343153727 3115543158305514787907160812321382591224757810207448222016557741630151965981 (by decide) (by decide) (by decide) (by decide) (by decide) (by decide) (by decide) (by decide) (by decide) (by decide) (by decide) (by decide)
  have hc296 : lift (.affine ((40147433029030225539039310438639050891266968604463251775943612127369343153727 : ℕ) : Int) ((3115543158305514787907160812321382591224757810207448222016557741630151965981 : ℕ) : Int)) = 22835963083295358096932575511191922182038666099 • Gm := by
    rw [hb296, hc295, hlG, ← add_nsmul]
  obtain ⟨hv297, hb297⟩ := dblNat_bridge 40147433029030225539039310438639050891266968604463251775943612127369343153727 3115543158305514787907160812321382591224757810207448222016557741630151965981 75168122627751981754923516259138819927757514130835635235512274787674986066351 44038146118266159313177055524058100423468092382319332773230968357314417669769 36364060417090820060472882261181951745597520649033632578170574530114324573643 (by decide) (by decide) (by decide) (by decide) (by decide) (by decide) (by decide) (by decide) (by decide)
  have hc297 : lift (.affine ((44038146118266159313177055524058100423468092382319332773230968357314417669769 : ℕ) : Int) ((36364060417090820060472882261181951745597520649033632578170574530114324573643 : ℕ) : Int)) = 45671926166590716193865151022383844364077332198 • Gm := by
    rw [hb297, hc296, ← add_nsmul]
  obtain ⟨hv298, hb298⟩ := addNat_bridge 44038146118266159313177055524058100423468092382319332773230968357314417669769 36364060417090820060472882261181951745597520649033632578170574530114324573643 55066263022277343669578718895168534326250603453777594175500187360389116729240 32670510020758816978083085130507043184471273380659243275938904335757337482424 30316272067569433602950449553347525813744300607752582378154989172547958059368 100365524660424891617138844200976846206053956468951519136167999766685689015002 111970872780292016169329146673756902449054737731992115684524748262867500513847 (by decide) (by decide) (by decide) (by decide) (by decide) (by decide) (by decide) (by decide) (by decide) (by decide) (by decide) (by decide)
  have hc298 : lift (.affine ((100365524660424891617138844200976846206053956468951519136167999766685689015002 : ℕ) : Int) ((111970872780292016169329146673756902449054737731992115684524748262867500513847 : ℕ) : Int)) = 45671926166590716193865151022383844364077332199 • Gm := by
    rw [hb298, hc297, hlG, ← add_nsmul]
  obtain ⟨hv299, hb299⟩ := dblNat_bridge 100365524660424891617138844200976846206053956468951519136167999766685689015002 111970872780292016169329146673756902449054737731992115684524748262867500513847 83154668184003123543242979687566769257817982455016455369323775846019267657106 49346091203545902773870754353230222194100688883749893633792865966299681536412 17610696721086505917135990394206740397614969371607606516395522279301418411581 (by decide) (by decide) (by decide) (by decide) (by decide) (by decide) (by decide) (by decide) (by decide)
  have hc299 : lift (.affine ((49346091203545902773870754353230222194100688883749893633792865966299681536412 : ℕ) : Int) ((17610696721086505917135990394206740397614969371607606516395522279301418411581 : ℕ) : Int)) = 91343852333181432387730302044767688728154664398 • Gm := by
    rw [hb299, hc298, ← add_nsmul]
  obtain ⟨hv300, hb300⟩ := dblNat_bridge 49346091203545902773870754353230222194100688883749893633792865966299681536412 17610696721086505917135990394206740397614969371607606516395522279301418411581 53216178729565942571131366360291178924148638259267331416449670899335960075321 73687138071649545060267559015830595040135377465786510066162569010447960674403 91318617292738439851851212191531086231665707629539542426922331790867954590619 (by decide) (by decide) (by decide) (by decide) (by decide) (by decide) (by decide) (by decide) (by decide)
  have hc300 : lift (.affine ((73687138071649545060267559015830595040135377465786510066162569010447960674403 : ℕ) : Int) ((91318617292738439851851212191531086231665707629539542426922331790867954590619 : ℕ) : Int)) = 182687704666362864775460604089535377456309328796 • Gm := by
    rw [hb300, hc299, ← add_nsmul]
  exact ⟨hv300, hc300⟩

/-- Steps 301–310 of the double-and-add certificate chain for the order of `G`. -/
theorem ordBlock30 :
    lift (Point.affine ((55066263022277343669578718895168534326250603453777594175500187360389116729240 : ℕ) : Int) ((32670510020758816978083085130507043184471273380659243275938904335757337482424 : ℕ) : Int)) = 1 • Gm →
    (Point.Valid (.affine ((73687138071649545060267559015830595040135377465786510066162569010447960674403 : ℕ) : Int) ((91318617292738439851851212191531086231665707629539542426922331790867954590619 : ℕ) : Int)) ∧
      lift (.affine ((73687138071649545060267559015830595040135377465786510066162569010447960674403 : ℕ) : Int) ((91318617292738439851851212191531086231665707629539542426922331790867954590619 : ℕ) : Int)) = 182687704666362864775460604089535377456309328796 • Gm) →
    Point.Valid (.affine ((7413949893213949784485164509429947446879089845496855947906392007245407392554 : ℕ) : Int) ((44063293105529676222814003251492442859276267272631017512841799640931963303223 : ℕ) : Int)) ∧
      lift (.affine ((7413949893213949784485164509429947446879089845496855947906392007245407392554 : ℕ) : Int) ((44063293105529676222814003251492442859276267272631017512841799640931963303223 : ℕ) : Int)) = 11692013098647223345629478661730264157203797042997 • Gm := by
  intro hlG h
  obtain ⟨hv, hl⟩ := h
  obtain ⟨hv301, hb301⟩ := dblNat_bridge 73687138071649545060267559015830595040135377465786510066162569010447960674403 91318617292738439851851212191531086231665707629539542426922331790867954590619 78029881152787383051697156552250769787365490268849915162809679575887005153469 29117925066832244826993916611024182924394211866613291136894948234310732337170 103656230041209626092480073411943296512680160083777019627892476458396214881228 (by decide) (by decide) (by decide) (by decide) (by decide) (by decide) (by decide) (by decide) (by decide)
  have hc301 : lift (.affine ((29117925066832244826993916611024182924394211866613291136894948234310732337170 : ℕ) : Int) ((103656230041209626092480073411943296512680160083777019627892476458396214881228 : ℕ) : Int)) = 365375409332725729550921208179070754912618657592 • Gm := by
    rw [hb301, hl, ← add_nsmul]
  obtain ⟨hv302, hb302⟩ := addNat_bridge 29117925066832244826993916611024182924394211866613291136894948234310732337170 103656230041209626092480073411943296512680160083777019627892476458396214881228 55066263022277343669578718895168534326250603453777594175500187360389116729240 32670510020758816978083085130507043184471273380659243275938904335757337482424 762007681318221682389855917837234534576341597679778924561864492453874395253 45329200846496005667218550256127972817361199572391282637008040468803592396392 23691156738474684646396601909574383025972293241766090249537901072361576084052 (by decide) (by decide) (by decide) (by decide) (by decide) (by decide) (by decide) (by decide) (by decide) (by decide) (by decide) (by decide)
  have hc302 : lift (.affine ((45329200846496005667218550256127972817361199572391282637008040468803592396392 : ℕ) : Int) ((23691156738474684646396601909574383025972293241766090249537901072361576084052 : ℕ) : Int)) = 365375409332725729550921208179070754912618657593 • Gm := by
    rw [hb302, hc301, hlG, ← add_nsmul]
  obtain ⟨hv303, hb303⟩ := dblNat_bridge 45329200846496005667218550256127972817361199572391282637008040468803592396392 23691156738474684646396601909574383025972293241766090249537901072361576084052 46865096984094525156844703519724808133956710660143204193969407348397433688602 86198804249731059365533655669020342430335808933208598522477132421345340791551 16289431718608703310381727108295711465279903401635772763968816863367285888466 (by decide) (by decide) (by decide) (by decide) (by decide) (by decide) (by decide) (by decide) (by decide)
  have hc303 : lift (.affine ((86198804249731059365533655669020342430335808933208598522477132421345340791551 : ℕ) : Int) ((16289431718608703310381727108295711465279903401635772763968816863367285888466 : ℕ) : Int)) = 730750818665451459101842416358141509825237315186 • Gm := by
    rw [hb303, hc302, ← add_nsmul]
  obtain ⟨hv304, hb304⟩ := addNat_bridge 86198804249731059365533655669020342430335808933208598522477132421345340791551 16289431718608703310381727108295711465279903401635772763968816863367285888466 55066263022277343669578718895168534326250603453777594175500187360389116729240 32670510020758816978083085130507043184471273380659243275938904335757337482424 25135884449681972962399095157293002007135773813490266832829974369744000531750 100587256607572326298774005130737287628933191852070157838079782232737015875335 46203680137442603355124902065426215444210066314071163427421778989385782842743 (by decide) (by decide) (by decide) (by decide) (by decide) (by decide) (by decide) (by decide) (by decide) (by decide) (by decide) (by decide)
  have hc304 : lift (.affine ((100587256607572326298774005130737287628933191852070157838079782232737015875335 : ℕ) : Int) ((46203680137442603355124902065426215444210066314071163427421778989385782842743 : ℕ) : Int)) = 730750818665451459101842416358141509825237315187 • Gm := by
    rw [hb304, hc303, hlG, ← add_nsmul]
  obtain ⟨hv305, hb305⟩ := dblNat_bridge 100587256607572326298774005130737287628933191852070157838079782232737015875335 46203680137442603355124902065426215444210066314071163427421778989385782842743 100980794143675227042697181981072038872469575142308093128180105277123392549821 47247763451531799463065668430463609483975236849127794879763225805652470995583 2686146893585238506563017278856286586815519206823040860534813853656267894574 (by decide) (by decide) (by decide) (by decide) (by decide) (by decide) (by decide) (by decide) (by decide)
  have hc305 : lift (.affine ((47247763451531799463065668430463609483975236849127794879763225805652470995583 : ℕ) : Int) ((2686146893585238506563017278856286586815519206823040860534813853656267894574 : ℕ) : Int)) = 1461501637330902918203684832716283019650474630374 • Gm := by
    rw [hb305, hc304, ← add_nsmul]
  obtain ⟨hv306, hb306⟩ := dblNat_bridge 47247763451531799463065668430463609483975236849127794879763225805652470995583 2686146893585238506563017278856286586815519206823040860534813853656267894574 105889489532358723225738723485228347703484902129462697949321626159628277639876 30456948911993643425315834522087192677297787300141416415889324750414202303925 110943700064934078635978081398604428512242066370023789442895025925945782792970 (by decide) (by decide) (by decide) (by decide) (by decide) (by decide) (by decide) (by decide) (by decide)
  have hc306 : lift (.affine ((30456948911993643425315834522087192677297787300141416415889324750414202303925 : ℕ) : Int) ((110943700064934078635978081398604428512242066370023789442895025925945782792970 : ℕ) : Int)) = 2923003274661805836407369665432566039300949260748 • Gm := by
    rw [hb306, hc305, ← add_nsmul]
  obtain ⟨hv307, hb307⟩ := addNat_bridge 30456948911993643425315834522087192677297787300141416415889324750414202303925 110943700064934078635978081398604428512242066370023789442895025925945782792970 55066263022277343669578718895168534326250603453777594175500187360389116729240 32670510020758816978083085130507043184471273380659243275938904335757337482424 67926365350358633491666495229449284864641749732122336418414011746788239174266 12052184740983280201603251219525900108861929426260498963633845195960441036401 54760336827076961916621418234550589794942740211267589722283658084763248649464 (by decide) (by decide) (by decide) (by decide) (by decide) (by decide) (by decide) (by decide) (by decide) (by decide) (by decide) (by decide)
  have hc307 : lift (.affine ((12052184740983280201603251219525900108861929426260498963633845195960441036401 : ℕ) : Int) ((54760336827076961916621418234550589794942740211267589722283658084763248649464 : ℕ) : Int)) = 2923003274661805836407369665432566039300949260749 • Gm := by
    rw [hb307, hc306, hlG, ← add_nsmul]
  obtain ⟨hv308, hb308⟩ := dblNat_bridge 12052184740983280201603251219525900108861929426260498963633845195960441036401 54760336827076961916621418234550589794942740211267589722283658084763248649464 107600059914865757181271546125754367762896619995809441373318605232799157562733 15244115158543558757044562376590201532328596589124020371055056369703538043387 94295630094213693688431506695063545512713833861245137178460985924495056903849 (by decide) (by decide) (by decide) (by decide) (by decide) (by decide) (by decide) (by decide) (by decide)
  have hc308 : lift (.affine ((15244115158543558757044562376590201532328596589124020371055056369703538043387 : ℕ) : Int) ((94295630094213693688431506695063545512713833861245137178460985924495056903849 : ℕ) : Int)) = 5846006549323611672814739330865132078601898521498 • Gm := by
    rw [hb308, hc307, ← add_nsmul]
  obtain ⟨hv309, hb309⟩ := dblNat_bridge 15244115158543558757044562376590201532328596589124020371055056369703538043387 94295630094213693688431506695063545512713833861245137178460985924495056903849 44838827566476337365819698783707501183183710124957382576794060436977968427309 85672394955570299050984041661490367584808263175213701192560046236218546344982 7989514598455703740767343372648544824514722695944531761547437019415983904282 (by decide) (by decide) (by decide) (by decide) (by decide) (by decide) (by decide) (by decide) (by decide)
  have hc309 : lift (.affine ((85672394955570299050984041661490367584808263175213701192560046236218546344982 : ℕ) : Int) ((7989514598455703740767343372648544824514722695944531761547437019415983904282 : ℕ) : Int)) = 11692013098647223345629478661730264157203797042996 • Gm := by
    rw [hb309, hc308, ← add_nsmul]
  obtain ⟨hv310, hb310⟩ := addNat_bridge 85672394955570299050984041661490367584808263175213701192560046236218546344982 7989514598455703740767343372648544824514722695944531761547437019415983904282 55066263022277343669578718895168534326250603453777594175500187360389116729240 32670510020758816978083085130507043184471273380659243275938904335757337482424 28090529635634237798960087067882189574075418541948377988758450884130421112804 7413949893213949784485164509429947446879089845496855947906392007245407392554 44063293105529676222814003251492442859276267272631017512841799640931963303223 (by decide) (by decide) (by decide) (by decide) (by decide) (by decide) (by decide) (by decide) (by decide) (by decide) (by decide) (by decide)
  have hc310 : lift (.affine ((7413949893213949784485164509429947446879089845496855947906392007245407392554 : ℕ) : Int) ((44063293105529676222814003251492442859276267272631017512841799640931963303223 : ℕ) : Int)) = 11692013098647223345629478661730264157203797042997 • Gm := by
    rw [hb310, hc309, hlG, ← add_nsmul]
  exact ⟨hv310, hc310⟩

/-- Steps 311–320 of the double-and-add certificate chain for the order of `G`. -/
theorem ordBlock31 :
    lift (Point.affine ((55066263022277343669578718895168534326250603453777594175500187360389116729240 : ℕ) : Int) ((32670510020758816978083085130507043184471273380659243275938904335757337482424 : ℕ) : Int)) = 1 • Gm →
    (Point.Valid (.affine ((7413949893213949784485164509429947446879089845496855947906392007245407392554 : ℕ) : Int) ((44063293105529676222814003251492442859276267272631017512841799640931963303223 : ℕ) : Int)) ∧
      lift (.affine ((7413949893213949784485164509429947446879089845496855947906392007245407392554 : ℕ) : Int) ((44063293105529676222814003251492442859276267272631017512841799640931963303223 : ℕ) : Int)) = 11692013098647223345629478661730264157203797042997 • Gm) →
    Point.Valid (.affine ((47721978471073143681953578819189449816024001304507224832740449051510024669933 : ℕ) : Int) ((11855246856968832001557576032501682595427806261137124743805533114617894725864 : ℕ) : Int)) ∧
      lift (.affine ((47721978471073143681953578819189449816024001304507224832740449051510024669933 : ℕ) : Int) ((11855246856968832001557576032501682595427806261137124743805533114617894725864 : ℕ) : Int)) = 748288838313422294120286634350736906061043010751838 • Gm := by
  intro hlG h
  obtain ⟨hv, hl⟩ := h
  obtain ⟨hv311, hb311⟩ := dblNat_bridge 7413949893213949784485164509429947446879089845496855947906392007245407392554 44063293105529676222814003251492442859276267272631017512841799640931963303223 26092942697525917324157688281327778140200998560493493668230859563153950110483 63959592100386238393434266398315915159117802291616243870174626022152417157000 8436269463647117161398286320205253380529360064055255680079268052322454910790 (by decide) (by decide) (by decide) (by decide) (by decide) (by decide) (by decide) (by decide) (by decide)
  have hc311 : lift (.affine ((63959592100386238393434266398315915159117802291616243870174626022152417157000 : ℕ) : Int) ((8436269463647117161398286320205253380529360064055255680079268052322454910790 : ℕ) : Int)) = 23384026197294446691258957323460528314407594085994 • Gm := by
    rw [hb311, hl, ← add_nsmul]
  obtain ⟨hv312, hb312⟩ := dblNat_bridge 63959592100386238393434266398315915159117802291616243870174626022152417157000 8436269463647117161398286320205253380529360064055255680079268052322454910790 20808729380277759347716423807856090793675544936357642421672620591370935360224 12586935809972166363829401184209179413266175988782745523016890480563173732233 94633298728152584892912651575427673104718817670019948603718149749334708397412 (by decide) (by decide) (by decide) (by decide) (by decide) (by decide) (by decide) (by decide) (by decide)
  have hc312 : lift (.affine ((12586935809972166363829401184209179413266175988782745523016890480563173732233 : ℕ) : Int) ((94633298728152584892912651575427673104718817670019948603718149749334708397412 : ℕ) : Int)) = 46768052394588893382517914646921056628815188171988 • Gm := by
    rw [hb312, hc311, ← add_nsmul]
  obtain ⟨hv313, hb313⟩ := addNat_bridge 12586935809972166363829401184209179413266175988782745523016890480563173732233 94633298728152584892912651575427673104718817670019948603718149749334708397412 55066263022277343669578718895168534326250603453777594175500187360389116729240 32670510020758816978083085130507043184471273380659243275938904335757337482424 10838954655989977564712132627981981773963815456312216558944598526472968946422 45259108658264932425750435030068866423734973594265670064637482494561796037342 100600101115972932407583927117852444784325472121349222478091165162437379938833 (by decide) (by decide) (by decide) (by decide) (by decide) (by decide) (by decide) (by decide) (by decide) (by decide) (by decide) (by decide)
  have hc313 : lift (.affine ((45259108658264932425750435030068866423734973594265670064637482494561796037342 : ℕ) : Int) ((100600101115972932407583927117852444784325472121349222478091165162437379938833 : ℕ) : Int)) = 46768052394588893382517914646921056628815188171989 • Gm := by
    rw [hb313, hc312, hlG, ← add_nsmul]
  obtain ⟨hv314, hb314⟩ := dblNat_bridge 45259108658264932425750435030068866423734973594265670064637482494561796037342 100600101115972932407583927117852444784325472121349222478091165162437379938833 44178742538275532145776631440198966669026405305046415304813328207711405267100 51869177918432637358207680485319639531338574316123120133136469552067036419027 86799493366387515832907141035001736791928050267631377529113947790627623853559 (by decide) (by decide) (by decide) (by decide) (by decide) (by decide) (by decide) (by decide) (by decide)
  have hc314 : lift (.affine ((51869177918432637358207680485319639531338574316123120133136469552067036419027 : ℕ) : Int) ((86799493366387515832907141035001736791928050267631377529113947790627623853559 : ℕ) : Int)) = 93536104789177786765035829293842113257630376343978 • Gm := by
    rw [hb314, hc313, ← add_nsmul]
  obtain ⟨hv315, hb315⟩ := addNat_bridge 51869177918432637358207680485319639531338574316123120133136469552067036419027 86799493366387515832907141035001736791928050267631377529113947790627623853559 55066263022277343669578718895168534326250603453777594175500187360389116729240 32670510020758816978083085130507043184471273380659243275938904335757337482424 31742252661961953628640819428671773021586811939804077513395231243197100712482 77647428433366022763138962037842006093070762050494585115306262125677342521145 30624893964163142995372069522439209940750862610177786343133625846063439089972 (by decide) (by decide) (by decide) (by decide) (by decide) (by decide) (by decide) (by decide) (by decide) (by decide) (by decide) (by decide)
  have hc315 : lift (.affine ((77647428433366022763138962037842006093070762050494585115306262125677342521145 : ℕ) : Int) ((30624893964163142995372069522439209940750862610177786343133625846063439089972 : ℕ) : Int)) = 93536104789177786765035829293842113257630376343979 • Gm := by
    rw [hb315, hc314, hlG, ← add_nsmul]
  obtain ⟨hv316, hb316⟩ := dblNat_bridge 77647428433366022763138962037842006093070762050494585115306262125677342521145 30624893964163142995372069522439209940750862610177786343133625846063439089972 24488789076646532488077813557834412534660400372278903392951561132223706897601 19277253971388601640289184448233210999054473621468279305404228456310601558341 113065949772692120440592523796054333513335264423149674601901548177298186214366 (by decide) (by decide) (by decide) (by decide) (by decide) (by decide) (by decide) (by decide) (by decide)
  have hc316 : lift (.affine ((19277253971388601640289184448233210999054473621468279305404228456310601558341 : ℕ) : Int) ((113065949772692120440592523796054333513335264423149674601901548177298186214366 : ℕ) : Int)) = 187072209578355573530071658587684226515260752687958 • Gm := by
    rw [hb316, hc315, ← add_nsmul]
  obtain ⟨hv317, hb317⟩ := addNat_bridge 19277253971388601640289184448233210999054473621468279305404228456310601558341 113065949772692120440592523796054333513335264423149674601901548177298186214366 55066263022277343669578718895168534326250603453777594175500187360389116729240 32670510020758816978083085130507043184471273380659243275938904335757337482424 62186524043872753862221398559433122907542921271342104659355133001690844487624 74278096500408281187873454175215464474743146316696531561644339856722105184317 36777097337652800883290070309040547013348809600157342732937121474227643884269 (by decide) (by decide) (by decide) (by decide) (by decide) (by decide) (by decide) (by decide) (by decide) (by decide) (by decide) (by decide)
  have hc317 : lift (.affine ((74278096500408281187873454175215464474743146316696531561644339856722105184317 : ℕ) : Int) ((36777097337652800883290070309040547013348809600157342732937121474227643884269 : ℕ) : Int)) = 187072209578355573530071658587684226515260752687959 • Gm := by
    rw [hb317, hc316, hlG, ← add_nsmul]
  obtain ⟨hv318, hb318⟩ := dblNat_bridge 74278096500408281187873454175215464474743146316696531561644339856722105184317 36777097337652800883290070309040547013348809600157342732937121474227643884269 33589577483109281488041133411374175511360341504994896715634992907245091311040 40221506629230633679731053238505004301075464487689207732438614806503369384651 94371134168890369813584035953596481241374286029777556324238379294776964907898 (by decide) (by decide) (by decide) (by decide) (by decide) (by decide) (by decide) (by decide) (by decide)
  have hc318 : lift (.affine ((40221506629230633679731053238505004301075464487689207732438614806503369384651 : ℕ) : Int) ((94371134168890369813584035953596481241374286029777556324238379294776964907898 : ℕ) : Int)) = 374144419156711147060143317175368453030521505375918 • Gm := by
    rw [hb318, hc317, ← add_nsmul]
  obtain ⟨hv319, hb319⟩ := addNat_bridge 40221506629230633679731053238505004301075464487689207732438614806503369384651 94371134168890369813584035953596481241374286029777556324238379294776964907898 55066263022277343669578718895168534326250603453777594175500187360389116729240 32670510020758816978083085130507043184471273380659243275938904335757337482424 85534306258734523633600998814815597766266461409249570975450682265855238585968 26350209081013120674735201011644298446887875744908933420591969660546902140305 46381886268604108628367729865296031646043786933678222182103524894861734393770 (by decide) (by decide) (by decide) (by decide) (by decide) (by decide) (by decide) (by decide) (by decide) (by decide) (by decide) (by decide)
  have hc319 : lift (.affine ((26350209081013120674735201011644298446887875744908933420591969660546902140305 : ℕ) : Int) ((46381886268604108628367729865296031646043786933678222182103524894861734393770 : ℕ) : Int)) = 374144419156711147060143317175368453030521505375919 • Gm := by
    rw [hb319, hc318, hlG, ← add_nsmul]
  obtain ⟨hv320, hb320⟩ := dblNat_bridge 26350209081013120674735201011644298446887875744908933420591969660546902140305 46381886268604108628367729865296031646043786933678222182103524894861734393770 114409215533222412594657962652575739494831837612159615786419958511243079022511 47721978471073143681953578819189449816024001304507224832740449051510024669933 11855246856968832001557576032501682595427806261137124743805533114617894725864 (by decide) (by decide) (by decide) (by decide) (by decide) (by decide) (by decide) (by decide) (by decide)
  have hc320 : lift (.affine ((47721978471073143681953578819189449816024001304507224832740449051510024669933 : ℕ) : Int) ((11855246856968832001557576032501682595427806261137124743805533114617894725864 : ℕ) : Int)) = 748288838313422294120286634350736906061043010751838 • Gm := by
    rw [hb320, hc319, ← add_nsmul]
  exact ⟨hv320, hc320⟩

/-- Steps 321–330 of the double-and-add certificate chain for the order of `G`. -/
theorem ordBlock32 :
    lift (Point.affine ((55066263022277343669578718895168534326250603453777594175500187360389116729240 : ℕ) : Int) ((32670510020758816978083085130507043184471273380659243275938904335757337482424 : ℕ) : Int)) = 1 • Gm →
    (Point.Valid (.affine ((47721978471073143681953578819189449816024001304507224832740449051510024669933 : ℕ) : Int) ((11855246856968832001557576032501682595427806261137124743805533114617894725864 : ℕ) : Int)) ∧
      lift (.affine ((47721978471073143681953578819189449816024001304507224832740449051510024669933 : ℕ) : Int) ((11855246856968832001557576032501682595427806261137124743805533114617894725864 : ℕ) : Int)) = 748288838313422294120286634350736906061043010751838 • Gm) →
    Point.Valid (.affine ((22617513307981604256842668102310079098567873877649163108668983470257023118093 : ℕ) : Int) ((38872641124038556290982988713332022934050718848713570535864724769822410798963 : ℕ) : Int)) ∧
      lift (.affine ((22617513307981604256842668102310079098567873877649163108668983470257023118093 : ℕ) : Int) ((38872641124038556290982988713332022934050718848713570535864724769822410798963 : ℕ) : Int)) = 191561942608236107294793378393788647951627010752470672 • Gm := by
  intro hlG h
  obtain ⟨hv, hl⟩ := h
  obtain ⟨hv321, hb321⟩ := dblNat_bridge 47721978471073143681953578819189449816024001304507224832740449051510024669933 11855246856968832001557576032501682595427806261137124743805533114617894725864 2065014969746591122933871157148694298817977051599977757252045453614872400474 55856695897385448471385476317708458439160183629977427975893448487449611857820 35084601169300234258563029913130514890336555915691537970989627847198572209645 (by decide) (by decide) (by decide) (by decide) (by decide) (by decide) (by decide) (by decide) (by decide)
  have hc321 : lift (.affine ((55856695897385448471385476317708458439160183629977427975893448487449611857820 : ℕ) : Int) ((35084601169300234258563029913130514890336555915691537970989627847198572209645 : ℕ) : Int)) = 1496577676626844588240573268701473812122086021503676 • Gm := by
    rw [hb321, hl, ← add_nsmul]
  obtain ⟨hv322, hb322⟩ := addNat_bridge 55856695897385448471385476317708458439160183629977427975893448487449611857820 35084601169300234258563029913130514890336555915691537970989627847198572209645 55066263022277343669578718895168534326250603453777594175500187360389116729240 32670510020758816978083085130507043184471273380659243275938904335757337482424 25480199620249503725454222760420962760694956382209979543662620075357443940037 8987324714132523804087980146166464156407203622844188004759577386524574560467 11950839827955234829797841266311476923762994869507843999177514713795760499819 (by decide) (by decide) (by decide) (by decide) (by decide) (by decide) (by decide) (by decide) (by decide) (by decide) (by decide) (by decide)
  have hc322 : lift (.affine ((8987324714132523804087980146166464156407203622844188004759577386524574560467 : ℕ) : Int) ((11950839827955234829797841266311476923762994869507843999177514713795760499819 : ℕ) : Int)) = 1496577676626844588240573268701473812122086021503677 • Gm := by
    rw [hb322, hc321, hlG, ← add_nsmul]
  obtain ⟨hv323, hb323⟩ := dblNat_bridge 8987324714132523804087980146166464156407203622844188004759577386524574560467 11950839827955234829797841266311476923762994869507843999177514713795760499819 20879258758743964859259838804306357609881343887775258923331860098209940992123 12776305850848005564120246511544681594314120218510250881938978868599232035207 30132845386831822997034466806678865862615823581313844885292110360888122666901 (by decide) (by decide) (by decide) (by decide) (by decide) (by decide) (by decide) (by decide) (by decide)
  have hc323 : lift (.affine ((12776305850848005564120246511544681594314120218510250881938978868599232035207 : ℕ) : Int) ((30132845386831822997034466806678865862615823581313844885292110360888122666901 : ℕ) : Int)) = 2993155353253689176481146537402947624244172043007354 • Gm := by
    rw [hb323, hc322, ← add_nsmul]
  obtain ⟨hv324, hb324⟩ := dblNat_bridge 12776305850848005564120246511544681594314120218510250881938978868599232035207 30132845386831822997034466806678865862615823581313844885292110360888122666901 79801616227592445364603517853818882998485076100004582159426566424130993413209 99276184862122315782542448352313058172571946013300255149457003019376023980295 7358945138953114126032197443945913533226401674174364323860575520257378824555 (by decide) (by decide) (by decide) (by decide) (by decide) (by decide) (by decide) (by decide) (by decide)
  have hc324 : lift (.affine ((99276184862122315782542448352313058172571946013300255149457003019376023980295 : ℕ) : Int) ((7358945138953114126032197443945913533226401674174364323860575520257378824555 : ℕ) : Int)) = 5986310706507378352962293074805895248488344086014708 • Gm := by
    rw [hb324, hc323, ← add_nsmul]
  obtain ⟨hv325, hb325⟩ := dblNat_bridge 99276184862122315782542448352313058172571946013300255149457003019376023980295 7358945138953114126032197443945913533226401674174364323860575520257378824555 81699477807659593625882125996931269078383498397189205426391618079262682200006 67745071531366672692244141804290556464149299040642350687417362803816188451139 36710753343377764676870041519781131688447274755921508553761308138700792165936 (by decide) (by decide) (by decide) (by decide) (by decide) (by decide) (by decide) (by decide) (by decide)
  have hc325 : lift (.affine ((67745071531366672692244141804290556464149299040642350687417362803816188451139 : ℕ) : Int) ((36710753343377764676870041519781131688447274755921508553761308138700792165936 : ℕ) : Int)) = 11972621413014756705924586149611790496976688172029416 • Gm := by
    rw [hb325, hc324, ← add_nsmul]
  obtain ⟨hv326, hb326⟩ := addNat_bridge 67745071531366672692244141804290556464149299040642350687417362803816188451139 36710753343377764676870041519781131688447274755921508553761308138700792165936 55066263022277343669578718895168534326250603453777594175500187360389116729240 32670510020758816978083085130507043184471273380659243275938904335757337482424 24998597131413599812939745713577763300989073018445941664946140143232153091027 41805804271238716779229028691625693291124292427366192819259136494851320775272 46205659183718572145214302263404173383851270543502606719471524252497867543119 (by decide) (by decide) (by decide) (by decide) (by decide) (by decide) (by decide) (by decide) (by decide) (by decide) (by decide) (by decide)
  have hc326 : lift (.affine ((41805804271238716779229028691625693291124292427366192819259136494851320775272 : ℕ) : Int) ((46205659183718572145214302263404173383851270543502606719471524252497867543119 : ℕ) : Int)) = 11972621413014756705924586149611790496976688172029417 • Gm := by
    rw [hb326, hc325, hlG, ← add_nsmul]
  obtain ⟨hv327, hb327⟩ := dblNat_bridge 41805804271238716779229028691625693291124292427366192819259136494851320775272 46205659183718572145214302263404173383851270543502606719471524252497867543119 30092363347566606943312526292771457306661537123465248576955400100855600258465 9713368187436642374758337500973048106191937181079055351769755996992498695118 45559799353234107208316005495715779693493886452791645884533798639644989043963 (by decide) (by decide) (by decide) (by decide) (by decide) (by decide) (by decide) (by decide) (by decide)
  have hc327 : lift (.affine ((9713368187436642374758337500973048106191937181079055351769755996992498695118 : ℕ) : Int) ((45559799353234107208316005495715779693493886452791645884533798639644989043963 : ℕ) : Int)) = 23945242826029513411849172299223580993953376344058834 • Gm := by
    rw [hb327, hc326, ← add_nsmul]
  obtain ⟨hv328, hb328⟩ := dblNat_bridge 9713368187436642374758337500973048106191937181079055351769755996992498695118 45559799353234107208316005495715779693493886452791645884533798639644989043963 84232827077255871460690373795452879233363085382188298816730797173797391353242 28240790072560910748947058854496288946519517253127724481835212126708740491002 53046595962848932691772705361533280174446686215924655834904030465120173634648 (by decide) (by decide) (by decide) (by decide) (by decide) (by decide) (by decide) (by decide) (by decide)
  have hc328 : lift (.affine ((28240790072560910748947058854496288946519517253127724481835212126708740491002 : ℕ) : Int) ((53046595962848932691772705361533280174446686215924655834904030465120173634648 : ℕ) : Int)) = 47890485652059026823698344598447161987906752688117668 • Gm := by
    rw [hb328, hc327, ← add_nsmul]
  obtain ⟨hv329, hb329⟩ := dblNat_bridge 28240790072560910748947058854496288946519517253127724481835212126708740491002 53046595962848932691772705361533280174446686215924655834904030465120173634648 25088107310009533157202557302346993429841590601720535638721241684456273258312 86936594602655074841329372854774354479873320102130302695213907660541031074033 59620323792767926642593146223605433394866633981945797121167552459715955977527 (by decide) (by decide) (by decide) (by decide) (by decide) (by decide) (by decide) (by decide) (by decide)
  have hc329 : lift (.affine ((86936594602655074841329372854774354479873320102130302695213907660541031074033 : ℕ) : Int) ((59620323792767926642593146223605433394866633981945797121167552459715955977527 : ℕ) : Int)) = 95780971304118053647396689196894323975813505376235336 • Gm := by
    rw [hb329, hc328, ← add_nsmul]
  obtain ⟨hv330, hb330⟩ := dblNat_bridge 86936594602655074841329372854774354479873320102130302695213907660541031074033 59620323792767926642593146223605433394866633981945797121167552459715955977527 74471775620589417338879590557107514041202553903098608117391426461353113853867 22617513307981604256842668102310079098567873877649163108668983470257023118093 38872641124038556290982988713332022934050718848713570535864724769822410798963 (by decide) (by decide) (by decide) (by decide) (by decide) (by decide) (by decide) (by decide) (by decide)
  have hc330 : lift (.affine ((22617513307981604256842668102310079098567873877649163108668983470257023118093 : ℕ) : Int) ((38872641124038556290982988713332022934050718848713570535864724769822410798963 : ℕ) : Int)) = 191561942608236107294793378393788647951627010752470672 • Gm := by
    rw [hb330, hc329, ← add_nsmul]
  exact ⟨hv330, hc330⟩

/-- Steps 331–340 of the double-and-add certificate chain for the order of `G`. -/
theorem ordBlock33 :
    lift (Point.affine ((55066263022277343669578718895168534326250603453777594175500187360389116729240 : ℕ) : Int) ((32670510020758816978083085130507043184471273380659243275938904335757337482424 : ℕ) : Int)) = 1 • Gm →
    (Point.Valid (.affine ((22617513307981604256842668102310079098567873877649163108668983470257023118093 : ℕ) : Int) ((38872641124038556290982988713332022934050718848713570535864724769822410798963 : ℕ) : Int)) ∧
      lift (.affine ((22617513307981604256842668102310079098567873877649163108668983470257023118093 : ℕ) : Int) ((38872641124038556290982988713332022934050718848713570535864724769822410798963 : ℕ) : Int)) = 191561942608236107294793378393788647951627010752470672 • Gm) →
    Point.Valid (.affine ((18469978593443323894953329412483067449992633217274959418681759308357873314781 : ℕ) : Int) ((18091334015027295159097490989340622298943990339379231811828084626664138477768 : ℕ) : Int)) ∧
      lift (.affine ((18469978593443323894953329412483067449992633217274959418681759308357873314781 : ℕ) : Int) ((18091334015027295159097490989340622298943990339379231811828084626664138477768 : ℕ) : Int)) = 49039857307708443467467104868809893875616514752632492352 • Gm := by
  intro hlG h
  obtain ⟨hv, hl⟩ := h
  obtain ⟨hv331, hb331⟩ := addNat_bridge 22617513307981604256842668102310079098567873877649163108668983470257023118093 38872641124038556290982988713332022934050718848713570535864724769822410798963 55066263022277343669578718895168534326250603453777594175500187360389116729240 32670510020758816978083085130507043184471273380659243275938904335757337482424 38745353049548031630641092748589367110927142852122174854880183436232612173061 9555631037796752948619911310690041252618114371601632405261562717039402532181 111731404017390054124573961319150218018551983042068247095225634108416661151502 (by decide) (by decide) (by decide) (by decide) (by decide) (by decide) (by decide) (by decide) (by decide) (by decide) (by decide) (by decide)
  have hc331 : lift (.affine ((9555631037796752948619911310690041252618114371601632405261562717039402532181 : ℕ) : Int) ((111731404017390054124573961319150218018551983042068247095225634108416661151502 : ℕ) : Int)) = 191561942608236107294793378393788647951627010752470673 • Gm := by
    rw [hb331, hl, hlG, ← add_nsmul]
  obtain ⟨hv332, hb332⟩ := dblNat_bridge 9555631037796752948619911310690041252618114371601632405261562717039402532181 111731404017390054124573961319150218018551983042068247095225634108416661151502 24902929536749969017227251666163854456870170084622153122786762001631362987567 26935069207768718074243096468379876206004730861820601046487803174810360880840 26416151232334830440868287266055317560280991374724608993930066193185467797784 (by decide) (by decide) (by decide) (by decide) (by decide) (by decide) (by decide) (by decide) (by decide)
  have hc332 : lift (.affine ((26935069207768718074243096468379876206004730861820601046487803174810360880840 : ℕ) : Int) ((26416151232334830440868287266055317560280991374724608993930066193185467797784 : ℕ) : Int)) = 383123885216472214589586756787577295903254021504941346 • Gm := by
    rw [hb332, hc331, ← add_nsmul]
  obtain ⟨hv333, hb333⟩ := dblNat_bridge 26935069207768718074243096468379876206004730861820601046487803174810360880840 26416151232334830440868287266055317560280991374724608993930066193185467797784 36551831583676070168529965571944234437367561780709291605118453083788297058198 22585717180975925519421687714487768321912913710981238312022863296910878407854 46690210878494551239422856248409009667980076107771269512615221186518554695134 (by decide) (by decide) (by decide) (by decide) (by decide) (by decide) (by decide) (by decide) (by decide)
  have hc333 : lift (.affine ((22585717180975925519421687714487768321912913710981238312022863296910878407854 : ℕ) : Int) ((46690210878494551239422856248409009667980076107771269512615221186518554695134 : ℕ) : Int)) = 766247770432944429179173513575154591806508043009882692 • Gm := by
    rw [hb333, hc332, ← add_nsmul]
  obtain ⟨hv334, hb334⟩ := addNat_bridge 22585717180975925519421687714487768321912913710981238312022863296910878407854 46690210878494551239422856248409009667980076107771269512615221186518554695134 55066263022277343669578718895168534326250603453777594175500187360389116729240 32670510020758816978083085130507043184471273380659243275938904335757337482424 85715357831411397801976009889087089300176605795647709767223312325419685121358 87248511113222782567163017085184656275147054997925710478347300302857929931753 32750705414315067218441893546407895990168130898097307485169128879123592685043 (by decide) (by decide) (by decide) (by decide) (by decide) (by decide) (by decide) (by decide) (by decide) (by decide) (by decide) (by decide)
  have hc334 : lift (.affine ((87248511113222782567163017085184656275147054997925710478347300302857929931753 : ℕ) : Int) ((32750705414315067218441893546407895990168130898097307485169128879123592685043 : ℕ) : Int)) = 766247770432944429179173513575154591806508043009882693 • Gm := by
    rw [hb334, hc333, hlG, ← add_nsmul]
  obtain ⟨hv335, hb335⟩ := dblNat_bridge 87248511113222782567163017085184656275147054997925710478347300302857929931753 32750705414315067218441893546407895990168130898097307485169128879123592685043 9917874802603623402955865081437891561615480833518666378524000788974436939786 2181526885622524587607421832319596288653661726926818014068563520140080277543 79586434303681275154680658846383325375743625652952699926614126153142126658584 (by decide) (by decide) (by decide) (by decide) (by decide) (by decide) (by decide) (by decide) (by decide)
  have hc335 : lift (.affine ((2181526885622524587607421832319596288653661726926818014068563520140080277543 : ℕ) : Int) ((79586434303681275154680658846383325375743625652952699926614126153142126658584 : ℕ) : Int)) = 1532495540865888858358347027150309183613016086019765386 • Gm := by
    rw [hb335, hc334, ← add_nsmul]
  obtain ⟨hv336, hb336⟩ := dblNat_bridge 2181526885622524587607421832319596288653661726926818014068563520140080277543 79586434303681275154680658846383325375743625652952699926614126153142126658584 71934006109638353106369423043599163775879997448664093504113889910851736937333 23047267946837533943873425721920741742192060438234922918894715050654043236700 9103380261508142356407488701613153219364057330129542101439959812047759102917 (by decide) (by decide) (by decide) (by decide) (by decide) (by decide) (by decide) (by decide) (by decide)
  have hc336 : lift (.affine ((23047267946837533943873425721920741742192060438234922918894715050654043236700 : ℕ) : Int) ((9103380261508142356407488701613153219364057330129542101439959812047759102917 : ℕ) : Int)) = 3064991081731777716716694054300618367226032172039530772 • Gm := by
    rw [hb336, hc335, ← add_nsmul]
  obtain ⟨hv337, hb337⟩ := dblNat_bridge 23047267946837533943873425721920741742192060438234922918894715050654043236700 9103380261508142356407488701613153219364057330129542101439959812047759102917 57192136672621081017975109897143534161636022994711792088074256112543770480999 61659539600609886994692031159258582156878124799823893244098656297792544030101 95431206001713788537941384760036624395902756376074948821594242988137616949222 (by decide) (by decide) (by decide) (by decide) (by decide) (by decide) (by decide) (by decide) (by decide)
  have hc337 : lift (.affine ((61659539600609886994692031159258582156878124799823893244098656297792544030101 : ℕ) : Int) ((95431206001713788537941384760036624395902756376074948821594242988137616949222 : ℕ) : Int)) = 6129982163463555433433388108601236734452064344079061544 • Gm := by
    rw [hb337, hc336, ← add_nsmul]
  obtain ⟨hv338, hb338⟩ := dblNat_bridge 61659539600609886994692031159258582156878124799823893244098656297792544030101 95431206001713788537941384760036624395902756376074948821594242988137616949222 43538165419054148799236349939062795928142363530190641348376412970511861246782 23772605910555906233251471314501450963164081331960587008332927042183705181137 84604353966677789868017788688812965787900956254587618459545468360280337979906 (by decide) (by decide) (by decide) (by decide) (by decide) (by decide) (by decide) (by decide) (by decide)
  have hc338 : lift (.affine ((23772605910555906233251471314501450963164081331960587008332927042183705181137 : ℕ) : Int) ((84604353966677789868017788688812965787900956254587618459545468360280337979906 : ℕ) : Int)) = 12259964326927110866866776217202473468904128688158123088 • Gm := by
    rw [hb338, hc337, ← add_nsmul]
  obtain ⟨hv339, hb339⟩ := dblNat_bridge 23772605910555906233251471314501450963164081331960587008332927042183705181137 84604353966677789868017788688812965787900956254587618459545468360280337979906 75368610709009738863190490125753945904741517724866348521815522562814719716842 105553970460735689568918064092046062983297476868818920363407496462928146850704 42491866855427155221082474702970931090686764446547928296575064701965298828657 (by decide) (by decide) (by decide) (by decide) (by decide) (by decide) (by decide) (by decide) (by decide)
  have hc339 : lift (.affine ((105553970460735689568918064092046062983297476868818920363407496462928146850704 : ℕ) : Int) ((42491866855427155221082474702970931090686764446547928296575064701965298828657 : ℕ) : Int)) = 24519928653854221733733552434404946937808257376316246176 • Gm := by
    rw [hb339, hc338, ← add_nsmul]
  obtain ⟨hv340, hb340⟩ := dblNat_bridge 105553970460735689568918064092046062983297476868818920363407496462928146850704 42491866855427155221082474702970931090686764446547928296575064701965298828657 110555480318333986221803768773580886862650464152651801356495587450869158616981 18469978593443323894953329412483067449992633217274959418681759308357873314781 18091334015027295159097490989340622298943990339379231811828084626664138477768 (by decide) (by decide) (by decide) (by decide) (by decide) (by decide) (by decide) (by decide) (by decide)
  have hc340 : lift (.affine ((18469978593443323894953329412483067449992633217274959418681759308357873314781 : ℕ) : Int) ((18091334015027295159097490989340622298943990339379231811828084626664138477768 : ℕ) : Int)) = 49039857307708443467467104868809893875616514752632492352 • Gm := by
    rw [hb340, hc339, ← add_nsmul]
  exact ⟨hv340, hc340⟩

/-- Steps 341–350 of the double-and-add certificate chain for the order of `G`. -/
theorem ordBlock34 :
    lift (Point.affine ((55066263022277343669578718895168534326250603453777594175500187360389116729240 : ℕ) : Int) ((32670510020758816978083085130507043184471273380659243275938904335757337482424 : ℕ) : Int)) = 1 • Gm →
    (Point.Valid (.affine ((18469978593443323894953329412483067449992633217274959418681759308357873314781 : ℕ) : Int) ((18091334015027295159097490989340622298943990339379231811828084626664138477768 : ℕ) : Int)) ∧
      lift (.affine ((18469978593443323894953329412483067449992633217274959418681759308357873314781 : ℕ) : Int) ((18091334015027295159097490989340622298943990339379231811828084626664138477768 : ℕ) : Int)) = 49039857307708443467467104868809893875616514752632492352 • Gm) →
    Point.Valid (.affine ((23174769244375877525017157568088905855665064312862654498374397119210061662587 : ℕ) : Int) ((4900848012393262711549753963005607530174119101558872958360384922004531751527 : ℕ) : Int)) ∧
      lift (.affine ((23174769244375877525017157568088905855665064312862654498374397119210061662587 : ℕ) : Int) ((4900848012393262711549753963005607530174119101558872958360384922004531751527 : ℕ) : Int)) = 3138550867693340381917894711603833208039456944168479510557 • Gm := by
  intro hlG h
  obtain ⟨hv, hl⟩ := h
  obtain ⟨hv341, hb341⟩ := dblNat_bridge 18469978593443323894953329412483067449992633217274959418681759308357873314781 18091334015027295159097490989340622298943990339379231811828084626664138477768 100269491318921112485411662991197584106278555722444579744903163152089720180627 76167045409508766334804414875125950609225852968754405758214305249138863778328 15587435848107885058470852297137705819739303658784058191357849945742065556177 (by decide) (by decide) (by decide) (by decide) (by decide) (by decide) (by decide) (by decide) (by decide)
  have hc341 : lift (.affine ((76167045409508766334804414875125950609225852968754405758214305249138863778328 : ℕ) : Int) ((15587435848107885058470852297137705819739303658784058191357849945742065556177 : ℕ) : Int)) = 98079714615416886934934209737619787751233029505264984704 • Gm := by
    rw [hb341, hl, ← add_nsmul]
  obtain ⟨hv342, hb342⟩ := dblNat_bridge 76167045409508766334804414875125950609225852968754405758214305249138863778328 15587435848107885058470852297137705819739303658784058191357849945742065556177 76901874908912270877532619652810848730591620850005124821891352025364915168113 23067691614102207509228111588058184021255571014905962600115318268334771756012 102867960970408290335013957579759208716541748524801196035600106187279946810967 (by decide) (by decide) (by decide) (by decide) (by decide) (by decide) (by decide) (by decide) (by decide)
  have hc342 : lift (.affine ((23067691614102207509228111588058184021255571014905962600115318268334771756012 : ℕ) : Int) ((102867960970408290335013957579759208716541748524801196035600106187279946810967 : ℕ) : Int)) = 196159429230833773869868419475239575502466059010529969408 • Gm := by
    rw [hb342, hc341, ← add_nsmul]
  obtain ⟨hv343, hb343⟩ := addNat_bridge 23067691614102207509228111588058184021255571014905962600115318268334771756012 102867960970408290335013957579759208716541748524801196035600106187279946810967 55066263022277343669578718895168534326250603453777594175500187360389116729240 32670510020758816978083085130507043184471273380659243275938904335757337482424 114445383411839297138895770415123052271431350016764411590479445102983714245232 74323490106849308098324535222211038989579446692532305052635196615692605992310 59768358840293574229162729947419480576503483908080699905528393534917735462306 (by decide) (by decide) (by decide) (by decide) (by decide) (by decide) (by decide) (by decide) (by decide) (by decide) (by decide) (by decide)
  have hc343 : lift (.affine ((74323490106849308098324535222211038989579446692532305052635196615692605992310 : ℕ) : Int) ((59768358840293574229162729947419480576503483908080699905528393534917735462306 : ℕ) : Int)) = 196159429230833773869868419475239575502466059010529969409 • Gm := by
    rw [hb343, hc342, hlG, ← add_nsmul]
  obtain ⟨hv344, hb344⟩ := dblNat_bridge 74323490106849308098324535222211038989579446692532305052635196615692605992310 59768358840293574229162729947419480576503483908080699905528393534917735462306 48192257308994993871561914929411393439989720227138874712063694557213478437569 115360673580266095122754029444411640837042722150825654786436481016236262885463 7548989284694033383172746805082212401552644290074961535145435081896436854659 (by decide) (by decide) (by decide) (by decide) (by decide) (by decide) (by decide) (by decide) (by decide)
  have hc344 : lift (.affine ((115360673580266095122754029444411640837042722150825654786436481016236262885463 : ℕ) : Int) ((7548989284694033383172746805082212401552644290074961535145435081896436854659 : ℕ) : Int)) = 392318858461667547739736838950479151004932118021059938818 • Gm := by
    rw [hb344, hc343, ← add_nsmul]
  obtain ⟨hv345, hb345⟩ := addNat_bridge 115360673580266095122754029444411640837042722150825654786436481016236262885463 7548989284694033383172746805082212401552644290074961535145435081896436854659 55066263022277343669578718895168534326250603453777594175500187360389116729240 32670510020758816978083085130507043184471273380659243275938904335757337482424 88992173658717367849595337391148714306158855255283875613982229231617600666968 103091997237758111134690423838397742523031221254005482783939596834585502731488 36983588661685261252309818669940666012650555044034354391835776933726284840738 (by decide) (by decide) (by decide) (by decide) (by decide) (by decide) (by decide) (by decide) (by decide) (by decide) (by decide) (by decide)
  have hc345 : lift (.affine ((103091997237758111134690423838397742523031221254005482783939596834585502731488 : ℕ) : Int) ((36983588661685261252309818669940666012650555044034354391835776933726284840738 : ℕ) : Int)) = 392318858461667547739736838950479151004932118021059938819 • Gm := by
    rw [hb345, hc344, hlG, ← add_nsmul]
  obtain ⟨hv346, hb346⟩ := dblNat_bridge 103091997237758111134690423838397742523031221254005482783939596834585502731488 36983588661685261252309818669940666012650555044034354391835776933726284840738 39073457552751538240072962725382835598244559856638893264991593103335122409305 65060870012814446180562604541987675030321396016146550774631289409349599250140 18537425760171932701743089245151502876915717908070896161126189402762050734096 (by decide) (by decide) (by decide) (by decide) (by decide) (by decide) (by decide) (by decide) (by decide)
  have hc346 : lift (.affine ((65060870012814446180562604541987675030321396016146550774631289409349599250140 : ℕ) : Int) ((18537425760171932701743089245151502876915717908070896161126189402762050734096 : ℕ) : Int)) = 784637716923335095479473677900958302009864236042119877638 • Gm := by
    rw [hb346, hc345, ← add_nsmul]
  obtain ⟨hv347, hb347⟩ := addNat_bridge 65060870012814446180562604541987675030321396016146550774631289409349599250140 18537425760171932701743089245151502876915717908070896161126189402762050734096 55066263022277343669578718895168534326250603453777594175500187360389116729240 32670510020758816978083085130507043184471273380659243275938904335757337482424 35564606756063491814381807586974173306561709187369435732250931586209565119501 70422225216479621077016906319281659090508429255523216618624965527103099431607 69738187569084130192373002440340357659441592797730604903496824151998423006476 (by decide) (by decide) (by decide) (by decide) (by decide) (by decide) (by decide) (by decide) (by decide) (by decide) (by decide) (by decide)
  have hc347 : lift (.affine ((70422225216479621077016906319281659090508429255523216618624965527103099431607 : ℕ) : Int) ((69738187569084130192373002440340357659441592797730604903496824151998423006476 : ℕ) : Int)) = 784637716923335095479473677900958302009864236042119877639 • Gm := by
    rw [hb347, hc346, hlG, ← add_nsmul]
  obtain ⟨hv348, hb348⟩ := dblNat_bridge 70422225216479621077016906319281659090508429255523216618624965527103099431607 69738187569084130192373002440340357659441592797730604903496824151998423006476 39336589466963425500274648097297714098251963758557964605049061844111124138081 112889903459994104425161363406491586632678502128737914080291702338944105463674 53441386684742066160371748628177145913376725292001171991214021517698984020228 (by decide) (by decide) (by decide) (by decide) (by decide) (by decide) (by decide) (by decide) (by decide)
  have hc348 : lift (.affine ((112889903459994104425161363406491586632678502128737914080291702338944105463674 : ℕ) : Int) ((53441386684742066160371748628177145913376725292001171991214021517698984020228 : ℕ) : Int)) = 1569275433846670190958947355801916604019728472084239755278 • Gm := by
    rw [hb348, hc347, ← add_nsmul]
  obtain ⟨hv349, hb349⟩ := dblNat_bridge 112889903459994104425161363406491586632678502128737914080291702338944105463674 53441386684742066160371748628177145913376725292001171991214021517698984020228 88074313040584464847027033121138929668853318134222841457158217393243697374323 114177347188839933583795485991387152903993588689176679035657000851021644717802 33002266058109171265988305936202601863899916956752096610308631281548063786497 (by decide) (by decide) (by decide) (by decide) (by decide) (by decide) (by decide) (by decide) (by decide)
  have hc349 : lift (.affine ((114177347188839933583795485991387152903993588689176679035657000851021644717802 : ℕ) : Int) ((33002266058109171265988305936202601863899916956752096610308631281548063786497 : ℕ) : Int)) = 3138550867693340381917894711603833208039456944168479510556 • Gm := by
    rw [hb349, hc348, ← add_nsmul]
  obtain ⟨hv350, hb350⟩ := addNat_bridge 114177347188839933583795485991387152903993588689176679035657000851021644717802 33002266058109171265988305936202601863899916956752096610308631281548063786497 55066263022277343669578718895168534326250603453777594175500187360389116729240 32670510020758816978083085130507043184471273380659243275938904335757337482424 76044838975331824289230351914256605548342796892407487587548488894414708523719 23174769244375877525017157568088905855665064312862654498374397119210061662587 4900848012393262711549753963005607530174119101558872958360384922004531751527 (by decide) (by decide) (by decide) (by decide) (by decide) (by decide) (by decide) (by decide) (by decide) (by decide) (by decide) (by decide)
  have hc350 : lift (.affine ((23174769244375877525017157568088905855665064312862654498374397119210061662587 : ℕ) : Int) ((4900848012393262711549753963005607530174119101558872958360384922004531751527 : ℕ) : Int)) = 3138550867693340381917894711603833208039456944168479510557 • Gm := by
    rw [hb350, hc349, hlG, ← add_nsmul]
  exact ⟨hv350, hc350⟩

/-- Steps 351–360 of the double-and-add certificate chain for the order of `G`. -/
theorem ordBlock35 :
    lift (Point.affine ((55066263022277343669578718895168534326250603453777594175500187360389116729240 : ℕ) : Int) ((32670510020758816978083085130507043184471273380659243275938904335757337482424 : ℕ) : Int)) = 1 • Gm →
    (Point.Valid (.affine ((23174769244375877525017157568088905855665064312862654498374397119210061662587 : ℕ) : Int) ((4900848012393262711549753963005607530174119101558872958360384922004531751527 : ℕ) : Int)) ∧
      lift (.affine ((23174769244375877525017157568088905855665064312862654498374397119210061662587 : ℕ) : Int) ((4900848012393262711549753963005607530174119101558872958360384922004531751527 : ℕ) : Int)) = 3138550867693340381917894711603833208039456944168479510557 • Gm) →
    Point.Valid (.affine ((22773824603488556016140376031208199836082818929442608050299400715514014675369 : ℕ) : Int) ((94667278644656412170892594579980318806180365363944762532515649244378937478838 : ℕ) : Int)) ∧
      lift (.affine ((22773824603488556016140376031208199836082818929442608050299400715514014675369 : ℕ) : Int) ((94667278644656412170892594579980318806180365363944762532515649244378937478838 : ℕ) : Int)) = 200867255532373784442745261542645325314525244426782688675702 • Gm := by
  intro hlG h
  obtain ⟨hv, hl⟩ := h
  obtain ⟨hv351, hb351⟩ := dblNat_bridge 23174769244375877525017157568088905855665064312862654498374397119210061662587 4900848012393262711549753963005607530174119101558872958360384922004531751527 35123271668837748102448186840166896444430664161855544064606388599141457872102 63420402107984277089410641428181578947591436163283648856418426033306368643112 99790958316104826350218130889584240242252845455293192150316992598463366040582 (by decide) (by decide) (by decide) (by decide) (by decide) (by decide) (by decide) (by decide) (by decide)
  have hc351 : lift (.affine ((63420402107984277089410641428181578947591436163283648856418426033306368643112 : ℕ) : Int) ((99790958316104826350218130889584240242252845455293192150316992598463366040582 : ℕ) : Int)) = 6277101735386680763835789423207666416078913888336959021114 • Gm := by
    rw [hb351, hl, ← add_nsmul]
  obtain ⟨hv352, hb352⟩ := addNat_bridge 63420402107984277089410641428181578947591436163283648856418426033306368643112 99790958316104826350218130889584240242252845455293192150316992598463366040582 55066263022277343669578718895168534326250603453777594175500187360389116729240 32670510020758816978083085130507043184471273380659243275938904335757337482424 111793882405434915044668329490022876898555721931059630554798930457436959704815 18462507725042716807979103445085429593496376249583542325522822244689471872519 37465934278057643432886868738220694055075490840727191692633083132563294258897 (by decide) (by decide) (by decide) (by decide) (by decide) (by decide) (by decide) (by decide) (by decide) (by decide) (by decide) (by decide)
  have hc352 : lift (.affine ((18462507725042716807979103445085429593496376249583542325522822244689471872519 : ℕ) : Int) ((37465934278057643432886868738220694055075490840727191692633083132563294258897 : ℕ) : Int)) = 6277101735386680763835789423207666416078913888336959021115 • Gm := by
    rw [hb352, hc351, hlG, ← add_nsmul]
  obtain ⟨hv353, hb353⟩ := dblNat_bridge 18462507725042716807979103445085429593496376249583542325522822244689471872519 37465934278057643432886868738220694055075490840727191692633083132563294258897 20000388610095735939008100606804074528825224027612676370698023064685629557960 80229844038507334230140875036445889606308417450109545343834538126605598437877 75546592193038909064412427044765628726051382255061614050923652530578832348229 (by decide) (by decide) (by decide) (by decide) (by decide) (by decide) (by decide) (by decide) (by decide)
  have hc353 : lift (.affine ((80229844038507334230140875036445889606308417450109545343834538126605598437877 : ℕ) : Int) ((75546592193038909064412427044765628726051382255061614050923652530578832348229 : ℕ) : Int)) = 12554203470773361527671578846415332832157827776673918042230 • Gm := by
    rw [hb353, hc352, ← add_nsmul]
  obtain ⟨hv354, hb354⟩ := addNat_bridge 80229844038507334230140875036445889606308417450109545343834538126605598437877 75546592193038909064412427044765628726051382255061614050923652530578832348229 55066263022277343669578718895168534326250603453777594175500187360389116729240 32670510020758816978083085130507043184471273380659243275938904335757337482424 36581340463868917200040038404849792551645803102169839587277401653523351244150 54612728193917033719049298284328997504962495959392945733012597487461132901683 33760078800622955623603001389657277711612392685857137237034395020731392173833 (by decide) (by decide) (by decide) (by decide) (by decide) (by decide) (by decide) (by decide) (by decide) (by decide) (by decide) (by decide)
  have hc354 : lift (.affine ((54612728193917033719049298284328997504962495959392945733012597487461132901683 : ℕ) : Int) ((33760078800622955623603001389657277711612392685857137237034395020731392173833 : ℕ) : Int)) = 12554203470773361527671578846415332832157827776673918042231 • Gm := by
    rw [hb354, hc353, hlG, ← add_nsmul]
  obtain ⟨hv355, hb355⟩ := dblNat_bridge 54612728193917033719049298284328997504962495959392945733012597487461132901683 33760078800622955623603001389657277711612392685857137237034395020731392173833 9232139802527099674767572241602104794105621910704326348093687447471641131741 24116658679531551888539293610701007901484060925002329358088655345041004425732 92654075451875181382319996924733164488661167139526119025780575897754357878923 (by decide) (by decide) (by decide) (by decide) (by decide) (by decide) (by decide) (by decide) (by decide)
  have hc355 : lift (.affine ((24116658679531551888539293610701007901484060925002329358088655345041004425732 : ℕ) : Int) ((92654075451875181382319996924733164488661167139526119025780575897754357878923 : ℕ) : Int)) = 25108406941546723055343157692830665664315655553347836084462 • Gm := by
    rw [hb355, hc354, ← add_nsmul]
  obtain ⟨hv356, hb356⟩ := dblNat_bridge 24116658679531551888539293610701007901484060925002329358088655345041004425732 92654075451875181382319996924733164488661167139526119025780575897754357878923 19654799490388584149215224378794122702797321804179944911111300725089748354351 84251155807421127193983120596045084016969705202014507956527207255744514229681 114643371153049154954355932341488302026685810513813296764602281175974789028910 (by decide) (by decide) (by decide) (by decide) (by decide) (by decide) (by decide) (by decide) (by decide)
  have hc356 : lift (.affine ((84251155807421127193983120596045084016969705202014507956527207255744514229681 : ℕ) : Int) ((114643371153049154954355932341488302026685810513813296764602281175974789028910 : ℕ) : Int)) = 50216813883093446110686315385661331328631311106695672168924 • Gm := by
    rw [hb356, hc355, ← add_nsmul]
  obtain ⟨hv357, hb357⟩ := addNat_bridge 84251155807421127193983120596045084016969705202014507956527207255744514229681 114643371153049154954355932341488302026685810513813296764602281175974789028910 55066263022277343669578718895168534326250603453777594175500187360389116729240 32670510020758816978083085130507043184471273380659243275938904335757337482424 72460020208923000045488231765454576215831911638050825260821274698166214550528 88334647706594732739201315081229548006321587514106130278363373951981241387014 115243981314074888238284345965951459267944359415748488030603531845455338747397 (by decide) (by decide) (by decide) (by decide) (by decide) (by decide) (by decide) (by decide) (by decide) (by decide) (by decide) (by decide)
  have hc357 : lift (.affine ((88334647706594732739201315081229548006321587514106130278363373951981241387014 : ℕ) : Int) ((115243981314074888238284345965951459267944359415748488030603531845455338747397 : ℕ) : Int)) = 50216813883093446110686315385661331328631311106695672168925 • Gm := by
    rw [hb357, hc356, hlG, ← add_nsmul]
  obtain ⟨hv358, hb358⟩ := dblNat_bridge 88334647706594732739201315081229548006321587514106130278363373951981241387014 115243981314074888238284345965951459267944359415748488030603531845455338747397 29531022995653037909983257392472584576641388485688199402010612148632547395923 53064033266429564152784826701876011420470632451462396140886460823969503521946 91317101192877811746744651536653326566958459549876065738797506117865423832893 (by decide) (by decide) (by decide) (by decide) (by decide) (by decide) (by decide) (by decide) (by decide)
  have hc358 : lift (.affine ((53064033266429564152784826701876011420470632451462396140886460823969503521946 : ℕ) : Int) ((91317101192877811746744651536653326566958459549876065738797506117865423832893 : ℕ) : Int)) = 100433627766186892221372630771322662657262622213391344337850 • Gm := by
    rw [hb358, hc357, ← add_nsmul]
  obtain ⟨hv359, hb359⟩ := addNat_bridge 53064033266429564152784826701876011420470632451462396140886460823969503521946 91317101192877811746744651536653326566958459549876065738797506117865423832893 55066263022277343669578718895168534326250603453777594175500187360389116729240 32670510020758816978083085130507043184471273380659243275938904335757337482424 74904830528450329371565789966263063994536720792548749159901877926827187374555 92123862401515803930008633804906970887493318561594019918928865307599549019052 95772655878277473616690979321330901118659803787646310502638624322875055619805 (by decide) (by decide) (by decide) (by decide) (by decide) (by decide) (by decide) (by decide) (by decide) (by decide) (by decide) (by decide)
  have hc359 : lift (.affine ((92123862401515803930008633804906970887493318561594019918928865307599549019052 : ℕ) : Int) ((95772655878277473616690979321330901118659803787646310502638624322875055619805 : ℕ) : Int)) = 100433627766186892221372630771322662657262622213391344337851 • Gm := by
    rw [hb359, hc358, hlG, ← add_nsmul]
  obtain ⟨hv360, hb360⟩ := dblNat_bridge 92123862401515803930008633804906970887493318561594019918928865307599549019052 95772655878277473616690979321330901118659803787646310502638624322875055619805 77980366705933886999270473273498199576589659043112471231135502579088557575282 22773824603488556016140376031208199836082818929442608050299400715514014675369 94667278644656412170892594579980318806180365363944762532515649244378937478838 (by decide) (by decide) (by decide) (by decide) (by decide) (by decide) (by decide) (by decide) (by decide)
  have hc360 : lift (.affine ((22773824603488556016140376031208199836082818929442608050299400715514014675369 : ℕ) : Int) ((94667278644656412170892594579980318806180365363944762532515649244378937478838 : ℕ) : Int)) = 200867255532373784442745261542645325314525244426782688675702 • Gm := by
    rw [hb360, hc359, ← add_nsmul]
  exact ⟨hv360, hc360⟩

/-- Steps 361–370 of the double-and-add certificate chain for the order of `G`. -/
theorem ordBlock36 :
    lift (Point.affine ((55066263022277343669578718895168534326250603453777594175500187360389116729240 : ℕ) : Int) ((32670510020758816978083085130507043184471273380659243275938904335757337482424 : ℕ) : Int)) = 1 • Gm →
    (Point.Valid (.affine ((22773824603488556016140376031208199836082818929442608050299400715514014675369 : ℕ) : Int) ((94667278644656412170892594579980318806180365363944762532515649244378937478838 : ℕ) : Int)) ∧
      lift (.affine ((22773824603488556016140376031208199836082818929442608050299400715514014675369 : ℕ) : Int) ((94667278644656412170892594579980318806180365363944762532515649244378937478838 : ℕ) : Int)) = 200867255532373784442745261542645325314525244426782688675702 • Gm) →
    Point.Valid (.affine ((19685667224725478059783467022965980911842973527549529678033079288628364488728 : ℕ) : Int) ((52255881630532867500172234080446249589804819272976562157357841124979611026418 : ℕ) : Int)) ∧
      lift (.affine ((19685667224725478059783467022965980911842973527549529678033079288628364488728 : ℕ) : Int) ((52255881630532867500172234080446249589804819272976562157357841124979611026418 : ℕ) : Int)) = 6427752177035961102167848369364650410064807821657046037622526 • Gm := by
  intro hlG h
  obtain ⟨hv, hl⟩ := h
  obtain ⟨hv361, hb361⟩ := addNat_bridge 22773824603488556016140376031208199836082818929442608050299400715514014675369 94667278644656412170892594579980318806180365363944762532515649244378937478838 55066263022277343669578718895168534326250603453777594175500187360389116729240 32670510020758816978083085130507043184471273380659243275938904335757337482424 75559367306761850825707094499996940522405534426419820772881367377260892459135 9213836420759506492196394081577291749939730304935348465363762340340064782205 90985450199217513609551617437586678509384578089819016917497514672927958440977 (by decide) (by decide) (by decide) (by decide) (by decide) (by decide) (by decide) (by decide) (by decide) (by decide) (by decide) (by decide)
  have hc361 : lift (.affine ((9213836420759506492196394081577291749939730304935348465363762340340064782205 : ℕ) : Int) ((90985450199217513609551617437586678509384578089819016917497514672927958440977 : ℕ) : Int)) = 200867255532373784442745261542645325314525244426782688675703 • Gm := by
    rw [hb361, hl, hlG, ← add_nsmul]
  obtain ⟨hv362, hb362⟩ := dblNat_bridge 9213836420759506492196394081577291749939730304935348465363762340340064782205 90985450199217513609551617437586678509384578089819016917497514672927958440977 106807005471513747556940260253600115634051797560464748342580926232049876790671 64448231447377690050202484589144143701587706233842906311940341169962485054049 104421987786607021343447412416725416530710900118219718487691549281905290583655 (by decide) (by decide) (by decide) (by decide) (by decide) (by decide) (by decide) (by decide) (by decide)
  have hc362 : lift (.affine ((64448231447377690050202484589144143701587706233842906311940341169962485054049 : ℕ) : Int) ((104421987786607021343447412416725416530710900118219718487691549281905290583655 : ℕ) : Int)) = 401734511064747568885490523085290650629050488853565377351406 • Gm := by
    rw [hb362, hc361, ← add_nsmul]
  obtain ⟨hv363, hb363⟩ := addNat_bridge 64448231447377690050202484589144143701587706233842906311940341169962485054049 104421987786607021343447412416725416530710900118219718487691549281905290583655 55066263022277343669578718895168534326250603453777594175500187360389116729240 32670510020758816978083085130507043184471273380659243275938904335757337482424 37745934894020998244368658431805656130817628431890635059885435682437540808590 114462533978307178198591374997671036171298603337563124522919241103501224899209 66518267121283978765252721038260897322949894122536671821628749991872995333337 (by decide) (by decide) (by decide) (by decide) (by decide) (by decide) (by decide) (by decide) (by decide) (by decide) (by decide) (by decide)
  have hc363 : lift (.affine ((114462533978307178198591374997671036171298603337563124522919241103501224899209 : ℕ) : Int) ((66518267121283978765252721038260897322949894122536671821628749991872995333337 : ℕ) : Int)) = 401734511064747568885490523085290650629050488853565377351407 • Gm := by
    rw [hb363, hc362, hlG, ← add_nsmul]
  obtain ⟨hv364, hb364⟩ := dblNat_bridge 114462533978307178198591374997671036171298603337563124522919241103501224899209 66518267121283978765252721038260897322949894122536671821628749991872995333337 28297510235914680571973467699377703600363475167863837262219571615286786865173 27702838743444406913399661457613529201659804813190480717307610489321197699681 111939935440176858150835337415289342428827755334290743916693440249782466324273 (by decide) (by decide) (by decide) (by decide) (by decide) (by decide) (by decide) (by decide) (by decide)
  have hc364 : lift (.affine ((27702838743444406913399661457613529201659804813190480717307610489321197699681 : ℕ) : Int) ((111939935440176858150835337415289342428827755334290743916693440249782466324273 : ℕ) : Int)) = 803469022129495137770981046170581301258100977707130754702814 • Gm := by
    rw [hb364, hc363, ← add_nsmul]
  obtain ⟨hv365, hb365⟩ := addNat_bridge 27702838743444406913399661457613529201659804813190480717307610489321197699681 111939935440176858150835337415289342428827755334290743916693440249782466324273 55066263022277343669578718895168534326250603453777594175500187360389116729240 32670510020758816978083085130507043184471273380659243275938904335757337482424 102348654923169203332853905376160302446162392557849617735161740086443104883004 56386547745593195692062486723966307601452321296065614888666661112036273412766 79960489824421539775164449314447522351574235959124312722191875359091187802429 (by decide) (by decide) (by decide) (by decide) (by decide) (by decide) (by decide) (by decide) (by decide) (by decide) (by decide) (by decide)
  have hc365 : lift (.affine ((56386547745593195692062486723966307601452321296065614888666661112036273412766 : ℕ) : Int) ((79960489824421539775164449314447522351574235959124312722191875359091187802429 : ℕ) : Int)) = 803469022129495137770981046170581301258100977707130754702815 • Gm := by
    rw [hb365, hc364, hlG, ← add_nsmul]
  obtain ⟨hv366, hb366⟩ := dblNat_bridge 56386547745593195692062486723966307601452321296065614888666661112036273412766 79960489824421539775164449314447522351574235959124312722191875359091187802429 101356856399177891045507544284079221415070676548382176642661731978913929793999 95837414213032593749246701615251963161557528024565152914650295423151586211830 42744404015191774042961443848134902083204867226397812521945831836789569394067 (by decide) (by decide) (by decide) (by decide) (by decide) (by decide) (by decide) (by decide) (by decide)
  have hc366 : lift (.affine ((95837414213032593749246701615251963161557528024565152914650295423151586211830 : ℕ) : Int) ((42744404015191774042961443848134902083204867226397812521945831836789569394067 : ℕ) : Int)) = 1606938044258990275541962092341162602516201955414261509405630 • Gm := by
    rw [hb366, hc365, ← add_nsmul]
  obtain ⟨hv367, hb367⟩ := addNat_bridge 95837414213032593749246701615251963161557528024565152914650295423151586211830 42744404015191774042961443848134902083204867226397812521945831836789569394067 55066263022277343669578718895168534326250603453777594175500187360389116729240 32670510020758816978083085130507043184471273380659243275938904335757337482424 44912282011292126253424253110828841158058314176550642492710038434856437248852 48788246365607200252560225491463893224879874805987281897641295922840889553297 64845759529736342328409323203478625253896728581735458077438085614840562143723 (by decide) (by decide) (by decide) (by decide) (by decide) (by decide) (by decide) (by decide) (by decide) (by decide) (by decide) (by decide)
  have hc367 : lift (.affine ((48788246365607200252560225491463893224879874805987281897641295922840889553297 : ℕ) : Int) ((64845759529736342328409323203478625253896728581735458077438085614840562143723 : ℕ) : Int)) = 1606938044258990275541962092341162602516201955414261509405631 • Gm := by
    rw [hb367, hc366, hlG, ← add_nsmul]
  obtain ⟨hv368, hb368⟩ := dblNat_bridge 48788246365607200252560225491463893224879874805987281897641295922840889553297 64845759529736342328409323203478625253896728581735458077438085614840562143723 62474010496279308459628606350412030110435635566398663488127189286559973265332 11150629734406317215132691705928534025889533188100541332925019883821355143852 100407998928520006096474933916356944714228577067758334570249938480651632308296 (by decide) (by decide) (by decide) (by decide) (by decide) (by decide) (by decide) (by decide) (by decide)
  have hc368 : lift (.affine ((11150629734406317215132691705928534025889533188100541332925019883821355143852 : ℕ) : Int) ((100407998928520006096474933916356944714228577067758334570249938480651632308296 : ℕ) : Int)) = 3213876088517980551083924184682325205032403910828523018811262 • Gm := by
    rw [hb368, hc367, ← add_nsmul]
  obtain ⟨hv369, hb369⟩ := addNat_bridge 11150629734406317215132691705928534025889533188100541332925019883821355143852 100407998928520006096474933916356944714228577067758334570249938480651632308296 55066263022277343669578718895168534326250603453777594175500187360389116729240 32670510020758816978083085130507043184471273380659243275938904335757337482424 108104283969354328564206994058862353942411192580639273115528341028411716479368 17679611130399424570183596313811079963887026481606218494676525951906565215943 2974656957223226986956465678770411016421612192919608182863825245360452417487 (by decide) (by decide) (by decide) (by decide) (by decide) (by decide) (by decide) (by decide) (by decide) (by decide) (by decide) (by decide)
  have hc369 : lift (.affine ((17679611130399424570183596313811079963887026481606218494676525951906565215943 : ℕ) : Int) ((2974656957223226986956465678770411016421612192919608182863825245360452417487 : ℕ) : Int)) = 3213876088517980551083924184682325205032403910828523018811263 • Gm := by
    rw [hb369, hc368, hlG, ← add_nsmul]
  obtain ⟨hv370, hb370⟩ := dblNat_bridge 17679611130399424570183596313811079963887026481606218494676525951906565215943 2974656957223226986956465678770411016421612192919608182863825245360452417487 727066100119929749597267026072115272337755564740140437822249784601929603926 19685667224725478059783467022965980911842973527549529678033079288628364488728 52255881630532867500172234080446249589804819272976562157357841124979611026418 (by decide) (by decide) (by decide) (by decide) (by decide) (by decide) (by decide) (by decide) (by decide)
  have hc370 : lift (.affine ((19685667224725478059783467022965980911842973527549529678033079288628364488728 : ℕ) : Int) ((52255881630532867500172234080446249589804819272976562157357841124979611026418 : ℕ) : Int)) = 6427752177035961102167848369364650410064807821657046037622526 • Gm := by
    rw [hb370, hc369, ← add_nsmul]
  exact ⟨hv370, hc370⟩

/-- Steps 371–380 of the double-and-add certificate chain for the order of `G`. -/
theorem ordBlock37 :
    lift (Point.affine ((55066263022277343669578718895168534326250603453777594175500187360389116729240 : ℕ) : Int) ((32670510020758816978083085130507043184471273380659243275938904335757337482424 : ℕ) : Int)) = 1 • Gm →
    (Point.Valid (.affine ((19685667224725478059783467022965980911842973527549529678033079288628364488728 : ℕ) : Int) ((52255881630532867500172234080446249589804819272976562157357841124979611026418 : ℕ) : Int)) ∧
      lift (.affine ((19685667224725478059783467022965980911842973527549529678033079288628364488728 : ℕ) : Int) ((52255881630532867500172234080446249589804819272976562157357841124979611026418 : ℕ) : Int)) = 6427752177035961102167848369364650410064807821657046037622526 • Gm) →
    Point.Valid (.affine ((40941405005245717745305955533898556349110572679964314296027121860715015422341 : ℕ) : Int) ((82020298814356923679204358664799961885665454454718511644290787124837473116866 : ℕ) : Int)) ∧
      lift (.affine ((40941405005245717745305955533898556349110572679964314296027121860715015422341 : ℕ) : Int) ((82020298814356923679204358664799961885665454454718511644290787124837473116866 : ℕ) : Int)) = 822752278660603021077484591278675252488295401172101892815683492 • Gm := by
  intro hlG h
  obtain ⟨hv, hl⟩ := h
  obtain ⟨hv371, hb371⟩ := addNat_bridge 19685667224725478059783467022965980911842973527549529678033079288628364488728 52255881630532867500172234080446249589804819272976562157357841124979611026418 55066263022277343669578718895168534326250603453777594175500187360389116729240 32670510020758816978083085130507043184471273380659243275938904335757337482424 106182803214697961964163048404777636623882303230108107911160732215457314403786 7042012342838583515955569256001482674140346155509141536548489933421224629475 27978912988365484329595083520645195351464525803298954114692658714726713448710 (by decide) (by decide) (by decide) (by decide) (by decide) (by decide) (by decide) (by decide) (by decide) (by decide) (by decide) (by decide)
  have hc371 : lift (.affine ((7042012342838583515955569256001482674140346155509141536548489933421224629475 : ℕ) : Int) ((27978912988365484329595083520645195351464525803298954114692658714726713448710 : ℕ) : Int)) = 6427752177035961102167848369364650410064807821657046037622527 • Gm := by
    rw [hb371, hl, hlG, ← add_nsmul]
  obtain ⟨hv372, hb372⟩ := dblNat_bridge 7042012342838583515955569256001482674140346155509141536548489933421224629475 27978912988365484329595083520645195351464525803298954114692658714726713448710 59911796929963597512708888980820062965011495747671428159620908265915026329240 61350106459820334249128035863203353620771771910961221397000753458276143855561 23260414069034622390608894072987180352710991105671726198973059598646706058497 (by decide) (by decide) (by decide) (by decide) (by decide) (by decide) (by decide) (by decide) (by decide)
  have hc372 : lift (.affine ((61350106459820334249128035863203353620771771910961221397000753458276143855561 : ℕ) : Int) ((23260414069034622390608894072987180352710991105671726198973059598646706058497 : ℕ) : Int)) = 12855504354071922204335696738729300820129615643314092075245054 • Gm := by
    rw [hb372, hc371, ← add_nsmul]
  obtain ⟨hv373, hb373⟩ := dblNat_bridge 61350106459820334249128035863203353620771771910961221397000753458276143855561 23260414069034622390608894072987180352710991105671726198973059598646706058497 64211969126718993820704383673723894701870615898246583401989809998504345902018 91021079756275407076946601402439231461798271930740372332360630175471524275215 97503309841535284288343733143915458795232499323674201151600123062024571976272 (by decide) (by decide) (by decide) (by decide) (by decide) (by decide) (by decide) (by decide) (by decide)
  have hc373 : lift (.affine ((91021079756275407076946601402439231461798271930740372332360630175471524275215 : ℕ) : Int) ((97503309841535284288343733143915458795232499323674201151600123062024571976272 : ℕ) : Int)) = 25711008708143844408671393477458601640259231286628184150490108 • Gm := by
    rw [hb373, hc372, ← add_nsmul]
  obtain ⟨hv374, hb374⟩ := addNat_bridge 91021079756275407076946601402439231461798271930740372332360630175471524275215 97503309841535284288343733143915458795232499323674201151600123062024571976272 55066263022277343669578718895168534326250603453777594175500187360389116729240 32670510020758816978083085130507043184471273380659243275938904335757337482424 115503537943439787842815266767443427561843704488688848396577816590005278841758 18860495990359543692907689158486692952236762718165193526063836559206205443456 25089369089195310657095262413024159032168171027747290781991201012458246248019 (by decide) (by decide) (by decide) (by decide) (by decide) (by decide) (by decide) (by decide) (by decide) (by decide) (by decide) (by decide)
  have hc374 : lift (.affine ((18860495990359543692907689158486692952236762718165193526063836559206205443456 : ℕ) : Int) ((25089369089195310657095262413024159032168171027747290781991201012458246248019 : ℕ) : Int)) = 25711008708143844408671393477458601640259231286628184150490109 • Gm := by
    rw [hb374, hc373, hlG, ← add_nsmul]
  obtain ⟨hv375, hb375⟩ := dblNat_bridge 18860495990359543692907689158486692952236762718165193526063836559206205443456 25089369089195310657095262413024159032168171027747290781991201012458246248019 98075499485973437165102238458432519569499716611092469822472000877844910676905 55079000257970023648141998397000214138352401798748047647211843574111210698155 82144301141788368339010628709103181845466816323322162376763957719737063827106 (by decide) (by decide) (by decide) (by decide) (by decide) (by decide) (by decide) (by decide) (by decide)
  have hc375 : lift (.affine ((55079000257970023648141998397000214138352401798748047647211843574111210698155 : ℕ) : Int) ((82144301141788368339010628709103181845466816323322162376763957719737063827106 : ℕ) : Int)) = 51422017416287688817342786954917203280518462573256368300980218 • Gm := by
    rw [hb375, hc374, ← add_nsmul]
  obtain ⟨hv376, hb376⟩ := dblNat_bridge 55079000257970023648141998397000214138352401798748047647211843574111210698155 82144301141788368339010628709103181845466816323322162376763957719737063827106 29016179592866849324037841313042854321209086988336678971008518294316044608928 19562880357564461668405094125210845355800877659897165177572733643520825271078 2853748921548736925074530904844485949071609712486050366012353153813093746711 (by decide) (by decide) (by decide) (by decide) (by decide) (by decide) (by decide) (by decide) (by decide)
  have hc376 : lift (.affine ((19562880357564461668405094125210845355800877659897165177572733643520825271078 : ℕ) : Int) ((2853748921548736925074530904844485949071609712486050366012353153813093746711 : ℕ) : Int)) = 102844034832575377634685573909834406561036925146512736601960436 • Gm := by
    rw [hb376, hc375, ← add_nsmul]
  obtain ⟨hv377, hb377⟩ := dblNat_bridge 19562880357564461668405094125210845355800877659897165177572733643520825271078 2853748921548736925074530904844485949071609712486050366012353153813093746711 105419086072886021218675470509592712187947775139899679581963570363113204557698 90587778346877475876596485103373974222331451487516273186228156162264478271757 2495834548301063506554910358097795454267043265022169137983172416559605338755 (by decide) (by decide) (by decide) (by decide) (by decide) (by decide) (by decide) (by decide) (by decide)
  have hc377 : lift (.affine ((90587778346877475876596485103373974222331451487516273186228156162264478271757 : ℕ) : Int) ((2495834548301063506554910358097795454267043265022169137983172416559605338755 : ℕ) : Int)) = 205688069665150755269371147819668813122073850293025473203920872 • Gm := by
    rw [hb377, hc376, ← add_nsmul]
  obtain ⟨hv378, hb378⟩ := addNat_bridge 90587778346877475876596485103373974222331451487516273186228156162264478271757 2495834548301063506554910358097795454267043265022169137983172416559605338755 55066263022277343669578718895168534326250603453777594175500187360389116729240 32670510020758816978083085130507043184471273380659243275938904335757337482424 83796447784844066223576259340044425136653799934492461404751979000544886379387 107463535590878737793600273898323789798334971102462364870926133379251324229771 67696904489445619952072054599992706950951052990040675248735894307746726267178 (by decide) (by decide) (by decide) (by decide) (by decide) (by decide) (by decide) (by decide) (by decide) (by decide) (by decide) (by decide)
  have hc378 : lift (.affine ((107463535590878737793600273898323789798334971102462364870926133379251324229771 : ℕ) : Int) ((67696904489445619952072054599992706950951052990040675248735894307746726267178 : ℕ) : Int)) = 205688069665150755269371147819668813122073850293025473203920873 • Gm := by
    rw [hb378, hc377, hlG, ← add_nsmul]
  obtain ⟨hv379, hb379⟩ := dblNat_bridge 107463535590878737793600273898323789798334971102462364870926133379251324229771 67696904489445619952072054599992706950951052990040675248735894307746726267178 4392040150480087589695285249129649127925492448899155015511460152767958546251 111981189532162353124821108747812109249789867368555539885752276725523994523838 104942328410533545697194267087618539634370377516224339825365724418906779069353 (by decide) (by decide) (by decide) (by decide) (by decide) (by decide) (by decide) (by decide) (by decide)
  have hc379 : lift (.affine ((111981189532162353124821108747812109249789867368555539885752276725523994523838 : ℕ) : Int) ((104942328410533545697194267087618539634370377516224339825365724418906779069353 : ℕ) : Int)) = 411376139330301510538742295639337626244147700586050946407841746 • Gm := by
    rw [hb379, hc378, ← add_nsmul]
  obtain ⟨hv380, hb380⟩ := dblNat_bridge 111981189532162353124821108747812109249789867368555539885752276725523994523838 104942328410533545697194267087618539634370377516224339825365724418906779069353 26011926274529941144142876324161127759003724526089309788232192134876815842835 40941405005245717745305955533898556349110572679964314296027121860715015422341 82020298814356923679204358664799961885665454454718511644290787124837473116866 (by decide) (by decide) (by decide) (by decide) (by decide) (by decide) (by decide) (by decide) (by decide)
  have hc380 : lift (.affine ((40941405005245717745305955533898556349110572679964314296027121860715015422341 : ℕ) : Int) ((82020298814356923679204358664799961885665454454718511644290787124837473116866 : ℕ) : Int)) = 822752278660603021077484591278675252488295401172101892815683492 • Gm := by
    rw [hb380, hc379, ← add_nsmul]
  exact ⟨hv380, hc380⟩

/-- Steps 381–390 of the double-and-add certificate chain for the order of `G`. -/
theorem ordBlock38 :
    lift (Point.affine ((55066263022277343669578718895168534326250603453777594175500187360389116729240 : ℕ) : Int) ((32670510020758816978083085130507043184471273380659243275938904335757337482424 : ℕ) : Int)) = 1 • Gm →
    (Point.Valid (.affine ((40941405005245717745305955533898556349110572679964314296027121860715015422341 : ℕ) : Int) ((82020298814356923679204358664799961885665454454718511644290787124837473116866 : ℕ) : Int)) ∧
      lift (.affine ((40941405005245717745305955533898556349110572679964314296027121860715015422341 : ℕ) : Int) ((82020298814356923679204358664799961885665454454718511644290787124837473116866 : ℕ) : Int)) = 822752278660603021077484591278675252488295401172101892815683492 • Gm) →
    Point.Valid (.affine ((8070486188150402878477948397743999487175025320624524858229681766775070558523 : ℕ) : Int) ((84970500343721104006682486081962043173503437765658937443117665535856677001866 : ℕ) : Int)) ∧
      lift (.affine ((8070486188150402878477948397743999487175025320624524858229681766775070558523 : ℕ) : Int) ((84970500343721104006682486081962043173503437765658937443117665535856677001866 : ℕ) : Int)) = 52656145834278593348959013841835216159250905675014521140203743534 • Gm := by
  intro hlG h
  obtain ⟨hv, hl⟩ := h
  obtain ⟨hv381, hb381⟩ := dblNat_bridge 40941405005245717745305955533898556349110572679964314296027121860715015422341 82020298814356923679204358664799961885665454454718511644290787124837473116866 24942206584331065826527248912675134241210249105109630422476207501037997480163 48221859860016704139550549290673014244402934957707103686754890086764943131406 53805983531142997690803121238697301812511802650127501865992067289526704202476 (by decide) (by decide) (by decide) (by decide) (by decide) (by decide) (by decide) (by decide) (by decide)
  have hc381 : lift (.affine ((48221859860016704139550549290673014244402934957707103686754890086764943131406 : ℕ) : Int) ((53805983531142997690803121238697301812511802650127501865992067289526704202476 : ℕ) : Int)) = 1645504557321206042154969182557350504976590802344203785631366984 • Gm := by
    rw [hb381, hl, ← add_nsmul]
  obtain ⟨hv382, hb382⟩ := addNat_bridge 48221859860016704139550549290673014244402934957707103686754890086764943131406 53805983531142997690803121238697301812511802650127501865992067289526704202476 55066263022277343669578718895168534326250603453777594175500187360389116729240 32670510020758816978083085130507043184471273380659243275938904335757337482424 111246802190341157940618691881146588241606139849919776956240114416783724950440 101212450342155729029116680600365298382189496916624539188646344821689942013067 68303656815147633722873951817707189711486768681260987747629071684000906872462 (by decide) (by decide) (by decide) (by decide) (by decide) (by decide) (by decide) (by decide) (by decide) (by decide) (by decide) (by decide)
  have hc382 : lift (.affine ((101212450342155729029116680600365298382189496916624539188646344821689942013067 : ℕ) : Int) ((68303656815147633722873951817707189711486768681260987747629071684000906872462 : ℕ) : Int)) = 1645504557321206042154969182557350504976590802344203785631366985 • Gm := by
    rw [hb382, hc381, hlG, ← add_nsmul]
  obtain ⟨hv383, hb383⟩ := dblNat_bridge 101212450342155729029116680600365298382189496916624539188646344821689942013067 68303656815147633722873951817707189711486768681260987747629071684000906872462 89818938694149722342474140739796258895347451808196868204684150897985481162011 75762833393077434885852772224759022299604498615531029024695911981742801829007 63305008733620262256831292985035668895621565618310033185714077066141493749435 (by decide) (by decide) (by decide) (by decide) (by decide) (by decide) (by decide) (by decide) (by decide)
  have hc383 : lift (.affine ((75762833393077434885852772224759022299604498615531029024695911981742801829007 : ℕ) : Int) ((63305008733620262256831292985035668895621565618310033185714077066141493749435 : ℕ) : Int)) = 3291009114642412084309938365114701009953181604688407571262733970 • Gm := by
    rw [hb383, hc382, ← add_nsmul]
  obtain ⟨hv384, hb384⟩ := dblNat_bridge 75762833393077434885852772224759022299604498615531029024695911981742801829007 63305008733620262256831292985035668895621565618310033185714077066141493749435 41174658342237690213396237444510113144651286349718486911935175316923784828493 79619643900872687519062114637562189043658386428367032398595272943855244702589 109066803751532867935748353057381362802566224942173387300409287398811571775864 (by decide) (by decide) (by decide) (by decide) (by decide) (by decide) (by decide) (by decide) (by decide)
  have hc384 : lift (.affine ((79619643900872687519062114637562189043658386428367032398595272943855244702589 : ℕ) : Int) ((109066803751532867935748353057381362802566224942173387300409287398811571775864 : ℕ) : Int)) = 6582018229284824168619876730229402019906363209376815142525467940 • Gm := by
    rw [hb384, hc383, ← add_nsmul]
  obtain ⟨hv385, hb385⟩ := addNat_bridge 79619643900872687519062114637562189043658386428367032398595272943855244702589 109066803751532867935748353057381362802566224942173387300409287398811571775864 55066263022277343669578718895168534326250603453777594175500187360389116729240 32670510020758816978083085130507043184471273380659243275938904335757337482424 89049921794890993494757915687395926661839856658511832664446478041681276896245 115556241228382723473598234509559469739529680783104880014903960830358111820629 82882752966735949440865702469888000329238185380026978553146043436509169942144 (by decide) (by decide) (by decide) (by decide) (by decide) (by decide) (by decide) (by decide) (by decide) (by decide) (by decide) (by decide)
  have hc385 : lift (.affine ((115556241228382723473598234509559469739529680783104880014903960830358111820629 : ℕ) : Int) ((82882752966735949440865702469888000329238185380026978553146043436509169942144 : ℕ) : Int)) = 6582018229284824168619876730229402019906363209376815142525467941 • Gm := by
    rw [hb385, hc384, hlG, ← add_nsmul]
  obtain ⟨hv386, hb386⟩ := dblNat_bridge 115556241228382723473598234509559469739529680783104880014903960830358111820629 82882752966735949440865702469888000329238185380026978553146043436509169942144 12429610962052582278577086382604445224051758419512331256248408343145562033473 12513693848772409608696086535679389148999924894507114638674333423298021032115 13611204098679465609271061769633609432260936629013267174238301899763127680251 (by decide) (by decide) (by decide) (by decide) (by decide) (by decide) (by decide) (by decide) (by decide)
  have hc386 : lift (.affine ((12513693848772409608696086535679389148999924894507114638674333423298021032115 : ℕ) : Int) ((13611204098679465609271061769633609432260936629013267174238301899763127680251 : ℕ) : Int)) = 13164036458569648337239753460458804039812726418753630285050935882 • Gm := by
    rw [hb386, hc385, ← add_nsmul]
  obtain ⟨hv387, hb387⟩ := addNat_bridge 12513693848772409608696086535679389148999924894507114638674333423298021032115 13611204098679465609271061769633609432260936629013267174238301899763127680251 55066263022277343669578718895168534326250603453777594175500187360389116729240 32670510020758816978083085130507043184471273380659243275938904335757337482424 92803065723616603533149421483665447696220532128902924740958137559731758298149 32900217104470831315793676192354682904635042591433634560701708453157885086002 85278168065174131320466719057455912576149657774146952106784069129439181953724 (by decide) (by decide) (by decide) (by decide) (by decide) (by decide) (by decide) (by decide) (by decide) (by decide) (by decide) (by decide)
  have hc387 : lift (.affine ((32900217104470831315793676192354682904635042591433634560701708453157885086002 : ℕ) : Int) ((85278168065174131320466719057455912576149657774146952106784069129439181953724 : ℕ) : Int)) = 13164036458569648337239753460458804039812726418753630285050935883 • Gm := by
    rw [hb387, hc386, hlG, ← add_nsmul]
  obtain ⟨hv388, hb388⟩ := dblNat_bridge 32900217104470831315793676192354682904635042591433634560701708453157885086002 85278168065174131320466719057455912576149657774146952106784069129439181953724 68874032820381636633635734068414106671435871063249717543309174477443004796514 108872971634493088367584624860910153733190109614064412710054156405988148788387 106741302893652501912272934665633472838927293750163368931377008411193134035099 (by decide) (by decide) (by decide) (by decide) (by decide) (by decide) (by decide) (by decide) (by decide)
  have hc388 : lift (.affine ((108872971634493088367584624860910153733190109614064412710054156405988148788387 : ℕ) : Int) ((106741302893652501912272934665633472838927293750163368931377008411193134035099 : ℕ) : Int)) = 26328072917139296674479506920917608079625452837507260570101871766 • Gm := by
    rw [hb388, hc387, ← add_nsmul]
  obtain ⟨hv389, hb389⟩ := addNat_bridge 108872971634493088367584624860910153733190109614064412710054156405988148788387 106741302893652501912272934665633472838927293750163368931377008411193134035099 55066263022277343669578718895168534326250603453777594175500187360389116729240 32670510020758816978083085130507043184471273380659243275938904335757337482424 24047916302909978083341152554927442831960835091916368037353028504607850979857 106600912180329681386629667631378467017386927311728048068187447841885564684547 101130476397765278456945556127697535947199030380416182593917429776981523868326 (by decide) (by decide) (by decide) (by decide) (by decide) (by decide) (by decide) (by decide) (by decide) (by decide) (by decide) (by decide)
  have hc389 : lift (.affine ((106600912180329681386629667631378467017386927311728048068187447841885564684547 : ℕ) : Int) ((101130476397765278456945556127697535947199030380416182593917429776981523868326 : ℕ) : Int)) = 26328072917139296674479506920917608079625452837507260570101871767 • Gm := by
    rw [hb389, hc388, hlG, ← add_nsmul]
  obtain ⟨hv390, hb390⟩ := dblNat_bridge 106600912180329681386629667631378467017386927311728048068187447841885564684547 101130476397765278456945556127697535947199030380416182593917429776981523868326 41903272131130800550276056835210412443336843485338425168476324085043892749969 8070486188150402878477948397743999487175025320624524858229681766775070558523 84970500343721104006682486081962043173503437765658937443117665535856677001866 (by decide) (by decide) (by decide) (by decide) (by decide) (by decide) (by decide) (by decide) (by decide)
  have hc390 : lift (.affine ((8070486188150402878477948397743999487175025320624524858229681766775070558523 : ℕ) : Int) ((84970500343721104006682486081962043173503437765658937443117665535856677001866 : ℕ) : Int)) = 52656145834278593348959013841835216159250905675014521140203743534 • Gm := by
    rw [hb390, hc389, ← add_nsmul]
  exact ⟨hv390, hc390⟩

/-- Steps 391–400 of the double-and-add certificate chain for the order of `G`. -/
theorem ordBlock39 :
    lift (Point.affine ((55066263022277343669578718895168534326250603453777594175500187360389116729240 : ℕ) : Int) ((32670510020758816978083085130507043184471273380659243275938904335757337482424 : ℕ) : Int)) = 1 • Gm →
    (Point.Valid (.affine ((8070486188150402878477948397743999487175025320624524858229681766775070558523 : ℕ) : Int) ((84970500343721104006682486081962043173503437765658937443117665535856677001866 : ℕ) : Int)) ∧
      lift (.affine ((8070486188150402878477948397743999487175025320624524858229681766775070558523 : ℕ) : Int) ((84970500343721104006682486081962043173503437765658937443117665535856677001866 : ℕ) : Int)) = 52656145834278593348959013841835216159250905675014521140203743534 • Gm) →
    Point.Valid (.affine ((63238994063520635512635448493188136684444791799077083877384106804659472392802 : ℕ) : Int) ((22466551545141115398073286679328164347460105770294946761846112439042650523228 : ℕ) : Int)) ∧
      lift (.affine ((63238994063520635512635448493188136684444791799077083877384106804659472392802 : ℕ) : Int) ((22466551545141115398073286679328164347460105770294946761846112439042650523228 : ℕ) : Int)) = 6739986666787659948666753771754907668384115926401858705946079172514 • Gm := by
  intro hlG h
  obtain ⟨hv, hl⟩ := h
  obtain ⟨hv391, hb391⟩ := addNat_bridge 8070486188150402878477948397743999487175025320624524858229681766775070558523 84970500343721104006682486081962043173503437765658937443117665535856677001866 55066263022277343669578718895168534326250603453777594175500187360389116729240 32670510020758816978083085130507043184471273380659243275938904335757337482424 67839408235303749662375305259955764218365685033375578653097514650694920235183 1432435922191628441439927208936477771747173540968091458490657880413232265674 44376203370175184098602367608700318623658109082461882108155552192521662218317 (by decide) (by decide) (by decide) (by decide) (by decide) (by decide) (by decide) (by decide) (by decide) (by decide) (by decide) (by decide)
  have hc391 : lift (.affine ((1432435922191628441439927208936477771747173540968091458490657880413232265674 : ℕ) : Int) ((44376203370175184098602367608700318623658109082461882108155552192521662218317 : ℕ) : Int)) = 52656145834278593348959013841835216159250905675014521140203743535 • Gm := by
    rw [hb391, hl, hlG, ← add_nsmul]
  obtain ⟨hv392, hb392⟩ := dblNat_bridge 1432435922191628441439927208936477771747173540968091458490657880413232265674 44376203370175184098602367608700318623658109082461882108155552192521662218317 64340870960459426754967630105120689505960653023590671268237277934435503755026 68767323252525989285442623759883128600043375380431368050047815095147376753424 13618304609848439202123143871544034744741388227688727342095650882191752745504 (by decide) (by decide) (by decide) (by decide) (by decide) (by decide) (by decide) (by decide) (by decide)
  have hc392 : lift (.affine ((68767323252525989285442623759883128600043375380431368050047815095147376753424 : ℕ) : Int) ((13618304609848439202123143871544034744741388227688727342095650882191752745504 : ℕ) : Int)) = 105312291668557186697918027683670432318501811350029042280407487070 • Gm := by
    rw [hb392, hc391, ← add_nsmul]
  obtain ⟨hv393, hb393⟩ := dblNat_bridge 68767323252525989285442623759883128600043375380431368050047815095147376753424 13618304609848439202123143871544034744741388227688727342095650882191752745504 26816785396021199493334952473969348621779908074983815004838129984881163893417 114619889838596224402058945888185293441062453821974630133280807718796756352585 63054872010475237423886871625795652775001066084186545469012981572617188008833 (by decide) (by decide) (by decide) (by decide) (by decide) (by decide) (by decide) (by decide) (by decide)
  have hc393 : lift (.affine ((114619889838596224402058945888185293441062453821974630133280807718796756352585 : ℕ) : Int) ((63054872010475237423886871625795652775001066084186545469012981572617188008833 : ℕ) : Int)) = 210624583337114373395836055367340864637003622700058084560814974140 • Gm := by
    rw [hb393, hc392, ← add_nsmul]
  obtain ⟨hv394, hb394⟩ := addNat_bridge 114619889838596224402058945888185293441062453821974630133280807718796756352585 63054872010475237423886871625795652775001066084186545469012981572617188008833 55066263022277343669578718895168534326250603453777594175500187360389116729240 32670510020758816978083085130507043184471273380659243275938904335757337482424 14104299657090677552439964516945094855191326990664524335220133239109090030563 21031055935967706759870504672876090487050540149921556642412179495682493380375 108161964508628899777651840451257950284487095836317515373670292743416562412436 (by decide) (by decide) (by decide) (by decide) (by decide) (by decide) (by decide) (by decide) (by decide) (by decide) (by decide) (by decide)
  have hc394 : lift (.affine ((21031055935967706759870504672876090487050540149921556642412179495682493380375 : ℕ) : Int) ((108161964508628899777651840451257950284487095836317515373670292743416562412436 : ℕ) : Int)) = 210624583337114373395836055367340864637003622700058084560814974141 • Gm := by
    rw [hb394, hc393, hlG, ← add_nsmul]
  obtain ⟨hv395, hb395⟩ := dblNat_bridge 21031055935967706759870504672876090487050540149921556642412179495682493380375 108161964508628899777651840451257950284487095836317515373670292743416562412436 44671622558928358301689488965028298086637593474810525607774261515816999740066 63123243396192826919155756638861043148832194893176354376125433130862500595098 99373573484077936781211886624441647580332534876535725820186905059265501147958 (by decide) (by decide) (by decide) (by decide) (by decide) (by decide) (by decide) (by decide) (by decide)
  have hc395 : lift (.affine ((63123243396192826919155756638861043148832194893176354376125433130862500595098 : ℕ) : Int) ((99373573484077936781211886624441647580332534876535725820186905059265501147958 : ℕ) : Int)) = 421249166674228746791672110734681729274007245400116169121629948282 • Gm := by
    rw [hb395, hc394, ← add_nsmul]
  obtain ⟨hv396, hb396⟩ := dblNat_bridge 63123243396192826919155756638861043148832194893176354376125433130862500595098 99373573484077936781211886624441647580332534876535725820186905059265501147958 68950172848667915002128334619292203655723219371349770355325517763969536850391 13161423481157291169910211699767678875920418015682487910374987771823395127906 26761102001975719697423562341127293073306894072739185700706862527338258423991 (by decide) (by decide) (by decide) (by decide) (by decide) (by decide) (by decide) (by decide) (by decide)
  have hc396 : lift (.affine ((13161423481157291169910211699767678875920418015682487910374987771823395127906 : ℕ) : Int) ((26761102001975719697423562341127293073306894072739185700706862527338258423991 : ℕ) : Int)) = 842498333348457493583344221469363458548014490800232338243259896564 • Gm := by
    rw [hb396, hc395, ← add_nsmul]
  obtain ⟨hv397, hb397⟩ := dblNat_bridge 13161423481157291169910211699767678875920418015682487910374987771823395127906 26761102001975719697423562341127293073306894072739185700706862527338258423991 53058853770613632768839090192316439991330938869111149969043094415496483379689 83159464364241793626490677492345151534297885586080204975256714687403632211045 18397296792668741617687407593400629615388153093027969905492099881466410701521 (by decide) (by decide) (by decide) (by decide) (by decide) (by decide) (by decide) (by decide) (by decide)
  have hc397 : lift (.affine ((83159464364241793626490677492345151534297885586080204975256714687403632211045 : ℕ) : Int) ((18397296792668741617687407593400629615388153093027969905492099881466410701521 : ℕ) : Int)) = 1684996666696914987166688442938726917096028981600464676486519793128 • Gm := by
    rw [hb397, hc396, ← add_nsmul]
  obtain ⟨hv398, hb398⟩ := dblNat_bridge 83159464364241793626490677492345151534297885586080204975256714687403632211045 18397296792668741617687407593400629615388153093027969905492099881466410701521 27150364718181406873354888074419920024886368542438683128994702411913714927840 6356915968335490873658867269148409157419202765729154301206251971618386530566 71017370800857788829050144390089091054906359946994036196797601108827982887607 (by decide) (by decide) (by decide) (by decide) (by decide) (by decide) (by decide) (by decide) (by decide)
  have hc398 : lift (.affine ((6356915968335490873658867269148409157419202765729154301206251971618386530566 : ℕ) : Int) ((71017370800857788829050144390089091054906359946994036196797601108827982887607 : ℕ) : Int)) = 3369993333393829974333376885877453834192057963200929352973039586256 • Gm := by
    rw [hb398, hc397, ← add_nsmul]
  obtain ⟨hv399, hb399⟩ := addNat_bridge 6356915968335490873658867269148409157419202765729154301206251971618386530566 71017370800857788829050144390089091054906359946994036196797601108827982887607 55066263022277343669578718895168534326250603453777594175500187360389116729240 32670510020758816978083085130507043184471273380659243275938904335757337482424 59861968209134094444018695662315955608376035762732443223782409185665722770503 69802861379663274156883918247549209165702025022768899821899608077870135173796 4779111672625503603264269955231860866024275923650799049393178691067292367865 (by decide) (by decide) (by decide) (by decide) (by decide) (by decide) (by decide) (by decide) (by decide) (by decide) (by decide) (by decide)
  have hc399 : lift (.affine ((69802861379663274156883918247549209165702025022768899821899608077870135173796 : ℕ) : Int) ((4779111672625503603264269955231860866024275923650799049393178691067292367865 : ℕ) : Int)) = 3369993333393829974333376885877453834192057963200929352973039586257 • Gm := by
    rw [hb399, hc398, hlG, ← add_nsmul]
  obtain ⟨hv400, hb400⟩ := dblNat_bridge 69802861379663274156883918247549209165702025022768899821899608077870135173796 4779111672625503603264269955231860866024275923650799049393178691067292367865 30611184118166673927976897589316539697030665411372079693109925146382405908211 63238994063520635512635448493188136684444791799077083877384106804659472392802 22466551545141115398073286679328164347460105770294946761846112439042650523228 (by decide) (by decide) (by decide) (by decide) (by decide) (by decide) (by decide) (by decide) (by decide)
  have hc400 : lift (.affine ((63238994063520635512635448493188136684444791799077083877384106804659472392802 : ℕ) : Int) ((22466551545141115398073286679328164347460105770294946761846112439042650523228 : ℕ) : Int)) = 6739986666787659948666753771754907668384115926401858705946079172514 • Gm := by
    rw [hb400, hc399, ← add_nsmul]
  exact ⟨hv400, hc400⟩

/-- Steps 401–410 of the double-and-add certificate chain for the order of `G`. -/
theorem ordBlock40 :
    lift (Point.affine ((55066263022277343669578718895168534326250603453777594175500187360389116729240 : ℕ) : Int) ((32670510020758816978083085130507043184471273380659243275938904335757337482424 : ℕ) : Int)) = 1 • Gm →
    (Point.Valid (.affine ((63238994063520635512635448493188136684444791799077083877384106804659472392802 : ℕ) : Int) ((22466551545141115398073286679328164347460105770294946761846112439042650523228 : ℕ) : Int)) ∧
      lift (.affine ((63238994063520635512635448493188136684444791799077083877384106804659472392802 : ℕ) : Int) ((22466551545141115398073286679328164347460105770294946761846112439042650523228 : ℕ) : Int)) = 6739986666787659948666753771754907668384115926401858705946079172514 • Gm) →
    Point.Valid (.affine ((5804709883914192370778410396889141702011119010407804009627019914154075469504 : ℕ) : Int) ((5409403574623460125388445051564230661713621798149808610078116338120665713777 : ℕ) : Int)) ∧
      lift (.affine ((5804709883914192370778410396889141702011119010407804009627019914154075469504 : ℕ) : Int) ((5409403574623460125388445051564230661713621798149808610078116338120665713777 : ℕ) : Int)) = 431359146674410236714672241392314090776583419289718957180549067040973 • Gm := by
  intro hlG h
  obtain ⟨hv, hl⟩ := h
  obtain ⟨hv401, hb401⟩ := addNat_bridge 63238994063520635512635448493188136684444791799077083877384106804659472392802 22466551545141115398073286679328164347460105770294946761846112439042650523228 55066263022277343669578718895168534326250603453777594175500187360389116729240 32670510020758816978083085130507043184471273380659243275938904335757337482424 49971312477662490697653911057108426851255090889775687544489180318025320358063 53941131544381399538593460932962560097756644837955424994546500058598606494474 63394061225666798359149887109446608681433089858195532635264203341963375877759 (by decide) (by decide) (by decide) (by decide) (by decide) (by decide) (by decide) (by decide) (by decide) (by decide) (by decide) (by decide)
  have hc401 : lift (.affine ((53941131544381399538593460932962560097756644837955424994546500058598606494474 : ℕ) : Int) ((63394061225666798359149887109446608681433089858195532635264203341963375877759 : ℕ) : Int)) = 6739986666787659948666753771754907668384115926401858705946079172515 • Gm := by
    rw [hb401, hl, hlG, ← add_nsmul]
  obtain ⟨hv402, hb402⟩ := dblNat_bridge 53941131544381399538593460932962560097756644837955424994546500058598606494474 63394061225666798359149887109446608681433089858195532635264203341963375877759 46460046702029378697988854569817795393618067467419017017789960434916132073818 84079735884178049247985623522779886027050672082517017912498225762088634399237 20664942847917396229158067902884869489453089176487814335876771752356378318902 (by decide) (by decide) (by decide) (by decide) (by decide) (by decide) (by decide) (by decide) (by decide)
  have hc402 : lift (.affine ((84079735884178049247985623522779886027050672082517017912498225762088634399237 : ℕ) : Int) ((20664942847917396229158067902884869489453089176487814335876771752356378318902 : ℕ) : Int)) = 13479973333575319897333507543509815336768231852803717411892158345030 • Gm := by
    rw [hb402, hc401, ← add_nsmul]
  obtain ⟨hv403, hb403⟩ := dblNat_bridge 84079735884178049247985623522779886027050672082517017912498225762088634399237 20664942847917396229158067902884869489453089176487814335876771752356378318902 47242304218372099177113838068651061281998642554510014847487981901564783307460 52950113734379978834285708195116877708433501691498224564508740991752088246881 107755904324268202193378651250843500936777087902814227553908609307377266828915 (by decide) (by decide) (by decide) (by decide) (by decide) (by decide) (by decide) (by decide) (by decide)
  have hc403 : lift (.affine ((52950113734379978834285708195116877708433501691498224564508740991752088246881 : ℕ) : Int) ((107755904324268202193378651250843500936777087902814227553908609307377266828915 : ℕ) : Int)) = 26959946667150639794667015087019630673536463705607434823784316690060 • Gm := by
    rw [hb403, hc402, ← add_nsmul]
  obtain ⟨hv404, hb404⟩ := dblNat_bridge 52950113734379978834285708195116877708433501691498224564508740991752088246881 107755904324268202193378651250843500936777087902814227553908609307377266828915 53254317426408557082111826031507325670556158979607117877356116208710053310820 34105462489112171867687027986657578316510313413302065282178263994411164223867 15854370468919778129559104916320600332032043902529577849934725295783073234980 (by decide) (by decide) (by decide) (by decide) (by decide) (by decide) (by decide) (by decide) (by decide)
  have hc404 : lift (.affine ((34105462489112171867687027986657578316510313413302065282178263994411164223867 : ℕ) : Int) ((15854370468919778129559104916320600332032043902529577849934725295783073234980 : ℕ) : Int)) = 53919893334301279589334030174039261347072927411214869647568633380120 • Gm := by
    rw [hb404, hc403, ← add_nsmul]
  obtain ⟨hv405, hb405⟩ := addNat_bridge 34105462489112171867687027986657578316510313413302065282178263994411164223867 15854370468919778129559104916320600332032043902529577849934725295783073234980 55066263022277343669578718895168534326250603453777594175500187360389116729240 32670510020758816978083085130507043184471273380659243275938904335757337482424 111209208734266220636415294526477024778495469077516376388240923629156253104 82849136141271926305773342742596379822168667019446781418604039134997183856068 10392837810165250340841071359326597358703060866121249557488568873726473157566 (by decide) (by decide) (by decide) (by decide) (by decide) (by decide) (by decide) (by decide) (by decide) (by decide) (by decide) (by decide)
  have hc405 : lift (.affine ((82849136141271926305773342742596379822168667019446781418604039134997183856068 : ℕ) : Int) ((10392837810165250340841071359326597358703060866121249557488568873726473157566 : ℕ) : Int)) = 53919893334301279589334030174039261347072927411214869647568633380121 • Gm := by
    rw [hb405, hc404, hlG, ← add_nsmul]
  obtain ⟨hv406, hb406⟩ := dblNat_bridge 82849136141271926305773342742596379822168667019446781418604039134997183856068 10392837810165250340841071359326597358703060866121249557488568873726473157566 42559434544526028646786250726722923304763323856809783191198665001688028472344 14991680676499089325647865488593908420906174368898702429212004545254801238838 48331042272430529242500638772990468649126524722588973124650282210681390340662 (by decide) (by decide) (by decide) (by decide) (by decide) (by decide) (by decide) (by decide) (by decide)
  have hc406 : lift (.affine ((14991680676499089325647865488593908420906174368898702429212004545254801238838 : ℕ) : Int) ((48331042272430529242500638772990468649126524722588973124650282210681390340662 : ℕ) : Int)) = 107839786668602559178668060348078522694145854822429739295137266760242 • Gm := by
    rw [hb406, hc405, ← add_nsmul]
  obtain ⟨hv407, hb407⟩ := addNat_bridge 14991680676499089325647865488593908420906174368898702429212004545254801238838 48331042272430529242500638772990468649126524722588973124650282210681390340662 55066263022277343669578718895168534326250603453777594175500187360389116729240 32670510020758816978083085130507043184471273380659243275938904335757337482424 7924616453064644246005047751313736719918570207213323770393979196369640750430 112059775288665436729153200160042885990251140582387076060024400994722750403557 93705592453836940053918968854659444613728660538750876148427673706435244964500 (by decide) (by decide) (by decide) (by decide) (by decide) (by decide) (by decide) (by decide) (by decide) (by decide) (by decide) (by decide)
  have hc407 : lift (.affine ((112059775288665436729153200160042885990251140582387076060024400994722750403557 : ℕ) : Int) ((93705592453836940053918968854659444613728660538750876148427673706435244964500 : ℕ) : Int)) = 107839786668602559178668060348078522694145854822429739295137266760243 • Gm := by
    rw [hb407, hc406, hlG, ← add_nsmul]
  obtain ⟨hv408, hb408⟩ := dblNat_bridge 112059775288665436729153200160042885990251140582387076060024400994722750403557 93705592453836940053918968854659444613728660538750876148427673706435244964500 47814775797811008035381717633875950014750486558256779639057599158276250064557 17396091751216814903872725253762263328577448003805540757621856656117857773055 83039044243844949675986547076434369029063926137452826070513965167429789001208 (by decide) (by decide) (by decide) (by decide) (by decide) (by decide) (by decide) (by decide) (by decide)
  have hc408 : lift (.affine ((17396091751216814903872725253762263328577448003805540757621856656117857773055 : ℕ) : Int) ((83039044243844949675986547076434369029063926137452826070513965167429789001208 : ℕ) : Int)) = 215679573337205118357336120696157045388291709644859478590274533520486 • Gm := by
    rw [hb408, hc407, ← add_nsmul]
  obtain ⟨hv409, hb409⟩ := dblNat_bridge 17396091751216814903872725253762263328577448003805540757621856656117857773055 83039044243844949675986547076434369029063926137452826070513965167429789001208 13229968096782949393440140623909413195844092914333192180299959091556808344934 34746933840354883238115121087799493158865325352569234360694046922716440970437 78031891100743157511699313770163929973855181706609429202996479810131933970574 (by decide) (by decide) (by decide) (by decide) (by decide) (by decide) (by decide) (by decide) (by decide)
  have hc409 : lift (.affine ((34746933840354883238115121087799493158865325352569234360694046922716440970437 : ℕ) : Int) ((78031891100743157511699313770163929973855181706609429202996479810131933970574 : ℕ) : Int)) = 431359146674410236714672241392314090776583419289718957180549067040972 • Gm := by
    rw [hb409, hc408, ← add_nsmul]
  obtain ⟨hv410, hb410⟩ := addNat_bridge 34746933840354883238115121087799493158865325352569234360694046922716440970437 78031891100743157511699313770163929973855181706609429202996479810131933970574 55066263022277343669578718895168534326250603453777594175500187360389116729240 32670510020758816978083085130507043184471273380659243275938904335757337482424 105423769882431166234572860515307501371839288075235312507555350105383543567687 5804709883914192370778410396889141702011119010407804009627019914154075469504 5409403574623460125388445051564230661713621798149808610078116338120665713777 (by decide) (by decide) (by decide) (by decide) (by decide) (by decide) (by decide) (by decide) (by decide) (by decide) (by decide) (by decide)
  have hc410 : lift (.affine ((5804709883914192370778410396889141702011119010407804009627019914154075469504 : ℕ) : Int) ((5409403574623460125388445051564230661713621798149808610078116338120665713777 : ℕ) : Int)) = 431359146674410236714672241392314090776583419289718957180549067040973 • Gm := by
    rw [hb410, hc409, hlG, ← add_nsmul]
  exact ⟨hv410, hc410⟩

/-- Steps 411–420 of the double-and-add certificate chain for the order of `G`. -/
theorem ordBlock41 :
    lift (Point.affine ((55066263022277343669578718895168534326250603453777594175500187360389116729240 : ℕ) : Int) ((32670510020758816978083085130507043184471273380659243275938904335757337482424 : ℕ) : Int)) = 1 • Gm →
    (Point.Valid (.affine ((5804709883914192370778410396889141702011119010407804009627019914154075469504 : ℕ) : Int) ((5409403574623460125388445051564230661713621798149808610078116338120665713777 : ℕ) : Int)) ∧
      lift (.affine ((5804709883914192370778410396889141702011119010407804009627019914154075469504 : ℕ) : Int) ((5409403574623460125388445051564230661713621798149808610078116338120665713777 : ℕ) : Int)) = 431359146674410236714672241392314090776583419289718957180549067040973 • Gm) →
    Point.Valid (.affine ((20878860472193544838611047466727475479302360019537929857912410209536306429400 : ℕ) : Int) ((113399120394279196440398736963830384214771855864306564226164315989700079204885 : ℕ) : Int)) ∧
      lift (.affine ((20878860472193544838611047466727475479302360019537929857912410209536306429400 : ℕ) : Int) ((113399120394279196440398736963830384214771855864306564226164315989700079204885 : ℕ) : Int)) = 110427941548649020598956093796432407238805355338168053038220561162489091 • Gm := by
  intro hlG h
  obtain ⟨hv, hl⟩ := h
  obtain ⟨hv411, hb411⟩ := dblNat_bridge 5804709883914192370778410396889141702011119010407804009627019914154075469504 5409403574623460125388445051564230661713621798149808610078116338120665713777 112275204698392100546090017049416844950092096037250600967357177131976952269540 51336160558839349837474591732330749102866037350371194898205755851778803002782 76342430522743943193407615919970424164765339537756667050307509898681857771746 (by decide) (by decide) (by decide) (by decide) (by decide) (by decide) (by decide) (by decide) (by decide)
  have hc411 : lift (.affine ((51336160558839349837474591732330749102866037350371194898205755851778803002782 : ℕ) : Int) ((76342430522743943193407615919970424164765339537756667050307509898681857771746 : ℕ) : Int)) = 862718293348820473429344482784628181553166838579437914361098134081946 • Gm := by
    rw [hb411, hl, ← add_nsmul]
  obtain ⟨hv412, hb412⟩ := dblNat_bridge 51336160558839349837474591732330749102866037350371194898205755851778803002782 76342430522743943193407615919970424164765339537756667050307509898681857771746 20517562239303789033074579058035324693538695793598253665614466237865108872872 54175458185633904999638639945804265990409207070103192887854426491777346816427 62410503854165716423110605270756927205721079515593939261908493722995697816209 (by decide) (by decide) (by decide) (by decide) (by decide) (by decide) (by decide) (by decide) (by decide)
  have hc412 : lift (.affine ((54175458185633904999638639945804265990409207070103192887854426491777346816427 : ℕ) : Int) ((62410503854165716423110605270756927205721079515593939261908493722995697816209 : ℕ) : Int)) = 1725436586697640946858688965569256363106333677158875828722196268163892 • Gm := by
    rw [hb412, hc411, ← add_nsmul]
  obtain ⟨hv413, hb413⟩ := dblNat_bridge 54175458185633904999638639945804265990409207070103192887854426491777346816427 62410503854165716423110605270756927205721079515593939261908493722995697816209 91090224081983655451850474732644234505902065648938057880459545720816899623694 39877150169646613301122484586511764534950211157666558605306807245277997682101 36712547501092396196800138788043006279947354785246403736577098656409710870527 (by decide) (by decide) (by decide) (by decide) (by decide) (by decide) (by decide) (by decide) (by decide)
  have hc413 : lift (.affine ((39877150169646613301122484586511764534950211157666558605306807245277997682101 : ℕ) : Int) ((36712547501092396196800138788043006279947354785246403736577098656409710870527 : ℕ) : Int)) = 3450873173395281893717377931138512726212667354317751657444392536327784 • Gm := by
    rw [hb413, hc412, ← add_nsmul]
  obtain ⟨hv414, hb414⟩ := dblNat_bridge 39877150169646613301122484586511764534950211157666558605306807245277997682101 36712547501092396196800138788043006279947354785246403736577098656409710870527 102423539819550730227000081371892681137800682288540175568582820714354925453411 7893201664640008920806582252367587035964015976935389231079284945791945067475 4095719920293782198332212114043502749486248048593439897750911835779110736224 (by decide) (by decide) (by decide) (by decide) (by decide) (by decide) (by decide) (by decide) (by decide)
  have hc414 : lift (.affine ((7893201664640008920806582252367587035964015976935389231079284945791945067475 : ℕ) : Int) ((4095719920293782198332212114043502749486248048593439897750911835779110736224 : ℕ) : Int)) = 6901746346790563787434755862277025452425334708635503314888785072655568 • Gm := by
    rw [hb414, hc413, ← add_nsmul]
  obtain ⟨hv415, hb415⟩ := dblNat_bridge 7893201664640008920806582252367587035964015976935389231079284945791945067475 4095719920293782198332212114043502749486248048593439897750911835779110736224 95624569959859286871816726777271430547442799075233957424096731985652624918766 27295057852023188178352509698839114322816164634544383227010367796461654093338 108811885871862978406669613319217401722595954727904476679075581034284041707329 (by decide) (by decide) (by decide) (by decide) (by decide) (by decide) (by decide) (by decide) (by decide)
  have hc415 : lift (.affine ((27295057852023188178352509698839114322816164634544383227010367796461654093338 : ℕ) : Int) ((108811885871862978406669613319217401722595954727904476679075581034284041707329 : ℕ) : Int)) = 13803492693581127574869511724554050904850669417271006629777570145311136 • Gm := by
    rw [hb415, hc414, ← add_nsmul]
  obtain ⟨hv416, hb416⟩ := dblNat_bridge 27295057852023188178352509698839114322816164634544383227010367796461654093338 108811885871862978406669613319217401722595954727904476679075581034284041707329 59231804136275453926295038460296337947408738363802238539868386690706341430338 64295065559459868511055323816026745869108175724754320247996764619262287771215 53113262924638100309927716640535683417350527070043493541428128824336825906626 (by decide) (by decide) (by decide) (by decide) (by decide) (by decide) (by decide) (by decide) (by decide)
  have hc416 : lift (.affine ((64295065559459868511055323816026745869108175724754320247996764619262287771215 : ℕ) : Int) ((53113262924638100309927716640535683417350527070043493541428128824336825906626 : ℕ) : Int)) = 27606985387162255149739023449108101809701338834542013259555140290622272 • Gm := by
    rw [hb416, hc415, ← add_nsmul]
  obtain ⟨hv417, hb417⟩ := dblNat_bridge 64295065559459868511055323816026745869108175724754320247996764619262287771215 53113262924638100309927716640535683417350527070043493541428128824336825906626 98564853247266037730354579686197326653743751603070486505602734602585686203051 111726416561113566907889784550974779345686051991019232633724893156168499774187 115653438913195307237484473110883901650960178010984293778674319858612096892537 (by decide) (by decide) (by decide) (by decide) (by decide) (by decide) (by decide) (by decide) (by decide)
  have hc417 : lift (.affine ((111726416561113566907889784550974779345686051991019232633724893156168499774187 : ℕ) : Int) ((115653438913195307237484473110883901650960178010984293778674319858612096892537 : ℕ) : Int)) = 55213970774324510299478046898216203619402677669084026519110280581244544 • Gm := by
    rw [hb417, hc416, ← add_nsmul]
  obtain ⟨hv418, hb418⟩ := addNat_bridge 111726416561113566907889784550974779345686051991019232633724893156168499774187 115653438913195307237484473110883901650960178010984293778674319858612096892537 55066263022277343669578718895168534326250603453777594175500187360389116729240 32670510020758816978083085130507043184471273380659243275938904335757337482424 96594065513478085730600499522130124320463990616918552103646396413628891132229 15862838356950539754383087983557406982604668697913126974635649627236514952699 15691285949066730367392885378710572182910814541058793317746651950549109278464 (by decide) (by decide) (by decide) (by decide) (by decide) (by decide) (by decide) (by decide) (by decide) (by decide) (by decide) (by decide)
  have hc418 : lift (.affine ((15862838356950539754383087983557406982604668697913126974635649627236514952699 : ℕ) : Int) ((15691285949066730367392885378710572182910814541058793317746651950549109278464 : ℕ) : Int)) = 55213970774324510299478046898216203619402677669084026519110280581244545 • Gm := by
    rw [hb418, hc417, hlG, ← add_nsmul]
  obtain ⟨hv419, hb419⟩ := dblNat_bridge 15862838356950539754383087983557406982604668697913126974635649627236514952699 15691285949066730367392885378710572182910814541058793317746651950549109278464 46900468023706579398174179709290279377920341194316198703485188042554130784639 110904189467635711112812007672148107326239248831735147157863997220118030663524 31635766649653011188951587435435293852854655389095272309500577378987397960176 (by decide) (by decide) (by decide) (by decide) (by decide) (by decide) (by decide) (by decide) (by decide)
  have hc419 : lift (.affine ((110904189467635711112812007672148107326239248831735147157863997220118030663524 : ℕ) : Int) ((31635766649653011188951587435435293852854655389095272309500577378987397960176 : ℕ) : Int)) = 110427941548649020598956093796432407238805355338168053038220561162489090 • Gm := by
    rw [hb419, hc418, ← add_nsmul]
  obtain ⟨hv420, hb420⟩ := addNat_bridge 110904189467635711112812007672148107326239248831735147157863997220118030663524 31635766649653011188951587435435293852854655389095272309500577378987397960176 55066263022277343669578718895168534326250603453777594175500187360389116729240 32670510020758816978083085130507043184471273380659243275938904335757337482424 57981969076346083782346285299264120810126869171532838889748806366362098289431 20878860472193544838611047466727475479302360019537929857912410209536306429400 113399120394279196440398736963830384214771855864306564226164315989700079204885 (by decide) (by decide) (by decide) (by decide) (by decide) (by decide) (by decide) (by decide) (by decide) (by decide) (by decide) (by decide)
  have hc420 : lift (.affine ((20878860472193544838611047466727475479302360019537929857912410209536306429400 : ℕ) : Int) ((113399120394279196440398736963830384214771855864306564226164315989700079204885 : ℕ) : Int)) = 110427941548649020598956093796432407238805355338168053038220561162489091 • Gm := by
    rw [hb420, hc419, hlG, ← add_nsmul]
  exact ⟨hv420, hc420⟩

/-- Steps 421–430 of the double-and-add certificate chain for the order of `G`. -/
theorem ordBlock42 :
    lift (Point.affine ((55066263022277343669578718895168534326250603453777594175500187360389116729240 : ℕ) : Int) ((32670510020758816978083085130507043184471273380659243275938904335757337482424 : ℕ) : Int)) = 1 • Gm →
    (Point.Valid (.affine ((20878860472193544838611047466727475479302360019537929857912410209536306429400 : ℕ) : Int) ((113399120394279196440398736963830384214771855864306564226164315989700079204885 : ℕ) : Int)) ∧
      lift (.affine ((20878860472193544838611047466727475479302360019537929857912410209536306429400 : ℕ) : Int) ((113399120394279196440398736963830384214771855864306564226164315989700079204885 : ℕ) : Int)) = 110427941548649020598956093796432407238805355338168053038220561162489091 • Gm) →
    Point.Valid (.affine ((78164015944777638834319480217803113921930706290681283395949422776130412801409 : ℕ) : Int) ((100646258335384375599961401048218805335508087685224651768479683869008353231906 : ℕ) : Int)) ∧
      lift (.affine ((78164015944777638834319480217803113921930706290681283395949422776130412801409 : ℕ) : Int) ((100646258335384375599961401048218805335508087685224651768479683869008353231906 : ℕ) : Int)) = 14134776518227074636666380005943348126567085483285510788892231828798603698 • Gm := by
  intro hlG h
  obtain ⟨hv, hl⟩ := h
  obtain ⟨hv421, hb421⟩ := dblNat_bridge 20878860472193544838611047466727475479302360019537929857912410209536306429400 113399120394279196440398736963830384214771855864306564226164315989700079204885 41471090203510463782799132230937395612615263100057355638733492450340714343501 101277527878409677057824313770305853359458296217563959277667182086037892796448 83217589894951384687370727650723579095723126082181991345223172637376229330379 (by decide) (by decide) (by decide) (by decide) (by decide) (by decide) (by decide) (by decide) (by decide)
  have hc421 : lift (.affine ((101277527878409677057824313770305853359458296217563959277667182086037892796448 : ℕ) : Int) ((83217589894951384687370727650723579095723126082181991345223172637376229330379 : ℕ) : Int)) = 220855883097298041197912187592864814477610710676336106076441122324978182 • Gm := by
    rw [hb421, hl, ← add_nsmul]
  obtain ⟨hv422, hb422⟩ := dblNat_bridge 101277527878409677057824313770305853359458296217563959277667182086037892796448 83217589894951384687370727650723579095723126082181991345223172637376229330379 106127649014467955747866497174999786365586628799999890619441317550145101898219 112174927492451968580869332692695083041862446811380525680309896979690694310265 87767468075371741843026707478972014045819800403139752996708973962530916543472 (by decide) (by decide) (by decide) (by decide) (by decide) (by decide) (by decide) (by decide) (by decide)
  have hc422 : lift (.affine ((112174927492451968580869332692695083041862446811380525680309896979690694310265 : ℕ) : Int) ((87767468075371741843026707478972014045819800403139752996708973962530916543472 : ℕ) : Int)) = 441711766194596082395824375185729628955221421352672212152882244649956364 • Gm := by
    rw [hb422, hc421, ← add_nsmul]
  obtain ⟨hv423, hb423⟩ := addNat_bridge 112174927492451968580869332692695083041862446811380525680309896979690694310265 87767468075371741843026707478972014045819800403139752996708973962530916543472 55066263022277343669578718895168534326250603453777594175500187360389116729240 32670510020758816978083085130507043184471273380659243275938904335757337482424 68879954666366515303508605343708680882077487098383880031801087996247584099274 50128597015436506323880135878500753532367204250916475169201672060516291379040 94859944951475537710461582738248592378688122334492404803773899157744857409433 (by decide) (by decide) (by decide) (by decide) (by decide) (by decide) (by decide) (by decide) (by decide) (by decide) (by decide) (by decide)
  have hc423 : lift (.affine ((50128597015436506323880135878500753532367204250916475169201672060516291379040 : ℕ) : Int) ((94859944951475537710461582738248592378688122334492404803773899157744857409433 : ℕ) : Int)) = 441711766194596082395824375185729628955221421352672212152882244649956365 • Gm := by
    rw [hb423, hc422, hlG, ← add_nsmul]
  obtain ⟨hv424, hb424⟩ := dblNat_bridge 50128597015436506323880135878500753532367204250916475169201672060516291379040 94859944951475537710461582738248592378688122334492404803773899157744857409433 34006520613133390538275389065284499769214935364628292987610955629117046874289 108248465668173008801517088653610273659406123462774231766797663797033183151792 49572135844739421763014527736660958539396321316208383948982098039368686001653 (by decide) (by decide) (by decide) (by decide) (by decide) (by decide) (by decide) (by decide) (by decide)
  have hc424 : lift (.affine ((108248465668173008801517088653610273659406123462774231766797663797033183151792 : ℕ) : Int) ((49572135844739421763014527736660958539396321316208383948982098039368686001653 : ℕ) : Int)) = 883423532389192164791648750371459257910442842705344424305764489299912730 • Gm := by
    rw [hb424, hc423, ← add_nsmul]
  obtain ⟨hv425, hb425⟩ := addNat_bridge 108248465668173008801517088653610273659406123462774231766797663797033183151792 49572135844739421763014527736660958539396321316208383948982098039368686001653 55066263022277343669578718895168534326250603453777594175500187360389116729240 32670510020758816978083085130507043184471273380659243275938904335757337482424 1062744858843338393352154584129700114842625194357111907050485510398951414825 97861445442402600255152598988235049945166663649835115007956029179272160852555 99738524973994974040884625665421839024079072915878351179940356792358859281648 (by decide) (by decide) (by decide) (by decide) (by decide) (by decide) (by decide) (by decide) (by decide) (by decide) (by decide) (by decide)
  have hc425 : lift (.affine ((97861445442402600255152598988235049945166663649835115007956029179272160852555 : ℕ) : Int) ((99738524973994974040884625665421839024079072915878351179940356792358859281648 : ℕ) : Int)) = 883423532389192164791648750371459257910442842705344424305764489299912731 • Gm := by
    rw [hb425, hc424, hlG, ← add_nsmul]
  obtain ⟨hv426, hb426⟩ := dblNat_bridge 97861445442402600255152598988235049945166663649835115007956029179272160852555 99738524973994974040884625665421839024079072915878351179940356792358859281648 35278516043341409362232276512027994374973967185295879198871993300256187059355 59391522668249385334376009645687768472252124611035097846394708269882073284523 106808109526191560568067197676741812315022724890485712949545067320012236917940 (by decide) (by decide) (by decide) (by decide) (by decide) (by decide) (by decide) (by decide) (by decide)
  have hc426 : lift (.affine ((59391522668249385334376009645687768472252124611035097846394708269882073284523 : ℕ) : Int) ((106808109526191560568067197676741812315022724890485712949545067320012236917940 : ℕ) : Int)) = 1766847064778384329583297500742918515820885685410688848611528978599825462 • Gm := by
    rw [hb426, hc425, ← add_nsmul]
  obtain ⟨hv427, hb427⟩ := dblNat_bridge 59391522668249385334376009645687768472252124611035097846394708269882073284523 106808109526191560568067197676741812315022724890485712949545067320012236917940 65281689579098518387649255742457836607118248683630970557760332106814984842062 69592302969180992467309301503499417124941891865979129402920579834307866878829 7346024151117804201244492339787858520112294056942496904431909633408897913873 (by decide) (by decide) (by decide) (by decide) (by decide) (by decide) (by decide) (by decide) (by decide)
  have hc427 : lift (.affine ((69592302969180992467309301503499417124941891865979129402920579834307866878829 : ℕ) : Int) ((7346024151117804201244492339787858520112294056942496904431909633408897913873 : ℕ) : Int)) = 3533694129556768659166595001485837031641771370821377697223057957199650924 • Gm := by
    rw [hb427, hc426, ← add_nsmul]
  obtain ⟨hv428, hb428⟩ := dblNat_bridge 69592302969180992467309301503499417124941891865979129402920579834307866878829 7346024151117804201244492339787858520112294056942496904431909633408897913873 71007290510795814282765092236587719657630188071412031238789336941961334914875 72434307680486767767792012734640794099651267777436528504332807300936581975574 97017882324638877020480578225007737531487609484691293967258626016947303529563 (by decide) (by decide) (by decide) (by decide) (by decide) (by decide) (by decide) (by decide) (by decide)
  have hc428 : lift (.affine ((72434307680486767767792012734640794099651267777436528504332807300936581975574 : ℕ) : Int) ((97017882324638877020480578225007737531487609484691293967258626016947303529563 : ℕ) : Int)) = 7067388259113537318333190002971674063283542741642755394446115914399301848 • Gm := by
    rw [hb428, hc427, ← add_nsmul]
  obtain ⟨hv429, hb429⟩ := addNat_bridge 72434307680486767767792012734640794099651267777436528504332807300936581975574 97017882324638877020480578225007737531487609484691293967258626016947303529563 55066263022277343669578718895168534326250603453777594175500187360389116729240 32670510020758816978083085130507043184471273380659243275938904335757337482424 113400370937518160776592728961171348385366849938839131742590488370298774388011 110437429609366795961518081129801158273039555977823262926416896374637742837561 21680155284479200798883642127554003723069012559830693846805355283483765703013 (by decide) (by decide) (by decide) (by decide) (by decide) (by decide) (by decide) (by decide) (by decide) (by decide) (by decide) (by decide)
  have hc429 : lift (.affine ((110437429609366795961518081129801158273039555977823262926416896374637742837561 : ℕ) : Int) ((21680155284479200798883642127554003723069012559830693846805355283483765703013 : ℕ) : Int)) = 7067388259113537318333190002971674063283542741642755394446115914399301849 • Gm := by
    rw [hb429, hc428, hlG, ← add_nsmul]
  obtain ⟨hv430, hb430⟩ := dblNat_bridge 110437429609366795961518081129801158273039555977823262926416896374637742837561 21680155284479200798883642127554003723069012559830693846805355283483765703013 79523183148463261420068884681035561781091183481322429062265499754768524958832 78164015944777638834319480217803113921930706290681283395949422776130412801409 100646258335384375599961401048218805335508087685224651768479683869008353231906 (by decide) (by decide) (by decide) (by decide) (by decide) (by decide) (by decide) (by decide) (by decide)
  have hc430 : lift (.affine ((78164015944777638834319480217803113921930706290681283395949422776130412801409 : ℕ) : Int) ((100646258335384375599961401048218805335508087685224651768479683869008353231906 : ℕ) : Int)) = 14134776518227074636666380005943348126567085483285510788892231828798603698 • Gm := by
    rw [hb430, hc429, ← add_nsmul]
  exact ⟨hv430, hc430⟩

/-- Steps 431–440 of the double-and-add certificate chain for the order of `G`. -/
theorem ordBlock43 :
    lift (Point.affine ((55066263022277343669578718895168534326250603453777594175500187360389116729240 : ℕ) : Int) ((32670510020758816978083085130507043184471273380659243275938904335757337482424 : ℕ) : Int)) = 1 • Gm →
    (Point.Valid (.affine ((78164015944777638834319480217803113921930706290681283395949422776130412801409 : ℕ) : Int) ((100646258335384375599961401048218805335508087685224651768479683869008353231906 : ℕ) : Int)) ∧
      lift (.affine ((78164015944777638834319480217803113921930706290681283395949422776130412801409 : ℕ) : Int) ((100646258335384375599961401048218805335508087685224651768479683869008353231906 : ℕ) : Int)) = 14134776518227074636666380005943348126567085483285510788892231828798603698 • Gm) →
    Point.Valid (.affine ((84642857268339869727564516904922319555850247518954080446874590480634344123463 : ℕ) : Int) ((64241166637791051017643778517059322507131070991449172667120525485497263996380 : ℕ) : Int)) ∧
      lift (.affine ((84642857268339869727564516904922319555850247518954080446874590480634344123463 : ℕ) : Int) ((64241166637791051017643778517059322507131070991449172667120525485497263996380 : ℕ) : Int)) = 3618502788666131106986593281521497120401173883721090761956411348172442546698 • Gm := by
  intro hlG h
  obtain ⟨hv, hl⟩ := h
  obtain ⟨hv431, hb431⟩ := dblNat_bridge 78164015944777638834319480217803113921930706290681283395949422776130412801409 100646258335384375599961401048218805335508087685224651768479683869008353231906 74779360851922729060595490219140400307539671470914716919206193130373557598355 62929253125932293305085909287512759984784465343241193424108029486358722109703 113138709165993985620879376686854616346655120401997980567310892873133012587886 (by decide) (by decide) (by decide) (by decide) (by decide) (by decide) (by decide) (by decide) (by decide)
  have hc431 : lift (.affine ((62929253125932293305085909287512759984784465343241193424108029486358722109703 : ℕ) : Int) ((113138709165993985620879376686854616346655120401997980567310892873133012587886 : ℕ) : Int)) = 28269553036454149273332760011886696253134170966571021577784463657597207396 • Gm := by
    rw [hb431, hl, ← add_nsmul]
  obtain ⟨hv432, hb432⟩ := dblNat_bridge 62929253125932293305085909287512759984784465343241193424108029486358722109703 113138709165993985620879376686854616346655120401997980567310892873133012587886 10946584181021060276480125635006028432236839602023153355479743136032907923969 106050432517862033003794768725841664363695084372341318911307834580777045500123 66258697076292479776060001748874600124648630795185355893209870676642176466885 (by decide) (by decide) (by decide) (by decide) (by decide) (by decide) (by decide) (by decide) (by decide)
  have hc432 : lift (.affine ((106050432517862033003794768725841664363695084372341318911307834580777045500123 : ℕ) : Int) ((66258697076292479776060001748874600124648630795185355893209870676642176466885 : ℕ) : Int)) = 56539106072908298546665520023773392506268341933142043155568927315194414792 • Gm := by
    rw [hb432, hc431, ← add_nsmul]
  obtain ⟨hv433, hb433⟩ := dblNat_bridge 106050432517862033003794768725841664363695084372341318911307834580777045500123 66258697076292479776060001748874600124648630795185355893209870676642176466885 113901437917859635711340203501456399846013208809046923232980466637044715746565 7931288658701477188283378979983525071752828752346416149058424678847513344700 79766372818313010591503121991231911001120448853481094787913620798194151397431 (by decide) (by decide) (by decide) (by decide) (by decide) (by decide) (by decide) (by decide) (by decide)
  have hc433 : lift (.affine ((7931288658701477188283378979983525071752828752346416149058424678847513344700 : ℕ) : Int) ((79766372818313010591503121991231911001120448853481094787913620798194151397431 : ℕ) : Int)) = 113078212145816597093331040047546785012536683866284086311137854630388829584 • Gm := by
    rw [hb433, hc432, ← add_nsmul]
  obtain ⟨hv434, hb434⟩ := dblNat_bridge 7931288658701477188283378979983525071752828752346416149058424678847513344700 79766372818313010591503121991231911001120448853481094787913620798194151397431 105157902081124904963621958590440678708988896903574701298149660183899847269106 41976352824336635170107746163247862151514970729533299982255786806596259049947 70175066530458261036795851946447968061844485680990427881219454413308894032432 (by decide) (by decide) (by decide) (by decide) (by decide) (by decide) (by decide) (by decide) (by decide)
  have hc434 : lift (.affine ((41976352824336635170107746163247862151514970729533299982255786806596259049947 : ℕ) : Int) ((70175066530458261036795851946447968061844485680990427881219454413308894032432 : ℕ) : Int)) = 226156424291633194186662080095093570025073367732568172622275709260777659168 • Gm := by
    rw [hb434, hc433, ← add_nsmul]
  obtain ⟨hv435, hb435⟩ := dblNat_bridge 41976352824336635170107746163247862151514970729533299982255786806596259049947 70175066530458261036795851946447968061844485680990427881219454413308894032432 50186322624666192221804266628562865707616639791524999099991432476610883260478 83499942608586934155156092862186738963163073904586076596382520955370118547031 57955880679448588302626290836743106365690454253496451864107256830844327622381 (by decide) (by decide) (by decide) (by decide) (by decide) (by decide) (by decide) (by decide) (by decide)
  have hc435 : lift (.affine ((83499942608586934155156092862186738963163073904586076596382520955370118547031 : ℕ) : Int) ((57955880679448588302626290836743106365690454253496451864107256830844327622381 : ℕ) : Int)) = 452312848583266388373324160190187140050146735465136345244551418521555318336 • Gm := by
    rw [hb435, hc434, ← add_nsmul]
  obtain ⟨hv436, hb436⟩ := addNat_bridge 83499942608586934155156092862186738963163073904586076596382520955370118547031 57955880679448588302626290836743106365690454253496451864107256830844327622381 55066263022277343669578718895168534326250603453777594175500187360389116729240 32670510020758816978083085130507043184471273380659243275938904335757337482424 91308489138856948454741763757226086121977416420905885361179686733650767838222 52942308695625731948425767743651775434415211775777857896939345663136915289715 11303820511970585737970021402097521800506845197213002405890782779840324778246 (by decide) (by decide) (by decide) (by decide) (by decide) (by decide) (by decide) (by decide) (by decide) (by decide) (by decide) (by decide)
  have hc436 : lift (.affine ((52942308695625731948425767743651775434415211775777857896939345663136915289715 : ℕ) : Int) ((11303820511970585737970021402097521800506845197213002405890782779840324778246 : ℕ) : Int)) = 452312848583266388373324160190187140050146735465136345244551418521555318337 • Gm := by
    rw [hb436, hc435, hlG, ← add_nsmul]
  obtain ⟨hv437, hb437⟩ := dblNat_bridge 52942308695625731948425767743651775434415211775777857896939345663136915289715 11303820511970585737970021402097521800506845197213002405890782779840324778246 68990978147819585816346844496221983036120734083696140657111133045711225963878 80930162898664460249121342976928052968631685754930205986049359771563933952200 34978851231021614280594004669584477897419854475056008251063172587519422285112 (by decide) (by decide) (by decide) (by decide) (by decide) (by decide) (by decide) (by decide) (by decide)
  have hc437 : lift (.affine ((80930162898664460249121342976928052968631685754930205986049359771563933952200 : ℕ) : Int) ((34978851231021614280594004669584477897419854475056008251063172587519422285112 : ℕ) : Int)) = 904625697166532776746648320380374280100293470930272690489102837043110636674 • Gm := by
    rw [hb437, hc436, ← add_nsmul]
  obtain ⟨hv438, hb438⟩ := dblNat_bridge 80930162898664460249121342976928052968631685754930205986049359771563933952200 34978851231021614280594004669584477897419854475056008251063172587519422285112 2389570710643802754873584424574204143612124328305539259271012241884272892096 51803211423479368560521169388533234909293634243098000720575250092487057112204 31802339389234022653284756754865684598953551373449810462371665858880939389416 (by decide) (by decide) (by decide) (by decide) (by decide) (by decide) (by decide) (by decide) (by decide)
  have hc438 : lift (.affine ((51803211423479368560521169388533234909293634243098000720575250092487057112204 : ℕ) : Int) ((31802339389234022653284756754865684598953551373449810462371665858880939389416 : ℕ) : Int)) = 1809251394333065553493296640760748560200586941860545380978205674086221273348 • Gm := by
    rw [hb438, hc437, ← add_nsmul]
  obtain ⟨hv439, hb439⟩ := addNat_bridge 51803211423479368560521169388533234909293634243098000720575250092487057112204 31802339389234022653284756754865684598953551373449810462371665858880939389416 55066263022277343669578718895168534326250603453777594175500187360389116729240 32670510020758816978083085130507043184471273380659243275938904335757337482424 82467441763150666393101100944583923191392472975037324487640182199532843316433 110797270718717713930106986467755591525380337883468629733153285312838244170195 56216216227778204017389609900189580717931561557241616302043254022237862807340 (by decide) (by decide) (by decide) (by decide) (by decide) (by decide) (by decide) (by decide) (by decide) (by decide) (by decide) (by decide)
  have hc439 : lift (.affine ((110797270718717713930106986467755591525380337883468629733153285312838244170195 : ℕ) : Int) ((56216216227778204017389609900189580717931561557241616302043254022237862807340 : ℕ) : Int)) = 1809251394333065553493296640760748560200586941860545380978205674086221273349 • Gm := by
    rw [hb439, hc438, hlG, ← add_nsmul]
  obtain ⟨hv440, hb440⟩ := dblNat_bridge 110797270718717713930106986467755591525380337883468629733153285312838244170195 56216216227778204017389609900189580717931561557241616302043254022237862807340 79012837169972970237668561568565754559297944966293546224024891017816740131160 84642857268339869727564516904922319555850247518954080446874590480634344123463 64241166637791051017643778517059322507131070991449172667120525485497263996380 (by decide) (by decide) (by decide) (by decide) (by decide) (by decide) (by decide) (by decide) (by decide)
  have hc440 : lift (.affine ((84642857268339869727564516904922319555850247518954080446874590480634344123463 : ℕ) : Int) ((64241166637791051017643778517059322507131070991449172667120525485497263996380 : ℕ) : Int)) = 3618502788666131106986593281521497120401173883721090761956411348172442546698 • Gm := by
    rw [hb440, hc439, ← add_nsmul]
  exact ⟨hv440, hc440⟩

/-- Steps 441–445 of the double-and-add certificate chain for the order of `G`. -/
theorem ordBlock44 :
    lift (Point.affine ((55066263022277343669578718895168534326250603453777594175500187360389116729240 : ℕ) : Int) ((32670510020758816978083085130507043184471273380659243275938904335757337482424 : ℕ) : Int)) = 1 • Gm →
    (Point.Valid (.affine ((84642857268339869727564516904922319555850247518954080446874590480634344123463 : ℕ) : Int) ((64241166637791051017643778517059322507131070991449172667120525485497263996380 : ℕ) : Int)) ∧
      lift (.affine ((84642857268339869727564516904922319555850247518954080446874590480634344123463 : ℕ) : Int) ((64241166637791051017643778517059322507131070991449172667120525485497263996380 : ℕ) : Int)) = 3618502788666131106986593281521497120401173883721090761956411348172442546698 • Gm) →
    Point.Valid (.affine ((55066263022277343669578718895168534326250603453777594175500187360389116729240 : ℕ) : Int) ((83121579216557378445487899878180864668798711284981320763518679672151497189239 : ℕ) : Int)) ∧
      lift (.affine ((55066263022277343669578718895168534326250603453777594175500187360389116729240 : ℕ) : Int) ((83121579216557378445487899878180864668798711284981320763518679672151497189239 : ℕ) : Int)) = 115792089237316195423570985008687907852837564279074904382605163141518161494336 • Gm := by
  intro hlG h
  obtain ⟨hv, hl⟩ := h
  obtain ⟨hv441, hb441⟩ := dblNat_bridge 84642857268339869727564516904922319555850247518954080446874590480634344123463 64241166637791051017643778517059322507131070991449172667120525485497263996380 70220479870539443005644996838493025456729253460428610923870836584772623489441 112839188495024393875613997466401352049882793377525588507800512281722343576419 30630822197029742857447680855476168249489005013897222626921407650960832718276 (by decide) (by decide) (by decide) (by decide) (by decide) (by decide) (by decide) (by decide) (by decide)
  have hc441 : lift (.affine ((112839188495024393875613997466401352049882793377525588507800512281722343576419 : ℕ) : Int) ((30630822197029742857447680855476168249489005013897222626921407650960832718276 : ℕ) : Int)) = 7237005577332262213973186563042994240802347767442181523912822696344885093396 • Gm := by
    rw [hb441, hl, ← add_nsmul]
  obtain ⟨hv442, hb442⟩ := dblNat_bridge 112839188495024393875613997466401352049882793377525588507800512281722343576419 30630822197029742857447680855476168249489005013897222626921407650960832718276 111618936691348985583574296138361052868412172634243856723226619760846881451200 10391991325606944208174258751455365170433116985737046503271282614823041311303 26029484258878886523952200863127179315177598431280982924446788149129935759875 (by decide) (by decide) (by decide) (by decide) (by decide) (by decide) (by decide) (by decide) (by decide)
  have hc442 : lift (.affine ((10391991325606944208174258751455365170433116985737046503271282614823041311303 : ℕ) : Int) ((26029484258878886523952200863127179315177598431280982924446788149129935759875 : ℕ) : Int)) = 14474011154664524427946373126085988481604695534884363047825645392689770186792 • Gm := by
    rw [hb442, hc441, ← add_nsmul]
  obtain ⟨hv443, hb443⟩ := dblNat_bridge 10391991325606944208174258751455365170433116985737046503271282614823041311303 26029484258878886523952200863127179315177598431280982924446788149129935759875 21550480456693215703323281409812001762131297502973689598570636886626034031712 75404758482970552478342687949548602789701733940509850780379145804275702033212 51231939447366605701190019263228486011330128519473004560491454193878655241557 (by decide) (by decide) (by decide) (by decide) (by decide) (by decide) (by decide) (by decide) (by decide)
  have hc443 : lift (.affine ((75404758482970552478342687949548602789701733940509850780379145804275702033212 : ℕ) : Int) ((51231939447366605701190019263228486011330128519473004560491454193878655241557 : ℕ) : Int)) = 28948022309329048855892746252171976963209391069768726095651290785379540373584 • Gm := by
    rw [hb443, hc442, ← add_nsmul]
  obtain ⟨hv444, hb444⟩ := dblNat_bridge 75404758482970552478342687949548602789701733940509850780379145804275702033212 51231939447366605701190019263228486011330128519473004560491454193878655241557 43593449136217447544352503463618595374195372678159862701229152631761017742473 86918276961810349294276103416548851884759982251107 28597260016173315074988046521176122746119865902901063272803125467328307387891 (by decide) (by decide) (by decide) (by decide) (by decide) (by decide) (by decide) (by decide) (by decide)
  have hc444 : lift (.affine ((86918276961810349294276103416548851884759982251107 : ℕ) : Int) ((28597260016173315074988046521176122746119865902901063272803125467328307387891 : ℕ) : Int)) = 57896044618658097711785492504343953926418782139537452191302581570759080747168 • Gm := by
    rw [hb444, hc443, ← add_nsmul]
  obtain ⟨hv445, hb445⟩ := dblNat_bridge 86918276961810349294276103416548851884759982251107 28597260016173315074988046521176122746119865902901063272803125467328307387891 26965839571063133429837562686253150625459476579747687149534297236751445546434 55066263022277343669578718895168534326250603453777594175500187360389116729240 83121579216557378445487899878180864668798711284981320763518679672151497189239 (by decide) (by decide) (by decide) (by decide) (by decide) (by decide) (by decide) (by decide) (by decide)
  have hc445 : lift (.affine ((55066263022277343669578718895168534326250603453777594175500187360389116729240 : ℕ) : Int) ((83121579216557378445487899878180864668798711284981320763518679672151497189239 : ℕ) : Int)) = 115792089237316195423570985008687907852837564279074904382605163141518161494336 • Gm := by
    rw [hb445, hc444, ← add_nsmul]
  exact ⟨hv445, hc445⟩

/-- End of the certificate chain: `(Qn - 1) • Gm` is the negation of the generator. -/
theorem ordChain445 : Point.Valid (.affine ((55066263022277343669578718895168534326250603453777594175500187360389116729240 : ℕ) : Int) ((83121579216557378445487899878180864668798711284981320763518679672151497189239 : ℕ) : Int)) ∧ lift (.affine ((55066263022277343669578718895168534326250603453777594175500187360389116729240 : ℕ) : Int) ((83121579216557378445487899878180864668798711284981320763518679672151497189239 : ℕ) : Int)) = 115792089237316195423570985008687907852837564279074904382605163141518161494336 • Gm := by
  have hlG := ordChain0.2
  exact (ordBlock44 hlG (ordBlock43 hlG (ordBlock42 hlG (ordBlock41 hlG (ordBlock40 hlG (ordBlock39 hlG (ordBlock38 hlG (ordBlock37 hlG (ordBlock36 hlG (ordBlock35 hlG (ordBlock34 hlG (ordBlock33 hlG (ordBlock32 hlG (ordBlock31 hlG (ordBlock30 hlG (ordBlock29 hlG (ordBlock28 hlG (ordBlock27 hlG (ordBlock26 hlG (ordBlock25 hlG (ordBlock24 hlG (ordBlock23 hlG (ordBlock22 hlG (ordBlock21 hlG (ordBlock20 hlG (ordBlock19 hlG (ordBlock18 hlG (ordBlock17 hlG (ordBlock16 hlG (ordBlock15 hlG (ordBlock14 hlG (ordBlock13 hlG (ordBlock12 hlG (ordBlock11 hlG (ordBlock10 hlG (ordBlock9 hlG (ordBlock8 hlG (ordBlock7 hlG (ordBlock6 hlG (ordBlock5 hlG (ordBlock4 hlG (ordBlock3 hlG (ordBlock2 hlG (ordBlock1 hlG (ordBlock0 hlG ordChain0)))))))))))))))))))))))))))))))))))))))))))))


/-- The generator has additive order dividing `Qn` in the curve group. -/
theorem Qsmul_Gm : Qn • Gm = 0 := by
  obtain ⟨hv0, hl0⟩ := ordChain0
  obtain ⟨hvn, hln⟩ := negate_bridge hv0 (by decide)
  have hpt : (Point.affine ((55066263022277343669578718895168534326250603453777594175500187360389116729240 : ℕ) : Int) ((32670510020758816978083085130507043184471273380659243275938904335757337482424 : ℕ) : Int)).negate = Point.affine ((55066263022277343669578718895168534326250603453777594175500187360389116729240 : ℕ) : Int) ((83121579216557378445487899878180864668798711284981320763518679672151497189239 : ℕ) : Int) := by decide
  obtain ⟨hvL, hlL⟩ := ordChain445
  rw [hpt, hlL, hl0, one_nsmul] at hln
  have hQ : Qn = 115792089237316195423570985008687907852837564279074904382605163141518161494336 + 1 := by norm_num [Qn]
  rw [hQ, add_nsmul, one_nsmul, hln]
  exact neg_add_cancel Gm

/-! ### The generator subgroup, indexed by exponents in `ZMod Qn` -/

instance neZeroQn : NeZero Qn := ⟨by norm_num [Qn]⟩

instance factQn1 : Fact (1 < Qn) := ⟨Qn_pos⟩

theorem Gm_ne_zero : Gm ≠ 0 := by
  have hGv : Point.Valid Frost.G := by decide
  intro h
  have := (lift_eq_zero_iff hGv).mp h
  exact absurd this (by decide)

/-- Scalar multiples of the generator depend only on the exponent mod `Qn`. -/
theorem nsmul_Gm_congr {a b : ℕ} (h : a % Qn = b % Qn) : a • Gm = b • Gm := by
  have ha : a = Qn * (a / Qn) + a % Qn := (Nat.div_add_mod a Qn).symm
  have hb : b = Qn * (b / Qn) + b % Qn := (Nat.div_add_mod b Qn).symm
  calc a • Gm = (Qn * (a / Qn) + a % Qn) • Gm := by rw [← ha]
    _ = (a / Qn) • (Qn • Gm) + (a % Qn) • Gm := by rw [add_nsmul, mul_nsmul]
    _ = (a % Qn) • Gm := by rw [Qsmul_Gm, nsmul_zero, zero_add]
    _ = (b % Qn) • Gm := by rw [h]
    _ = (b / Qn) • (Qn • Gm) + (b % Qn) • Gm := by rw [Qsmul_Gm, nsmul_zero, zero_add]
    _ = (Qn * (b / Qn) + b % Qn) • Gm := by rw [add_nsmul, mul_nsmul]
    _ = b • Gm := by rw [← hb]

/-- The multiple of the generator with exponent `k`. -/
noncomputable def expPt (k : ZMod Qn) : secp.Point := k.val • Gm

theorem nat_expPt (n : ℕ) : n • Gm = expPt ((n : ℕ) : ZMod Qn) := by
  show n • Gm = ((n : ℕ) : ZMod Qn).val • Gm
  apply nsmul_Gm_congr
  rw [ZMod.val_natCast]
  exact (Nat.mod_mod_of_dvd n dvd_rfl).symm

theorem intCastQ_eq_iff (a b : Int) : (a : ZMod Qn) = (b : ZMod Qn) ↔ a ≡ b [ZMOD Q] := by
  rw [Q_eq]
  exact ZMod.intCast_eq_intCast_iff a b Qn

theorem jmodQ_cast (a : Int) : ((jmod a Q : Int) : ZMod Qn) = (a : ZMod Qn) :=
  (intCastQ_eq_iff _ _).mpr (jmod_modEq a Q)

theorem tmodQ_cast (a : Int) : ((a.tmod Q : Int) : ZMod Qn) = (a : ZMod Qn) :=
  (intCastQ_eq_iff _ _).mpr (tmod_modEq a Q)

theorem jmodQ_toNat_cast (s : Int) : (((jmod s Q).toNat : ℕ) : ZMod Qn) = (s : ZMod Qn) := by
  have h : (((jmod s Q).toNat : ℕ) : ZMod Qn) = (((jmod s Q).toNat : ℤ) : ZMod Qn) := by
    push_cast
    rfl
  rw [h, Int.toNat_of_nonneg (jmod_nonneg s Q_pos), jmodQ_cast]

theorem int_expPt (s : Int) : (jmod s Q).toNat • Gm = expPt ((s : Int) : ZMod Qn) := by
  rw [nat_expPt, jmodQ_toNat_cast]

theorem expPt_zero : expPt 0 = 0 := by
  show (0 : ZMod Qn).val • Gm = 0
  rw [ZMod.val_zero, zero_nsmul]

theorem expPt_add (a b : ZMod Qn) : expPt (a + b) = expPt a + expPt b := by
  show (a + b).val • Gm = a.val • Gm + b.val • Gm
  rw [← add_nsmul]
  apply nsmul_Gm_congr
  rw [Nat.mod_eq_of_lt (ZMod.val_lt _), ZMod.val_add]

theorem nsmul_expPt (n : ℕ) (b : ZMod Qn) : n • expPt b = expPt ((n : ℕ) * b) := by
  show n • (b.val • Gm) = (((n : ℕ) : ZMod Qn) * b).val • Gm
  rw [← mul_nsmul]
  apply nsmul_Gm_congr
  rw [Nat.mod_eq_of_lt (ZMod.val_lt _), ZMod.val_mul, ZMod.val_natCast]
  calc b.val * n % Qn = n * b.val % Qn := by rw [Nat.mul_comm]
    _ = n % Qn * b.val % Qn := ((Nat.mod_modEq n Qn).mul_right b.val).symm

theorem expPt_eq_zero_iff (k : ZMod Qn) : expPt k = 0 ↔ k = 0 := by
  constructor
  · intro h
    have hdvd : addOrderOf Gm ∣ k.val := addOrderOf_dvd_iff_nsmul_eq_zero.mpr h
    rw [addOrderOf_eq_prime Qsmul_Gm Gm_ne_zero] at hdvd
    rcases Nat.eq_zero_or_pos k.val with h0 | hpos
    · exact (ZMod.val_eq_zero k).mp h0
    · exact absurd (Nat.le_of_dvd hpos hdvd) (not_le.mpr (ZMod.val_lt k))
  · rintro rfl
    exact expPt_zero

theorem G_expPt : lift Frost.G = expPt 1 := by
  show Gm = (1 : ZMod Qn).val • Gm
  rw [ZMod.val_one, one_nsmul]

/-- `Point.multiply` in exponent form. -/
theorem multiply_expPt {p : Point} {k : ZMod Qn} (hp : p.Valid) (hl : lift p = expPt k)
    (s : Int) :
    ∃ t, p.multiply s = .ok t ∧ t.Valid ∧ lift t = expPt ((s : Int) * k) := by
  obtain ⟨t, ht, htv, htl⟩ := multiply_bridge hp s
  refine ⟨t, ht, htv, ?_⟩
  rw [htl, hl, nsmul_expPt]
  rw [jmodQ_toNat_cast]

theorem two_ne_zero_ZQ : (2 : ZMod Qn) ≠ 0 := by
  intro h
  have h2 : ((2 : ℕ) : ZMod Qn) = 0 := by exact_mod_cast h
  have := (ZMod.natCast_zmod_eq_zero_iff_dvd 2 Qn).mp h2
  have := Nat.le_of_dvd (by norm_num) this
  norm_num [Qn] at this

/-- `7` is a quadratic non-residue mod `P`, certified by an Euler-criterion
`pow` evaluation. -/
theorem seven_not_square (z : ZMod Pn) : z ^ 2 ≠ 7 := by
  intro h
  have hz0 : z ≠ 0 := by
    rintro rfl
    rw [zero_pow (by norm_num)] at h
    exact seven_ne_zero_ZP h.symm
  have hfer : z ^ (Pn - 1) = 1 := ZMod.pow_card_sub_one_eq_one hz0
  have h2 : (z ^ 2) ^ ((Pn - 1) / 2) = z ^ (Pn - 1) := by
    rw [← pow_mul]
    congr 1
  rw [h, hfer] at h2
  have hne := zmod_pow_ne_one Pn 7 ((Pn - 1) / 2)
    115792089237316195423570985008687907853269984665640564039457584007908834671662
    Pn_pos (by decide) (by decide)
  exact hne (by exact_mod_cast h2)

/-- No valid affine point has `x = 0`. -/
theorem valid_x_ne_zero {x y : Int} (hv : Point.Valid (.affine x y)) : x ≠ 0 := by
  rintro rfl
  have h := valid_curve_eq hv
  rw [show ((0 : ℤ) : ZMod Pn) = 0 by push_cast; rfl] at h
  rw [zero_pow (by norm_num), zero_add] at h
  exact seven_not_square _ h

/-- A valid affine point in the generator subgroup with nonzero exponent has
`y ≠ 0` (the group has no 2-torsion). -/
theorem valid_y_ne_zero {x y : Int} {k : ZMod Qn} (hv : Point.Valid (.affine x y))
    (hl : lift (.affine x y) = expPt k) (hk : k ≠ 0) : y ≠ 0 := by
  rintro rfl
  have hzero : lift (.affine x 0) + lift (.affine x 0) = 0 := by
    rw [lift_affine hv]
    exact WeierstrassCurve.Affine.Point.add_of_Y_eq rfl (by rw [secp_negY]; push_cast; ring)
  rw [hl, ← expPt_add] at hzero
  have hkk := (expPt_eq_zero_iff _).mp hzero
  have h2 : (2 : ZMod Qn) * k = 0 := by linear_combination hkk
  rcases mul_eq_zero.mp h2 with h | h
  · exact two_ne_zero_ZQ h
  · exact hk h

/-! ## Monadic evaluation helpers -/

theorem excBind_ok {α β : Type} (a : α) (f : α → Except String β) :
    (Except.ok a : Except String α) >>= f = f a := rfl

theorem excBind_err {α β : Type} (e : String) (f : α → Except String β) :
    (Except.error e : Except String α) >>= f = .error e := rfl

theorem excPure {α : Type} (a : α) : (pure a : Except String α) = .ok a := rfl

/-! ## Scalar helpers for the claims -/

theorem intCast_ne_zero_Q {a : Int} (h0 : 0 < a) (hQ : a < Q) : (a : ZMod Qn) ≠ 0 := by
  intro h
  have hz : ((a : Int) : ZMod Qn) = ((0 : Int) : ZMod Qn) := by push_cast; exact_mod_cast h
  have hmod := (intCastQ_eq_iff a 0).mp hz
  have hd : Q ∣ a := by
    have h2 := hmod.dvd
    rw [zero_sub] at h2
    exact dvd_neg.mp h2
  rcases hd with ⟨k, hk⟩
  have hQp : (0 : Int) < Q := Q_pos
  rcases lt_trichotomy k 0 with hneg | rfl | hpos
  · nlinarith
  · omega
  · nlinarith

/-- Casting an accumulated `foldl` product of the embedded code into `ZMod Qn`. -/
theorem cast_foldl_mul {α : Type} (g : α → Int) : ∀ (l : List α) (init : Int),
    ((l.foldl (fun acc j => acc * g j) init : Int) : ZMod Qn) =
      (init : ZMod Qn) * (l.map (fun j => ((g j : Int) : ZMod Qn))).prod := by
  intro l
  induction l with
  | nil => intro init; simp
  | cons a t ih =>
    intro init
    rw [List.foldl_cons, ih, List.map_cons, List.prod_cons]
    push_cast
    ring

/-! ## Claim C10 -/

/-- C10: `increaseThreshold` guards the aggregate share by JS truthiness, so a
participant legitimately holding the share `0` is rejected with the
uninitialized-share error instead of having its state updated. -/
theorem C10_increase_threshold_zero (p : ParticipantState) (others : List Int)
    (hsh : p.shares ≠ none) (hagg : p.aggregateShare = some 0) :
    p.increaseThreshold others =
      .error "Participant aggregate share has not been initialized." := by
  unfold ParticipantState.increaseThreshold
  cases hps : p.shares with
  | none => exact absurd hps hsh
  | some ss =>
    rw [hagg]
    rfl

/-- C10 witness: a concrete participant state holding aggregate share `0`. -/
theorem C10_increase_threshold_zero_witness :
    ParticipantState.increaseThreshold
      ⟨1, 2, 3, none, none, some [0], some 0, none, none, none, none, none⟩ [] =
      .error "Participant aggregate share has not been initialized." :=
  C10_increase_threshold_zero _ [] (by decide) rfl

/-! ## Claim C3 -/

/-- C3 counterexample: `_lagrangeCoefficient([1,2], 0, 2)` returns `-1`, which
is not a scalar in `[0, Q)` (the JS `%` keeps the dividend's sign). -/
theorem C3_lagrange_cex :
    Participant.lagrangeCoefficient [1, 2] 0 2 = .ok (-1) ∧ ¬ (0 : Int) ≤ -1 :=
  ⟨by decide, by decide⟩

/-- C3 (amended): with pairwise-distinct indexes the result is the truncated
remainder of `Π(x−j) · (Π(i−j))^(Q−2)` by `Q` — a scalar in `(−Q, Q)`, not
`[0, Q)`, congruent mod `Q` to that product; duplicate indexes fail. -/
theorem C3_lagrange_spec (S : List ℕ) (x i : Int) :
    (¬ S.Nodup →
      Participant.lagrangeCoefficient S x i = .error "Participant indexes must be unique.") ∧
    (S.Nodup → ∃ r, Participant.lagrangeCoefficient S x i = .ok r ∧ -Q < r ∧ r < Q ∧
      (r : ZMod Qn) =
        (((S : List Int).filter (fun j => j ≠ i)).map (fun j => ((x - j : Int) : ZMod Qn))).prod *
          (((S : List Int).filter (fun j => j ≠ i)).map (fun j => ((i - j : Int) : ZMod Qn))).prod
            ^ (Qn - 2)) := by
  constructor
  · intro h
    unfold Participant.lagrangeCoefficient
    rw [if_pos h]
  · intro h
    unfold Participant.lagrangeCoefficient
    rw [if_neg (not_not_intro h)]
    refine ⟨_, rfl, neg_lt_tmod _ Q_pos, tmod_lt_abs _ Q_pos, ?_⟩
    rw [tmodQ_cast]
    push_cast
    rw [cast_foldl_mul]
    have hpow : ((pow (List.foldl (fun acc j => acc * (i - (j : Int))) 1
        (S.filter (fun j => (j : Int) ≠ i)) : Int) (Q - 2) Q : Int) : ZMod Qn) =
        ((List.foldl (fun acc j => acc * (i - (j : Int))) 1
          (S.filter (fun j => (j : Int) ≠ i)) : Int) : ZMod Qn) ^ (Qn - 2) := by
      have hm := pow_modEq (List.foldl (fun acc j => acc * (i - (j : Int))) 1
        (S.filter (fun j => (j : Int) ≠ i))) (Q - 2) Q (by decide)
      have hc := (intCastQ_eq_iff _ _).mpr hm
      rw [hc]
      push_cast
      congr 1
    rw [hpow, cast_foldl_mul]
    push_cast
    ring

/-! ## Claim C7 -/

/-- C7 counterexample: a 33-byte input with prefix byte `4` (neither 0x02 nor
0x03) is accepted, and the root chosen has odd parity. -/
theorem C7_sec_deserialize_cex :
    Point.secDeserialize (4 :: beBytes32 1) =
      .ok (.affine 1
        85895366384747149408010284714111852077055649506395260922968891100383188440129) ∧
      (4 : ℕ) ≠ 2 ∧ (4 : ℕ) ≠ 3 :=
  ⟨by decide, by decide, by decide⟩

/-- C7 (amended): deserialization fails exactly on length ≠ 33 — the prefix
byte is never validated.  On a 33-byte input it parses `x` big-endian from the
last 32 bytes, takes `y₀ = (x³+7)^((P+1)/4) mod P`, and keeps the even root
iff the prefix byte is exactly `0x02`, otherwise the odd root. -/
theorem C7_sec_deserialize_spec (bytes : List Nat) :
    (bytes.length ≠ 33 →
      Point.secDeserialize bytes =
        .error "Invalid hex input or unable to compute point from x-coordinate.") ∧
    (bytes.length = 33 → ∃ y0 : Int,
      y0 = pow (((Int.ofNat (bytesToNat bytes.tail)) ^ 3 + 7).tmod P) ((P + 1).ediv 4) P ∧
      Point.secDeserialize bytes =
        .ok (.affine (Int.ofNat (bytesToNat bytes.tail))
          (if y0.tmod 2 = 0 then (if bytes.headI = 2 then y0 else (P - y0).tmod P)
           else (if bytes.headI = 2 then (P - y0).tmod P else y0)))) := by
  constructor
  · intro h
    unfold Point.secDeserialize
    rw [if_pos h]
  · intro h
    unfold Point.secDeserialize
    rw [if_neg (not_not_intro h)]
    exact ⟨_, rfl, rfl⟩

/-! ## Claim C8 -/

/-- C8 counterexample: the first argument `3` exceeds the number of nonce
commitment pairs (2), yet `bindingValue` succeeds. -/
theorem C8_binding_value_cex :
    Aggregator.bindingValue 3 [109] [(Frost.G, Frost.G), (Frost.G, Frost.G)] [1, 2] =
      .ok 115743831330877523390766790402135983694137099184988713867548454901465929316186 ∧
    (2 : ℕ) < 3 :=
  ⟨by decide, by decide⟩

/-- C8 (amended): `bindingValue` hashes `i ‖ m ‖ concat(SEC1 pairs)` and
reduces mod `Q`; the only checks on the first argument are `i ≥ 1` and the
single-byte bound `i ≤ 255` — it is never compared against the pair count.
Out-of-range entries inside `participantIndexes` do fail. -/
theorem C8_binding_value_spec (index : ℕ) (message : List ℕ)
    (pairs : List (Point × Point)) (idxs : List ℕ) :
    (index = 0 →
      Aggregator.bindingValue index message pairs idxs =
        .error "Participant index must start from 1.") ∧
    (255 < index →
      Aggregator.bindingValue index message pairs idxs =
        .error "The value of index is out of range.") ∧
    (1 ≤ index → index ≤ 255 →
      ∀ bs, Aggregator.nonceCommitmentPairsBytes pairs idxs = .ok bs →
        Aggregator.bindingValue index message pairs idxs =
          .ok ((shaInt (index :: message ++ bs)).tmod Q) ∧
        0 ≤ (shaInt (index :: message ++ bs)).tmod Q ∧
        (shaInt (index :: message ++ bs)).tmod Q < Q) := by
  refine ⟨?_, ?_, ?_⟩
  · intro h
    subst h
    rfl
  · intro h
    unfold Aggregator.bindingValue
    rw [if_neg (by omega)]
    simp only [if_pos h]
    rfl
  · intro h1 h255 bs hbs
    unfold Aggregator.bindingValue
    rw [if_neg (by omega)]
    simp only [if_neg (by omega : ¬ 255 < index)]
    rw [hbs]
    refine ⟨rfl, Int.tmod_nonneg Q (Int.ofNat_nonneg _), tmod_lt_abs _ Q_pos⟩

/-! ## Claim C4 (counterexample) -/

/-- C4 counterexample: with `Y = G`, tweaks `(5, 0)`, the first stage negates
(`p = 1`) and the returned aggregate tweak is `-5`, which is not a scalar in
`[0, Q)`. -/
theorem C4_tweaks_cex :
    Aggregator.ComputeTweaks 5 0 Frost.G =
      .ok (.affine
        115780575977492633039504758427830329241728645270042306223540962614150928364886
        37057025721515809211679672464182131982009266967775367602652617524301408111000,
        -5, 1) ∧
    ¬ (0 : Int) ≤ -5 :=
  ⟨by decide, by decide⟩

/-! ## Claim C6 (counterexample) -/

/-- C6 counterexample: with secret `a = 0` (a scalar in `[0, Q)`) the secret
commitment is the point at infinity and `computeProofOfKnowledge` throws
instead of producing a verifiable proof. -/
theorem C6_pok_cex :
    Participant.computeProofOfKnowledge 1 [0] 1 =
      .error "Cannot serialize the point at infinity." :=
  by decide

theorem excThrow {α : Type} (e : String) : (throw e : Except String α) = .error e := rfl

/-! ## Claim C2 -/

/-- C2 supporting theorem: a full repair exchange on the master polynomial
`f(x) = 4 − 2x` (shares `f(1) = 2`, `f(2) = 0`, `f(3) = −2`) with helpers 1
and 3 repairing participant 2 reconstructs `8`, not the lost share `f(2) = 0`:
the helpers' Lagrange coefficients are evaluated at `x = 0` over the wrong
index set, so the exchange reconstructs an unrelated value.  The
already-held-share guard itself does fire. -/
theorem C2_repair_bug :
    Participant.evaluatePolynomial [4, -2] 1 = .ok 2 ∧
    Participant.evaluatePolynomial [4, -2] 2 = .ok 0 ∧
    Participant.evaluatePolynomial [4, -2] 3 = .ok (-2) ∧
    Participant.generateRepairShares 1 (some 2) [3] 2 [0] =
      .ok ([0, 6],
        [Point.infinity, .affine
          115780575977492633039504758427830329241728645270042306223540962614150928364886
          78735063515800386211891312544505775871260717697865196436804966483607426560663],
        [1, 3]) ∧
    Participant.generateRepairShares 3 (some (-2)) [1] 2 [0] =
      .ok ([0, 2],
        [Point.infinity, .affine
          89565891926547004231252920425935692360644145829622209833684329913297188986597
          12158399299693830322967808612713398636155367887041628176798871954788371653930],
        [1, 3]) ∧
    Participant.getRepairShare (some [1, 3]) (some [0, 2]) 1 = .ok 0 ∧
    Participant.getRepairShare (some [1, 3]) (some [0, 6]) 3 = .ok 6 ∧
    Participant.aggregateRepairShares 2 1 (some [1, 3]) (some [0, 6]) [0] = .ok 0 ∧
    Participant.aggregateRepairShares 2 3 (some [1, 3]) (some [0, 2]) [6] = .ok 8 ∧
    Participant.repairShare 2 none [0, 8] = .ok 8 ∧
    (8 : Int) ≠ 0 ∧
    Participant.repairShare 2 (some 0) [0, 8] =
      .error "Participant share has not been lost" := by
  refine ⟨?_, ?_, ?_, ?_, ?_, ?_, ?_, ?_, ?_, ?_, ?_, ?_⟩ <;> decide

/-! ## Claim C5 -/

/-- C5 counterexample: a tweaked session whose stored tweak is the negative
scalar `−5`.  The final `z` is negative, `Buffer.write` of its hex rendering
writes nothing, and the last 32 bytes of the signature are all zero — they
encode `0`, not the claimed `(Σ zᵢ + c·τ) mod Q`, which is nonzero. -/
theorem C5_signature_cex :
    AggregatorState.create Frost.G [109] [(Frost.G, .affine 1 0)] [1] (some (5, 0)) =
      .ok ⟨Frost.G, [109], [(Frost.G, .affine 1 0)], [1],
        some (.affine
          115780575977492633039504758427830329241728645270042306223540962614150928364886
          37057025721515809211679672464182131982009266967775367602652617524301408111000),
        some (-5)⟩ ∧
    AggregatorState.signature
      ⟨Frost.G, [109], [(Frost.G, .affine 1 0)], [1],
        some (.affine
          115780575977492633039504758427830329241728645270042306223540962614150928364886
          37057025721515809211679672464182131982009266967775367602652617524301408111000),
        some (-5)⟩ [0] =
      .ok (beBytes32
        37921587771890488842788851107376160043643212090179806239261624327387651827584 ++
        List.replicate 32 0) ∧
    Aggregator.groupCommitment [109] [(Frost.G, .affine 1 0)] [1] =
      .ok (.affine
        37921587771890488842788851107376160043643212090179806239261624327387651827584
        6891383062372978844892800990926785357144022934433503791852364203064950052736) ∧
    Aggregator.challengeHash
      (.affine
        37921587771890488842788851107376160043643212090179806239261624327387651827584
        6891383062372978844892800990926785357144022934433503791852364203064950052736)
      (.affine
        115780575977492633039504758427830329241728645270042306223540962614150928364886
        37057025721515809211679672464182131982009266967775367602652617524301408111000)
      [109] =
      .ok 96553297498446106601051983968923954501423451842028163699206251230801587122233 ∧
    jmod (96553297498446106601051983968923954501423451842028163699206251230801587122233
      * (-5)) Q =
      96193958694350444112595005198819766757070562185233703416994559553582871860520 ∧
    (96193958694350444112595005198819766757070562185233703416994559553582871860520 : Int)
      ≠ 0 ∧
    bytesToNat (List.replicate 32 0) = 0 := by
  refine ⟨?_, ?_, ?_, ?_, ?_, ?_, ?_⟩ <;> decide

/-- Bounds of the share-summing fold of `Aggregator.signature`. -/
theorem foldl_tmod_bound (l : List Int) : ∀ init : Int, -Q < init → init < Q →
    -Q < l.foldl (fun sum share => (sum + share).tmod Q) init ∧
      l.foldl (fun sum share => (sum + share).tmod Q) init < Q := by
  induction l with
  | nil => intro init h1 h2; exact ⟨h1, h2⟩
  | cons a t ih =>
    intro init h1 h2
    rw [List.foldl_cons]
    exact ih _ (neg_lt_tmod _ Q_pos) (tmod_lt_abs _ Q_pos)

/-- The share-summing fold of `Aggregator.signature`, in `ZMod Qn`. -/
theorem foldl_tmod_cast (l : List Int) : ∀ init : Int,
    ((l.foldl (fun sum share => (sum + share).tmod Q) init : Int) : ZMod Qn) =
      (init : ZMod Qn) + (l.map fun s : Int => ((s : Int) : ZMod Qn)).sum := by
  induction l with
  | nil => intro init; simp
  | cons a t ih =>
    intro init
    rw [List.foldl_cons, ih, tmodQ_cast, List.map_cons, List.sum_cons]
    push_cast
    ring

theorem beBytes32_length (x : ℕ) : (beBytes32 x).length = 32 := by
  unfold beBytes32
  rw [List.length_map, List.length_range]

/-- A group commitment returned by `Aggregator.groupCommitment` is affine. -/
theorem groupCommitment_ok_affine {message : List ℕ} {pairs : List (Point × Point)}
    {idxs : List ℕ} {R : Point}
    (hg : Aggregator.groupCommitment message pairs idxs = .ok R) :
    ∃ x y, R = .affine x y := by
  unfold Aggregator.groupCommitment at hg
  rcases hloop : Aggregator.gcLoop message pairs idxs idxs Point.infinity with e | g
  · rw [hloop] at hg
    exact absurd hg (by simp [excBind_err])
  · rw [hloop, excBind_ok] at hg
    cases g with
    | infinity =>
      simp only [excThrow, excBind_err] at hg
      exact Except.noConfusion hg
    | affine x y =>
      have hfin : (Except.ok (Point.affine x y) : Except String Point) = .ok R := by
        simpa [Point.isInfinity] using hg
      injection hfin with h
      exact ⟨x, y, h.symm⟩

/-- C5 (amended): whenever the group commitment succeeds, `signature` emits
`x_only(R) ‖ zWrite(z)` (64 bytes).  Untweaked, `z` is `Σ zᵢ mod Q`, a scalar
in `[0, Q)`, encoded big-endian zero-padded.  Tweaked, `z = (Σ zᵢ + c·τ)`
under the JS truncated `%`: it lies in `(−Q, Q)`, and when it is negative the
hex write silently fails and the last 32 bytes are all zero rather than an
encoding of `z mod Q`. -/
theorem C5_signature_spec (agg : AggregatorState) (shares : List Int) (R : Point)
    (hg : Aggregator.groupCommitment agg.message agg.nonceCommitmentPairs
      agg.participantIndexes = .ok R) :
    ∃ xb, R.xonlySerialize = .ok xb ∧ xb.length = 32 ∧
      ((agg.tweak = none ∨ agg.tweakedKey = none) →
        ∃ z, agg.signature shares = .ok (xb ++ beBytes32 z.toNat) ∧
          0 ≤ z ∧ z < Q ∧
          (z : ZMod Qn) = (shares.map fun s : Int => ((s : Int) : ZMod Qn)).sum ∧
          (xb ++ beBytes32 z.toNat).length = 64) ∧
      (∀ tw tk c, agg.tweak = some tw → agg.tweakedKey = some tk →
        Aggregator.challengeHash R tk agg.message = .ok c →
        ∃ z, agg.signature shares = .ok (xb ++ AggregatorState.zWrite z) ∧
          -Q < z ∧ z < Q ∧
          (z : ZMod Qn) = (shares.map fun s : Int => ((s : Int) : ZMod Qn)).sum + c * tw ∧
          (z < 0 → AggregatorState.zWrite z = List.replicate 32 0)) := by
  obtain ⟨x, y, rfl⟩ := groupCommitment_ok_affine hg
  have hQ0 : ((Q : Int) : ZMod Qn) = 0 := by
    rw [Q_eq]
    push_cast
    exact ZMod.natCast_self Qn
  have hb := foldl_tmod_bound shares 0 (by have := Q_pos; omega) Q_pos
  have hc := foldl_tmod_cast shares 0
  rw [Int.cast_zero, zero_add] at hc
  refine ⟨beBytes32 x.toNat, rfl, beBytes32_length _, ?_, ?_⟩
  · intro hcase
    refine ⟨if shares.foldl (fun sum share => (sum + share).tmod Q) 0 < 0 then
      (shares.foldl (fun sum share => (sum + share).tmod Q) 0 + Q).tmod Q
      else shares.foldl (fun sum share => (sum + share).tmod Q) 0, ?_, ?_, ?_, ?_, ?_⟩
    · show AggregatorState.signature _ _ = _
      unfold AggregatorState.signature
      rw [hg, excBind_ok]
      have hfin : ∀ zz : Int,
          (do
            let nb ← (Point.affine x y).xonlySerialize
            (.ok (nb ++ AggregatorState.zWrite zz) : Except String (List Nat))) =
            .ok (beBytes32 x.toNat ++ AggregatorState.zWrite zz) := fun zz => rfl
      have hzw : AggregatorState.zWrite (if shares.foldl (fun sum share => (sum + share).tmod Q) 0 < 0 then
          (shares.foldl (fun sum share => (sum + share).tmod Q) 0 + Q).tmod Q
          else shares.foldl (fun sum share => (sum + share).tmod Q) 0) =
          beBytes32 (if shares.foldl (fun sum share => (sum + share).tmod Q) 0 < 0 then
          (shares.foldl (fun sum share => (sum + share).tmod Q) 0 + Q).tmod Q
          else shares.foldl (fun sum share => (sum + share).tmod Q) 0).toNat := by
        unfold AggregatorState.zWrite
        rw [if_neg]
        push_neg
        by_cases hneg : shares.foldl (fun sum share => (sum + share).tmod Q) 0 < 0
        · rw [if_pos hneg]
          exact Int.tmod_nonneg Q (by omega)
        · rw [if_neg hneg]
          omega
      rcases htwv : agg.tweak with _ | tw <;>
        rcases htkv : agg.tweakedKey with _ | tk <;>
        simp only [htwv, htkv]
      · rw [excPure, excBind_ok, hfin, hzw]
      · rw [excPure, excBind_ok, hfin, hzw]
      · rw [excPure, excBind_ok, hfin, hzw]
      · exfalso
        rcases hcase with h | h
        · rw [htwv] at h
          exact Option.noConfusion h
        · rw [htkv] at h
          exact Option.noConfusion h
    · by_cases hneg : shares.foldl (fun sum share => (sum + share).tmod Q) 0 < 0
      · rw [if_pos hneg]
        exact Int.tmod_nonneg Q (by omega)
      · rw [if_neg hneg]
        omega
    · by_cases hneg : shares.foldl (fun sum share => (sum + share).tmod Q) 0 < 0
      · rw [if_pos hneg]
        exact tmod_lt_abs _ Q_pos
      · rw [if_neg hneg]
        exact hb.2
    · by_cases hneg : shares.foldl (fun sum share => (sum + share).tmod Q) 0 < 0
      · rw [if_pos hneg, tmodQ_cast]
        push_cast
        rw [hQ0]
        rw [hc]
        ring
      · rw [if_neg hneg]
        exact hc
    · rw [List.length_append, beBytes32_length, beBytes32_length]
  · intro tw tk c htw htk hch
    refine ⟨((if shares.foldl (fun sum share => (sum + share).tmod Q) 0 < 0 then
      (shares.foldl (fun sum share => (sum + share).tmod Q) 0 + Q).tmod Q
      else shares.foldl (fun sum share => (sum + share).tmod Q) 0) + c * tw).tmod Q,
      ?_, neg_lt_tmod _ Q_pos, tmod_lt_abs _ Q_pos, ?_, ?_⟩
    · show AggregatorState.signature _ _ = _
      unfold AggregatorState.signature
      rw [hg, excBind_ok]
      simp only [htw, htk]
      rw [hch, excBind_ok, excPure, excBind_ok]
      rfl
    · rw [tmodQ_cast]
      push_cast
      by_cases hneg : shares.foldl (fun sum share => (sum + share).tmod Q) 0 < 0
      · rw [if_pos hneg, tmodQ_cast]
        push_cast
        rw [hQ0, hc]
        ring
      · rw [if_neg hneg, hc]
    · intro hz
      unfold AggregatorState.zWrite
      rw [if_pos hz]

/-! ## Claim C1 support: polynomials over `ZMod Qn` and Lagrange interpolation -/

theorem zq_pow_sub_two {a : ZMod Qn} (h : a ≠ 0) : a ^ (Qn - 2) = a⁻¹ := by
  have hp : 2 ≤ Qn := (factQn.out).two_le
  have h2 : a * a ^ (Qn - 2) = 1 := by
    rw [← pow_succ']
    have he : Qn - 2 + 1 = Qn - 1 := by omega
    rw [he]
    exact ZMod.pow_card_sub_one_eq_one h
  field_simp at h2 ⊢
  linear_combination h2

/-- The polynomial over `ZMod Qn` with the given low-to-high coefficients. -/
noncomputable def polyOf : List Int → Polynomial (ZMod Qn)
  | [] => 0
  | c :: rest => Polynomial.C ((c : Int) : ZMod Qn) + Polynomial.X * polyOf rest

theorem polyOf_degree : ∀ l : List Int, (polyOf l).degree < (l.length : ℕ) := by
  intro l
  induction l with
  | nil =>
    show (0 : Polynomial (ZMod Qn)).degree < ((0 : ℕ) : WithBot ℕ)
    rw [Polynomial.degree_zero]
    exact WithBot.bot_lt_coe 0
  | cons c rest ih =>
    show (Polynomial.C ((c : Int) : ZMod Qn) + Polynomial.X * polyOf rest).degree <
      ((rest.length + 1 : ℕ) : WithBot ℕ)
    apply lt_of_le_of_lt (Polynomial.degree_add_le _ _)
    rw [max_lt_iff]
    constructor
    · apply lt_of_le_of_lt Polynomial.degree_C_le
      exact_mod_cast WithBot.coe_lt_coe.mpr (Nat.succ_pos _)
    · apply lt_of_le_of_lt (Polynomial.degree_mul_le _ _)
      apply lt_of_le_of_lt (add_le_add Polynomial.degree_X_le le_rfl)
      have : ((rest.length + 1 : ℕ) : WithBot ℕ) = 1 + (rest.length : ℕ) := by
        push_cast
        ring
      rw [this]
      exact WithBot.add_lt_add_left (by norm_num) ih

theorem polyOf_eval (l : List Int) (x : ZMod Qn) :
    (polyOf l).eval x = l.foldr (fun cc acc => acc * x + ((cc : Int) : ZMod Qn)) 0 := by
  induction l with
  | nil => simp [polyOf]
  | cons c rest ih =>
    simp only [polyOf, Polynomial.eval_add, Polynomial.eval_C, Polynomial.eval_mul,
      Polynomial.eval_X, List.foldr_cons, ih]
    ring

theorem polyOf_eval_zero (l : List Int) :
    (polyOf l).eval 0 = ((l.getD 0 0 : Int) : ZMod Qn) := by
  cases l with
  | nil => simp [polyOf]
  | cons c rest =>
    simp [polyOf]

/-- Casting the Horner fold of `evaluatePolynomial` into `ZMod Qn`. -/
theorem horner_fold_cast (x : Int) : ∀ (l : List Int) (init : Int),
    ((l.foldl (fun y c => (y * x + c).tmod Q) init : Int) : ZMod Qn) =
      l.foldl (fun y c => y * ((x : Int) : ZMod Qn) + ((c : Int) : ZMod Qn))
        ((init : Int) : ZMod Qn) := by
  intro l
  induction l with
  | nil => intro init; rfl
  | cons c rest ih =>
    intro init
    rw [List.foldl_cons, List.foldl_cons, ih, tmodQ_cast]
    push_cast
    ring_nf

theorem evalPoly_cast {coeffs : List Int} {x r : Int}
    (h : Participant.evaluatePolynomial coeffs x = .ok r) :
    (r : ZMod Qn) = (polyOf coeffs).eval ((x : Int) : ZMod Qn) := by
  unfold Participant.evaluatePolynomial at h
  by_cases hl : coeffs.length = 0
  · rw [if_pos hl] at h
    exact absurd h (by simp)
  · rw [if_neg hl] at h
    have hr : r = coeffs.reverse.foldl (fun y c => (y * x + c).tmod Q) 0 := by
      have := h
      injection this with h2
      exact h2.symm
    rw [hr, horner_fold_cast, List.foldl_reverse, polyOf_eval]
    norm_num

theorem natCast_inj_255 {a b : ℕ} (ha : a ≤ 255) (hb : b ≤ 255)
    (h : (a : ZMod Qn) = (b : ZMod Qn)) : a = b := by
  have h255 : (255 : ℕ) < Qn := by norm_num [Qn]
  have := congrArg ZMod.val h
  rwa [ZMod.val_cast_of_lt (by omega), ZMod.val_cast_of_lt (by omega)] at this

/-- List-form Lagrange interpolation at `x = 0` over `ZMod Qn`. -/
theorem lagrange_interp_list (f : Polynomial (ZMod Qn)) (l : List ℕ) (hnd : l.Nodup)
    (hrg : ∀ i ∈ l, i ≤ 255) (hdeg : f.degree < (l.length : ℕ)) :
    (l.map (fun i =>
      ((l.filter (fun j => j ≠ i)).map (fun j : ℕ => (0 : ZMod Qn) - (j : ZMod Qn))).prod *
        (((l.filter (fun j => j ≠ i)).map (fun j : ℕ => ((i : ℕ) : ZMod Qn) - (j : ZMod Qn))).prod)⁻¹ *
        f.eval ((i : ℕ) : ZMod Qn))).sum = f.eval 0 := by
  classical
  have hinj : Set.InjOn (fun n : ℕ => (n : ZMod Qn)) l.toFinset := by
    intro a ha b hb hab
    rw [Finset.mem_coe, List.mem_toFinset] at ha hb
    exact natCast_inj_255 (hrg a ha) (hrg b hb) hab
  have hcard : l.toFinset.card = l.length := List.toFinset_card_of_nodup hnd
  have heq := Lagrange.eq_interpolate (v := fun n : ℕ => (n : ZMod Qn)) hinj
    (f := f) (by rw [hcard]; exact hdeg)
  have heval := congrArg (Polynomial.eval (0 : ZMod Qn)) heq
  rw [Lagrange.interpolate_apply] at heval
  rw [Polynomial.eval_finset_sum] at heval
  rw [List.sum_toFinset _ hnd] at heval
  rw [heval]
  apply congrArg List.sum
  apply List.map_congr_left
  intro i hi
  rw [Polynomial.eval_mul, Polynomial.eval_C]
  rw [Lagrange.basis, Polynomial.eval_prod]
  have herase : l.toFinset.erase i = (l.filter (fun j => j ≠ i)).toFinset := by
    rw [List.toFinset_filter]
    ext a
    simp [Finset.mem_erase, and_comm]
  rw [herase, List.prod_toFinset _ (hnd.filter _)]
  have hprodeq : ((l.filter (fun j => j ≠ i)).map
      (fun j => Polynomial.eval 0 (Lagrange.basisDivisor ((i : ℕ) : ZMod Qn) ((j : ℕ) : ZMod Qn)))).prod =
      ((l.filter (fun j => j ≠ i)).map (fun j : ℕ => (0 : ZMod Qn) - (j : ZMod Qn))).prod *
        (((l.filter (fun j => j ≠ i)).map
          (fun j : ℕ => ((i : ℕ) : ZMod Qn) - (j : ZMod Qn))).prod)⁻¹ := by
    induction (l.filter (fun j => j ≠ i)) with
    | nil => simp
    | cons a t iht =>
      rw [List.map_cons, List.prod_cons, iht, List.map_cons, List.prod_cons,
        List.map_cons, List.prod_cons]
      rw [Lagrange.basisDivisor, Polynomial.eval_mul, Polynomial.eval_C,
        Polynomial.eval_sub, Polynomial.eval_X, Polynomial.eval_C]
      rw [mul_inv]
      ring
  rw [hprodeq]
  ring

/-! ## Claims C4 and C6 (amended statements) -/

theorem G_valid : Point.Valid Frost.G := by decide

theorem three_ne_zero_ZQ : (3 : ZMod Qn) ≠ 0 := by
  intro h
  have h2 : ((3 : ℕ) : ZMod Qn) = 0 := by exact_mod_cast h
  have := (ZMod.natCast_zmod_eq_zero_iff_dvd 3 Qn).mp h2
  have := Nat.le_of_dvd (by norm_num) this
  norm_num [Qn] at this

theorem expPt_neg (k : ZMod Qn) : expPt (-k) = -expPt k := by
  have h : expPt k + expPt (-k) = 0 := by
    rw [← expPt_add, add_neg_cancel, expPt_zero]
  exact eq_neg_of_add_eq_zero_right h

/-- C4 (amended): for a valid public key `Y = kp·G` and any tweak pair, when
no intermediate sum hits infinity, `ComputeTweaks` returns the key
`K = ±(Y + b·G) + t·G` with parity flag `p` recording the first-stage
negation, and an aggregate tweak `τ` that is a scalar in `(−Q, Q)` (not
`[0, Q)`: the JS `%` keeps negative values) congruent mod `Q` to
`±((p = 1 ? −b : b) + t)`, negated exactly when `K.y` is odd. -/
theorem C4_tweaks_spec {pk : Point} {kp : ZMod Qn} (hv : pk.Valid) (hl : lift pk = expPt kp)
    (b32 tap : Int)
    (h1 : kp + (b32 : ZMod Qn) ≠ 0)
    (h2 : kp + (b32 : ZMod Qn) + (tap : ZMod Qn) ≠ 0)
    (h3 : -(kp + (b32 : ZMod Qn)) + (tap : ZMod Qn) ≠ 0) :
    ∃ K τ p, Aggregator.ComputeTweaks b32 tap pk = .ok (K, τ, p) ∧ K.Valid ∧
      (p = 0 ∨ p = 1) ∧ -Q < τ ∧ τ < Q ∧
      ∃ kx ky, K = .affine kx ky ∧
        lift K = expPt ((if p = 1 then -(kp + (b32 : ZMod Qn)) else kp + (b32 : ZMod Qn)) +
          (tap : ZMod Qn)) ∧
        (τ : ZMod Qn) = (if ky.tmod 2 ≠ 0 then -1 else 1) *
          ((if p = 1 then -((b32 : Int) : ZMod Qn) else ((b32 : Int) : ZMod Qn)) +
            (tap : ZMod Qn)) := by
  have hQ0 : ((Q : Int) : ZMod Qn) = 0 := by
    rw [Q_eq]
    push_cast
    exact ZMod.natCast_self Qn
  obtain ⟨gm, hgm, hgmv, hgml⟩ := multiply_expPt G_valid G_expPt b32
  rw [mul_one] at hgml
  obtain ⟨k1, hk1, hk1v, hk1l⟩ := add_bridge hv hgmv
  rw [hl, hgml, ← expPt_add] at hk1l
  have hk1ne : k1 ≠ Point.infinity := by
    intro h
    rw [h, lift_infinity] at hk1l
    exact h1 ((expPt_eq_zero_iff _).mp hk1l.symm)
  obtain ⟨x1, y1, rfl⟩ : ∃ a b, k1 = .affine a b := by
    cases k1 with
    | infinity => exact absurd rfl hk1ne
    | affine a b => exact ⟨a, b, rfl⟩
  have hy1ne : y1 ≠ 0 := valid_y_ne_zero hk1v hk1l h1
  have hy1pos : 0 < y1 := lt_of_le_of_ne hk1v.2.2.1 (Ne.symm hy1ne)
  obtain ⟨t2, ht2, ht2v, ht2l⟩ := multiply_expPt G_valid G_expPt tap
  rw [mul_one] at ht2l
  by_cases hodd : y1.tmod 2 ≠ 0
  · -- first stage negates
    obtain ⟨hnv, hnl⟩ := negate_bridge hk1v hy1pos
    obtain ⟨K, hK, hKv, hKl⟩ := add_bridge hnv ht2v
    rw [hnl, hk1l, ht2l, ← expPt_neg, ← expPt_add] at hKl
    have hKne : K ≠ Point.infinity := by
      intro h
      rw [h, lift_infinity] at hKl
      exact h3 ((expPt_eq_zero_iff _).mp hKl.symm)
    obtain ⟨kx, ky, rfl⟩ : ∃ a b, K = .affine a b := by
      cases K with
      | infinity => exact absurd rfl hKne
      | affine a b => exact ⟨a, b, rfl⟩
    have hEqBase : Aggregator.ComputeTweaks b32 tap pk =
        .ok (.affine kx ky,
          if ky.tmod 2 ≠ 0 then (-((-b32 + tap).tmod Q) + Q).tmod Q else (-b32 + tap).tmod Q,
          1) := by
      simp only [Aggregator.ComputeTweaks, hgm, excBind_ok, hk1, ht2, hK, if_pos hodd]
    by_cases kodd : ky.tmod 2 ≠ 0
    · refine ⟨_, _, _, by rw [hEqBase, if_pos kodd], hKv, Or.inr rfl,
        neg_lt_tmod _ Q_pos, tmod_lt_abs _ Q_pos, kx, ky, rfl, ?_, ?_⟩
      · rw [if_pos rfl]
        exact hKl
      · rw [if_pos kodd, if_pos rfl, tmodQ_cast]
        push_cast
        rw [tmodQ_cast, hQ0]
        push_cast
        ring
    · refine ⟨_, _, _, by rw [hEqBase, if_neg kodd], hKv, Or.inr rfl,
        neg_lt_tmod _ Q_pos, tmod_lt_abs _ Q_pos, kx, ky, rfl, ?_, ?_⟩
      · rw [if_pos rfl]
        exact hKl
      · rw [if_neg kodd, if_pos rfl, tmodQ_cast]
        push_cast
        ring
  · -- first stage keeps the key
    obtain ⟨K, hK, hKv, hKl⟩ := add_bridge hk1v ht2v
    rw [hk1l, ht2l, ← expPt_add] at hKl
    have hKne : K ≠ Point.infinity := by
      intro h
      rw [h, lift_infinity] at hKl
      exact h2 ((expPt_eq_zero_iff _).mp hKl.symm)
    obtain ⟨kx, ky, rfl⟩ : ∃ a b, K = .affine a b := by
      cases K with
      | infinity => exact absurd rfl hKne
      | affine a b => exact ⟨a, b, rfl⟩
    have hEqBase : Aggregator.ComputeTweaks b32 tap pk =
        .ok (.affine kx ky,
          if ky.tmod 2 ≠ 0 then (-((b32 + tap).tmod Q) + Q).tmod Q else (b32 + tap).tmod Q,
          0) := by
      simp only [Aggregator.ComputeTweaks, hgm, excBind_ok, hk1, ht2, hK, if_neg hodd]
    by_cases kodd : ky.tmod 2 ≠ 0
    · refine ⟨_, _, _, by rw [hEqBase, if_pos kodd], hKv, Or.inl rfl,
        neg_lt_tmod _ Q_pos, tmod_lt_abs _ Q_pos, kx, ky, rfl, ?_, ?_⟩
      · rw [if_neg (by norm_num : ¬ (0 : ℕ) = 1)]
        exact hKl
      · rw [if_pos kodd, if_neg (by norm_num : ¬ (0 : ℕ) = 1), tmodQ_cast]
        push_cast
        rw [tmodQ_cast, hQ0]
        push_cast
        ring
    · refine ⟨_, _, _, by rw [hEqBase, if_neg kodd], hKv, Or.inl rfl,
        neg_lt_tmod _ Q_pos, tmod_lt_abs _ Q_pos, kx, ky, rfl, ?_, ?_⟩
      · rw [if_neg (by norm_num : ¬ (0 : ℕ) = 1)]
        exact hKl
      · rw [if_neg kodd, if_neg (by norm_num : ¬ (0 : ℕ) = 1), tmodQ_cast]
        push_cast
        ring

/-- C4 witness: the amended statement applied at `Y = G`, tweaks `(1, 1)`. -/
theorem C4_tweaks_spec_witness :
    ∃ K τ p, Aggregator.ComputeTweaks 1 1 Frost.G = .ok (K, τ, p) ∧ K.Valid ∧
      (p = 0 ∨ p = 1) ∧ -Q < τ ∧ τ < Q ∧
      ∃ kx ky, K = .affine kx ky ∧
        lift K = expPt ((if p = 1 then -((1 : ZMod Qn) + ((1 : Int) : ZMod Qn))
          else (1 : ZMod Qn) + ((1 : Int) : ZMod Qn)) + ((1 : Int) : ZMod Qn)) ∧
        (τ : ZMod Qn) = (if ky.tmod 2 ≠ 0 then -1 else 1) *
          ((if p = 1 then -(((1 : Int)) : ZMod Qn) else (((1 : Int)) : ZMod Qn)) +
            ((1 : Int) : ZMod Qn)) :=
  C4_tweaks_spec G_valid G_expPt 1 1
    (by
      intro h
      apply two_ne_zero_ZQ
      push_cast at h
      linear_combination h)
    (by
      intro h
      apply three_ne_zero_ZQ
      push_cast at h
      linear_combination h)
    (by
      intro h
      apply intCast_ne_zero_Q (a := 1) (by norm_num) (by decide)
      push_cast at h
      linear_combination -h)

/-- C6 (amended): the proof-of-knowledge round-trip holds for every index
`index ≤ 255` and scalars `0 < a < Q`, `0 < k < Q`: `computeProofOfKnowledge`
returns `(R, μ)` with `R = G·k` and `μ = (k + a·c) mod Q` for the
serialized-commitment challenge `c`, and `verifyProofOfKnowledge` accepts the
proof against the secret commitment `G·a`. -/
theorem C6_pok_spec (index : ℕ) (hidx : index ≤ 255) (a k : Int)
    (ha0 : 0 < a) (haQ : a < Q) (hk0 : 0 < k) (hkQ : k < Q) :
    ∃ R mu C, Frost.G.multiply a = .ok C ∧
      Participant.computeProofOfKnowledge index [a] k = .ok (R, mu) ∧
      Participant.verifyProofOfKnowledge (R, mu) C index = .ok true := by
  have hQ0 : ((Q : Int) : ZMod Qn) = 0 := by
    rw [Q_eq]
    push_cast
    exact ZMod.natCast_self Qn
  obtain ⟨C, hC, hCv, hCl⟩ := multiply_expPt G_valid G_expPt a
  rw [mul_one] at hCl
  obtain ⟨R, hR, hRv, hRl⟩ := multiply_expPt G_valid G_expPt k
  rw [mul_one] at hRl
  have haZ : ((a : Int) : ZMod Qn) ≠ 0 := intCast_ne_zero_Q ha0 haQ
  have hkZ : ((k : Int) : ZMod Qn) ≠ 0 := intCast_ne_zero_Q hk0 hkQ
  obtain ⟨cx, cy, rfl⟩ : ∃ u v, C = .affine u v := by
    cases C with
    | infinity =>
      exfalso
      exact haZ ((expPt_eq_zero_iff _).mp (lift_infinity ▸ hCl).symm)
    | affine u v => exact ⟨u, v, rfl⟩
  obtain ⟨rx, ry, rfl⟩ : ∃ u v, R = .affine u v := by
    cases R with
    | infinity =>
      exfalso
      exact hkZ ((expPt_eq_zero_iff _).mp (lift_infinity ▸ hRl).symm)
    | affine u v => exact ⟨u, v, rfl⟩
  refine ⟨.affine rx ry,
    (k + a * shaInt (index :: Participant.contextBytes ++
      ((if cy.tmod 2 = 0 then 2 else 3) :: beBytes32 cx.toNat) ++
      ((if ry.tmod 2 = 0 then 2 else 3) :: beBytes32 rx.toNat))).tmod Q,
    .affine cx cy, hC, ?_, ?_⟩
  · simp only [Participant.computeProofOfKnowledge, List.getD_cons_zero, hR, hC,
      Point.secSerialize, excPure, excBind_ok,
      if_neg (by simp : ¬ ([a] : List Int).length = 0),
      if_neg (by omega : ¬ 255 < index)]
  · have hmu := multiply_expPt G_valid G_expPt
      ((k + a *
        shaInt (index :: Participant.contextBytes ++
          ((if cy.tmod 2 = 0 then 2 else 3) :: beBytes32 cx.toNat) ++
          ((if ry.tmod 2 = 0 then 2 else 3) :: beBytes32 rx.toNat))).tmod Q)
    obtain ⟨gs, hgs, hgsv, hgsl⟩ := hmu
    rw [mul_one] at hgsl
    obtain ⟨sc, hsc, hscv, hscl⟩ := multiply_expPt hCv hCl
      (Q - shaInt (index :: Participant.contextBytes ++
        ((if cy.tmod 2 = 0 then 2 else 3) :: beBytes32 cx.toNat) ++
        ((if ry.tmod 2 = 0 then 2 else 3) :: beBytes32 rx.toNat)))
    obtain ⟨ex, hex, hexv, hexl⟩ := add_bridge hgsv hscv
    have hfinal : Point.affine rx ry = ex := by
      apply lift_inj hRv hexv
      rw [hexl, hgsl, hscl, hRl, ← expPt_add]
      congr 1
      rw [tmodQ_cast]
      push_cast
      rw [hQ0]
      ring
    simp only [Participant.verifyProofOfKnowledge,
      if_neg (by omega : ¬ 255 < index), Point.secSerialize, excBind_ok, hgs, hsc, hex]
    rw [← hfinal]
    simp

/-- C6 witness: the amended proof-of-knowledge round-trip at `index = 1`,
`a = 1`, `k = 1`. -/
theorem C6_pok_spec_witness :
    ∃ R mu C, Frost.G.multiply 1 = .ok C ∧
      Participant.computeProofOfKnowledge 1 [1] 1 = .ok (R, mu) ∧
      Participant.verifyProofOfKnowledge (R, mu) C 1 = .ok true :=
  C6_pok_spec 1 (by norm_num) 1 1 (by norm_num) (by decide) (by norm_num) (by decide)

/-- C5 witness: the amended signature statement applied to a concrete
untweaked session. -/
theorem C5_signature_spec_witness :
    ∃ xb, (Point.affine
        37921587771890488842788851107376160043643212090179806239261624327387651827584
        6891383062372978844892800990926785357144022934433503791852364203064950052736).xonlySerialize =
          .ok xb ∧ xb.length = 32 ∧
      (((⟨Frost.G, [109], [(Frost.G, .affine 1 0)], [1], none, none⟩ : AggregatorState).tweak = none ∨
        (⟨Frost.G, [109], [(Frost.G, .affine 1 0)], [1], none, none⟩ : AggregatorState).tweakedKey = none) →
        ∃ z, (⟨Frost.G, [109], [(Frost.G, .affine 1 0)], [1], none, none⟩ : AggregatorState).signature [0] =
            .ok (xb ++ beBytes32 z.toNat) ∧
          0 ≤ z ∧ z < Q ∧
          (z : ZMod Qn) = (([0] : List Int).map fun s : Int => ((s : Int) : ZMod Qn)).sum ∧
          (xb ++ beBytes32 z.toNat).length = 64) ∧
      (∀ tw tk c, (⟨Frost.G, [109], [(Frost.G, .affine 1 0)], [1], none, none⟩ : AggregatorState).tweak = some tw →
        (⟨Frost.G, [109], [(Frost.G, .affine 1 0)], [1], none, none⟩ : AggregatorState).tweakedKey = some tk →
        Aggregator.challengeHash (Point.affine
          37921587771890488842788851107376160043643212090179806239261624327387651827584
          6891383062372978844892800990926785357144022934433503791852364203064950052736) tk
          (⟨Frost.G, [109], [(Frost.G, .affine 1 0)], [1], none, none⟩ : AggregatorState).message = .ok c →
        ∃ z, (⟨Frost.G, [109], [(Frost.G, .affine 1 0)], [1], none, none⟩ : AggregatorState).signature [0] =
            .ok (xb ++ AggregatorState.zWrite z) ∧
          -Q < z ∧ z < Q ∧
          (z : ZMod Qn) = (([0] : List Int).map fun s : Int => ((s : Int) : ZMod Qn)).sum + c * tw ∧
          (z < 0 → AggregatorState.zWrite z = List.replicate 32 0)) :=
  C5_signature_spec ⟨Frost.G, [109], [(Frost.G, .affine 1 0)], [1], none, none⟩ [0]
    (.affine
      37921587771890488842788851107376160043643212090179806239261624327387651827584
      6891383062372978844892800990926785357144022934433503791852364203064950052736)
    (by decide)


/-! ## Claim C1: a full signing session verifies -/

/-! ## Claim C1 support: byte-level parsing and the session loops -/

theorem foldl_beBytes (k : ℕ) : ∀ (n acc : ℕ),
    List.foldl (fun a b => a * 256 + b) acc
      ((List.range k).map (fun i => n / 256 ^ (k - 1 - i) % 256)) =
      acc * 256 ^ k + n % 256 ^ k := by
  induction k with
  | zero => intro n acc; simp [Nat.mod_one]
  | succ k ih =>
    intro n acc
    rw [List.range_succ_eq_map, List.map_cons, List.foldl_cons, List.map_map]
    have hmap : ((fun i => n / 256 ^ (k + 1 - 1 - i) % 256) ∘ Nat.succ) =
        (fun i => n / 256 ^ (k - 1 - i) % 256) := by
      funext i
      show n / 256 ^ (k + 1 - 1 - (i + 1)) % 256 = n / 256 ^ (k - 1 - i) % 256
      have he : k + 1 - 1 - (i + 1) = k - 1 - i := by omega
      rw [he]
    rw [hmap, ih]
    have hsplit : n % 256 ^ (k + 1) = n % 256 ^ k + 256 ^ k * (n / 256 ^ k % 256) :=
      Nat.mod_pow_succ
    have hexp : k + 1 - 1 - 0 = k := by omega
    rw [hexp, hsplit]
    ring

theorem bytesToNat_beBytes32 {n : ℕ} (h : n < 2 ^ 256) : bytesToNat (beBytes32 n) = n := by
  unfold bytesToNat beBytes32
  have hmap : (List.range 32).map (fun i => n / 256 ^ (31 - i) % 256) =
      (List.range 32).map (fun i => n / 256 ^ (32 - 1 - i) % 256) := by
    apply List.map_congr_left
    intro i _
    have he : (31 : ℕ) - i = 32 - 1 - i := by omega
    rw [he]
  rw [hmap, foldl_beBytes 32 n 0]
  have h2 : (256 : ℕ) ^ 32 = 2 ^ 256 := by norm_num
  rw [zero_mul, zero_add, h2, Nat.mod_eq_of_lt h]

/-- Negate a point when its `y` is odd (the test's even-parity adjustment). -/
def negIfOdd (p : Point) : Point :=
  match p with
  | .infinity => p
  | .affine _ y => if y.tmod 2 ≠ 0 then p.negate else p

/-- Acceptance by an independent BIP-340 verifier, exactly as the repository's
own test suite checks a signature: parse `R` from the first 32 bytes (the
even-`y` point with that x-only encoding) and `z` from the last 32, recompute
the tagged challenge `c`, and accept iff `R = G·z + Y_eff·(Q − c)` where
`Y_eff` is the public key negated to even parity. -/
def bip340Accepts (pk : Point) (message sig : List ℕ) : Prop :=
  sig.length = 64 ∧
  ∃ (rx ry z c : Int) (T1 T2 T3 : Point),
    Point.Valid (.affine rx ry) ∧ ry.tmod 2 = 0 ∧
    (Point.affine rx ry).xonlySerialize = .ok (sig.take 32) ∧
    z = Int.ofNat (bytesToNat (sig.drop 32)) ∧
    Aggregator.challengeHash (.affine rx ry) pk message = .ok c ∧
    Frost.G.multiply z = .ok T1 ∧
    (negIfOdd pk).multiply (Frost.Q - c) = .ok T2 ∧
    T1.add T2 = .ok T3 ∧
    Point.affine rx ry = T3

theorem ncpb_ok (pairs : List (Point × Point)) :
    ∀ l : List ℕ, (∀ j ∈ l, 1 ≤ j ∧ j ≤ pairs.length ∧
      ∃ dx dy ex ey, pairs.getD (j - 1) (Point.infinity, Point.infinity) =
        (.affine dx dy, .affine ex ey)) →
    ∃ bs, Aggregator.nonceCommitmentPairsBytes pairs l = .ok bs := by
  intro l
  induction l with
  | nil => exact fun _ => ⟨[], rfl⟩
  | cons j t ih =>
    intro h
    obtain ⟨hj1, hjlen, dx, dy, ex, ey, hpair⟩ := h j (List.mem_cons_self j t)
    obtain ⟨bs, hbs⟩ := ih (fun a ha => h a (List.mem_cons_of_mem _ ha))
    refine ⟨((if dy.tmod 2 = 0 then 2 else 3) :: beBytes32 dx.toNat) ++
      ((if ey.tmod 2 = 0 then 2 else 3) :: beBytes32 ex.toNat) ++ bs, ?_⟩
    simp only [Aggregator.nonceCommitmentPairsBytes,
      if_neg (by omega : ¬ (j < 1 ∨ pairs.length < j)), hpair, Point.secSerialize,
      excPure, excBind_ok, hbs]

theorem bindingValue_eval (message : List ℕ) {pairs : List (Point × Point)}
    {l : List ℕ} {bs : List ℕ}
    (hbs : Aggregator.nonceCommitmentPairsBytes pairs l = .ok bs)
    {i : ℕ} (h1 : 1 ≤ i) (h255 : i ≤ 255) :
    Aggregator.bindingValue i message pairs l =
      .ok ((shaInt (i :: message ++ bs)).tmod Q) := by
  unfold Aggregator.bindingValue
  rw [if_neg (by omega)]
  simp only [if_neg (by omega : ¬ 255 < i), excPure, excBind_ok, hbs]

/-- One step of the group-commitment loop. -/
theorem gcLoop_cons (m : List ℕ) (p : List (Point × Point)) (il : List ℕ) (j : ℕ) (t : List ℕ)
    (acc g : Point) (hj : ¬ (j < 1 ∨ p.length < j))
    (bvv : Int) (hbv : Aggregator.bindingValue j m p il = .ok bvv)
    (D E : Point) (hpair : p.getD (j - 1) (Point.infinity, Point.infinity) = (D, E))
    (sm : Point) (hsm : E.multiply bvv = .ok sm)
    (pc : Point) (hpc : D.add sm = .ok pc)
    (acc2 : Point) (hacc2 : acc.add pc = .ok acc2)
    (hrec : Aggregator.gcLoop m p il t acc2 = .ok g) :
    Aggregator.gcLoop m p il (j :: t) acc = .ok g := by
  rw [Aggregator.gcLoop]
  simp only [if_neg hj, hbv, hpair, hsm, hpc, hacc2, excPure, excBind_ok]
  exact hrec

/-- The group-commitment loop in exponent form. -/
theorem gcLoop_expPt (message : List ℕ) (pairs : List (Point × Point)) (idxs : List ℕ)
    (bs : List ℕ) (hbs : Aggregator.nonceCommitmentPairsBytes pairs idxs = .ok bs)
    (dl el : ℕ → ZMod Qn) :
    ∀ (l : List ℕ), (∀ j ∈ l, 1 ≤ j ∧ j ≤ 255 ∧ j ≤ pairs.length ∧
      ∃ D E, pairs.getD (j - 1) (Point.infinity, Point.infinity) = (D, E) ∧
        D.Valid ∧ E.Valid ∧ lift D = expPt (dl j) ∧ lift E = expPt (el j)) →
    ∀ (acc : Point) (κ : ZMod Qn), acc.Valid → lift acc = expPt κ →
    ∃ g, Aggregator.gcLoop message pairs idxs l acc = .ok g ∧ g.Valid ∧
      lift g = expPt (κ + (l.map (fun j => dl j +
        (((shaInt (j :: message ++ bs)).tmod Q : Int) : ZMod Qn) * el j)).sum) := by
  intro l
  induction l with
  | nil =>
    intro _ acc κ hav hal
    exact ⟨acc, rfl, hav, by rw [hal, List.map_nil, List.sum_nil, add_zero]⟩
  | cons j t ih =>
    intro h acc κ hav hal
    obtain ⟨hj1, hj255, hjlen, D, E, hpair, hDv, hEv, hDl, hEl⟩ := h j (List.mem_cons_self j t)
    have hbv := bindingValue_eval message hbs hj1 hj255
    obtain ⟨sm, hsm, hsmv, hsml⟩ := multiply_expPt hEv hEl ((shaInt (j :: message ++ bs)).tmod Q)
    obtain ⟨pc, hpc, hpcv, hpcl⟩ := add_bridge hDv hsmv
    obtain ⟨acc2, hacc2, hacc2v, hacc2l⟩ := add_bridge hav hpcv
    obtain ⟨g, hgEq, hgv, hgl⟩ := ih (fun a ha => h a (List.mem_cons_of_mem _ ha)) acc2
      (κ + (dl j + (((shaInt (j :: message ++ bs)).tmod Q : Int) : ZMod Qn) * el j))
      hacc2v
      (by rw [hacc2l, hal, hpcl, hDl, hsml, ← expPt_add, ← expPt_add])
    refine ⟨g, ?_, hgv, ?_⟩
    · exact gcLoop_cons message pairs idxs j t acc g (by omega) _ hbv D E hpair sm hsm
        pc hpc acc2 hacc2 hgEq
    · rw [hgl, List.map_cons, List.sum_cons]
      exact congrArg expPt (by ring)


theorem mapM_ok {α β : Type} (f : α → Except String β) (g : α → β) :
    ∀ l : List α, (∀ a ∈ l, f a = .ok (g a)) → l.mapM f = .ok (l.map g) := by
  intro l
  induction l with
  | nil => intro _; rfl
  | cons a t ih =>
    intro h
    rw [List.mapM_cons, h a (List.mem_cons_self a t),
      ih (fun b hb => h b (List.mem_cons_of_mem _ hb))]
    rfl

theorem lagrange_cast (S : List ℕ) (x i : Int) (h : S.Nodup) :
    ∃ r, Participant.lagrangeCoefficient S x i = .ok r ∧
      (r : ZMod Qn) =
        (((S : List Int).filter (fun j => j ≠ i)).map (fun j => ((x - j : Int) : ZMod Qn))).prod *
          (((S : List Int).filter (fun j => j ≠ i)).map
            (fun j => ((i - j : Int) : ZMod Qn))).prod ^ (Qn - 2) := by
  unfold Participant.lagrangeCoefficient
  rw [if_neg (not_not_intro h)]
  refine ⟨_, rfl, ?_⟩
  rw [tmodQ_cast]
  push_cast
  rw [cast_foldl_mul]
  have hpow : ((pow (List.foldl (fun acc j => acc * (i - j)) 1
      ((S : List Int).filter (fun j => j ≠ i)) : Int) (Q - 2) Q : Int) : ZMod Qn) =
      ((List.foldl (fun acc j => acc * (i - j)) 1
        ((S : List Int).filter (fun j => j ≠ i)) : Int) : ZMod Qn) ^ (Qn - 2) := by
    have hm := pow_modEq (List.foldl (fun acc j => acc * (i - j)) 1
      ((S : List Int).filter (fun j => j ≠ i))) (Q - 2) Q (by decide)
    have hc := (intCastQ_eq_iff _ _).mpr hm
    rw [hc]
    push_cast
    congr 1
  rw [hpow, cast_foldl_mul]
  push_cast
  ring

theorem sign_eval (j : ℕ) (dj ej sj : Int) (yx yy : Int)
    (m : List ℕ) (pairs : List (Point × Point)) (l : List ℕ)
    (hyx : ¬ (yx = 0 ∨ yy = 0))
    (gx gy : Int)
    (hg : Aggregator.groupCommitment m pairs l = .ok (.affine gx gy))
    (c : Int) (hc : Aggregator.challengeHash (.affine gx gy) (.affine yx yy) m = .ok c)
    (bj : Int) (hbv : Aggregator.bindingValue j m pairs l = .ok bj)
    (lamj : Int) (hlam : Participant.lagrangeCoefficient l 0 (Int.ofNat j) = .ok lamj) :
    Participant.sign j (some (dj, ej)) (some (.affine yx yy)) (some sj) m pairs l none =
      .ok (((if gy.tmod 2 ≠ 0 then Q - dj else dj) +
        (if gy.tmod 2 ≠ 0 then Q - ej else ej) * bj +
        lamj * (if yy.tmod 2 ≠ Int.ofNat 0 then Q - sj else sj) * c).tmod Q) := by
  simp only [Participant.sign, excBind_ok, excPure, hg, hc, hbv, hlam, if_neg hyx]

theorem bindingValue_ok_ncpb {i : ℕ} {m : List ℕ} {pairs : List (Point × Point)}
    {idxs : List ℕ} {v : Int}
    (h : Aggregator.bindingValue i m pairs idxs = .ok v) :
    ∃ bs, Aggregator.nonceCommitmentPairsBytes pairs idxs = .ok bs := by
  cases hn : Aggregator.nonceCommitmentPairsBytes pairs idxs with
  | ok bs => exact ⟨bs, rfl⟩
  | error e =>
    exfalso
    unfold Aggregator.bindingValue at h
    by_cases h1 : i < 1
    · rw [if_pos h1] at h
      simp only [excThrow, excBind_err] at h
      exact absurd h (by simp)
    rw [if_neg h1] at h
    by_cases h2 : 255 < i
    · rw [if_pos h2] at h
      simp only [excThrow, excBind_err, excBind_ok, excPure] at h
      exact absurd h (by simp)
    rw [if_neg h2] at h
    simp only [excThrow, excBind_err, excBind_ok, excPure, hn] at h
    exact absurd h (by simp)

theorem negIfOdd_lift (x y : Int) (k : ZMod Qn) (hv : Point.Valid (.affine x y))
    (hl : lift (.affine x y) = expPt k) (hk : k ≠ 0) :
    negIfOdd (.affine x y) = .affine x (if y.tmod 2 ≠ 0 then P - y else y) ∧
    Point.Valid (.affine x (if y.tmod 2 ≠ 0 then P - y else y)) ∧
    lift (.affine x (if y.tmod 2 ≠ 0 then P - y else y)) =
      expPt (if y.tmod 2 ≠ 0 then -k else k) ∧
    (if y.tmod 2 ≠ 0 then P - y else y).tmod 2 = 0 := by
  have hy0 : 0 < y := by
    have hne := valid_y_ne_zero hv hl hk
    obtain ⟨_, _, hy, _, _⟩ := hv
    omega
  obtain ⟨hx0, hxP, hyge, hyP, heq⟩ := hv
  have hP : P = 115792089237316195423570985008687907853269984665640564039457584007908834671663 := by
    norm_num [P]
  by_cases hodd : y.tmod 2 ≠ 0
  · have hnb := negate_bridge ⟨hx0, hxP, hyge, hyP, heq⟩ hy0
    have hneg : (Point.affine x y).negate = .affine x (P - y) := rfl
    rw [hneg] at hnb
    refine ⟨?_, ?_, ?_, ?_⟩
    · rw [if_pos hodd]
      simp only [negIfOdd]
      rw [if_pos hodd, hneg]
    · rw [if_pos hodd]
      exact hnb.1
    · rw [if_pos hodd, if_pos hodd, hnb.2, hl, ← expPt_neg]
    · rw [if_pos hodd]
      have hym : y.tmod 2 = y % 2 := Int.tmod_eq_emod hyge (by norm_num)
      have hPy : (0 : Int) ≤ P - y := by omega
      have hm2 : (P - y).tmod 2 = (P - y) % 2 := Int.tmod_eq_emod hPy (by norm_num)
      rw [hym] at hodd
      rw [hm2, hP] at *
      omega
  · refine ⟨?_, ?_, ?_, ?_⟩
    · rw [if_neg hodd]
      simp only [negIfOdd]
      rw [if_neg hodd]
    · rw [if_neg hodd]
      exact ⟨hx0, hxP, hyge, hyP, heq⟩
    · rw [if_neg hodd, if_neg hodd]
      exact hl
    · rw [if_neg hodd]
      exact not_not.mp hodd

theorem signature_eval (Y : Point) (m : List ℕ) (pairs : List (Point × Point))
    (l : List ℕ) (shares : List Int) (gx gy : Int)
    (hg : Aggregator.groupCommitment m pairs l = .ok (.affine gx gy)) :
    AggregatorState.signature ⟨Y, m, pairs, l, none, none⟩ shares =
      .ok (beBytes32 gx.toNat ++ AggregatorState.zWrite
        (if shares.foldl (fun sum share => (sum + share).tmod Q) 0 < 0
         then (shares.foldl (fun sum share => (sum + share).tmod Q) 0 + Q).tmod Q
         else shares.foldl (fun sum share => (sum + share).tmod Q) 0)) := by
  simp only [AggregatorState.signature, hg, excBind_ok, excPure, Point.xonlySerialize]

theorem listIntCoe_map (S : List ℕ) : (S : List Int) = S.map (fun j : ℕ => (j : Int)) := by
  induction S with
  | nil => rfl
  | cons a t ih =>
    show (a : Int) :: (t : List Int) = _
    rw [List.map_cons, ih]

theorem code_shares_interp (coeffs : List Int) (l : List ℕ) (s lam : ℕ → Int)
    (hnd : l.Nodup)
    (hrg : ∀ i ∈ l, i ≤ 255)
    (hdeg : coeffs.length ≤ l.length)
    (hshare : ∀ i ∈ l, Participant.evaluatePolynomial coeffs (i : Int) = .ok (s i))
    (hlam : ∀ i ∈ l, Participant.lagrangeCoefficient l 0 (Int.ofNat i) = .ok (lam i)) :
    (l.map (fun i : ℕ => ((lam i : Int) : ZMod Qn) * ((s i : Int) : ZMod Qn))).sum =
      (polyOf coeffs).eval 0 := by
  rw [← lagrange_interp_list (polyOf coeffs) l hnd hrg
    (lt_of_lt_of_le (polyOf_degree coeffs) (by exact_mod_cast hdeg))]
  apply congrArg List.sum
  apply List.map_congr_left
  intro i hi
  have hs : ((s i : Int) : ZMod Qn) = (polyOf coeffs).eval ((i : ℕ) : ZMod Qn) := by
    have h1 := evalPoly_cast (hshare i hi)
    rw [h1]
    push_cast
    rfl
  obtain ⟨r, hr, hrc⟩ := lagrange_cast l 0 (Int.ofNat i) hnd
  have h2 := (hlam i hi).symm.trans hr
  injection h2 with h3
  rw [h3, hrc, hs]
  have hfil : (l : List Int).filter (fun j => j ≠ Int.ofNat i) =
      (l.filter (fun j : ℕ => j ≠ i)).map (fun j : ℕ => (j : Int)) := by
    rw [listIntCoe_map, List.filter_map]
    apply congrArg (List.map _)
    apply List.filter_congr
    intro j hj
    simp only [Function.comp_apply, decide_eq_decide, ne_eq, Int.ofNat_eq_coe, Nat.cast_inj]
  rw [hfil, List.map_map, List.map_map]
  have hm0 : ((fun j => (((0 : Int) - j : Int) : ZMod Qn)) ∘ (fun j : ℕ => (j : Int))) =
      (fun j : ℕ => (0 : ZMod Qn) - (j : ZMod Qn)) := by
    funext j
    simp only [Function.comp_apply]
    push_cast
    ring
  have hmI : ((fun j => ((Int.ofNat i - j : Int) : ZMod Qn)) ∘ (fun j : ℕ => (j : Int))) =
      (fun j : ℕ => ((i : ℕ) : ZMod Qn) - (j : ZMod Qn)) := by
    funext j
    simp only [Function.comp_apply, Int.ofNat_eq_coe]
    push_cast
    ring
  rw [hm0, hmI]
  have hne : ((l.filter (fun j : ℕ => j ≠ i)).map
      (fun j : ℕ => ((i : ℕ) : ZMod Qn) - (j : ZMod Qn))).prod ≠ 0 := by
    apply List.prod_ne_zero
    intro hz
    rw [List.mem_map] at hz
    obtain ⟨j, hjm, hje⟩ := hz
    have hji : j ≠ i := by
      have := List.of_mem_filter hjm
      simpa using this
    have hjl : j ∈ l := List.mem_of_mem_filter hjm
    apply hji
    have hsub : ((i : ℕ) : ZMod Qn) - (j : ZMod Qn) = 0 := hje
    have hji2 : ((j : ℕ) : ZMod Qn) = ((i : ℕ) : ZMod Qn) := (sub_eq_zero.mp hsub).symm
    exact natCast_inj_255 (hrg j hjl) (hrg i hi) hji2
  rw [zq_pow_sub_two hne]

theorem castQ_zero : ((Q : Int) : ZMod Qn) = 0 := by
  rw [Q_eq]
  push_cast
  exact ZMod.natCast_self Qn

theorem cast_negIf (b : Prop) [Decidable b] (t : Int) :
    (((if b then Q - t else t) : Int) : ZMod Qn) =
      (if b then (-1 : ZMod Qn) else 1) * (t : ZMod Qn) := by
  by_cases hb : b
  · simp only [if_pos hb]
    push_cast
    rw [castQ_zero]
    ring
  · simp only [if_neg hb, one_mul]

theorem map_sum_add {α : Type} (l : List α) (f g : α → ZMod Qn) :
    (l.map (fun a => f a + g a)).sum = (l.map f).sum + (l.map g).sum := by
  induction l with
  | nil => simp
  | cons a t ih =>
    simp only [List.map_cons, List.sum_cons, ih]
    ring

theorem map_sum_mul {α : Type} (l : List α) (c : ZMod Qn) (f : α → ZMod Qn) :
    (l.map (fun a => c * f a)).sum = c * (l.map f).sum := by
  induction l with
  | nil => simp
  | cons a t ih =>
    simp only [List.map_cons, List.sum_cons, ih]
    ring

theorem multiply_lift {p t : Point} {k : ZMod Qn} (hp : p.Valid) (hl : lift p = expPt k)
    (s : Int) (h : p.multiply s = .ok t) : t.Valid ∧ lift t = expPt ((s : Int) * k) := by
  obtain ⟨t2, h2, hv, hlt⟩ := multiply_expPt hp hl s
  have h4 := h.symm.trans h2
  injection h4 with h3
  rw [h3]
  exact ⟨hv, hlt⟩

theorem challengeHash_eval (x y : Int) (px py : Int) (m : List ℕ) :
    Aggregator.challengeHash (.affine x y) (.affine px py) m =
      .ok ((shaInt (SHA256.digest Aggregator.tagBytes ++ SHA256.digest Aggregator.tagBytes ++
        beBytes32 x.toNat ++ beBytes32 px.toNat ++ m)).tmod Q) := by
  simp only [Aggregator.challengeHash, Point.xonlySerialize, excBind_ok, excPure]

theorem groupCommitment_expPt (m : List ℕ) (pairs : List (Point × Point)) (l : List ℕ)
    (bs : List ℕ) (hbs : Aggregator.nonceCommitmentPairsBytes pairs l = .ok bs)
    (dl el : ℕ → ZMod Qn)
    (hcond : ∀ j ∈ l, 1 ≤ j ∧ j ≤ 255 ∧ j ≤ pairs.length ∧
      ∃ D E, pairs.getD (j - 1) (Point.infinity, Point.infinity) = (D, E) ∧
        D.Valid ∧ E.Valid ∧ lift D = expPt (dl j) ∧ lift E = expPt (el j))
    (hR0 : (l.map (fun j : ℕ => dl j +
      (((shaInt (j :: m ++ bs)).tmod Q : Int) : ZMod Qn) * el j)).sum ≠ 0) :
    ∃ gx gy, Aggregator.groupCommitment m pairs l = .ok (.affine gx gy) ∧
      Point.Valid (.affine gx gy) ∧
      lift (.affine gx gy) = expPt ((l.map (fun j : ℕ => dl j +
        (((shaInt (j :: m ++ bs)).tmod Q : Int) : ZMod Qn) * el j)).sum) := by
  obtain ⟨g, hge, hgv, hgl⟩ := gcLoop_expPt m pairs l bs hbs dl el l hcond Point.infinity 0
    valid_infinity (by rw [lift_infinity, expPt_zero])
  rw [zero_add] at hgl
  have hgni : g ≠ Point.infinity := by
    intro hc
    rw [hc, lift_infinity] at hgl
    exact hR0 ((expPt_eq_zero_iff _).mp hgl.symm)
  rcases g with _ | ⟨gx, gy⟩
  · exact absurd rfl hgni
  refine ⟨gx, gy, ?_, hgv, hgl⟩
  unfold Aggregator.groupCommitment
  simp only [hge, excBind_ok, Point.isInfinity, excPure]
  rw [if_neg (by simp : ¬ (false = true))]

theorem ite_neg_one_mul (b : Prop) [Decidable b] (x : ZMod Qn) :
    (if b then -x else x) = (if b then (-1 : ZMod Qn) else 1) * x := by
  by_cases hb : b
  · simp [hb]
  · simp [hb]

theorem zfun_cast (b1 b2 : Prop) [Decidable b1] [Decidable b2] (dj ej rj lamj sj c : Int) :
    ((((if b1 then Q - dj else dj) + (if b1 then Q - ej else ej) * rj +
      lamj * (if b2 then Q - sj else sj) * c).tmod Q : Int) : ZMod Qn) =
      (if b1 then (-1 : ZMod Qn) else 1) *
          ((dj : ZMod Qn) + (rj : ZMod Qn) * (ej : ZMod Qn)) +
        ((c : ZMod Qn) * (if b2 then (-1 : ZMod Qn) else 1)) *
          ((lamj : ZMod Qn) * (sj : ZMod Qn)) := by
  rw [tmodQ_cast]
  by_cases h1 : b1
  · by_cases h2 : b2
    · simp only [if_pos h1, if_pos h2]
      push_cast
      rw [castQ_zero]
      ring
    · simp only [if_pos h1, if_neg h2]
      push_cast
      rw [castQ_zero]
      ring
  · by_cases h2 : b2
    · simp only [if_neg h1, if_pos h2]
      push_cast
      rw [castQ_zero]
      ring
    · simp only [if_neg h1, if_neg h2]
      push_cast
      ring

theorem bip340_accept_core (m : List ℕ) (yx yy gx gy : Int) (r κ : ZMod Qn) (c z1 : Int)
    (hYv : Point.Valid (.affine yx yy)) (hYl : lift (.affine yx yy) = expPt κ) (hκ : κ ≠ 0)
    (hgv : Point.Valid (.affine gx gy)) (hgl : lift (.affine gx gy) = expPt r) (hr : r ≠ 0)
    (hz10 : 0 ≤ z1) (hz1Q : z1 < Q)
    (hcv : Aggregator.challengeHash (.affine gx (if gy.tmod 2 ≠ 0 then P - gy else gy))
      (.affine yx yy) m = .ok c)
    (hzc : (z1 : ZMod Qn) = (if gy.tmod 2 ≠ 0 then (-1 : ZMod Qn) else 1) * r +
      (c : ZMod Qn) * ((if yy.tmod 2 ≠ 0 then (-1 : ZMod Qn) else 1) * κ)) :
    bip340Accepts (.affine yx yy) m (beBytes32 gx.toNat ++ beBytes32 z1.toNat) := by
  obtain ⟨hRe, hRv, hRl, hRpar⟩ := negIfOdd_lift gx gy r hgv hgl hr
  obtain ⟨hYe, hYv2, hYl2, hYpar⟩ := negIfOdd_lift yx yy κ hYv hYl hκ
  obtain ⟨T1, hT1, hT1v, hT1l⟩ := multiply_expPt G_valid G_expPt z1
  rw [mul_one] at hT1l
  obtain ⟨T2, hT2, hT2v, hT2l⟩ := multiply_expPt hYv2 hYl2 (Q - c)
  obtain ⟨T3, hT3, hT3v, hT3l⟩ := add_bridge hT1v hT2v
  have htake : (beBytes32 gx.toNat ++ beBytes32 z1.toNat).take 32 = beBytes32 gx.toNat := by
    rw [show (32 : ℕ) = (beBytes32 gx.toNat).length from (beBytes32_length _).symm,
      List.take_left]
  have hdrop : (beBytes32 gx.toNat ++ beBytes32 z1.toNat).drop 32 = beBytes32 z1.toNat := by
    rw [show (32 : ℕ) = (beBytes32 gx.toNat).length from (beBytes32_length _).symm,
      List.drop_left]
  have hz1lt : z1.toNat < 2 ^ 256 := by
    have hQl : Q = 115792089237316195423570985008687907852837564279074904382605163141518161494337 := by
      norm_num [Q]
    have h2l : (2 : ℕ) ^ 256 =
        115792089237316195423570985008687907853269984665640564039457584007913129639936 := by
      norm_num
    omega
  refine ⟨?_, gx, (if gy.tmod 2 ≠ 0 then P - gy else gy), z1, c, T1, T2, T3,
    hRv, hRpar, ?_, ?_, hcv, hT1, ?_, hT3, ?_⟩
  · rw [List.length_append, beBytes32_length, beBytes32_length]
  · rw [htake]
    rfl
  · rw [hdrop, bytesToNat_beBytes32 hz1lt, Int.ofNat_eq_coe, Int.toNat_of_nonneg hz10]
  · rw [hYe]
    exact hT2
  · apply lift_inj hRv hT3v
    rw [hRl, hT3l, hT1l, hT2l, ← expPt_add]
    apply congrArg expPt
    rw [ite_neg_one_mul _ r, ite_neg_one_mul _ κ, hzc]
    push_cast
    rw [castQ_zero]
    ring

theorem sum_split (σa σb : ZMod Qn) (f g : ℕ → ZMod Qn) (l : List ℕ) :
    (l.map (fun j => σa * f j + σb * g j)).sum = σa * (l.map f).sum + σb * (l.map g).sum := by
  induction l with
  | nil => simp
  | cons a t ih =>
    simp only [List.map_cons, List.sum_cons, ih]
    ring

/-- C1: for a DKG-consistent untweaked quorum — pairwise-distinct signer
indexes in `1..255` within range of the commitment list, shares that are the
master polynomial's values at the signer indexes, nonce commitment pairs that
are the signers' nonce multiples of `G`, the public key `G·f(0)` with a
nonzero secret, and a nondegenerate group commitment — every signer's `sign`
succeeds, `Aggregator.signature` emits a signature, and that signature passes
the independent BIP-340 verification procedure of the test suite
(`bip340Accepts`). -/
theorem C1_sign_verify
    (coeffs : List Int) (m : List ℕ) (pairs : List (Point × Point)) (l : List ℕ)
    (d e s ρ : ℕ → Int) (D E : ℕ → Point) (a0 : Int) (Y : Point)
    (hnd : l.Nodup)
    (hdeg : coeffs.length ≤ l.length)
    (hidx : ∀ j ∈ l, 1 ≤ j ∧ j ≤ 255 ∧ j ≤ pairs.length)
    (hshare : ∀ j ∈ l, Participant.evaluatePolynomial coeffs (j : Int) = .ok (s j))
    (hpair : ∀ j ∈ l, pairs.getD (j - 1) (Point.infinity, Point.infinity) = (D j, E j))
    (hD : ∀ j ∈ l, Frost.G.multiply (d j) = .ok (D j))
    (hE : ∀ j ∈ l, Frost.G.multiply (e j) = .ok (E j))
    (hbv : ∀ j ∈ l, Aggregator.bindingValue j m pairs l = .ok (ρ j))
    (ha0 : Participant.evaluatePolynomial coeffs 0 = .ok a0)
    (hY : Frost.G.multiply a0 = .ok Y)
    (hk0 : ((a0 : Int) : ZMod Qn) ≠ 0)
    (hR0 : (l.map (fun j : ℕ => ((d j : Int) : ZMod Qn) +
        ((ρ j : Int) : ZMod Qn) * ((e j : Int) : ZMod Qn))).sum ≠ 0) :
    ∃ shares sig,
      l.mapM (fun j => Participant.sign j (some (d j, e j)) (some Y) (some (s j))
        m pairs l none) = .ok shares ∧
      AggregatorState.signature ⟨Y, m, pairs, l, none, none⟩ shares = .ok sig ∧
      bip340Accepts Y m sig := by
  classical
  -- the quorum is nonempty, so the binding-value run pins down the commitment bytes
  have hlne : l ≠ [] := by
    intro hc
    rw [hc] at hR0
    exact hR0 (by simp)
  obtain ⟨j0, hj0⟩ : ∃ j, j ∈ l := by
    rcases l with _ | ⟨a, t⟩
    · exact absurd rfl hlne
    · exact ⟨a, List.mem_cons_self a t⟩
  obtain ⟨bs, hbs⟩ := bindingValue_ok_ncpb (hbv j0 hj0)
  have hρ : ∀ j ∈ l, ρ j = (shaInt (j :: m ++ bs)).tmod Q := by
    intro j hj
    have h1 := bindingValue_eval m hbs (hidx j hj).1 (hidx j hj).2.1
    have h2 := (hbv j hj).symm.trans h1
    injection h2
  -- commitments in exponent form
  have hDl : ∀ j ∈ l, (D j).Valid ∧ lift (D j) = expPt ((d j : Int) : ZMod Qn) := by
    intro j hj
    have h1 := multiply_lift G_valid G_expPt (d j) (hD j hj)
    rwa [mul_one] at h1
  have hEl : ∀ j ∈ l, (E j).Valid ∧ lift (E j) = expPt ((e j : Int) : ZMod Qn) := by
    intro j hj
    have h1 := multiply_lift G_valid G_expPt (e j) (hE j hj)
    rwa [mul_one] at h1
  -- the group commitment
  have hsum_eq : (l.map (fun j : ℕ => ((d j : Int) : ZMod Qn) +
      (((shaInt (j :: m ++ bs)).tmod Q : Int) : ZMod Qn) * ((e j : Int) : ZMod Qn))).sum =
      (l.map (fun j : ℕ => ((d j : Int) : ZMod Qn) +
      ((ρ j : Int) : ZMod Qn) * ((e j : Int) : ZMod Qn))).sum := by
    apply congrArg List.sum
    apply List.map_congr_left
    intro j hj
    rw [hρ j hj]
  obtain ⟨gx, gy, hg, hgv, hgl⟩ := groupCommitment_expPt m pairs l bs hbs
    (fun j => ((d j : Int) : ZMod Qn)) (fun j => ((e j : Int) : ZMod Qn))
    (fun j hj => ⟨(hidx j hj).1, (hidx j hj).2.1, (hidx j hj).2.2, D j, E j, hpair j hj,
      (hDl j hj).1, (hEl j hj).1, (hDl j hj).2, (hEl j hj).2⟩)
    (by rw [hsum_eq]; exact hR0)
  rw [hsum_eq] at hgl
  -- the public key in exponent form
  have hYle := multiply_lift G_valid G_expPt a0 hY
  rw [mul_one] at hYle
  obtain ⟨hYv, hYl⟩ := hYle
  rcases Y with _ | ⟨yx, yy⟩
  · exfalso
    rw [lift_infinity] at hYl
    exact hk0 ((expPt_eq_zero_iff _).mp hYl.symm)
  have hguard : ¬ (yx = 0 ∨ yy = 0) := by
    push_neg
    exact ⟨valid_x_ne_zero hYv, valid_y_ne_zero hYv hYl hk0⟩
  -- the challenge
  have hc := challengeHash_eval gx gy yx yy m
  -- Lagrange coefficients
  choose lam hlamok hlamcast using fun j : ℕ => lagrange_cast l 0 (Int.ofNat j) hnd
  -- per-signer outputs
  have hsign : ∀ j ∈ l,
      Participant.sign j (some (d j, e j)) (some (.affine yx yy)) (some (s j)) m pairs l none =
        .ok (((if gy.tmod 2 ≠ 0 then Q - d j else d j) +
          (if gy.tmod 2 ≠ 0 then Q - e j else e j) * ρ j +
          lam j * (if yy.tmod 2 ≠ Int.ofNat 0 then Q - s j else s j) *
            ((shaInt (SHA256.digest Aggregator.tagBytes ++ SHA256.digest Aggregator.tagBytes ++
              beBytes32 gx.toNat ++ beBytes32 yx.toNat ++ m)).tmod Q)).tmod Q) := by
    intro j hj
    exact sign_eval j (d j) (e j) (s j) yx yy m pairs l hguard gx gy hg _ hc
      (ρ j) (hbv j hj) (lam j) (hlamok j)
  refine ⟨_, _, mapM_ok _ _ l hsign, signature_eval _ m pairs l _ gx gy hg, ?_⟩
  set cI : Int := (shaInt (SHA256.digest Aggregator.tagBytes ++ SHA256.digest Aggregator.tagBytes ++
      beBytes32 gx.toNat ++ beBytes32 yx.toNat ++ m)).tmod Q with hcI
  set zf : ℕ → Int := fun j => ((if gy.tmod 2 ≠ 0 then Q - d j else d j) +
      (if gy.tmod 2 ≠ 0 then Q - e j else e j) * ρ j +
      lam j * (if yy.tmod 2 ≠ Int.ofNat 0 then Q - s j else s j) * cI).tmod Q with hzf
  set z0 : Int := (l.map zf).foldl (fun sum share => (sum + share).tmod Q) 0 with hz0
  set z1 : Int := if z0 < 0 then (z0 + Q).tmod Q else z0 with hz1
  have hz0b : -Q < z0 ∧ z0 < Q := by
    rw [hz0]
    exact foldl_tmod_bound (l.map zf) 0 (by linarith [Q_pos]) Q_pos
  have hz10 : 0 ≤ z1 ∧ z1 < Q := by
    rw [hz1]
    by_cases hneg : z0 < 0
    · rw [if_pos hneg]
      have h1 : (0 : Int) ≤ z0 + Q := by linarith [hz0b.1]
      have h2 : z0 + Q < Q := by linarith
      rw [Int.tmod_eq_emod h1 (le_of_lt Q_pos), Int.emod_eq_of_lt h1 h2]
      exact ⟨h1, h2⟩
    · rw [if_neg hneg]
      exact ⟨not_lt.mp hneg, hz0b.2⟩
  have hz1c : ((z1 : Int) : ZMod Qn) = ((z0 : Int) : ZMod Qn) := by
    rw [hz1]
    by_cases hneg : z0 < 0
    · rw [if_pos hneg, tmodQ_cast]
      push_cast
      rw [castQ_zero]
      ring
    · rw [if_neg hneg]
  have hz0c : ((z0 : Int) : ZMod Qn) =
      ((l.map zf).map (fun t : Int => ((t : Int) : ZMod Qn))).sum := by
    rw [hz0, foldl_tmod_cast]
    push_cast
    ring
  have hpt : ∀ j ∈ l, ((fun t : Int => ((t : Int) : ZMod Qn)) ∘ zf) j =
      (fun j : ℕ => (if gy.tmod 2 ≠ 0 then (-1 : ZMod Qn) else 1) *
        (((d j : Int) : ZMod Qn) + ((ρ j : Int) : ZMod Qn) * ((e j : Int) : ZMod Qn)) +
        (((cI : Int) : ZMod Qn) * (if yy.tmod 2 ≠ Int.ofNat 0 then (-1 : ZMod Qn) else 1)) *
        (((lam j : Int) : ZMod Qn) * ((s j : Int) : ZMod Qn))) j := by
    intro j hj
    simp only [Function.comp_apply, hzf]
    exact zfun_cast _ _ (d j) (e j) (ρ j) (lam j) (s j) cI
  have hsum2 : ((l.map zf).map (fun t : Int => ((t : Int) : ZMod Qn))).sum =
      (if gy.tmod 2 ≠ 0 then (-1 : ZMod Qn) else 1) *
        (l.map (fun j : ℕ => ((d j : Int) : ZMod Qn) +
          ((ρ j : Int) : ZMod Qn) * ((e j : Int) : ZMod Qn))).sum +
      (((cI : Int) : ZMod Qn) * (if yy.tmod 2 ≠ Int.ofNat 0 then (-1 : ZMod Qn) else 1)) *
        (l.map (fun j : ℕ => ((lam j : Int) : ZMod Qn) * ((s j : Int) : ZMod Qn))).sum := by
    rw [List.map_map, List.map_congr_left hpt]
    exact sum_split _ _ _ _ l
  have hinterp : (l.map (fun j : ℕ => ((lam j : Int) : ZMod Qn) * ((s j : Int) : ZMod Qn))).sum =
      ((a0 : Int) : ZMod Qn) := by
    rw [code_shares_interp coeffs l s lam hnd (fun i hi => (hidx i hi).2.1) hdeg hshare
      (fun i hi => hlamok i)]
    have h1 := evalPoly_cast ha0
    rw [Int.cast_zero] at h1
    exact h1.symm
  have hcond : (yy.tmod 2 ≠ Int.ofNat 0) = (yy.tmod 2 ≠ 0) := rfl
  have hzc : ((z1 : Int) : ZMod Qn) =
      (if gy.tmod 2 ≠ 0 then (-1 : ZMod Qn) else 1) *
        (l.map (fun j : ℕ => ((d j : Int) : ZMod Qn) +
          ((ρ j : Int) : ZMod Qn) * ((e j : Int) : ZMod Qn))).sum +
      ((cI : Int) : ZMod Qn) * ((if yy.tmod 2 ≠ 0 then (-1 : ZMod Qn) else 1) *
        ((a0 : Int) : ZMod Qn)) := by
    rw [hz1c, hz0c, hsum2, hinterp]
    simp only [hcond]
    ring
  have hcv2 : Aggregator.challengeHash
      (.affine gx (if gy.tmod 2 ≠ 0 then P - gy else gy)) (.affine yx yy) m = .ok cI := by
    rw [hcI]
    exact challengeHash_eval gx _ yx yy m
  have hzw : AggregatorState.zWrite z1 = beBytes32 z1.toNat := by
    simp only [AggregatorState.zWrite, if_neg (not_lt.mpr hz10.1)]
  rw [hzw]
  exact bip340_accept_core m yx yy gx gy _ _ cI z1 hYv hYl hk0 hgv hgl hR0 hz10.1 hz10.2
    hcv2 hzc

/-- C1 witness: a concrete single-signer session (threshold 1, secret
polynomial `f = 1`, nonces `d = e = 1`, message `[109]`) signs, aggregates,
and passes BIP-340 verification. -/
theorem C1_sign_verify_witness :
    ∃ shares sig,
      ([1] : List ℕ).mapM (fun j => Participant.sign j (some (1, 1)) (some Frost.G)
        (some 1) [109] [(Frost.G, Frost.G)] [1] none) = .ok shares ∧
      AggregatorState.signature ⟨Frost.G, [109], [(Frost.G, Frost.G)], [1], none, none⟩
        shares = .ok sig ∧
      bip340Accepts Frost.G [109] sig :=
  C1_sign_verify [1] [109] [(Frost.G, Frost.G)] [1]
    (fun _ => 1) (fun _ => 1) (fun _ => 1)
    (fun _ => 91217337530434577062401013536626995299123928430551354611683147139067063267473)
    (fun _ => Frost.G) (fun _ => Frost.G) 1 Frost.G
    (by decide) (by decide) (by decide) (by decide) (by decide)
    (by decide) (by decide) (by decide) (by decide) (by decide)
    (by decide) (by decide)

end Frost


/-! ## Claim C9: deriving coefficient commitments by Vandermonde inversion -/

open Frost (Qn Q tmodQ_cast)

/-- The scalar matrix over `ZMod Qn` read off a row-list. -/
def matOf (n : ℕ) (rows : List (List Int)) : Matrix (Fin n) (Fin n) (ZMod Frost.Qn) :=
  Matrix.of fun i j => (((rows.getD i []).getD j 0 : Int) : ZMod Frost.Qn)

theorem matOf_apply (n : ℕ) (rows : List (List Int)) (i j : Fin n) :
    matOf n rows i j = (((rows.getD i []).getD j 0 : Int) : ZMod Frost.Qn) := rfl

theorem detFuel_one (fuel : ℕ) (row : List Int) :
    Frost.Matrix.detFuel fuel [row] = (row.getD 0 0).tmod Frost.Q := by
  cases fuel with
  | zero => rfl
  | succ k => rfl

theorem detFuel_two (fuel : ℕ) (r1 r2 : List Int) :
    Frost.Matrix.detFuel fuel [r1, r2] =
      (r1.getD 0 0 * r2.getD 1 0 - r1.getD 1 0 * r2.getD 0 0).tmod Frost.Q := by
  cases fuel with
  | zero => rfl
  | succ k => rfl

theorem detFuel_cons3 (m : ℕ) (a b c : List Int) (rest : List (List Int)) :
    Frost.Matrix.detFuel (m + 1) (a :: b :: c :: rest) =
      (List.range (a :: b :: c :: rest).length).foldl
        (fun det cc =>
          (det + ((-1) ^ cc * ((a :: b :: c :: rest).headI.getD cc 0) *
            Frost.Matrix.detFuel m
              (((a :: b :: c :: rest).tail).map fun row => row.eraseIdx cc)).tmod Frost.Q).tmod
            Frost.Q)
        0 := rfl

theorem val_succAbove {n : ℕ} (c : Fin (n + 1)) (j : Fin n) :
    (c.succAbove j : ℕ) = if (j : ℕ) < (c : ℕ) then (j : ℕ) else (j : ℕ) + 1 := by
  rw [Fin.succAbove]
  by_cases h : Fin.castSucc j < c
  · rw [if_pos h, if_pos]
    · rfl
    · exact_mod_cast h
  · rw [if_neg h, if_neg]
    · rfl
    · intro hc
      exact h (by exact_mod_cast hc)

theorem list_range_map_sum (n : ℕ) (f : ℕ → ZMod Frost.Qn) :
    ((List.range n).map f).sum = ∑ i ∈ Finset.range n, f i := by
  induction n with
  | zero => simp
  | succ k ih =>
    rw [List.range_succ, List.map_append, List.sum_append, Finset.sum_range_succ, ih]
    simp

theorem matOf_minor (m : ℕ) (rows : List (List Int)) (c : Fin (m + 1))
    (hlen : rows.length = m + 1)
    (hrow : ∀ row ∈ rows, row.length = m + 1) :
    matOf m (rows.tail.map fun row => row.eraseIdx (c : ℕ)) =
      (matOf (m + 1) rows).submatrix Fin.succ c.succAbove := by
  funext i j
  have htl : rows.tail.length = m := by
    rw [List.length_tail, hlen]
    omega
  have hi : (i : ℕ) < (rows.tail.map fun row => row.eraseIdx (c : ℕ)).length := by
    rw [List.length_map, htl]
    exact i.isLt
  have hi2 : (i : ℕ) < rows.tail.length := by
    rw [htl]
    exact i.isLt
  have hrowi : rows.tail[(i : ℕ)].length = m + 1 := by
    apply hrow
    exact List.mem_of_mem_tail (List.getElem_mem hi2)
  have hj : (j : ℕ) < (rows.tail[(i : ℕ)].eraseIdx (c : ℕ)).length := by
    rw [List.length_eraseIdx]
    rw [hrowi]
    rw [if_pos (by omega : (c : ℕ) < m + 1)]
    omega
  have hL : matOf m (rows.tail.map fun row => row.eraseIdx (c : ℕ)) i j =
      (((rows.tail[(i : ℕ)].eraseIdx (c : ℕ)).getD (j : ℕ) 0 : Int) : ZMod Frost.Qn) := by
    rw [matOf_apply]
    rw [List.getD_eq_getElem _ _ hi, List.getElem_map]
  rw [hL]
  rw [List.getD_eq_getElem _ _ hj]
  rw [List.getElem_eraseIdx]
  rw [Matrix.submatrix_apply, matOf_apply]
  have hsucc : ((Fin.succ i : Fin (m + 1)) : ℕ) = (i : ℕ) + 1 := rfl
  have hi3 : ((i : ℕ) + 1) < rows.length := by omega
  have hgd : rows.getD ((Fin.succ i : Fin (m + 1)) : ℕ) [] = rows.tail[(i : ℕ)] := by
    rw [hsucc, List.getD_eq_getElem _ _ hi3, List.getElem_tail]
  rw [hgd]
  have hjc : (j : ℕ) < rows.tail[(i : ℕ)].length := by rw [hrowi]; omega
  have hjc2 : (j : ℕ) + 1 < rows.tail[(i : ℕ)].length ∨ (j : ℕ) + 1 = m + 1 := by
    rw [hrowi]; omega
  by_cases hlt : (j : ℕ) < (c : ℕ)
  · rw [dif_pos hlt]
    have hva : ((c.succAbove j : Fin (m + 1)) : ℕ) = (j : ℕ) := by
      rw [val_succAbove, if_pos hlt]
    rw [hva, List.getD_eq_getElem _ _ hjc]
  · rw [dif_neg hlt]
    have hva : ((c.succAbove j : Fin (m + 1)) : ℕ) = (j : ℕ) + 1 := by
      rw [val_succAbove, if_neg hlt]
    rw [hva]
    have hjlt : (j : ℕ) + 1 < rows.tail[(i : ℕ)].length := by
      rw [hrowi]
      have := j.isLt
      have hc2 := c.isLt
      omega
    rw [List.getD_eq_getElem _ _ hjlt]

theorem cast_foldl_addT {α : Type} (T : α → Int) : ∀ (l : List α) (init : Int),
    ((l.foldl (fun det cc => (det + (T cc).tmod Frost.Q).tmod Frost.Q) init : Int) : ZMod Frost.Qn) =
      (init : ZMod Frost.Qn) + (l.map (fun cc => ((T cc : Int) : ZMod Frost.Qn))).sum := by
  intro l
  induction l with
  | nil =>
    intro init
    simp
  | cons x t ihl =>
    intro init
    rw [List.foldl_cons, ihl, List.map_cons, List.sum_cons, tmodQ_cast]
    push_cast
    rw [tmodQ_cast]
    ring

theorem detFuel_cast : ∀ (n : ℕ), ∀ (fuel : ℕ), ∀ (rows : List (List Int)), 1 ≤ n →
    n ≤ fuel → rows.length = n →
    (∀ row ∈ rows, row.length = n) →
    ((Frost.Matrix.detFuel fuel rows : Int) : ZMod Frost.Qn) = (matOf n rows).det := by
  intro n
  induction n using Nat.strong_induction_on with
  | _ n ih =>
    intro fuel rows h1 hfuel hlen hrow
    match n, h1 with
    | 1, _ =>
      rcases rows with _ | ⟨r, rest⟩
      · simp at hlen
      rcases rest with _ | ⟨r2, rest2⟩
      · rw [detFuel_one, tmodQ_cast, Matrix.det_fin_one]
        rfl
      · simp at hlen
    | 2, _ =>
      rcases rows with _ | ⟨r1, rest⟩
      · simp at hlen
      rcases rest with _ | ⟨r2, rest2⟩
      · simp at hlen
      rcases rest2 with _ | ⟨r3, rest3⟩
      · rw [detFuel_two, tmodQ_cast, Matrix.det_fin_two]
        push_cast
        rfl
      · simp at hlen
    | (m + 3), _ =>
      rcases rows with _ | ⟨a, rows1⟩
      · simp at hlen
      rcases rows1 with _ | ⟨b, rows2⟩
      · simp at hlen
      rcases rows2 with _ | ⟨c0, rest⟩
      · simp at hlen
      rcases fuel with _ | f
      · omega
      rw [show Frost.Matrix.detFuel (f + 1) (a :: b :: c0 :: rest) = _ from
        detFuel_cons3 f a b c0 rest]
      rw [cast_foldl_addT (fun cc => (-1) ^ cc * ((a :: b :: c0 :: rest).headI.getD cc 0) *
        Frost.Matrix.detFuel f
          (((a :: b :: c0 :: rest).tail).map fun row => row.eraseIdx cc))]
      rw [list_range_map_sum]
      have hlen2 : (a :: b :: c0 :: rest).length = m + 3 := hlen
      rw [show (a :: b :: c0 :: rest).length = m + 3 from hlen]
      rw [← Fin.sum_univ_eq_sum_range]
      rw [Matrix.det_succ_row_zero]
      rw [Int.cast_zero, zero_add]
      apply Finset.sum_congr rfl
      intro j _
      have hmin_len : (((a :: b :: c0 :: rest).tail).map fun row =>
          row.eraseIdx (j : ℕ)).length = m + 2 := by
        rw [List.length_map, List.length_tail, hlen2]
        omega
      have hmin_row : ∀ row ∈ ((a :: b :: c0 :: rest).tail).map
          (fun row => row.eraseIdx (j : ℕ)), row.length = m + 2 := by
        intro row hr
        rw [List.mem_map] at hr
        obtain ⟨row0, hr0, hre⟩ := hr
        rw [← hre, List.length_eraseIdx]
        have hl0 : row0.length = m + 3 := hrow row0 (List.mem_of_mem_tail hr0)
        rw [hl0, if_pos (by omega : (j : ℕ) < m + 3)]
        omega
      push_cast
      rw [ih (m + 2) (by omega) f _ (by omega) (by omega) hmin_len hmin_row]
      have hmm := matOf_minor (m + 2) (a :: b :: c0 :: rest) j hlen2 (by
        intro row hr
        exact hrow row hr)
      rw [hmm]
      have hA0j : matOf (m + 3) (a :: b :: c0 :: rest) 0 j =
          (((a :: b :: c0 :: rest).headI.getD (j : ℕ) 0 : Int) : ZMod Frost.Qn) := rfl
      rw [← hA0j]

theorem powQsub2_cast (a : Int) :
    ((Frost.pow a (Frost.Q - 2) Frost.Q : Int) : ZMod Frost.Qn) =
      ((a : Int) : ZMod Frost.Qn) ^ (Frost.Qn - 2) := by
  have hm := Frost.pow_modEq a (Frost.Q - 2) Frost.Q (by decide)
  have hc := (Frost.intCastQ_eq_iff _ _).mpr hm
  rw [hc]
  push_cast
  congr 1

theorem matOf_minor2 (m : ℕ) (rows : List (List Int)) (ri cj : Fin (m + 1))
    (hlen : rows.length = m + 1) (hrow : ∀ row ∈ rows, row.length = m + 1) :
    matOf m ((rows.eraseIdx (ri : ℕ)).map fun row => row.eraseIdx (cj : ℕ)) =
      (matOf (m + 1) rows).submatrix ri.succAbove cj.succAbove := by
  funext i j
  have her : (rows.eraseIdx (ri : ℕ)).length = m := by
    rw [List.length_eraseIdx, hlen, if_pos (by omega : (ri : ℕ) < m + 1)]
    omega
  have hi : (i : ℕ) < ((rows.eraseIdx (ri : ℕ)).map fun row =>
      row.eraseIdx (cj : ℕ)).length := by
    rw [List.length_map, her]
    exact i.isLt
  have hi2 : (i : ℕ) < (rows.eraseIdx (ri : ℕ)).length := by
    rw [her]
    exact i.isLt
  have hrowi : (rows.eraseIdx (ri : ℕ))[(i : ℕ)].length = m + 1 := by
    apply hrow
    exact List.mem_of_mem_eraseIdx (List.getElem_mem hi2)
  have hj : (j : ℕ) < ((rows.eraseIdx (ri : ℕ))[(i : ℕ)].eraseIdx (cj : ℕ)).length := by
    rw [List.length_eraseIdx, hrowi, if_pos (by omega : (cj : ℕ) < m + 1)]
    omega
  have hL : matOf m ((rows.eraseIdx (ri : ℕ)).map fun row => row.eraseIdx (cj : ℕ)) i j =
      ((((rows.eraseIdx (ri : ℕ))[(i : ℕ)].eraseIdx (cj : ℕ)).getD (j : ℕ) 0 : Int) :
        ZMod Frost.Qn) := by
    rw [matOf_apply, List.getD_eq_getElem _ _ hi, List.getElem_map]
  rw [hL, List.getD_eq_getElem _ _ hj, List.getElem_eraseIdx]
  rw [Matrix.submatrix_apply, matOf_apply]
  have hsa_i : ((ri.succAbove i : Fin (m + 1)) : ℕ) < rows.length := by
    rw [hlen]
    exact (ri.succAbove i).isLt
  have hrow_eq : (rows.eraseIdx (ri : ℕ))[(i : ℕ)] =
      rows[((ri.succAbove i : Fin (m + 1)) : ℕ)] := by
    rw [List.getElem_eraseIdx]
    by_cases hlt : (i : ℕ) < (ri : ℕ)
    · rw [dif_pos hlt]
      congr 1
      rw [val_succAbove, if_pos hlt]
    · rw [dif_neg hlt]
      congr 1
      rw [val_succAbove, if_neg hlt]
  have hgd1 : rows.getD ((ri.succAbove i : Fin (m + 1)) : ℕ) [] =
      rows[((ri.succAbove i : Fin (m + 1)) : ℕ)] := List.getD_eq_getElem _ _ hsa_i
  rw [hgd1, ← hrow_eq]
  have hrl : (rows.eraseIdx (ri : ℕ))[(i : ℕ)].length = m + 1 := hrowi
  by_cases hlt : (j : ℕ) < (cj : ℕ)
  · rw [dif_pos hlt]
    have hva : ((cj.succAbove j : Fin (m + 1)) : ℕ) = (j : ℕ) := by
      rw [val_succAbove, if_pos hlt]
    rw [hva, List.getD_eq_getElem _ _ (by rw [hrl]; omega)]
  · rw [dif_neg hlt]
    have hva : ((cj.succAbove j : Fin (m + 1)) : ℕ) = (j : ℕ) + 1 := by
      rw [val_succAbove, if_neg hlt]
    rw [hva]
    have hc2 := cj.isLt
    have hj2 := j.isLt
    rw [List.getD_eq_getElem _ _ (by rw [hrl]; omega)]

theorem range_map_getD {α : Type} (n x : ℕ) (F : ℕ → α) (d : α) (hx : x < n) :
    ((List.range n).map F).getD x d = F x := by
  rw [List.getD_eq_getElem _ _ (by rw [List.length_map, List.length_range]; exact hx),
    List.getElem_map, List.getElem_range]

theorem inverseMatrix_cast (k : ℕ) (rows : List (List Int))
    (hlen : rows.length = k + 2) (hrow : ∀ row ∈ rows, row.length = k + 2)
    (j i : Fin (k + 2)) :
    ((((Frost.Matrix.inverseMatrix ⟨rows⟩).rows.getD (j : ℕ) []).getD (i : ℕ) 0 : Int) :
        ZMod Frost.Qn) =
      (matOf (k + 2) rows).det ^ (Frost.Qn - 2) * (matOf (k + 2) rows).adjugate j i := by
  have hj := j.isLt
  have hi := i.isLt
  simp only [Frost.Matrix.inverseMatrix, Frost.Matrix.determinant]
  rw [hlen]
  rw [range_map_getD _ _ _ _ (by omega), range_map_getD _ _ _ _ (by omega)]
  rw [tmodQ_cast]
  push_cast
  rw [tmodQ_cast]
  push_cast
  rw [powQsub2_cast]
  have hmin_len : ((rows.eraseIdx (i : ℕ)).map fun row =>
      row.eraseIdx (j : ℕ)).length = k + 1 := by
    rw [List.length_map, List.length_eraseIdx, hlen, if_pos (by omega)]
    omega
  have hmin_row : ∀ row ∈ (rows.eraseIdx (i : ℕ)).map (fun row => row.eraseIdx (j : ℕ)),
      row.length = k + 1 := by
    intro row hr
    rw [List.mem_map] at hr
    obtain ⟨row0, hr0, hre⟩ := hr
    rw [← hre, List.length_eraseIdx]
    have hl0 : row0.length = k + 2 := hrow row0 (List.mem_of_mem_eraseIdx hr0)
    rw [hl0, if_pos (by omega)]
    omega
  rw [detFuel_cast (k + 1) (k + 2) _ (by omega) (by omega) hmin_len hmin_row]
  rw [detFuel_cast (k + 2) (k + 2) rows (by omega) (by omega) hlen hrow]
  rw [matOf_minor2 (k + 1) rows i j hlen hrow]
  rw [Matrix.adjugate_fin_succ_eq_det_submatrix]
  push_cast
  ring

theorem mpmLoop_expPt (Y : List (List Frost.Point)) (j : ℕ) (ye : ℕ → ZMod Frost.Qn)
    (hY : ∀ k : ℕ, ((Y.getD k []).getD j Frost.Point.infinity).Valid ∧
      Frost.lift ((Y.getD k []).getD j Frost.Point.infinity) = Frost.expPt (ye k)) :
    ∀ (arow : List Int) (k : ℕ) (acc : Frost.Point) (κ : ZMod Frost.Qn),
      acc.Valid → Frost.lift acc = Frost.expPt κ →
      ∃ r, Frost.Matrix.mpmLoop Y j arow k acc = .ok r ∧ r.Valid ∧
        Frost.lift r = Frost.expPt (κ +
          ((List.range arow.length).map
            (fun t => ((arow.getD t 0 : Int) : ZMod Frost.Qn) * ye (k + t))).sum) := by
  intro arow
  induction arow with
  | nil =>
    intro k acc κ hv hl
    exact ⟨acc, rfl, hv, by simpa using hl⟩
  | cons a rest ihr =>
    intro k acc κ hv hl
    obtain ⟨mres, hm, hmv, hml⟩ := Frost.multiply_expPt (hY k).1 (hY k).2 a
    obtain ⟨acc2, hacc2, hacc2v, hacc2l⟩ := Frost.add_bridge hv hmv
    obtain ⟨r, hr, hrv, hrl⟩ := ihr (k + 1) acc2 (κ + ((a : Int) : ZMod Frost.Qn) * ye k)
      hacc2v (by rw [hacc2l, hl, hml, ← Frost.expPt_add])
    refine ⟨r, ?_, hrv, ?_⟩
    · rw [Frost.Matrix.mpmLoop]
      simp only [hm, hacc2, Frost.excBind_ok]
      exact hr
    · rw [hrl]
      apply congrArg Frost.expPt
      have hsum : ((List.range (a :: rest).length).map
          (fun t => (((a :: rest).getD t 0 : Int) : ZMod Frost.Qn) * ye (k + t))).sum =
          ((a : Int) : ZMod Frost.Qn) * ye k +
          ((List.range rest.length).map
            (fun t => ((rest.getD t 0 : Int) : ZMod Frost.Qn) * ye (k + 1 + t))).sum := by
        rw [List.length_cons, List.range_succ_eq_map, List.map_cons, List.sum_cons,
          List.map_map]
        congr 1
        apply congrArg List.sum
        apply List.map_congr_left
        intro t _
        show (((a :: rest).getD (t + 1) 0 : Int) : ZMod Frost.Qn) * ye (k + (t + 1)) = _
        rw [List.getD_cons_succ]
        have harith : k + (t + 1) = k + 1 + t := by omega
        rw [harith]
      rw [hsum]
      ring

theorem mapM_forall2 {α β : Type} (f : α → Except String β) (Pr : α → β → Prop) :
    ∀ l : List α, (∀ a ∈ l, ∃ b, f a = .ok b ∧ Pr a b) →
    ∃ bs, l.mapM f = .ok bs ∧ List.Forall₂ Pr l bs := by
  intro l
  induction l with
  | nil =>
    intro _
    exact ⟨[], rfl, List.Forall₂.nil⟩
  | cons a t ihl =>
    intro h
    obtain ⟨b, hb, hpr⟩ := h a (List.mem_cons_self a t)
    obtain ⟨bs, hbs, hf2⟩ := ihl (fun x hx => h x (List.mem_cons_of_mem _ hx))
    refine ⟨b :: bs, ?_, List.Forall₂.cons hpr hf2⟩
    rw [List.mapM_cons, hb, hbs]
    rfl

theorem polyOf_coeff : ∀ (L : List Int) (c : ℕ),
    (Frost.polyOf L).coeff c = ((L.getD c 0 : Int) : ZMod Frost.Qn) := by
  intro L
  induction L with
  | nil =>
    intro c
    simp [Frost.polyOf]
  | cons a rest ihl =>
    intro c
    cases c with
    | zero =>
      rw [show Frost.polyOf (a :: rest) =
        Polynomial.C ((a : Int) : ZMod Frost.Qn) + Polynomial.X * Frost.polyOf rest from rfl]
      simp
    | succ c2 =>
      rw [show Frost.polyOf (a :: rest) =
        Polynomial.C ((a : Int) : ZMod Frost.Qn) + Polynomial.X * Frost.polyOf rest from rfl]
      rw [Polynomial.coeff_add, Polynomial.coeff_C]
      rw [if_neg (by omega)]
      rw [Polynomial.coeff_X_mul, ihl c2]
      rw [List.getD_cons_succ]
      ring

theorem polyOf_eval_range (L : List Int) (x : ZMod Frost.Qn) :
    (Frost.polyOf L).eval x =
      ∑ c ∈ Finset.range L.length, ((L.getD c 0 : Int) : ZMod Frost.Qn) * x ^ c := by
  by_cases hz : Frost.polyOf L = 0
  · rw [hz]
    simp only [Polynomial.eval_zero]
    symm
    apply Finset.sum_eq_zero
    intro c _
    have hcf : ((L.getD c 0 : Int) : ZMod Frost.Qn) = (Frost.polyOf L).coeff c :=
      (polyOf_coeff L c).symm
    rw [hcf, hz]
    simp
  · have hdeg : (Frost.polyOf L).natDegree < L.length := by
      by_cases hL : 1 ≤ L.length
      · rw [Polynomial.natDegree_lt_iff_degree_lt hz]
        exact_mod_cast Frost.polyOf_degree L
      · exfalso
        apply hz
        rcases L with _ | ⟨a, rest⟩
        · rfl
        · simp at hL
    rw [Polynomial.eval_eq_sum_range' hdeg]
    apply Finset.sum_congr rfl
    intro c _
    rw [polyOf_coeff]

theorem vand_rows_len (idx : List Int) :
    (Frost.Matrix.createVandermonde idx).rows.length = idx.length := by
  simp [Frost.Matrix.createVandermonde]

theorem vand_row_len (idx : List Int) :
    ∀ row ∈ (Frost.Matrix.createVandermonde idx).rows, row.length = idx.length := by
  intro row hr
  simp only [Frost.Matrix.createVandermonde] at hr
  rw [List.mem_map] at hr
  obtain ⟨x, _, hre⟩ := hr
  rw [← hre, List.length_map, List.length_range]

theorem matOf_vandermonde (l : List ℕ) (t : ℕ) (hlen : l.length = t) :
    matOf t (Frost.Matrix.createVandermonde (l.map fun i : ℕ => (i : Int))).rows =
      Matrix.vandermonde (fun r : Fin t => ((l.getD (r : ℕ) 0 : ℕ) : ZMod Frost.Qn)) := by
  funext r c
  rw [matOf_apply]
  have hr := r.isLt
  have hc := c.isLt
  have hml : (l.map fun i : ℕ => (i : Int)).length = t := by
    rw [List.length_map, hlen]
  have hrowD : (Frost.Matrix.createVandermonde (l.map fun i : ℕ => (i : Int))).rows.getD
      (r : ℕ) [] = (List.range t).map
        (fun i => (((l.getD (r : ℕ) 0 : ℕ) : Int) ^ i).tmod Frost.Q) := by
    simp only [Frost.Matrix.createVandermonde]
    rw [hml]
    have hb : (r : ℕ) < ((l.map fun i : ℕ => (i : Int)).map
        (fun x => (List.range t).map fun i => (x ^ i).tmod Frost.Q)).length := by
      rw [List.length_map, hml]
      exact hr
    rw [List.getD_eq_getElem _ _ hb, List.getElem_map]
    have hrb : (r : ℕ) < (l.map fun i : ℕ => (i : Int)).length := by
      rw [hml]
      exact hr
    have hbase : (l.map fun i : ℕ => (i : Int))[(r : ℕ)] =
        ((l.getD (r : ℕ) 0 : ℕ) : Int) := by
      rw [List.getElem_map, ← List.getD_eq_getElem l 0 (by rw [hlen]; exact hr)]
    rw [hbase]
  rw [hrowD, range_map_getD _ _ _ _ hc, tmodQ_cast]
  push_cast
  rfl

theorem vand_det_ne_zero (l : List ℕ) (t : ℕ) (hlen : l.length = t) (hnd : l.Nodup)
    (hrg : ∀ x ∈ l, x ≤ 255) :
    (Matrix.vandermonde
      (fun r : Fin t => ((l.getD (r : ℕ) 0 : ℕ) : ZMod Frost.Qn))).det ≠ 0 := by
  rw [Matrix.det_vandermonde_ne_zero_iff]
  intro r1 r2 hre
  simp only at hre
  have hm1 : (r1 : ℕ) < l.length := by rw [hlen]; exact r1.isLt
  have hm2 : (r2 : ℕ) < l.length := by rw [hlen]; exact r2.isLt
  have he1 : l.getD (r1 : ℕ) 0 = l[(r1 : ℕ)] := List.getD_eq_getElem _ _ hm1
  have he2 : l.getD (r2 : ℕ) 0 = l[(r2 : ℕ)] := List.getD_eq_getElem _ _ hm2
  have hn1 : l.getD (r1 : ℕ) 0 = l.getD (r2 : ℕ) 0 := by
    apply Frost.natCast_inj_255
    · rw [he1]; exact hrg _ (List.getElem_mem hm1)
    · rw [he2]; exact hrg _ (List.getElem_mem hm2)
    · exact hre
  rw [he1, he2] at hn1
  have := (hnd.getElem_inj_iff).mp hn1
  exact Fin.ext this

theorem row_exponent (l : List ℕ) (coeffs : List Int) (s : ℕ → Int) (k : ℕ)
    (hnd : l.Nodup) (hlen : l.length = k + 2) (hclen : coeffs.length = k + 2)
    (hrg : ∀ x ∈ l, x ≤ 255)
    (hshare : ∀ r : ℕ, r < k + 2 →
      Frost.Participant.evaluatePolynomial coeffs ((l.getD r 0 : ℕ) : Int) = .ok (s r))
    (jf : Fin (k + 2)) :
    ((List.range (k + 2)).map (fun tt =>
      ((((Frost.Matrix.inverseMatrix
        (Frost.Matrix.createVandermonde (l.map fun i : ℕ => (i : Int)))).rows.getD
          ((jf : ℕ)) []).getD tt 0 : Int) : ZMod Frost.Qn) *
      (if tt < k + 2 then ((s tt : Int) : ZMod Frost.Qn) else 0))).sum =
    ((coeffs.getD (jf : ℕ) 0 : Int) : ZMod Frost.Qn) := by
  have hlm : (l.map fun i : ℕ => (i : Int)).length = k + 2 := by
    rw [List.length_map, hlen]
  have hArows_len :
      (Frost.Matrix.createVandermonde (l.map fun i : ℕ => (i : Int))).rows.length = k + 2 := by
    rw [vand_rows_len, hlm]
  have hArow_len : ∀ row ∈ (Frost.Matrix.createVandermonde
      (l.map fun i : ℕ => (i : Int))).rows, row.length = k + 2 := by
    intro row hr
    rw [vand_row_len _ row hr, hlm]
  have hMat : matOf (k + 2) (Frost.Matrix.createVandermonde
      (l.map fun i : ℕ => (i : Int))).rows =
      Matrix.vandermonde (fun r : Fin (k + 2) => ((l.getD (r : ℕ) 0 : ℕ) : ZMod Frost.Qn)) :=
    matOf_vandermonde l (k + 2) hlen
  have hdet : (Matrix.vandermonde
      (fun r : Fin (k + 2) => ((l.getD (r : ℕ) 0 : ℕ) : ZMod Frost.Qn))).det ≠ 0 :=
    vand_det_ne_zero l (k + 2) hlen hnd hrg
  have hEntry : ∀ tf : Fin (k + 2),
      ((((Frost.Matrix.inverseMatrix (Frost.Matrix.createVandermonde
        (l.map fun i : ℕ => (i : Int)))).rows.getD ((jf : ℕ)) []).getD ((tf : ℕ)) 0 : Int) :
          ZMod Frost.Qn) =
      (Matrix.vandermonde (fun r : Fin (k + 2) =>
        ((l.getD (r : ℕ) 0 : ℕ) : ZMod Frost.Qn))).det ^ (Frost.Qn - 2) *
      (Matrix.vandermonde (fun r : Fin (k + 2) =>
        ((l.getD (r : ℕ) 0 : ℕ) : ZMod Frost.Qn))).adjugate jf tf := by
    intro tf
    have h0 := inverseMatrix_cast k
      (Frost.Matrix.createVandermonde (l.map fun i : ℕ => (i : Int))).rows
      hArows_len hArow_len jf tf
    rw [hMat] at h0
    exact h0
  have hs_eq : ∀ tf : Fin (k + 2), ((s (tf : ℕ) : Int) : ZMod Frost.Qn) =
      (Matrix.vandermonde (fun r : Fin (k + 2) =>
        ((l.getD (r : ℕ) 0 : ℕ) : ZMod Frost.Qn))).mulVec
        (fun c : Fin (k + 2) => ((coeffs.getD (c : ℕ) 0 : Int) : ZMod Frost.Qn)) tf := by
    intro tf
    have h1 := Frost.evalPoly_cast (hshare (tf : ℕ) tf.isLt)
    rw [h1]
    have hx : (((l.getD (tf : ℕ) 0 : ℕ) : Int) : ZMod Frost.Qn) =
        ((l.getD (tf : ℕ) 0 : ℕ) : ZMod Frost.Qn) := by
      push_cast
      rfl
    rw [hx, polyOf_eval_range, hclen, ← Fin.sum_univ_eq_sum_range]
    simp only [Matrix.mulVec, Matrix.dotProduct, Matrix.vandermonde_apply]
    apply Finset.sum_congr rfl
    intro c _
    ring
  rw [list_range_map_sum, ← Fin.sum_univ_eq_sum_range]
  have hstep : ∀ tf : Fin (k + 2),
      ((((Frost.Matrix.inverseMatrix (Frost.Matrix.createVandermonde
        (l.map fun i : ℕ => (i : Int)))).rows.getD ((jf : ℕ)) []).getD ((tf : ℕ)) 0 : Int) :
          ZMod Frost.Qn) *
        (if (tf : ℕ) < k + 2 then ((s (tf : ℕ) : Int) : ZMod Frost.Qn) else 0) =
      ((Matrix.vandermonde (fun r : Fin (k + 2) =>
          ((l.getD (r : ℕ) 0 : ℕ) : ZMod Frost.Qn))).det)⁻¹ *
        ((Matrix.vandermonde (fun r : Fin (k + 2) =>
            ((l.getD (r : ℕ) 0 : ℕ) : ZMod Frost.Qn))).adjugate jf tf *
          (Matrix.vandermonde (fun r : Fin (k + 2) =>
            ((l.getD (r : ℕ) 0 : ℕ) : ZMod Frost.Qn))).mulVec
            (fun c : Fin (k + 2) => ((coeffs.getD (c : ℕ) 0 : Int) : ZMod Frost.Qn)) tf) := by
    intro tf
    rw [if_pos tf.isLt, hEntry tf, ← hs_eq tf]
    rw [Frost.zq_pow_sub_two hdet]
    ring
  rw [Finset.sum_congr rfl (fun tf _ => hstep tf), ← Finset.mul_sum]
  have key : ∀ w : Fin (k + 2) → ZMod Frost.Qn,
      ∑ tf : Fin (k + 2), (Matrix.vandermonde (fun r : Fin (k + 2) =>
          ((l.getD (r : ℕ) 0 : ℕ) : ZMod Frost.Qn))).adjugate jf tf * w tf =
        ((Matrix.vandermonde (fun r : Fin (k + 2) =>
          ((l.getD (r : ℕ) 0 : ℕ) : ZMod Frost.Qn))).adjugate.mulVec w) jf := by
    intro w
    simp only [Matrix.mulVec, Matrix.dotProduct]
  rw [key, Matrix.mulVec_mulVec, Matrix.adjugate_mul, Matrix.smul_mulVec_assoc,
    Matrix.one_mulVec, Pi.smul_apply, smul_eq_mul, inv_mul_cancel_left₀ hdet]

/-- C9 (amended): Vandermonde inversion recovers coefficient commitments in
the exponent for every threshold `t ≥ 2`: if `l` lists `t` pairwise-distinct
indexes, each at most 255, `coeffs` are the `t` polynomial coefficients,
`s r` is the code's own polynomial evaluation at index `l[r]`, and each public
verification share is `G·(s r)`, then `deriveCoefficientCommitments` succeeds
and returns exactly the points whose discrete logarithms are the coefficients:
the `k`-th output lifts to `expPt coeffs[k]`. The restriction `t ≥ 2` is
necessary: for `t = 1` the cofactor expansion of the empty minor returns 0,
see the counterexample. -/
theorem C9_derive_commitments_spec (coeffs : List Int) (l : List ℕ)
    (pvs : List Frost.Point) (s : ℕ → Int) (t : ℕ) (ht : 2 ≤ t)
    (hnd : l.Nodup) (hlen : l.length = t) (hclen : coeffs.length = t)
    (hpl : pvs.length = t) (hrg : ∀ x ∈ l, x ≤ 255)
    (hshare : ∀ r : ℕ, r < t →
      Frost.Participant.evaluatePolynomial coeffs ((l.getD r 0 : ℕ) : Int) = .ok (s r) ∧
      Frost.G.multiply (s r) = .ok (pvs.getD r Frost.Point.infinity)) :
    ∃ cs, Frost.Participant.deriveCoefficientCommitments pvs l = .ok cs ∧
      cs.length = t ∧
      ∀ kk : ℕ, kk < t →
        (cs.getD kk Frost.Point.infinity).Valid ∧
        Frost.lift (cs.getD kk Frost.Point.infinity) =
          Frost.expPt ((coeffs.getD kk 0 : Int) : ZMod Frost.Qn) := by
  classical
  obtain ⟨k, rfl⟩ : ∃ k, t = k + 2 := ⟨t - 2, by omega⟩
  have hpub : ∀ r : ℕ, r < k + 2 → (pvs.getD r Frost.Point.infinity).Valid ∧
      Frost.lift (pvs.getD r Frost.Point.infinity) =
        Frost.expPt ((s r : Int) : ZMod Frost.Qn) := by
    intro r hr
    obtain ⟨m, hm, hmv, hml⟩ := Frost.multiply_expPt Frost.G_valid Frost.G_expPt (s r)
    have hmeq : m = pvs.getD r Frost.Point.infinity := by
      have h2 := (hshare r hr).2
      rw [hm] at h2
      injection h2
    rw [hmeq] at hmv hml
    refine ⟨hmv, ?_⟩
    rw [hml]
    apply congrArg Frost.expPt
    ring
  have hYe : ∀ kk : ℕ,
      (((pvs.map fun s0 => [s0]).getD kk []).getD 0 Frost.Point.infinity).Valid ∧
      Frost.lift (((pvs.map fun s0 => [s0]).getD kk []).getD 0 Frost.Point.infinity) =
        Frost.expPt (if kk < k + 2 then ((s kk : Int) : ZMod Frost.Qn) else 0) := by
    intro kk
    by_cases hk : kk < k + 2
    · have hgd : (pvs.map fun s0 => [s0]).getD kk [] =
          [pvs.getD kk Frost.Point.infinity] := by
        rw [List.getD_eq_getElem _ _ (by rw [List.length_map, hpl]; exact hk),
          List.getElem_map, List.getD_eq_getElem _ _ (by rw [hpl]; exact hk)]
      rw [hgd]
      simp only [List.getD_cons_zero, if_pos hk]
      exact hpub kk hk
    · have hgd : (pvs.map fun s0 => [s0]).getD kk [] = [] := by
        apply List.getD_eq_default
        rw [List.length_map, hpl]
        omega
      rw [hgd]
      simp only [List.getD_nil, if_neg hk]
      exact ⟨Frost.valid_infinity, by rw [Frost.lift_infinity, Frost.expPt_zero]⟩
  have hlm : (l.map fun i : ℕ => (i : Int)).length = k + 2 := by
    rw [List.length_map, hlen]
  have hArows_len :
      (Frost.Matrix.createVandermonde (l.map fun i : ℕ => (i : Int))).rows.length = k + 2 := by
    rw [vand_rows_len, hlm]
  have hAInvLen : (Frost.Matrix.inverseMatrix (Frost.Matrix.createVandermonde
      (l.map fun i : ℕ => (i : Int)))).rows.length = k + 2 := by
    simp only [Frost.Matrix.inverseMatrix]
    rw [List.length_map, List.length_range, hArows_len]
  have haRowLen : ∀ aRow ∈ (Frost.Matrix.inverseMatrix (Frost.Matrix.createVandermonde
      (l.map fun i : ℕ => (i : Int)))).rows, aRow.length = k + 2 := by
    intro aRow hmem
    simp only [Frost.Matrix.inverseMatrix] at hmem
    rw [List.mem_map] at hmem
    obtain ⟨j0, hj0, hje⟩ := hmem
    rw [← hje, List.length_map, List.length_range, hArows_len]
  have hheadI : ((pvs.map fun s0 => [s0]).headI).length = 1 := by
    rcases pvs with _ | ⟨p0, rest⟩
    · rw [List.length_nil] at hpl
      omega
    · rfl
  have hperrow : ∀ aRow ∈ (Frost.Matrix.inverseMatrix (Frost.Matrix.createVandermonde
      (l.map fun i : ℕ => (i : Int)))).rows,
      ∃ out, ((List.range ((pvs.map fun s0 => [s0]).headI.length)).mapM fun j =>
        Frost.Matrix.mpmLoop (pvs.map fun s0 => [s0]) j aRow 0 Frost.Point.infinity) =
          .ok out ∧
      ∃ pt, out = [pt] ∧ pt.Valid ∧
        Frost.lift pt = Frost.expPt (((List.range (k + 2)).map (fun tt =>
          ((aRow.getD tt 0 : Int) : ZMod Frost.Qn) *
          (if tt < k + 2 then ((s tt : Int) : ZMod Frost.Qn) else 0))).sum) := by
    intro aRow hmem
    have hlenRow : aRow.length = k + 2 := haRowLen aRow hmem
    obtain ⟨r0, hr0, hr0v, hr0l⟩ := mpmLoop_expPt (pvs.map fun s0 => [s0]) 0
      (fun kk => if kk < k + 2 then ((s kk : Int) : ZMod Frost.Qn) else 0) hYe
      aRow 0 Frost.Point.infinity 0 Frost.valid_infinity
      (by rw [Frost.lift_infinity, Frost.expPt_zero])
    refine ⟨[r0], ?_, r0, rfl, hr0v, ?_⟩
    · rw [hheadI]
      rw [show List.range 1 = [0] from rfl, List.mapM_cons, hr0, List.mapM_nil]
      rfl
    · rw [hr0l]
      apply congrArg Frost.expPt
      rw [zero_add, hlenRow]
      apply congrArg List.sum
      apply List.map_congr_left
      intro tt _
      simp only [Nat.zero_add]
  obtain ⟨cs0, hcs0, hf2⟩ := mapM_forall2 _ _ _ hperrow
  have hcs0len : cs0.length = k + 2 := by
    rw [← hf2.length_eq, hAInvLen]
  have hmult : Frost.Matrix.multPointMatrix
      (Frost.Matrix.inverseMatrix (Frost.Matrix.createVandermonde
        (l.map fun i : ℕ => (i : Int)))) (pvs.map fun s0 => [s0]) = .ok cs0 := by
    simp only [Frost.Matrix.multPointMatrix]
    exact hcs0
  refine ⟨cs0.map (fun c => c.getD 0 Frost.Point.infinity), ?_, ?_, ?_⟩
  · simp only [Frost.Participant.deriveCoefficientCommitments]
    rw [if_neg (by rw [hpl, hlen]; exact fun h => h rfl)]
    rw [Frost.listIntCoe_map l, List.map_map]
    have hid : ((fun i : Int => i) ∘ fun j : ℕ => (j : Int)) = fun j : ℕ => (j : Int) := rfl
    rw [hid, hmult]
    rfl
  · rw [List.length_map, hcs0len]
  · intro kk hkk
    have hkk1 : kk < (Frost.Matrix.inverseMatrix (Frost.Matrix.createVandermonde
        (l.map fun i : ℕ => (i : Int)))).rows.length := by
      rw [hAInvLen]
      exact hkk
    have hkk2 : kk < cs0.length := by
      rw [hcs0len]
      exact hkk
    have hPr := (List.forall₂_iff_get.mp hf2).2 kk hkk1 hkk2
    simp only [List.get_eq_getElem] at hPr
    obtain ⟨pt, hpt_eq, hptv, hptl⟩ := hPr
    have hres : (cs0.map (fun c => c.getD 0 Frost.Point.infinity)).getD kk
        Frost.Point.infinity = pt := by
      rw [List.getD_eq_getElem _ _ (by rw [List.length_map]; exact hkk2),
        List.getElem_map, hpt_eq, List.getD_cons_zero]
    rw [hres]
    refine ⟨hptv, ?_⟩
    rw [hptl]
    apply congrArg Frost.expPt
    have hrow_getD : (Frost.Matrix.inverseMatrix (Frost.Matrix.createVandermonde
        (l.map fun i : ℕ => (i : Int)))).rows[kk] =
        (Frost.Matrix.inverseMatrix (Frost.Matrix.createVandermonde
          (l.map fun i : ℕ => (i : Int)))).rows.getD kk [] := by
      rw [List.getD_eq_getElem _ _ hkk1]
    rw [hrow_getD]
    exact row_exponent l coeffs s k hnd hlen hclen hrg
      (fun r hr => (hshare r hr).1) ⟨kk, hkk⟩

/-- C9 counterexample: for a single participant (`t = 1`) the claim fails.
With secret polynomial `f = 1` the share at index 1 is 1 and the public
verification share is `G`, but `deriveCoefficientCommitments [G] [1]` returns
`[infinity]` instead of `[G·a₀] = [G]`: `determinant` of the 0×0 minor matrix
is 0 (its cofactor loop ranges over an empty list), so the 1×1 inverse matrix
is `[[0]]` and the commitment collapses to the point at infinity. -/
theorem C9_single_participant_cex :
    Frost.Participant.evaluatePolynomial [1] 1 = .ok 1 ∧
    Frost.G.multiply 1 = .ok Frost.G ∧
    Frost.Participant.deriveCoefficientCommitments [Frost.G] [1] =
      .ok [Frost.Point.infinity] ∧
    Frost.Point.infinity ≠ Frost.G := by
  exact ⟨by decide, by decide, by decide, by decide⟩

/-- C9 witness: a concrete threshold-2 run. With `f(x) = 1 + x` (coefficients
`[1, 1]`), indexes `[1, 2]`, shares `f(1) = 2` and `f(2) = 3`, and public
verification shares `2·G` and `3·G`, the derivation succeeds and its outputs
lift to `expPt 1` twice. -/
theorem C9_derive_commitments_spec_witness :
    ∃ cs, Frost.Participant.deriveCoefficientCommitments
      [Frost.Point.affine
        89565891926547004231252920425935692360644145829622209833684329913297188986597
        12158399299693830322967808612713398636155367887041628176798871954788371653930,
       Frost.Point.affine
        112711660439710606056748659173929673102114977341539408544630613555209775888121
        25583027980570883691656905877401976406448868254816295069919888960541586679410]
      [1, 2] = .ok cs ∧
    cs.length = 2 ∧
    ∀ kk : ℕ, kk < 2 →
      (cs.getD kk Frost.Point.infinity).Valid ∧
      Frost.lift (cs.getD kk Frost.Point.infinity) =
        Frost.expPt ((([1, 1].getD kk 0 : Int)) : ZMod Frost.Qn) :=
  C9_derive_commitments_spec [1, 1] [1, 2]
    [Frost.Point.affine
      89565891926547004231252920425935692360644145829622209833684329913297188986597
      12158399299693830322967808612713398636155367887041628176798871954788371653930,
     Frost.Point.affine
      112711660439710606056748659173929673102114977341539408544630613555209775888121
      25583027980570883691656905877401976406448868254816295069919888960541586679410]
    (fun r => if r = 0 then 2 else 3) 2 (by decide) (by decide) (by decide) (by decide)
    (by decide) (by decide)
    (by
      intro r hr
      match r, hr with
      | 0, _ => exact ⟨by decide, by decide⟩
      | 1, _ => exact ⟨by decide, by decide⟩
      | (n + 2), h => exact absurd h (by omega))
